import Mathlib

/-!
HandBrake `libhb/qsv_common.c`: option parsing, lookup tables, generation tiers.

A shallow embedding of the Intel QSV support code of HandBrake
(`src/libhb/qsv_common.c`) together with theorems about it.

Conventions of the embedding.

* A C string is a `List Char` holding the bytes in front of the terminating
  NUL.  A pointer that may be `NULL` is an `Option`.  Should a list hold a
  NUL character, every function below stops there, as the C code would.
* `int` is a 32-bit two's complement integer, represented by an `Int` that
  lies in `[-2^31, 2^31)`; conversions into it are written with `wrap32`.
  `mfxU16` fields are `Nat`, stores into them go through `toU16`.
* Constants of the Intel Media SDK and of HandBrake headers that are not
  part of `qsv_common.c` carry a doc comment saying so.
-/

namespace QSV

/-! ## C strings -/

/-- The terminating NUL byte of a C string. -/
def NUL : Char := Char.ofNat 0

/-- Test `p[0] == 0` for a pointer `p` into a C string whose remaining bytes are `s`. -/
def at_end : List Char → Bool
  | [] => true
  | c :: _ => c == NUL

/-- C library `tolower` in the "C" locale: only `A`..`Z` are changed. -/
def tolower (c : Char) : Char :=
  if 65 ≤ c.toNat ∧ c.toNat ≤ 90 then Char.ofNat (c.toNat + 32) else c

/-- C library `strcasecmp`: walks both strings, compares the lower-cased bytes
and returns their difference at the first position where they differ, `0`
when both strings end together. -/
def strcasecmp : List Char → List Char → Int
  | [], [] => 0
  | [], b :: _ => 0 - ((tolower b).toNat : Int)
  | a :: _, [] => ((tolower a).toNat : Int) - 0
  | a :: as, b :: bs =>
    if tolower a ≠ tolower b then ((tolower a).toNat : Int) - ((tolower b).toNat : Int)
    else if a = NUL then 0
    else strcasecmp as bs

/-- C library `strncasecmp`: as `strcasecmp`, looking at no more than `n` bytes. -/
def strncasecmp : List Char → List Char → Nat → Int
  | _, _, 0 => 0
  | [], [], _ + 1 => 0
  | [], b :: _, _ + 1 => 0 - ((tolower b).toNat : Int)
  | a :: _, [], _ + 1 => ((tolower a).toNat : Int) - 0
  | a :: as, b :: bs, n + 1 =>
    if tolower a ≠ tolower b then ((tolower a).toNat : Int) - ((tolower b).toNat : Int)
    else if a = NUL then 0
    else strncasecmp as bs n

/-- Canonical form of a C string for case-insensitive comparison: the bytes in
front of the first NUL, lower-cased. -/
def cfold : List Char → List Char
  | [] => []
  | c :: cs => if c = NUL then [] else tolower c :: cfold cs

/-! ## Generation classifier (`qsv_common.c` lines 107-149) -/

/-- Modelled from the spec: `enum hb_cpu_platform` is declared in `handbrake/ports.h`,
which is not part of the sources; a closed enumeration of pairwise different
platform identifiers, numbered from `HB_CPU_PLATFORM_UNSPECIFIED = 0` on. -/
def HB_CPU_PLATFORM_UNSPECIFIED : Int := 0
/-- Modelled from the spec: see `HB_CPU_PLATFORM_UNSPECIFIED`. -/
def HB_CPU_PLATFORM_INTEL_BNL : Int := 1
/-- Modelled from the spec: see `HB_CPU_PLATFORM_UNSPECIFIED`. -/
def HB_CPU_PLATFORM_INTEL_SNB : Int := 2
/-- Modelled from the spec: see `HB_CPU_PLATFORM_UNSPECIFIED`. -/
def HB_CPU_PLATFORM_INTEL_IVB : Int := 3
/-- Modelled from the spec: see `HB_CPU_PLATFORM_UNSPECIFIED`. -/
def HB_CPU_PLATFORM_INTEL_SLM : Int := 4
/-- Modelled from the spec: see `HB_CPU_PLATFORM_UNSPECIFIED`. -/
def HB_CPU_PLATFORM_INTEL_HSW : Int := 5
/-- Modelled from the spec: see `HB_CPU_PLATFORM_UNSPECIFIED`. -/
def HB_CPU_PLATFORM_INTEL_BDW : Int := 6
/-- Modelled from the spec: see `HB_CPU_PLATFORM_UNSPECIFIED`. -/
def HB_CPU_PLATFORM_INTEL_CHT : Int := 7
/-- Modelled from the spec: see `HB_CPU_PLATFORM_UNSPECIFIED`. -/
def HB_CPU_PLATFORM_INTEL_SKL : Int := 8
/-- Modelled from the spec: see `HB_CPU_PLATFORM_UNSPECIFIED`. -/
def HB_CPU_PLATFORM_INTEL_KBL : Int := 9
/-- Modelled from the spec: see `HB_CPU_PLATFORM_UNSPECIFIED`. -/
def HB_CPU_PLATFORM_INTEL_ICL : Int := 10

/-- The platform identifiers that `qsv_hardware_generation` has a `case` for. -/
def known_platforms : List Int :=
  [HB_CPU_PLATFORM_INTEL_BNL, HB_CPU_PLATFORM_INTEL_SNB, HB_CPU_PLATFORM_INTEL_IVB,
   HB_CPU_PLATFORM_INTEL_SLM, HB_CPU_PLATFORM_INTEL_CHT, HB_CPU_PLATFORM_INTEL_HSW,
   HB_CPU_PLATFORM_INTEL_BDW, HB_CPU_PLATFORM_INTEL_SKL, HB_CPU_PLATFORM_INTEL_KBL,
   HB_CPU_PLATFORM_INTEL_ICL]

/-- Anonymous enum of line 112: third party hardware. -/
def QSV_G0 : Int := 0
/-- Sandy Bridge or equivalent. -/
def QSV_G1 : Int := 1
/-- Ivy Bridge or equivalent. -/
def QSV_G2 : Int := 2
/-- Haswell or equivalent. -/
def QSV_G3 : Int := 3
/-- Broadwell or equivalent. -/
def QSV_G4 : Int := 4
/-- Skylake or equivalent. -/
def QSV_G5 : Int := 5
/-- Kaby Lake or equivalent. -/
def QSV_G6 : Int := 6
/-- Ice Lake or equivalent. -/
def QSV_G7 : Int := 7
/-- Always last (future processors). -/
def QSV_FU : Int := 8

/-- The `switch` of `qsv_hardware_generation`, lines 124-149. -/
def qsv_hardware_generation (cpu_platform : Int) : Int :=
  if cpu_platform = HB_CPU_PLATFORM_INTEL_BNL then QSV_G0
  else if cpu_platform = HB_CPU_PLATFORM_INTEL_SNB then QSV_G1
  else if cpu_platform = HB_CPU_PLATFORM_INTEL_IVB
       ∨ cpu_platform = HB_CPU_PLATFORM_INTEL_SLM
       ∨ cpu_platform = HB_CPU_PLATFORM_INTEL_CHT then QSV_G2
  else if cpu_platform = HB_CPU_PLATFORM_INTEL_HSW then QSV_G3
  else if cpu_platform = HB_CPU_PLATFORM_INTEL_BDW then QSV_G4
  else if cpu_platform = HB_CPU_PLATFORM_INTEL_SKL then QSV_G5
  else if cpu_platform = HB_CPU_PLATFORM_INTEL_KBL then QSV_G6
  else if cpu_platform = HB_CPU_PLATFORM_INTEL_ICL then QSV_G7
  else QSV_FU

/-! ## Lookup triplets (`qsv_common.c` lines 44-101 and 2063-2097) -/

/-- Modelled from the spec: `hb_triplet_t` is declared in `handbrake/common.h`, not
part of the sources; an immutable (display-name, key-string, numeric-value) mapping. -/
structure hb_triplet_t where
  name : List Char
  key : List Char
  value : Int
  deriving DecidableEq, Repr

/-- Modelled from the spec: profile and level codes of the Intel Media SDK
(`mfxstructures.h`), which is not part of the sources. -/
def MFX_PROFILE_AVC_BASELINE : Int := 66
/-- Modelled from the spec: see `MFX_PROFILE_AVC_BASELINE`. -/
def MFX_PROFILE_AVC_MAIN : Int := 77
/-- Modelled from the spec: see `MFX_PROFILE_AVC_BASELINE`. -/
def MFX_PROFILE_AVC_EXTENDED : Int := 88
/-- Modelled from the spec: see `MFX_PROFILE_AVC_BASELINE`. -/
def MFX_PROFILE_AVC_HIGH : Int := 100
/-- Modelled from the spec: see `MFX_PROFILE_AVC_BASELINE`. -/
def MFX_PROFILE_AVC_HIGH_422 : Int := 122
/-- Modelled from the spec: see `MFX_PROFILE_AVC_BASELINE`; `0x100 << 1`. -/
def MFX_PROFILE_AVC_CONSTRAINT_SET1 : Int := 512
/-- Modelled from the spec: see `MFX_PROFILE_AVC_BASELINE`; `0x100 << 4`. -/
def MFX_PROFILE_AVC_CONSTRAINT_SET4 : Int := 4096
/-- Modelled from the spec: see `MFX_PROFILE_AVC_BASELINE`; `0x100 << 5`. -/
def MFX_PROFILE_AVC_CONSTRAINT_SET5 : Int := 8192
/-- Modelled from the spec: see `MFX_PROFILE_AVC_BASELINE`. -/
def MFX_PROFILE_AVC_CONSTRAINED_BASELINE : Int :=
  MFX_PROFILE_AVC_BASELINE + MFX_PROFILE_AVC_CONSTRAINT_SET1
/-- Modelled from the spec: see `MFX_PROFILE_AVC_BASELINE`. -/
def MFX_PROFILE_AVC_CONSTRAINED_HIGH : Int :=
  MFX_PROFILE_AVC_HIGH + MFX_PROFILE_AVC_CONSTRAINT_SET4 + MFX_PROFILE_AVC_CONSTRAINT_SET5
/-- Modelled from the spec: see `MFX_PROFILE_AVC_BASELINE`. -/
def MFX_PROFILE_AVC_PROGRESSIVE_HIGH : Int :=
  MFX_PROFILE_AVC_HIGH + MFX_PROFILE_AVC_CONSTRAINT_SET4
/-- Modelled from the spec: see `MFX_PROFILE_AVC_BASELINE`. -/
def MFX_PROFILE_HEVC_MAIN : Int := 1
/-- Modelled from the spec: see `MFX_PROFILE_AVC_BASELINE`. -/
def MFX_PROFILE_HEVC_MAIN10 : Int := 2
/-- Modelled from the spec: see `MFX_PROFILE_AVC_BASELINE`. -/
def MFX_PROFILE_HEVC_MAINSP : Int := 3

/-- Modelled from the spec: see `MFX_PROFILE_AVC_BASELINE`. -/
def MFX_LEVEL_AVC_1 : Int := 10
/-- Modelled from the spec: see `MFX_PROFILE_AVC_BASELINE`. -/
def MFX_LEVEL_AVC_1b : Int := 9
/-- Modelled from the spec: see `MFX_PROFILE_AVC_BASELINE`. -/
def MFX_LEVEL_AVC_11 : Int := 11
/-- Modelled from the spec: see `MFX_PROFILE_AVC_BASELINE`. -/
def MFX_LEVEL_AVC_12 : Int := 12
/-- Modelled from the spec: see `MFX_PROFILE_AVC_BASELINE`. -/
def MFX_LEVEL_AVC_13 : Int := 13
/-- Modelled from the spec: see `MFX_PROFILE_AVC_BASELINE`. -/
def MFX_LEVEL_AVC_2 : Int := 20
/-- Modelled from the spec: see `MFX_PROFILE_AVC_BASELINE`. -/
def MFX_LEVEL_AVC_21 : Int := 21
/-- Modelled from the spec: see `MFX_PROFILE_AVC_BASELINE`. -/
def MFX_LEVEL_AVC_22 : Int := 22
/-- Modelled from the spec: see `MFX_PROFILE_AVC_BASELINE`. -/
def MFX_LEVEL_AVC_3 : Int := 30
/-- Modelled from the spec: see `MFX_PROFILE_AVC_BASELINE`. -/
def MFX_LEVEL_AVC_31 : Int := 31
/-- Modelled from the spec: see `MFX_PROFILE_AVC_BASELINE`. -/
def MFX_LEVEL_AVC_32 : Int := 32
/-- Modelled from the spec: see `MFX_PROFILE_AVC_BASELINE`. -/
def MFX_LEVEL_AVC_4 : Int := 40
/-- Modelled from the spec: see `MFX_PROFILE_AVC_BASELINE`. -/
def MFX_LEVEL_AVC_41 : Int := 41
/-- Modelled from the spec: see `MFX_PROFILE_AVC_BASELINE`. -/
def MFX_LEVEL_AVC_42 : Int := 42
/-- Modelled from the spec: see `MFX_PROFILE_AVC_BASELINE`. -/
def MFX_LEVEL_AVC_5 : Int := 50
/-- Modelled from the spec: see `MFX_PROFILE_AVC_BASELINE`. -/
def MFX_LEVEL_AVC_51 : Int := 51
/-- Modelled from the spec: see `MFX_PROFILE_AVC_BASELINE`. -/
def MFX_LEVEL_AVC_52 : Int := 52

/-- Modelled from the spec: see `MFX_PROFILE_AVC_BASELINE`. -/
def MFX_LEVEL_HEVC_1 : Int := 10
/-- Modelled from the spec: see `MFX_PROFILE_AVC_BASELINE`. -/
def MFX_LEVEL_HEVC_2 : Int := 20
/-- Modelled from the spec: see `MFX_PROFILE_AVC_BASELINE`. -/
def MFX_LEVEL_HEVC_21 : Int := 21
/-- Modelled from the spec: see `MFX_PROFILE_AVC_BASELINE`. -/
def MFX_LEVEL_HEVC_3 : Int := 30
/-- Modelled from the spec: see `MFX_PROFILE_AVC_BASELINE`. -/
def MFX_LEVEL_HEVC_31 : Int := 31
/-- Modelled from the spec: see `MFX_PROFILE_AVC_BASELINE`. -/
def MFX_LEVEL_HEVC_4 : Int := 40
/-- Modelled from the spec: see `MFX_PROFILE_AVC_BASELINE`. -/
def MFX_LEVEL_HEVC_41 : Int := 41
/-- Modelled from the spec: see `MFX_PROFILE_AVC_BASELINE`. -/
def MFX_LEVEL_HEVC_5 : Int := 50
/-- Modelled from the spec: see `MFX_PROFILE_AVC_BASELINE`. -/
def MFX_LEVEL_HEVC_51 : Int := 51
/-- Modelled from the spec: see `MFX_PROFILE_AVC_BASELINE`. -/
def MFX_LEVEL_HEVC_52 : Int := 52
/-- Modelled from the spec: see `MFX_PROFILE_AVC_BASELINE`. -/
def MFX_LEVEL_HEVC_6 : Int := 60
/-- Modelled from the spec: see `MFX_PROFILE_AVC_BASELINE`. -/
def MFX_LEVEL_HEVC_61 : Int := 61
/-- Modelled from the spec: see `MFX_PROFILE_AVC_BASELINE`. -/
def MFX_LEVEL_HEVC_62 : Int := 62

/-- Table of lines 45-56; the closing `{ NULL, }` entry is the end of the list. -/
def hb_qsv_h264_profiles : List hb_triplet_t :=
  [ ⟨"Baseline".toList,             "baseline".toList,       MFX_PROFILE_AVC_BASELINE⟩,
    ⟨"Main".toList,                 "main".toList,           MFX_PROFILE_AVC_MAIN⟩,
    ⟨"Extended".toList,             "extended".toList,       MFX_PROFILE_AVC_EXTENDED⟩,
    ⟨"High".toList,                 "high".toList,           MFX_PROFILE_AVC_HIGH⟩,
    ⟨"High 4:2:2".toList,           "high422".toList,        MFX_PROFILE_AVC_HIGH_422⟩,
    ⟨"Constrained Baseline".toList, "baseline|set1".toList,  MFX_PROFILE_AVC_CONSTRAINED_BASELINE⟩,
    ⟨"Constrained High".toList,     "high|set4|set5".toList, MFX_PROFILE_AVC_CONSTRAINED_HIGH⟩,
    ⟨"Progressive High".toList,     "high|set4".toList,      MFX_PROFILE_AVC_PROGRESSIVE_HIGH⟩ ]

/-- Table of lines 57-63. -/
def hb_qsv_h265_profiles : List hb_triplet_t :=
  [ ⟨"Main".toList,               "main".toList,             MFX_PROFILE_HEVC_MAIN⟩,
    ⟨"Main 10".toList,            "main10".toList,           MFX_PROFILE_HEVC_MAIN10⟩,
    ⟨"Main Still Picture".toList, "mainstillpicture".toList, MFX_PROFILE_HEVC_MAINSP⟩ ]

/-- Table of lines 64-84. -/
def hb_qsv_h264_levels : List hb_triplet_t :=
  [ ⟨"1.0".toList, "1.0".toList, MFX_LEVEL_AVC_1⟩,
    ⟨"1b".toList,  "1b".toList,  MFX_LEVEL_AVC_1b⟩,
    ⟨"1.1".toList, "1.1".toList, MFX_LEVEL_AVC_11⟩,
    ⟨"1.2".toList, "1.2".toList, MFX_LEVEL_AVC_12⟩,
    ⟨"1.3".toList, "1.3".toList, MFX_LEVEL_AVC_13⟩,
    ⟨"2.0".toList, "2.0".toList, MFX_LEVEL_AVC_2⟩,
    ⟨"2.1".toList, "2.1".toList, MFX_LEVEL_AVC_21⟩,
    ⟨"2.2".toList, "2.2".toList, MFX_LEVEL_AVC_22⟩,
    ⟨"3.0".toList, "3.0".toList, MFX_LEVEL_AVC_3⟩,
    ⟨"3.1".toList, "3.1".toList, MFX_LEVEL_AVC_31⟩,
    ⟨"3.2".toList, "3.2".toList, MFX_LEVEL_AVC_32⟩,
    ⟨"4.0".toList, "4.0".toList, MFX_LEVEL_AVC_4⟩,
    ⟨"4.1".toList, "4.1".toList, MFX_LEVEL_AVC_41⟩,
    ⟨"4.2".toList, "4.2".toList, MFX_LEVEL_AVC_42⟩,
    ⟨"5.0".toList, "5.0".toList, MFX_LEVEL_AVC_5⟩,
    ⟨"5.1".toList, "5.1".toList, MFX_LEVEL_AVC_51⟩,
    ⟨"5.2".toList, "5.2".toList, MFX_LEVEL_AVC_52⟩ ]

/-- Table of lines 85-101. -/
def hb_qsv_h265_levels : List hb_triplet_t :=
  [ ⟨"1.0".toList, "1.0".toList, MFX_LEVEL_HEVC_1⟩,
    ⟨"2.0".toList, "2.0".toList, MFX_LEVEL_HEVC_2⟩,
    ⟨"2.1".toList, "2.1".toList, MFX_LEVEL_HEVC_21⟩,
    ⟨"3.0".toList, "3.0".toList, MFX_LEVEL_HEVC_3⟩,
    ⟨"3.1".toList, "3.1".toList, MFX_LEVEL_HEVC_31⟩,
    ⟨"4.0".toList, "4.0".toList, MFX_LEVEL_HEVC_4⟩,
    ⟨"4.1".toList, "4.1".toList, MFX_LEVEL_HEVC_41⟩,
    ⟨"5.0".toList, "5.0".toList, MFX_LEVEL_HEVC_5⟩,
    ⟨"5.1".toList, "5.1".toList, MFX_LEVEL_HEVC_51⟩,
    ⟨"5.2".toList, "5.2".toList, MFX_LEVEL_HEVC_52⟩,
    ⟨"6.0".toList, "6.0".toList, MFX_LEVEL_HEVC_6⟩,
    ⟨"6.1".toList, "6.1".toList, MFX_LEVEL_HEVC_61⟩,
    ⟨"6.2".toList, "6.2".toList, MFX_LEVEL_HEVC_62⟩ ]

/-- The loop of `hb_triplet4value` started at index `i`, with `triplets` the
entries from index `i` on; the result is the index of the entry whose address
is returned, `none` is `NULL`. -/
def hb_triplet4value_loop (i : Nat) : List hb_triplet_t → Int → Option Nat
  | [], _ => none
  | t :: ts, value =>
    if t.value = value then some i else hb_triplet4value_loop (i + 1) ts value

/-- Lines 2063-2073. -/
def hb_triplet4value (triplets : List hb_triplet_t) (value : Int) : Option Nat :=
  hb_triplet4value_loop 0 triplets value

/-- The loop of `hb_triplet4name` started at index `i`. -/
def hb_triplet4name_loop (i : Nat) : List hb_triplet_t → List Char → Option Nat
  | [], _ => none
  | t :: ts, name =>
    if strcasecmp t.name name = 0 then some i else hb_triplet4name_loop (i + 1) ts name

/-- Lines 2075-2085. -/
def hb_triplet4name (triplets : List hb_triplet_t) (name : List Char) : Option Nat :=
  hb_triplet4name_loop 0 triplets name

/-- The loop of `hb_triplet4key` started at index `i`. -/
def hb_triplet4key_loop (i : Nat) : List hb_triplet_t → List Char → Option Nat
  | [], _ => none
  | t :: ts, key =>
    if strcasecmp t.key key = 0 then some i else hb_triplet4key_loop (i + 1) ts key

/-- Lines 2087-2097. -/
def hb_triplet4key (triplets : List hb_triplet_t) (key : List Char) : Option Nat :=
  hb_triplet4key_loop 0 triplets key

/-- The four static tables of lines 45-101. -/
def qsv_static_tables : List (List hb_triplet_t) :=
  [hb_qsv_h264_profiles, hb_qsv_h265_profiles, hb_qsv_h264_levels, hb_qsv_h265_levels]

/-- Whether the three lookups on a table return every entry (by its index)
when asked for that entry's key, value and name. -/
def lookups_return_entries (t : List hb_triplet_t) : Bool :=
  decide (∀ i : Fin t.length,
    hb_triplet4key t (t.get i).key = some i.val
    ∧ hb_triplet4value t (t.get i).value = some i.val
    ∧ hb_triplet4name t (t.get i).name = some i.val)

/-! ## Machine integers and the C library number parsers -/

/-- Conversion of an integer value to `int` (32-bit two's complement). -/
def wrap32 (n : Int) : Int := (n + 2147483648) % 4294967296 - 2147483648

/-- Conversion of an integer value to `mfxU16` (16-bit unsigned). -/
def toU16 (n : Int) : Nat := (n % 65536).toNat

/-- `INT16_MIN` of `stdint.h`. -/
def INT16_MIN : Int := -32768
/-- `INT16_MAX` of `stdint.h`. -/
def INT16_MAX : Int := 32767
/-- `UINT16_MAX` of `stdint.h`. -/
def UINT16_MAX : Int := 65535

/-- Modelled from the spec: the macro `HB_QSV_CLIP3(min, max, val)` is defined in
`handbrake/qsv_common.h`, not part of the sources; it clamps `val` into the
closed range `[min, max]`: `(val < min) ? min : (val > max) ? max : val`. -/
def HB_QSV_CLIP3 (min max val : Int) : Int :=
  if val < min then min else if val > max then max else val

/-- C library `isspace` in the "C" locale. -/
def isspace (c : Char) : Bool :=
  c.toNat = 32 ∨ (9 ≤ c.toNat ∧ c.toNat ≤ 13)

/-- Value of a character as a digit (`0`-`9`, then letters from ten on). -/
def digit_value (c : Char) : Option Nat :=
  if 48 ≤ c.toNat ∧ c.toNat ≤ 57 then some (c.toNat - 48)
  else if 97 ≤ c.toNat ∧ c.toNat ≤ 122 then some (c.toNat - 97 + 10)
  else if 65 ≤ c.toNat ∧ c.toNat ≤ 90 then some (c.toNat - 65 + 10)
  else none

/-- Whether `c` is a digit of the given base. -/
def is_digit (base : Nat) (c : Char) : Bool :=
  match digit_value c with
  | some d => decide (d < base)
  | none => false

/-- Reads the longest run of digits of `base` at the front of the string:
returns the number read (continuing from `acc`) and how many digits it has. -/
def scan_digits (base : Nat) : List Char → Nat → Nat → Nat × Nat
  | [], acc, n => (acc, n)
  | c :: cs, acc, n =>
    match digit_value c with
    | some d => if d < base then scan_digits base cs (acc * base + d) (n + 1) else (acc, n)
    | none => (acc, n)

/-- The subject sequence of `strtol(str, &end, 0)`: white space, an optional
sign, an optional `0x`/`0X` (base 16) or a leading `0` (base 8), digits.
Returns the exact integer the digits denote and `end - str`, which is `0` when
no conversion can be performed. -/
def strtol_exact (str : List Char) : Int × Nat :=
  let ws := (str.takeWhile isspace).length
  let s := str.drop ws
  let neg : Bool := s.head? = some '-'
  let sg : Nat := if s.head? = some '-' ∨ s.head? = some '+' then 1 else 0
  let t := s.drop sg
  let hex : Bool := t.head? = some '0'
    ∧ ((t.drop 1).head? = some 'x' ∨ (t.drop 1).head? = some 'X')
    ∧ ((t.drop 2).head?.map (is_digit 16)) = some true
  let base : Nat := if hex then 16 else if t.head? = some '0' then 8 else 10
  let pre : Nat := if hex then 2 else 0
  let r := scan_digits base (t.drop pre) 0 0
  if r.2 = 0 then (0, 0)
  else (if neg then -(r.1 : Int) else (r.1 : Int), ws + sg + pre + r.2)

/-- C library `strtol(str, &end, 0)` for a `long` of `long_bits` bits: the
exact value, replaced by `LONG_MIN` or `LONG_MAX` when it is out of range. -/
def strtol (long_bits : Nat) (str : List Char) : Int × Nat :=
  let r := strtol_exact str
  let long_max : Int := 2 ^ (long_bits - 1) - 1
  let long_min : Int := -(2 ^ (long_bits - 1))
  (if r.1 > long_max then long_max else if r.1 < long_min then long_min else r.1, r.2)

/-- Length of a digit sequence with an optional radix point, `0` unless it
holds at least one digit: the mantissa of a floating-point literal. -/
def mantissa_len (base : Nat) (s : List Char) : Nat :=
  let i := (s.takeWhile (is_digit base)).length
  let dot : Nat := if (s.drop i).head? = some '.' then 1 else 0
  let f := if dot = 1 then ((s.drop (i + 1)).takeWhile (is_digit base)).length else 0
  if i + f = 0 then 0 else i + dot + f

/-- Length of an exponent part (`mark`, optional sign, decimal digits) at the
front of `s`, `0` if there is none. -/
def exponent_len (mark : Char) (s : List Char) : Nat :=
  match s with
  | [] => 0
  | c :: t =>
    if tolower c = mark then
      let sg : Nat := if t.head? = some '-' ∨ t.head? = some '+' then 1 else 0
      let d := ((t.drop sg).takeWhile (is_digit 10)).length
      if d = 0 then 0 else 1 + sg + d
    else 0

/-- Whether `c` may occur between the parentheses of `nan(...)`. -/
def is_nan_char (c : Char) : Bool :=
  c.toNat = 95 ∨ (digit_value c).isSome

/-- Length of the floating-point literal at the front of `s` (after white
space and sign): a hexadecimal or decimal number, `inf`, `infinity`, `nan`
or `nan(...)`; `0` if there is none. -/
def float_body_len (s : List Char) : Nat :=
  let hexm : Nat :=
    if s.head? = some '0' ∧ ((s.drop 1).head? = some 'x' ∨ (s.drop 1).head? = some 'X')
    then mantissa_len 16 (s.drop 2) else 0
  if hexm ≠ 0 then 2 + hexm + exponent_len 'p' (s.drop (2 + hexm))
  else
    let m := mantissa_len 10 s
    if m ≠ 0 then m + exponent_len 'e' (s.drop m)
    else if (s.take 8).map tolower = "infinity".toList then 8
    else if (s.take 3).map tolower = "inf".toList then 3
    else if (s.take 3).map tolower = "nan".toList then
      let r := s.drop 3
      let k := ((r.drop 1).takeWhile is_nan_char).length
      if r.head? = some '(' ∧ (r.drop (1 + k)).head? = some ')' then 3 + 1 + k + 1 else 3
    else 0

/-- The subject sequence of C library `strtod(str, &end)`: returns `end - str`,
`0` when no conversion can be performed. -/
def strtod_len (str : List Char) : Nat :=
  let ws := (str.takeWhile isspace).length
  let s := str.drop ws
  let sg : Nat := if s.head? = some '-' ∨ s.head? = some '+' then 1 else 0
  let b := float_body_len (s.drop sg)
  if b = 0 then 0 else ws + sg + b

/-! ## What the parameter translator takes from outside `qsv_common.c` -/

/-- The parts of the platform and of other HandBrake headers that
`hb_qsv_param_parse` and `hb_qsv_param_default` depend on and that
`qsv_common.c` does not define.
`F` is the type of C `float` values, whose arithmetic is not interpreted. -/
structure Env (F : Type) where
  /-- Width of C `long` in bits: 64 on LP64 platforms (Linux), 32 on LLP64 (Windows). -/
  long_bits : Nat
  /-- The `double` that `strtod` reads from a string, converted to `float`. -/
  strtod_value : List Char → F
  /-- The macro `HB_QSV_CLIP3(min, max, val)` for a `val` of type `float`. -/
  clip3f : Int → Int → F → F
  /-- Conversion of an integer constant to `float`. -/
  float_of_int : Int → F
  /-- The value of `sizeof(mfxExtCodingOption)`. -/
  sizeof_mfxExtCodingOption : Nat := 0
  /-- The value of `sizeof(mfxExtCodingOption2)`. -/
  sizeof_mfxExtCodingOption2 : Nat := 0
  /-- The value of `sizeof(mfxExtVideoSignalInfo)`. -/
  sizeof_mfxExtVideoSignalInfo : Nat := 0
  /-- Table `hb_h264_vidformat_names` of `handbrake/h264_common.h`. -/
  hb_h264_vidformat_names : List (List Char)
  /-- Table `hb_h264_fullrange_names` of `handbrake/h264_common.h`. -/
  hb_h264_fullrange_names : List (List Char)
  /-- Table `hb_h264_colorprim_names` of `handbrake/h264_common.h`. -/
  hb_h264_colorprim_names : List (List Char)
  /-- Table `hb_h264_transfer_names` of `handbrake/h264_common.h`. -/
  hb_h264_transfer_names : List (List Char)
  /-- Table `hb_h264_colmatrix_names` of `handbrake/h264_common.h`. -/
  hb_h264_colmatrix_names : List (List Char)
  /-- Table `hb_h265_vidformat_names` of `handbrake/h265_common.h`. -/
  hb_h265_vidformat_names : List (List Char)
  /-- Table `hb_h265_fullrange_names` of `handbrake/h265_common.h`. -/
  hb_h265_fullrange_names : List (List Char)
  /-- Table `hb_h265_colorprim_names` of `handbrake/h265_common.h`. -/
  hb_h265_colorprim_names : List (List Char)
  /-- Table `hb_h265_transfer_names` of `handbrake/h265_common.h`. -/
  hb_h265_transfer_names : List (List Char)
  /-- Table `hb_h265_colmatrix_names` of `handbrake/h265_common.h`. -/
  hb_h265_colmatrix_names : List (List Char)

/-- Uninterpreted `float` values: each is the expression that produced it. -/
inductive SymFloat where
  | of_int (n : Int)
  | of_strtod (str : List Char)
  | clip3 (min max : Int) (val : SymFloat)
  deriving DecidableEq, Repr

/-- A sample environment: LP64, symbolic floats, and name tables as in
HandBrake's `h264_common.h` (the H.265 tables are taken to be the same). -/
def sample_env : Env SymFloat where
  long_bits := 64
  sizeof_mfxExtCodingOption := 64
  sizeof_mfxExtCodingOption2 := 68
  sizeof_mfxExtVideoSignalInfo := 20
  strtod_value := SymFloat.of_strtod
  clip3f := SymFloat.clip3
  float_of_int := SymFloat.of_int
  hb_h264_vidformat_names := ["component", "pal", "ntsc", "secam", "mac", "undef"].map String.toList
  hb_h264_fullrange_names := ["off", "on"].map String.toList
  hb_h264_colorprim_names := ["", "bt709", "undef", "", "bt470m", "bt470bg", "smpte170m",
    "smpte240m", "film", "bt2020"].map String.toList
  hb_h264_transfer_names := ["", "bt709", "undef", "", "bt470m", "bt470bg", "smpte170m",
    "smpte240m", "linear", "log100", "log316", "iec61966-2-4", "bt1361e", "iec61966-2-1",
    "bt2020-10", "bt2020-12"].map String.toList
  hb_h264_colmatrix_names := ["GBR", "bt709", "undef", "", "fcc", "bt470bg", "smpte170m",
    "smpte240m", "YCgCo", "bt2020nc", "bt2020c"].map String.toList
  hb_h265_vidformat_names := ["component", "pal", "ntsc", "secam", "mac", "undef"].map String.toList
  hb_h265_fullrange_names := ["off", "on"].map String.toList
  hb_h265_colorprim_names := ["", "bt709", "undef", "", "bt470m", "bt470bg", "smpte170m",
    "smpte240m", "film", "bt2020"].map String.toList
  hb_h265_transfer_names := ["", "bt709", "undef", "", "bt470m", "bt470bg", "smpte170m",
    "smpte240m", "linear", "log100", "log316", "iec61966-2-4", "bt1361e", "iec61966-2-1",
    "bt2020-10", "bt2020-12"].map String.toList
  hb_h265_colmatrix_names := ["GBR", "bt709", "undef", "", "fcc", "bt470bg", "smpte170m",
    "smpte240m", "YCgCo", "bt2020nc", "bt2020c"].map String.toList

/-- The sample environment on an LLP64 platform (`long` of 32 bits). -/
def sample_env32 : Env SymFloat := { sample_env with long_bits := 32 }

/-! ## Media SDK constants and structures used by the parameter translator -/

/-- Modelled from the spec: Media SDK constant (`mfxstructures.h`, not part of the sources). -/
def MFX_TARGETUSAGE_1 : Int := 1
/-- Modelled from the spec: Media SDK constant (`mfxstructures.h`, not part of the sources). -/
def MFX_TARGETUSAGE_7 : Int := 7
/-- Modelled from the spec: Media SDK constant (`mfxstructures.h`, not part of the sources). -/
def MFX_GOP_STRICT : Nat := 2
/-- Modelled from the spec: Media SDK constant (`mfxdefs.h`, not part of the sources). -/
def MFX_CODINGOPTION_UNKNOWN : Int := 0
/-- Modelled from the spec: Media SDK constant (`mfxdefs.h`, not part of the sources). -/
def MFX_CODINGOPTION_ON : Int := 16
/-- Modelled from the spec: Media SDK constant (`mfxdefs.h`, not part of the sources). -/
def MFX_CODINGOPTION_OFF : Int := 32
/-- Modelled from the spec: Media SDK constant (`mfxstructures.h`, not part of the sources). -/
def MFX_PICSTRUCT_PROGRESSIVE : Int := 1
/-- Modelled from the spec: Media SDK constant (`mfxstructures.h`, not part of the sources). -/
def MFX_PICSTRUCT_FIELD_TFF : Int := 2
/-- Modelled from the spec: Media SDK constant (`mfxstructures.h`, not part of the sources). -/
def MFX_PICSTRUCT_FIELD_BFF : Int := 4
/-- Modelled from the spec: Media SDK constant (`mfxstructures.h`, not part of the sources). -/
def MFX_LOOKAHEAD_DS_UNKNOWN : Int := 0
/-- Modelled from the spec: Media SDK constant (`mfxstructures.h`, not part of the sources). -/
def MFX_LOOKAHEAD_DS_4x : Int := 3
/-- Modelled from the spec: Media SDK constant (`mfxstructures.h`, not part of the sources). -/
def MFX_TRELLIS_UNKNOWN : Int := 0
/-- Modelled from the spec: Media SDK constant (`mfxstructures.h`, not part of the sources). -/
def MFX_TRELLIS_OFF : Int := 1
/-- Modelled from the spec: Media SDK constant (`mfxstructures.h`, not part of the sources). -/
def MFX_TRELLIS_I : Int := 2
/-- Modelled from the spec: Media SDK constant (`mfxstructures.h`, not part of the sources). -/
def MFX_TRELLIS_P : Int := 4
/-- Modelled from the spec: Media SDK constant (`mfxstructures.h`, not part of the sources). -/
def MFX_TRELLIS_B : Int := 8
/-- Modelled from the spec: Media SDK constant (`mfxstructures.h`, not part of the sources). -/
def MFX_TARGETUSAGE_2 : Int := 2
/-- Modelled from the spec: Media SDK constant (`mfxstructures.h`, not part of the sources). -/
def MFX_TARGETUSAGE_4 : Int := 4
/-- Modelled from the spec: Media SDK constant (`mfxstructures.h`, not part of the sources). -/
def MFX_TARGETUSAGE_6 : Int := 6
/-- Modelled from the spec: Media SDK constant (`mfxstructures.h`, not part of the sources). -/
def MFX_GOP_CLOSED : Nat := 1
/-- Modelled from the spec: Media SDK constant (`mfxstructures.h`, not part of the sources). -/
def MFX_B_REF_UNKNOWN : Int := 0
/-- Modelled from the spec: Media SDK constant (`mfxstructures.h`, not part of the sources). -/
def MFX_LOOKAHEAD_DS_OFF : Int := 1
/-- Modelled from the spec: Media SDK constant (`mfxstructures.h`, not part of the sources). -/
def MFX_IOPATTERN_IN_SYSTEM_MEMORY : Nat := 0x02
/-- Modelled from the spec: Media SDK constant, `MFX_MAKEFOURCC('C','D','O','P')`. -/
def MFX_EXTBUFF_CODING_OPTION : Nat := 0x504F4443
/-- Modelled from the spec: Media SDK constant, `MFX_MAKEFOURCC('C','D','O','2')`. -/
def MFX_EXTBUFF_CODING_OPTION2 : Nat := 0x324F4443
/-- Modelled from the spec: Media SDK constant, `MFX_MAKEFOURCC('V','S','I','N')`. -/
def MFX_EXTBUFF_VIDEO_SIGNAL_INFO : Nat := 0x4E495356
/-- Modelled from the spec: `HB_QSV_ASYNC_DEPTH_DEFAULT` is a macro of
`handbrake/qsv_common.h`, not part of the sources. -/
def HB_QSV_ASYNC_DEPTH_DEFAULT : Nat := 4
/-- Modelled from the spec: Media SDK constant, `MFX_MAKEFOURCC('A','V','C',' ')`. -/
def MFX_CODEC_AVC : Nat := 0x20435641
/-- Modelled from the spec: Media SDK constant, `MFX_MAKEFOURCC('H','E','V','C')`. -/
def MFX_CODEC_HEVC : Nat := 0x43564548

/-- Modelled from the spec: the capability bits of `hb_qsv_info_t` are macros of
`handbrake/qsv_common.h`, not part of the sources; each names one
independently recorded feature, a single bit of the 64-bit mask. -/
def HB_QSV_CAP_MSDK_API_1_6 : Nat := 1 <<< 0
/-- Modelled from the spec: see `HB_QSV_CAP_MSDK_API_1_6`. -/
def HB_QSV_CAP_B_REF_PYRAMID : Nat := 1 <<< 1
/-- Modelled from the spec: see `HB_QSV_CAP_MSDK_API_1_6`. -/
def HB_QSV_CAP_LOWPOWER_ENCODE : Nat := 1 <<< 2
/-- Modelled from the spec: see `HB_QSV_CAP_MSDK_API_1_6`. -/
def HB_QSV_CAP_VUI_VSINFO : Nat := 1 <<< 3
/-- Modelled from the spec: see `HB_QSV_CAP_MSDK_API_1_6`. -/
def HB_QSV_CAP_RATECONTROL_LA : Nat := 1 <<< 10
/-- Modelled from the spec: see `HB_QSV_CAP_MSDK_API_1_6`. -/
def HB_QSV_CAP_RATECONTROL_LAi : Nat := 1 <<< 11
/-- Modelled from the spec: see `HB_QSV_CAP_MSDK_API_1_6`. -/
def HB_QSV_CAP_RATECONTROL_ICQ : Nat := 1 <<< 12
/-- Modelled from the spec: see `HB_QSV_CAP_MSDK_API_1_6`. -/
def HB_QSV_CAP_OPTION1 : Nat := 1 <<< 20
/-- Modelled from the spec: see `HB_QSV_CAP_MSDK_API_1_6`. -/
def HB_QSV_CAP_OPTION2 : Nat := 1 <<< 30
/-- Modelled from the spec: see `HB_QSV_CAP_MSDK_API_1_6`. -/
def HB_QSV_CAP_OPTION2_MBBRC : Nat := 1 <<< 31
/-- Modelled from the spec: see `HB_QSV_CAP_MSDK_API_1_6`. -/
def HB_QSV_CAP_OPTION2_EXTBRC : Nat := 1 <<< 32
/-- Modelled from the spec: see `HB_QSV_CAP_MSDK_API_1_6`. -/
def HB_QSV_CAP_OPTION2_TRELLIS : Nat := 1 <<< 33
/-- Modelled from the spec: see `HB_QSV_CAP_MSDK_API_1_6`. -/
def HB_QSV_CAP_OPTION2_BREFTYPE : Nat := 1 <<< 34
/-- Modelled from the spec: see `HB_QSV_CAP_MSDK_API_1_6`. -/
def HB_QSV_CAP_OPTION2_IB_ADAPT : Nat := 1 <<< 35
/-- Modelled from the spec: see `HB_QSV_CAP_MSDK_API_1_6`. -/
def HB_QSV_CAP_OPTION2_LA_DOWNS : Nat := 1 <<< 36
/-- Modelled from the spec: see `HB_QSV_CAP_MSDK_API_1_6`. -/
def HB_QSV_CAP_OPTION2_NMPSLICE : Nat := 1 <<< 37

/-- Modelled from the spec: `hb_qsv_info_t` is declared in `handbrake/qsv_common.h`,
not part of the sources: a codec, an implementation kind, an availability
flag and a capability bitmask. -/
structure hb_qsv_info_t where
  available : Int := 0
  codec_id : Nat := 0
  implementation : Nat := 0
  capabilities : Nat := 0
  deriving DecidableEq, Repr

/-- The test `info->capabilities & bit`. -/
def has_cap (info : hb_qsv_info_t) (bit : Nat) : Bool :=
  info.capabilities &&& bit ≠ 0

/-- Modelled from the spec: the result codes `HB_QSV_PARAM_*` are an enum of
`handbrake/qsv_common.h`, not part of the sources; five different codes. -/
inductive hb_qsv_param_status where
  | HB_QSV_PARAM_OK
  | HB_QSV_PARAM_ERROR
  | HB_QSV_PARAM_BAD_NAME
  | HB_QSV_PARAM_BAD_VALUE
  | HB_QSV_PARAM_UNSUPPORTED
  deriving DecidableEq, Repr

export hb_qsv_param_status (HB_QSV_PARAM_OK HB_QSV_PARAM_ERROR HB_QSV_PARAM_BAD_NAME
  HB_QSV_PARAM_BAD_VALUE HB_QSV_PARAM_UNSUPPORTED)

/-- Media SDK `mfxFrameInfo`, the field written here. -/
structure mfxFrameInfo where
  PicStruct : Nat := 0
  deriving DecidableEq, Repr

/-- Media SDK `mfxInfoMFX`, the fields written here. -/
structure mfxInfoMFX where
  LowPower : Nat := 0
  FrameInfo : mfxFrameInfo := {}
  CodecId : Nat := 0
  CodecProfile : Nat := 0
  CodecLevel : Nat := 0
  TargetUsage : Nat := 0
  GopOptFlag : Nat := 0
  NumRefFrame : Nat := 0
  BRCParamMultiplier : Nat := 0
  NumThread : Nat := 0
  GopPicSize : Nat := 0
  GopRefDist : Nat := 0
  IdrInterval : Nat := 0
  NumSlice : Nat := 0
  EncodedOrder : Nat := 0
  deriving DecidableEq, Repr

/-- The extension blocks of `hb_qsv_param_t` an entry of `ExtParam` can point to:
`&param->videoSignalInfo`, `&param->codingOption`, `&param->codingOption2`. -/
inductive ext_buffer where
  | videoSignalInfo
  | codingOption
  | codingOption2
  deriving DecidableEq, Repr

/-- Media SDK `mfxVideoParam`, the fields written here.  `ExtParam` holds the
entries `ExtParam[0] .. ExtParam[NumExtParam - 1]` of the array it points to
(`param->ExtParamArray`); the slots of that array from `NumExtParam` on are
read by no code and are not part of the model. -/
structure mfxVideoParam where
  mfx : mfxInfoMFX := {}
  AsyncDepth : Nat := 0
  Protected : Nat := 0
  IOPattern : Nat := 0
  NumExtParam : Nat := 0
  ExtParam : List ext_buffer := []
  deriving DecidableEq, Repr

/-- Media SDK `mfxExtBuffer`, the header of an extension block. -/
structure mfxExtBuffer where
  BufferId : Nat := 0
  BufferSz : Nat := 0
  deriving DecidableEq, Repr

/-- Media SDK `mfxI16Pair`. -/
structure mfxI16Pair where
  x : Int := 0
  y : Int := 0
  deriving DecidableEq, Repr

/-- Media SDK `mfxExtCodingOption`, the fields written here. -/
structure mfxExtCodingOption where
  CAVLC : Nat := 0
  Header : mfxExtBuffer := {}
  MECostType : Nat := 0
  MESearchType : Nat := 0
  MVSearchWindow : mfxI16Pair := {}
  RefPicListReordering : Nat := 0
  IntraPredBlockSize : Nat := 0
  InterPredBlockSize : Nat := 0
  MVPrecision : Nat := 0
  EndOfSequence : Nat := 0
  RateDistortionOpt : Nat := 0
  ResetRefList : Nat := 0
  MaxDecFrameBuffering : Nat := 0
  AUDelimiter : Nat := 0
  SingleSeiNalUnit : Nat := 0
  PicTimingSEI : Nat := 0
  VuiNalHrdParameters : Nat := 0
  FramePicture : Nat := 0
  RefPicMarkRep : Nat := 0
  FieldOutput : Nat := 0
  NalHrdConformance : Nat := 0
  VuiVclHrdParameters : Nat := 0
  ViewOutput : Nat := 0
  RecoveryPointSEI : Nat := 0
  deriving DecidableEq, Repr

/-- Media SDK `mfxExtCodingOption2`, the fields written here. -/
structure mfxExtCodingOption2 where
  MBBRC : Nat := 0
  ExtBRC : Nat := 0
  LookAheadDepth : Nat := 0
  Trellis : Nat := 0
  AdaptiveI : Nat := 0
  AdaptiveB : Nat := 0
  LookAheadDS : Nat := 0
  Header : mfxExtBuffer := {}
  IntRefType : Nat := 0
  IntRefCycleSize : Nat := 0
  IntRefQPDelta : Int := 0
  MaxFrameSize : Nat := 0
  BitrateLimit : Nat := 0
  RepeatPPS : Nat := 0
  BRefType : Nat := 0
  NumMbPerSlice : Nat := 0
  deriving DecidableEq, Repr

/-- Media SDK `mfxExtVideoSignalInfo`. -/
structure mfxExtVideoSignalInfo where
  VideoFormat : Nat := 0
  VideoFullRange : Nat := 0
  ColourDescriptionPresent : Nat := 0
  ColourPrimaries : Nat := 0
  TransferCharacteristics : Nat := 0
  MatrixCoefficients : Nat := 0
  Header : mfxExtBuffer := {}
  deriving DecidableEq, Repr

/-- Member `gop` of `hb_qsv_param_t`. -/
structure hb_qsv_gop_t where
  b_pyramid : Int := 0
  gop_pic_size : Int := 0
  gop_ref_dist : Int := 0
  int_ref_cycle_size : Int := 0
  deriving DecidableEq, Repr

/-- Member `rc` of `hb_qsv_param_t`; `cqp_offsets0..2` are `cqp_offsets[0..2]`. -/
structure hb_qsv_rc_t (F : Type) where
  icq : Int := 0
  lookahead : Int := 0
  cqp_offsets0 : Int := 0
  cqp_offsets1 : Int := 0
  cqp_offsets2 : Int := 0
  vbv_max_bitrate : Int := 0
  vbv_buffer_size : Int := 0
  vbv_buffer_init : F
  deriving DecidableEq, Repr

/-- Modelled from the spec: `hb_qsv_param_t` is declared in `handbrake/qsv_common.h`,
not part of the sources: the GOP and rate-control configuration, the
video-signal-info block, the two coding-option blocks and the generic encoder
parameter structure (`videoParam`, here the pointed-to structure itself). -/
structure hb_qsv_param_t (F : Type) where
  codingOption : mfxExtCodingOption := {}
  codingOption2 : mfxExtCodingOption2 := {}
  videoSignalInfo : mfxExtVideoSignalInfo := {}
  gop : hb_qsv_gop_t := {}
  rc : hb_qsv_rc_t F
  videoParam : mfxVideoParam := {}
  deriving DecidableEq, Repr

/-! ## Parameter translator (`qsv_common.c` lines 1033-1636) -/

section translator
variable {F : Type}

/-- Lines 1033-1046. -/
def hb_qsv_codingoption_xlat (val : Int) : Int :=
  let v := HB_QSV_CLIP3 (-1) 2 val
  if v = 0 then MFX_CODINGOPTION_OFF
  else if v = 1 ∨ v = 2 then MFX_CODINGOPTION_ON
  else MFX_CODINGOPTION_UNKNOWN

/-- Lines 1048-1063; `|` of the flag constants is bitwise or. -/
def hb_qsv_trellisvalue_xlat (val : Int) : Int :=
  let v := HB_QSV_CLIP3 0 3 val
  if v = 0 then MFX_TRELLIS_OFF
  else if v = 1 then MFX_TRELLIS_I
  else if v = 2 then Int.lor MFX_TRELLIS_I MFX_TRELLIS_P
  else if v = 3 then Int.lor (Int.lor MFX_TRELLIS_I MFX_TRELLIS_P) MFX_TRELLIS_B
  else MFX_TRELLIS_UNKNOWN

/-- The `for` loop of `hb_qsv_atoindex` from index `i` on, `arr` holding the
entries from `i` up to the closing `NULL`: the index where the loop stops and
whether that is the closing `NULL`. -/
def hb_qsv_atoindex_loop (i : Nat) : List (List Char) → List Char → Nat × Bool
  | [], _ => (i, true)
  | a :: as, str => if strcasecmp a str = 0 then (i, false) else hb_qsv_atoindex_loop (i + 1) as str

/-- Lines 1082-1094: returns the index and the value stored to `*err`. -/
def hb_qsv_atoindex (arr : List (List Char)) (str : List Char) (_err : Bool) : Int × Bool :=
  let r := hb_qsv_atoindex_loop 0 arr str
  (wrap32 r.1, r.2)

/-- Lines 1097-1113: returns the result and the content of `*err` afterwards. -/
def hb_qsv_atobool (str : List Char) (err : Bool) : Int × Bool :=
  if strcasecmp str "1".toList = 0 ∨ strcasecmp str "yes".toList = 0
      ∨ strcasecmp str "true".toList = 0 then (1, err)
  else if strcasecmp str "0".toList = 0 ∨ strcasecmp str "no".toList = 0
      ∨ strcasecmp str "false".toList = 0 then (0, err)
  else (0, true)

/-- Lines 1116-1125: returns the result and the content of `*err` afterwards.
The `long` from `strtol` is converted to `int`. -/
def hb_qsv_atoi (env : Env F) (str : List Char) (err : Bool) : Int × Bool :=
  let r := strtol env.long_bits str
  let v := wrap32 r.1
  (v, if r.2 = 0 ∨ ¬ at_end (str.drop r.2) then true else err)

/-- Lines 1128-1137: returns the result and the content of `*err` afterwards. -/
def hb_qsv_atof (env : Env F) (str : List Char) (err : Bool) : F × Bool :=
  let n := strtod_len str
  (env.strtod_value str, if n = 0 ∨ ¬ at_end (str.drop n) then true else err)

/-- Line 1635, `return error ? HB_QSV_PARAM_BAD_VALUE : HB_QSV_PARAM_OK`,
together with the parameter block as it is then. -/
def param_parse_return (error : Bool) (param : hb_qsv_param_t F) :
    hb_qsv_param_status × hb_qsv_param_t F :=
  (if error then HB_QSV_PARAM_BAD_VALUE else HB_QSV_PARAM_OK, param)

/-- Lines 1169-1635 of `hb_qsv_param_parse`: the chain of option names, entered
with the key and value as rewritten by lines 1148-1168 and with `error`. -/
def param_parse_options (env : Env F) (param : hb_qsv_param_t F) (info : hb_qsv_info_t)
    (key value : List Char) (error : Bool) : hb_qsv_param_status × hb_qsv_param_t F :=
  if strcasecmp key "target-usage".toList = 0 ∨ strcasecmp key "tu".toList = 0 then
    let r := hb_qsv_atoi env value error
    param_parse_return r.2 (if ¬ r.2 then
      { param with videoParam.mfx.TargetUsage := toU16 (HB_QSV_CLIP3 MFX_TARGETUSAGE_1 MFX_TARGETUSAGE_7 r.1) } else param)
  else if strcasecmp key "num-ref-frame".toList = 0 ∨ strcasecmp key "ref".toList = 0 then
    let r := hb_qsv_atoi env value error
    param_parse_return r.2 (if ¬ r.2 then
      { param with videoParam.mfx.NumRefFrame := toU16 (HB_QSV_CLIP3 0 16 r.1) } else param)
  else if strcasecmp key "gop-ref-dist".toList = 0 then
    let r := hb_qsv_atoi env value error
    param_parse_return r.2 (if ¬ r.2 then
      { param with gop.gop_ref_dist := HB_QSV_CLIP3 (-1) 32 r.1 } else param)
  else if strcasecmp key "gop-pic-size".toList = 0 ∨ strcasecmp key "keyint".toList = 0 then
    let r := hb_qsv_atoi env value error
    param_parse_return r.2 (if ¬ r.2 then
      { param with gop.gop_pic_size := HB_QSV_CLIP3 (-1) UINT16_MAX r.1 } else param)
  else if strcasecmp key "b-pyramid".toList = 0 then
    if has_cap info HB_QSV_CAP_B_REF_PYRAMID then
      let r := hb_qsv_atoi env value error
      param_parse_return r.2 (if ¬ r.2 then
      { param with gop.b_pyramid := HB_QSV_CLIP3 (-1) 1 r.1 } else param)
    else (HB_QSV_PARAM_UNSUPPORTED, param)
  else if strcasecmp key "scenecut".toList = 0 then
    let r := hb_qsv_atobool value error
    param_parse_return r.2 (if ¬ r.2 then
      (if r.1 = 0 then
        { param with videoParam.mfx.GopOptFlag := param.videoParam.mfx.GopOptFlag ||| MFX_GOP_STRICT }
       else
        { param with videoParam.mfx.GopOptFlag :=
            param.videoParam.mfx.GopOptFlag &&& (65535 - MFX_GOP_STRICT) }) else param)
  else if strcasecmp key "adaptive-i".toList = 0 ∨ strcasecmp key "i-adapt".toList = 0 then
    if has_cap info HB_QSV_CAP_OPTION2_IB_ADAPT then
      let r := hb_qsv_atobool value error
      param_parse_return r.2 (if ¬ r.2 then
      { param with codingOption2.AdaptiveI := toU16 (hb_qsv_codingoption_xlat r.1) } else param)
    else (HB_QSV_PARAM_UNSUPPORTED, param)
  else if strcasecmp key "adaptive-b".toList = 0 ∨ strcasecmp key "b-adapt".toList = 0 then
    if has_cap info HB_QSV_CAP_OPTION2_IB_ADAPT then
      let r := hb_qsv_atobool value error
      param_parse_return r.2 (if ¬ r.2 then
      { param with codingOption2.AdaptiveB := toU16 (hb_qsv_codingoption_xlat r.1) } else param)
    else (HB_QSV_PARAM_UNSUPPORTED, param)
  else if strcasecmp key "force-cqp".toList = 0 then
    let r := hb_qsv_atobool value error
    param_parse_return r.2 (if ¬ r.2 then
      { param with rc.icq := (if r.1 = 0 then 1 else 0) } else param)
  else if strcasecmp key "cqp-offset-i".toList = 0 then
    let r := hb_qsv_atoi env value error
    param_parse_return r.2 (if ¬ r.2 then
      { param with rc.cqp_offsets0 := HB_QSV_CLIP3 INT16_MIN INT16_MAX r.1 } else param)
  else if strcasecmp key "cqp-offset-p".toList = 0 then
    let r := hb_qsv_atoi env value error
    param_parse_return r.2 (if ¬ r.2 then
      { param with rc.cqp_offsets1 := HB_QSV_CLIP3 INT16_MIN INT16_MAX r.1 } else param)
  else if strcasecmp key "cqp-offset-b".toList = 0 then
    let r := hb_qsv_atoi env value error
    param_parse_return r.2 (if ¬ r.2 then
      { param with rc.cqp_offsets2 := HB_QSV_CLIP3 INT16_MIN INT16_MAX r.1 } else param)
  else if strcasecmp key "vbv-init".toList = 0 then
    let r := hb_qsv_atof env value error
    param_parse_return r.2 (if ¬ r.2 then
      { param with rc.vbv_buffer_init := env.clip3f 0 UINT16_MAX r.1 } else param)
  else if strcasecmp key "vbv-bufsize".toList = 0 then
    let r := hb_qsv_atoi env value error
    param_parse_return r.2 (if ¬ r.2 then
      { param with rc.vbv_buffer_size := HB_QSV_CLIP3 0 UINT16_MAX r.1 } else param)
  else if strcasecmp key "vbv-maxrate".toList = 0 then
    let r := hb_qsv_atoi env value error
    param_parse_return r.2 (if ¬ r.2 then
      { param with rc.vbv_max_bitrate := HB_QSV_CLIP3 0 UINT16_MAX r.1 } else param)
  else if strcasecmp key "cavlc".toList = 0 ∨ strcasecmp key "cabac".toList = 0 then
    if has_cap info HB_QSV_CAP_OPTION1 then
      if info.codec_id = MFX_CODEC_AVC then
        let r := hb_qsv_atobool value error
        let ivalue : Int :=
          if strcasecmp key "cabac".toList = 0 then (if r.1 = 0 then 1 else 0) else r.1
        param_parse_return r.2 (if ¬ r.2 then
      { param with codingOption.CAVLC := toU16 (hb_qsv_codingoption_xlat ivalue) } else param)
      else (HB_QSV_PARAM_UNSUPPORTED, param)
    else (HB_QSV_PARAM_UNSUPPORTED, param)
  else if strcasecmp key "videoformat".toList = 0 then
    if has_cap info HB_QSV_CAP_VUI_VSINFO then
      if info.codec_id = MFX_CODEC_AVC ∨ info.codec_id = MFX_CODEC_HEVC then
        let r := if info.codec_id = MFX_CODEC_AVC
          then hb_qsv_atoindex env.hb_h264_vidformat_names value error
          else hb_qsv_atoindex env.hb_h265_vidformat_names value error
        param_parse_return r.2 (if ¬ r.2 then
      { param with videoSignalInfo.VideoFormat := toU16 r.1 } else param)
      else (HB_QSV_PARAM_UNSUPPORTED, param)
    else (HB_QSV_PARAM_UNSUPPORTED, param)
  else if strcasecmp key "fullrange".toList = 0 then
    if has_cap info HB_QSV_CAP_VUI_VSINFO then
      if info.codec_id = MFX_CODEC_AVC ∨ info.codec_id = MFX_CODEC_HEVC then
        let r := if info.codec_id = MFX_CODEC_AVC
          then hb_qsv_atoindex env.hb_h264_fullrange_names value error
          else hb_qsv_atoindex env.hb_h265_fullrange_names value error
        param_parse_return r.2 (if ¬ r.2 then
      { param with videoSignalInfo.VideoFullRange := toU16 r.1 } else param)
      else (HB_QSV_PARAM_UNSUPPORTED, param)
    else (HB_QSV_PARAM_UNSUPPORTED, param)
  else if strcasecmp key "colorprim".toList = 0 then
    if has_cap info HB_QSV_CAP_VUI_VSINFO then
      if info.codec_id = MFX_CODEC_AVC ∨ info.codec_id = MFX_CODEC_HEVC then
        let r := if info.codec_id = MFX_CODEC_AVC
          then hb_qsv_atoindex env.hb_h264_colorprim_names value error
          else hb_qsv_atoindex env.hb_h265_colorprim_names value error
        param_parse_return r.2 (if ¬ r.2 then { param with
          videoSignalInfo.ColourDescriptionPresent := 1
          videoSignalInfo.ColourPrimaries := toU16 r.1 } else param)
      else (HB_QSV_PARAM_UNSUPPORTED, param)
    else (HB_QSV_PARAM_UNSUPPORTED, param)
  else if strcasecmp key "transfer".toList = 0 then
    if has_cap info HB_QSV_CAP_VUI_VSINFO then
      if info.codec_id = MFX_CODEC_AVC ∨ info.codec_id = MFX_CODEC_HEVC then
        let r := if info.codec_id = MFX_CODEC_AVC
          then hb_qsv_atoindex env.hb_h264_transfer_names value error
          else hb_qsv_atoindex env.hb_h265_transfer_names value error
        param_parse_return r.2 (if ¬ r.2 then { param with
          videoSignalInfo.ColourDescriptionPresent := 1
          videoSignalInfo.TransferCharacteristics := toU16 r.1 } else param)
      else (HB_QSV_PARAM_UNSUPPORTED, param)
    else (HB_QSV_PARAM_UNSUPPORTED, param)
  else if strcasecmp key "colormatrix".toList = 0 then
    if has_cap info HB_QSV_CAP_VUI_VSINFO then
      if info.codec_id = MFX_CODEC_AVC ∨ info.codec_id = MFX_CODEC_HEVC then
        let r := if info.codec_id = MFX_CODEC_AVC
          then hb_qsv_atoindex env.hb_h264_colmatrix_names value error
          else hb_qsv_atoindex env.hb_h265_colmatrix_names value error
        param_parse_return r.2 (if ¬ r.2 then { param with
          videoSignalInfo.ColourDescriptionPresent := 1
          videoSignalInfo.MatrixCoefficients := toU16 r.1 } else param)
      else (HB_QSV_PARAM_UNSUPPORTED, param)
    else (HB_QSV_PARAM_UNSUPPORTED, param)
  else if strcasecmp key "tff".toList = 0 ∨ strcasecmp key "interlaced".toList = 0 then
    if info.codec_id = MFX_CODEC_AVC then
      let r := hb_qsv_atobool value error
      param_parse_return r.2 (if ¬ r.2 then
      { param with videoParam.mfx.FrameInfo.PicStruct := toU16 (if r.1 ≠ 0 then MFX_PICSTRUCT_FIELD_TFF else MFX_PICSTRUCT_PROGRESSIVE) }
        else param)
    else (HB_QSV_PARAM_UNSUPPORTED, param)
  else if strcasecmp key "bff".toList = 0 then
    if info.codec_id = MFX_CODEC_AVC then
      let r := hb_qsv_atobool value error
      param_parse_return r.2 (if ¬ r.2 then
      { param with videoParam.mfx.FrameInfo.PicStruct := toU16 (if r.1 ≠ 0 then MFX_PICSTRUCT_FIELD_BFF else MFX_PICSTRUCT_PROGRESSIVE) }
        else param)
    else (HB_QSV_PARAM_UNSUPPORTED, param)
  else if strcasecmp key "mbbrc".toList = 0 then
    if has_cap info HB_QSV_CAP_OPTION2_MBBRC then
      let r := hb_qsv_atobool value error
      param_parse_return r.2 (if ¬ r.2 then
      { param with codingOption2.MBBRC := toU16 (hb_qsv_codingoption_xlat r.1) } else param)
    else (HB_QSV_PARAM_UNSUPPORTED, param)
  else if strcasecmp key "extbrc".toList = 0 then
    if has_cap info HB_QSV_CAP_OPTION2_EXTBRC then
      let r := hb_qsv_atobool value error
      param_parse_return r.2 (if ¬ r.2 then
      { param with codingOption2.ExtBRC := toU16 (hb_qsv_codingoption_xlat r.1) } else param)
    else (HB_QSV_PARAM_UNSUPPORTED, param)
  else if strcasecmp key "lookahead".toList = 0 ∨ strcasecmp key "la".toList = 0 then
    if has_cap info HB_QSV_CAP_RATECONTROL_LA then
      let r := hb_qsv_atobool value error
      param_parse_return r.2 (if ¬ r.2 then { param with rc.lookahead := r.1 } else param)
    else (HB_QSV_PARAM_UNSUPPORTED, param)
  else if strcasecmp key "lookahead-depth".toList = 0 ∨ strcasecmp key "la-depth".toList = 0 then
    if has_cap info HB_QSV_CAP_RATECONTROL_LA then
      let r := hb_qsv_atoi env value error
      param_parse_return r.2 (if ¬ r.2 then
      { param with codingOption2.LookAheadDepth := toU16 (HB_QSV_CLIP3 10 100 r.1) } else param)
    else (HB_QSV_PARAM_UNSUPPORTED, param)
  else if strcasecmp key "lookahead-ds".toList = 0 ∨ strcasecmp key "la-ds".toList = 0 then
    if has_cap info HB_QSV_CAP_OPTION2_LA_DOWNS then
      let r := hb_qsv_atoi env value error
      param_parse_return r.2 (if ¬ r.2 then
      { param with codingOption2.LookAheadDS := toU16 (HB_QSV_CLIP3 MFX_LOOKAHEAD_DS_UNKNOWN MFX_LOOKAHEAD_DS_4x r.1) } else param)
    else (HB_QSV_PARAM_UNSUPPORTED, param)
  else if strcasecmp key "trellis".toList = 0 then
    if has_cap info HB_QSV_CAP_OPTION2_TRELLIS then
      let r := hb_qsv_atoi env value error
      param_parse_return r.2 (if ¬ r.2 then
      { param with codingOption2.Trellis := toU16 (hb_qsv_trellisvalue_xlat r.1) } else param)
    else (HB_QSV_PARAM_UNSUPPORTED, param)
  else if strcasecmp key "lowpower".toList = 0 then
    if has_cap info HB_QSV_CAP_LOWPOWER_ENCODE then
      let r := hb_qsv_atobool value error
      param_parse_return r.2 (if ¬ r.2 then
      { param with videoParam.mfx.LowPower := toU16 (if r.1 ≠ 0 then MFX_CODINGOPTION_ON else MFX_CODINGOPTION_OFF) } else param)
    else (HB_QSV_PARAM_UNSUPPORTED, param)
  else (HB_QSV_PARAM_BAD_NAME, param)

/-- Lines 1148-1155: the value the option is parsed with, `"true"` for a
missing or empty value, the value without a leading `=` otherwise. -/
def param_parse_value (value : Option (List Char)) : List Char :=
  match value with
  | none => "true".toList
  | some v =>
    if at_end v then "true".toList
    else if v.head? = some '=' then v.drop 1
    else v

/-- Lines 1139-1636, `hb_qsv_param_parse`: returns the result code and the
parameter block as it is after the call (`none` for a `NULL` pointer). -/
def hb_qsv_param_parse (env : Env F) (param : Option (hb_qsv_param_t F))
    (info : Option hb_qsv_info_t) (key value : Option (List Char)) :
    hb_qsv_param_status × Option (hb_qsv_param_t F) :=
  match param, info with
  | some p, some inf =>
    let error : Bool := false
    let value := param_parse_value value
    match key with
    | none => (HB_QSV_PARAM_BAD_NAME, some p)
    | some key =>
      if at_end key then (HB_QSV_PARAM_BAD_NAME, some p)
      else if strncasecmp key "no-".toList 3 = 0 then
        let b := hb_qsv_atobool value error
        if b.2 then (HB_QSV_PARAM_BAD_VALUE, some p)
        else
          let r := param_parse_options env p inf (key.drop 3)
            (if b.1 ≠ 0 then "false".toList else "true".toList) b.2
          (r.1, some r.2)
      else
        let r := param_parse_options env p inf key value error
        (r.1, some r.2)
  | _, _ => (HB_QSV_PARAM_ERROR, param)

end translator

/-! ## The closed set of options, as data

The chain of `param_parse_options` read as a table: for each option name the
kind of value it takes, the capability bit it is gated by and the codecs it
is restricted to.  The theorems relate the table to the code. -/

/-- The five video-signal fields that take a name from a per-codec table. -/
inductive vui_field where
  | vidformat
  | fullrange
  | colorprim
  | transfer
  | colmatrix
  deriving DecidableEq, Repr

/-- The name table the code consults for a video-signal field: the H.264 table
for `MFX_CODEC_AVC`, the H.265 table otherwise. -/
def name_table {F : Type} (env : Env F) (codec_id : Nat) : vui_field → List (List Char)
  | .vidformat => if codec_id = MFX_CODEC_AVC then env.hb_h264_vidformat_names
                  else env.hb_h265_vidformat_names
  | .fullrange => if codec_id = MFX_CODEC_AVC then env.hb_h264_fullrange_names
                  else env.hb_h265_fullrange_names
  | .colorprim => if codec_id = MFX_CODEC_AVC then env.hb_h264_colorprim_names
                  else env.hb_h265_colorprim_names
  | .transfer => if codec_id = MFX_CODEC_AVC then env.hb_h264_transfer_names
                 else env.hb_h265_transfer_names
  | .colmatrix => if codec_id = MFX_CODEC_AVC then env.hb_h264_colmatrix_names
                  else env.hb_h265_colmatrix_names

/-- What kind of value an option takes. -/
inductive value_kind where
  | int_valued
  | bool_valued
  | float_valued
  | name_valued (f : vui_field)
  deriving DecidableEq, Repr

/-- The codecs an option is restricted to. -/
inductive codec_gate where
  | any_codec
  | avc_only
  | avc_or_hevc
  deriving DecidableEq, Repr

/-- One option of the chain: its name, the kind of its value, the capability
bit that gates it (if any) and the codecs it is restricted to. -/
structure option_desc where
  name : String
  kind : value_kind
  cap : Option Nat := none
  codecs : codec_gate := .any_codec
  deriving DecidableEq, Repr

/-- The options of lines 1169-1623, in source order. -/
def option_table : List option_desc :=
  [ { name := "target-usage", kind := .int_valued },
    { name := "tu", kind := .int_valued },
    { name := "num-ref-frame", kind := .int_valued },
    { name := "ref", kind := .int_valued },
    { name := "gop-ref-dist", kind := .int_valued },
    { name := "gop-pic-size", kind := .int_valued },
    { name := "keyint", kind := .int_valued },
    { name := "b-pyramid", kind := .int_valued, cap := some HB_QSV_CAP_B_REF_PYRAMID },
    { name := "scenecut", kind := .bool_valued },
    { name := "adaptive-i", kind := .bool_valued, cap := some HB_QSV_CAP_OPTION2_IB_ADAPT },
    { name := "i-adapt", kind := .bool_valued, cap := some HB_QSV_CAP_OPTION2_IB_ADAPT },
    { name := "adaptive-b", kind := .bool_valued, cap := some HB_QSV_CAP_OPTION2_IB_ADAPT },
    { name := "b-adapt", kind := .bool_valued, cap := some HB_QSV_CAP_OPTION2_IB_ADAPT },
    { name := "force-cqp", kind := .bool_valued },
    { name := "cqp-offset-i", kind := .int_valued },
    { name := "cqp-offset-p", kind := .int_valued },
    { name := "cqp-offset-b", kind := .int_valued },
    { name := "vbv-init", kind := .float_valued },
    { name := "vbv-bufsize", kind := .int_valued },
    { name := "vbv-maxrate", kind := .int_valued },
    { name := "cavlc", kind := .bool_valued, cap := some HB_QSV_CAP_OPTION1,
      codecs := .avc_only },
    { name := "cabac", kind := .bool_valued, cap := some HB_QSV_CAP_OPTION1,
      codecs := .avc_only },
    { name := "videoformat", kind := .name_valued .vidformat,
      cap := some HB_QSV_CAP_VUI_VSINFO, codecs := .avc_or_hevc },
    { name := "fullrange", kind := .name_valued .fullrange,
      cap := some HB_QSV_CAP_VUI_VSINFO, codecs := .avc_or_hevc },
    { name := "colorprim", kind := .name_valued .colorprim,
      cap := some HB_QSV_CAP_VUI_VSINFO, codecs := .avc_or_hevc },
    { name := "transfer", kind := .name_valued .transfer,
      cap := some HB_QSV_CAP_VUI_VSINFO, codecs := .avc_or_hevc },
    { name := "colormatrix", kind := .name_valued .colmatrix,
      cap := some HB_QSV_CAP_VUI_VSINFO, codecs := .avc_or_hevc },
    { name := "tff", kind := .bool_valued, codecs := .avc_only },
    { name := "interlaced", kind := .bool_valued, codecs := .avc_only },
    { name := "bff", kind := .bool_valued, codecs := .avc_only },
    { name := "mbbrc", kind := .bool_valued, cap := some HB_QSV_CAP_OPTION2_MBBRC },
    { name := "extbrc", kind := .bool_valued, cap := some HB_QSV_CAP_OPTION2_EXTBRC },
    { name := "lookahead", kind := .bool_valued, cap := some HB_QSV_CAP_RATECONTROL_LA },
    { name := "la", kind := .bool_valued, cap := some HB_QSV_CAP_RATECONTROL_LA },
    { name := "lookahead-depth", kind := .int_valued, cap := some HB_QSV_CAP_RATECONTROL_LA },
    { name := "la-depth", kind := .int_valued, cap := some HB_QSV_CAP_RATECONTROL_LA },
    { name := "lookahead-ds", kind := .int_valued, cap := some HB_QSV_CAP_OPTION2_LA_DOWNS },
    { name := "la-ds", kind := .int_valued, cap := some HB_QSV_CAP_OPTION2_LA_DOWNS },
    { name := "trellis", kind := .int_valued, cap := some HB_QSV_CAP_OPTION2_TRELLIS },
    { name := "lowpower", kind := .bool_valued, cap := some HB_QSV_CAP_LOWPOWER_ENCODE } ]

/-- Whether `key` is, up to letter case, one of the option names. -/
def is_recognized (key : List Char) : Bool :=
  option_table.any (fun d => strcasecmp key d.name.toList = 0)

/-- Whether `key` starts, up to letter case, with `no-` (line 1160). -/
def is_negated (key : List Char) : Bool :=
  strncasecmp key "no-".toList 3 = 0

/-- The key an option is looked up with: without its leading `no-`, if any. -/
def bare_key (key : List Char) : List Char :=
  if is_negated key then key.drop 3 else key

/-- Whether `str` is, up to letter case, one of `1`, `yes`, `true`, `0`, `no`, `false`. -/
def is_bool_token (str : List Char) : Bool :=
  ["1", "yes", "true", "0", "no", "false"].any (fun t => strcasecmp str t.toList = 0)

/-- Whether `str` is a complete integer literal for `strtol` with base 0. -/
def is_int_literal (str : List Char) : Bool :=
  (strtol_exact str).2 ≠ 0 ∧ at_end (str.drop (strtol_exact str).2)

/-- Whether `str` is a complete floating-point literal for `strtod`. -/
def is_float_literal (str : List Char) : Bool :=
  strtod_len str ≠ 0 ∧ at_end (str.drop (strtod_len str))

/-- Whether `str` matches, up to letter case, an entry of the table `arr`. -/
def is_table_name (arr : List (List Char)) (str : List Char) : Bool :=
  arr.any (fun a => strcasecmp a str = 0)

/-- Whether a value, as the option is parsed with it, is of the option's kind. -/
def value_ok {F : Type} (env : Env F) (info : hb_qsv_info_t) (d : option_desc)
    (str : List Char) : Bool :=
  match d.kind with
  | .int_valued => is_int_literal str
  | .bool_valued => is_bool_token str
  | .float_valued => is_float_literal str
  | .name_valued f => is_table_name (name_table env info.codec_id f) str

/-- Whether the capability gate of an option is satisfied by `info`. -/
def cap_ok (info : hb_qsv_info_t) (d : option_desc) : Bool :=
  match d.cap with
  | some bit => has_cap info bit
  | none => true

/-- Whether the codec gate of an option is satisfied by `info`. -/
def codec_ok (info : hb_qsv_info_t) (d : option_desc) : Bool :=
  match d.codecs with
  | .any_codec => true
  | .avc_only => info.codec_id = MFX_CODEC_AVC
  | .avc_or_hevc => info.codec_id = MFX_CODEC_AVC ∨ info.codec_id = MFX_CODEC_HEVC

/-- Whether the capability and codec gates of an option are satisfied by `info`. -/
def gate_ok (info : hb_qsv_info_t) (d : option_desc) : Bool :=
  cap_ok info d && codec_ok info d

/-- The value a key with the `no-` mark is parsed with (line 1163). -/
def negated_value (value : List Char) : List Char :=
  if (hb_qsv_atobool value false).1 ≠ 0 then "false".toList else "true".toList

/-- Whether the call is refused at line 1166: the key carries the `no-` mark
and the value it is given is no boolean token. -/
def bad_negation (key value : Option (List Char)) : Bool :=
  match key with
  | some k => is_negated k && !is_bool_token (param_parse_value value)
  | none => false

/-- The options that are gated by a capability bit, with their bit. -/
def gated_options : List (String × Nat) :=
  option_table.filterMap (fun d => d.cap.map (fun bit => (d.name, bit)))

/-- An integer option that clamps: its name, its range, the capability bit
that gates it (if any) and the field it stores to (read back as an integer). -/
structure clamp_desc (F : Type) where
  name : String
  lo : Int
  hi : Int
  cap : Option Nat
  field : hb_qsv_param_t F → Int

/-- The clamping integer options of lines 1169-1323 and 1559-1593. -/
def clamp_table (F : Type) : List (clamp_desc F) :=
  [ ⟨"target-usage", MFX_TARGETUSAGE_1, MFX_TARGETUSAGE_7, none,
      fun p => p.videoParam.mfx.TargetUsage⟩,
    ⟨"tu", MFX_TARGETUSAGE_1, MFX_TARGETUSAGE_7, none, fun p => p.videoParam.mfx.TargetUsage⟩,
    ⟨"num-ref-frame", 0, 16, none, fun p => p.videoParam.mfx.NumRefFrame⟩,
    ⟨"ref", 0, 16, none, fun p => p.videoParam.mfx.NumRefFrame⟩,
    ⟨"gop-ref-dist", -1, 32, none, fun p => p.gop.gop_ref_dist⟩,
    ⟨"gop-pic-size", -1, UINT16_MAX, none, fun p => p.gop.gop_pic_size⟩,
    ⟨"keyint", -1, UINT16_MAX, none, fun p => p.gop.gop_pic_size⟩,
    ⟨"b-pyramid", -1, 1, some HB_QSV_CAP_B_REF_PYRAMID, fun p => p.gop.b_pyramid⟩,
    ⟨"cqp-offset-i", INT16_MIN, INT16_MAX, none, fun p => p.rc.cqp_offsets0⟩,
    ⟨"cqp-offset-p", INT16_MIN, INT16_MAX, none, fun p => p.rc.cqp_offsets1⟩,
    ⟨"cqp-offset-b", INT16_MIN, INT16_MAX, none, fun p => p.rc.cqp_offsets2⟩,
    ⟨"vbv-bufsize", 0, UINT16_MAX, none, fun p => p.rc.vbv_buffer_size⟩,
    ⟨"vbv-maxrate", 0, UINT16_MAX, none, fun p => p.rc.vbv_max_bitrate⟩,
    ⟨"lookahead-depth", 10, 100, some HB_QSV_CAP_RATECONTROL_LA,
      fun p => p.codingOption2.LookAheadDepth⟩,
    ⟨"la-depth", 10, 100, some HB_QSV_CAP_RATECONTROL_LA,
      fun p => p.codingOption2.LookAheadDepth⟩,
    ⟨"lookahead-ds", MFX_LOOKAHEAD_DS_UNKNOWN, MFX_LOOKAHEAD_DS_4x,
      some HB_QSV_CAP_OPTION2_LA_DOWNS, fun p => p.codingOption2.LookAheadDS⟩,
    ⟨"la-ds", MFX_LOOKAHEAD_DS_UNKNOWN, MFX_LOOKAHEAD_DS_4x,
      some HB_QSV_CAP_OPTION2_LA_DOWNS, fun p => p.codingOption2.LookAheadDS⟩ ]

/-- A parameter block with every field zero, over symbolic floats. -/
def sample_param : hb_qsv_param_t SymFloat := { rc := { vbv_buffer_init := SymFloat.of_int 0 } }

/-- An H.264 implementation info with every capability bit of the translator set. -/
def sample_info_avc : hb_qsv_info_t :=
  { available := 1, codec_id := MFX_CODEC_AVC,
    capabilities := HB_QSV_CAP_B_REF_PYRAMID ||| HB_QSV_CAP_LOWPOWER_ENCODE
      ||| HB_QSV_CAP_VUI_VSINFO ||| HB_QSV_CAP_RATECONTROL_LA ||| HB_QSV_CAP_OPTION1
      ||| HB_QSV_CAP_OPTION2 ||| HB_QSV_CAP_OPTION2_MBBRC ||| HB_QSV_CAP_OPTION2_EXTBRC
      ||| HB_QSV_CAP_OPTION2_TRELLIS ||| HB_QSV_CAP_OPTION2_IB_ADAPT
      ||| HB_QSV_CAP_OPTION2_LA_DOWNS }

/-- An H.264 implementation info without any capability bit. -/
def sample_info_nocap : hb_qsv_info_t :=
  { available := 1, codec_id := MFX_CODEC_AVC, capabilities := 0 }

/-! ## Capability probe (`qsv_common.c` lines 103-105, 151-157, 280-655, 920-974)

The Media SDK session is an external collaborator.  What it answers during
one call of `query_capabilities` is a `probe_answers` record, one field for
each call site; the calls made are collected in a list, and the plugins
loaded in the session are explicit state. -/

/-- Media SDK `mfxVersion`. -/
structure mfxVersion where
  Major : Nat := 0
  Minor : Nat := 0
  deriving DecidableEq, Repr

/-- The macro `HB_CHECK_MFX_VERSION` of lines 104-105. -/
def HB_CHECK_MFX_VERSION (version : mfxVersion) (major minor : Nat) : Bool :=
  version.Major = major ∧ version.Minor ≥ minor

/-- Modelled from the spec: `HB_QSV_MINVERSION_MAJOR` is a macro of
`handbrake/qsv_common.h`, not part of the sources; the minimum required major
version is 1. -/
def HB_QSV_MINVERSION_MAJOR : Nat := 1

/-- What `query_capabilities` and `hb_qsv_info_init` take from the platform and
from headers that are not part of the sources. -/
structure Platform where
  /-- The value of `hb_get_cpu_platform()`. -/
  cpu_platform : Int
  /-- Whether `SYS_LINUX` is defined. -/
  sys_linux : Bool
  /-- The macro `HB_QSV_MINVERSION_MINOR` of `handbrake/qsv_common.h`. -/
  minversion_minor : Nat

/-- Modelled from the spec: Media SDK status code (`mfxdefs.h`, not part of the
sources); errors are negative, warnings positive. -/
def MFX_ERR_NONE : Int := 0
/-- Modelled from the spec: Media SDK constant (`mfxcommon.h`, not part of the sources). -/
def MFX_IMPL_SOFTWARE : Nat := 0x0001
/-- Modelled from the spec: Media SDK constant (`mfxcommon.h`, not part of the sources). -/
def MFX_IMPL_HARDWARE_ANY : Nat := 0x0004
/-- Modelled from the spec: Media SDK constant (`mfxcommon.h`, not part of the sources). -/
def MFX_IMPL_VIA_ANY : Nat := 0x0100
/-- Modelled from the spec: Media SDK constant (`mfxcommon.h`, not part of the sources). -/
def MFX_IMPL_VIA_D3D9 : Nat := 0x0200
/-- Modelled from the spec: Media SDK constant (`mfxcommon.h`, not part of the sources). -/
def MFX_IMPL_VIA_D3D11 : Nat := 0x0300
/-- Modelled from the spec: Media SDK constant (`mfxcommon.h`, not part of the sources). -/
def MFX_IMPL_AUDIO : Nat := 0x8000
/-- Modelled from the spec: Media SDK macro `MFX_IMPL_BASETYPE(x)`, `0x00ff & (x)`. -/
def MFX_IMPL_BASETYPE (x : Nat) : Nat := 0x00ff &&& x
/-- Modelled from the spec: Media SDK constant (`mfxstructures.h`, not part of the sources). -/
def MFX_RATECONTROL_LA : Nat := 8
/-- Modelled from the spec: Media SDK constant (`mfxstructures.h`, not part of the sources). -/
def MFX_RATECONTROL_ICQ : Nat := 9

/-- Lines 154-157. -/
def qsv_implementation_is_hardware (implementation : Nat) : Bool :=
  MFX_IMPL_BASETYPE implementation ≠ MFX_IMPL_SOFTWARE

/-- The two plugins `hb_qsv_load_plugins` may load. -/
inductive plugin_uid where
  | MFX_PLUGINID_HEVCE_HW
  | MFX_PLUGINID_HEVCE_SW
  deriving DecidableEq, Repr

/-- The calls into the Media SDK made by the probe and the bootstrap. -/
inductive mfx_call where
  | MFXInit (impl : Nat)
  | MFXQueryVersion
  | MFXVideoCORE_SetHandle
  | MFXClose
  | MFXVideoUSER_Load (uid : plugin_uid)
  | MFXVideoUSER_UnLoad (uid : plugin_uid)
  | MFXVideoENCODE_Query
  | MFXVideoENCODE_Init
  | MFXVideoENCODE_Close
  deriving DecidableEq, Repr

/-- The fields of `mfxExtCodingOption2` as `MFXVideoENCODE_Query` leaves them
in the trial of lines 539-549. -/
structure option2_answer where
  MBBRC : Nat := 0
  ExtBRC : Nat := 0
  Trellis : Nat := 0
  BRefType : Nat := 0
  AdaptiveI : Nat := 0
  AdaptiveB : Nat := 0
  LookAheadDS : Nat := 0
  NumMbPerSlice : Nat := 0
  deriving DecidableEq, Repr

/-- What the collaborators answer during one call of `query_capabilities`. -/
structure probe_answers where
  /-- Whether `hb_list_init()` returns a list (line 922). -/
  list_init_ok : Bool := true
  /-- Status of `MFXVideoUSER_Load` (lines 936, 943). -/
  load_status : Int := 0
  /-- Status of the baseline `MFXVideoENCODE_Query` (line 337). -/
  query_status : Int := 0
  /-- `videoParam.mfx.CodecId` after the baseline query. -/
  query_codec : Nat := 0
  /-- Status of `MFXVideoENCODE_Init` (line 346). -/
  init_status : Int := 0
  /-- Status of the lookahead query (line 428). -/
  la_status : Int := 0
  /-- `videoParam.mfx.RateControlMethod` after the lookahead query. -/
  la_rc : Nat := 0
  /-- Status of the interlaced lookahead query (line 443). -/
  lai_status : Int := 0
  /-- `videoParam.mfx.FrameInfo.PicStruct` after the interlaced lookahead query. -/
  lai_picstruct : Nat := 0
  /-- `videoParam.mfx.RateControlMethod` after the interlaced lookahead query. -/
  lai_rc : Nat := 0
  /-- Status of the ICQ query (line 461). -/
  icq_status : Int := 0
  /-- `videoParam.mfx.RateControlMethod` after the ICQ query. -/
  icq_rc : Nat := 0
  /-- Status of the `mfxExtVideoSignalInfo` query (line 481). -/
  vsinfo_status : Int := 0
  /-- Status of the `mfxExtCodingOption` query (line 513). -/
  option1_status : Int := 0
  /-- Status of the `mfxExtCodingOption2` query (line 549). -/
  option2_status : Int := 0
  /-- The `mfxExtCodingOption2` block after that query. -/
  option2 : option2_answer := {}
  deriving DecidableEq, Repr

/-- Result of `hb_qsv_load_plugins`: the list returned (`none` is `NULL`), the
plugins loaded in the session afterwards and the calls made. -/
structure load_result where
  list : Option (List plugin_uid)
  loaded : List plugin_uid
  calls : List mfx_call
  deriving DecidableEq, Repr

/-- Lines 920-956.  A `MFXVideoUSER_Load` that returns `MFX_ERR_NONE` has added
the plugin to those loaded in the session. -/
def hb_qsv_load_plugins (ans : probe_answers) (loaded : List plugin_uid)
    (info : hb_qsv_info_t) (version : mfxVersion) : load_result :=
  if ¬ ans.list_init_ok then ⟨none, loaded, []⟩
  else if HB_CHECK_MFX_VERSION version 1 8 then
    if info.codec_id = MFX_CODEC_HEVC then
      if HB_CHECK_MFX_VERSION version 1 15
          ∧ qsv_implementation_is_hardware info.implementation then
        if ans.load_status = MFX_ERR_NONE then
          ⟨some [.MFX_PLUGINID_HEVCE_HW], .MFX_PLUGINID_HEVCE_HW :: loaded,
            [.MFXVideoUSER_Load .MFX_PLUGINID_HEVCE_HW]⟩
        else ⟨some [], loaded, [.MFXVideoUSER_Load .MFX_PLUGINID_HEVCE_HW]⟩
      else if HB_CHECK_MFX_VERSION version 1 15 then
        if ans.load_status = MFX_ERR_NONE then
          ⟨some [.MFX_PLUGINID_HEVCE_SW], .MFX_PLUGINID_HEVCE_SW :: loaded,
            [.MFXVideoUSER_Load .MFX_PLUGINID_HEVCE_SW]⟩
        else ⟨some [], loaded, [.MFXVideoUSER_Load .MFX_PLUGINID_HEVCE_SW]⟩
      else ⟨some [], loaded, []⟩
    else ⟨some [], loaded, []⟩
  else ⟨some [], loaded, []⟩

/-- Lines 958-974: returns the plugins loaded in the session afterwards and the
calls made.  `MFXVideoUSER_UnLoad` removes the plugin from those loaded. -/
def hb_qsv_unload_plugins (l : Option (List plugin_uid)) (loaded : List plugin_uid)
    (version : mfxVersion) : List plugin_uid × List mfx_call :=
  match l with
  | some mfxPluginList =>
    if HB_CHECK_MFX_VERSION version 1 8 then
      (mfxPluginList.foldl (fun acc uid => acc.erase uid) loaded,
        mfxPluginList.map .MFXVideoUSER_UnLoad)
    else (loaded, [])
  | none => (loaded, [])

/-- Result of lines 321-364: whether line 326 returned, the info, the calls made. -/
structure available_result where
  returned : Bool
  info : hb_qsv_info_t
  calls : List mfx_call
  deriving DecidableEq, Repr

/-- Lines 321-364: the availability check of `query_capabilities`. -/
def probe_available (pf : Platform) (ans : probe_answers) (version : mfxVersion)
    (info : hb_qsv_info_t) : available_result :=
  if HB_CHECK_MFX_VERSION version HB_QSV_MINVERSION_MAJOR pf.minversion_minor then
    if info.implementation &&& MFX_IMPL_AUDIO ≠ 0 then ⟨true, info, []⟩
    else if ans.query_status ≥ MFX_ERR_NONE ∧ ans.query_codec = info.codec_id then
      if ans.init_status ≥ MFX_ERR_NONE then
        ⟨false, { info with available := 1 },
          [.MFXVideoENCODE_Query, .MFXVideoENCODE_Init, .MFXVideoENCODE_Close]⟩
      else
        ⟨false, info, [.MFXVideoENCODE_Query, .MFXVideoENCODE_Init, .MFXVideoENCODE_Close]⟩
    else ⟨false, info, [.MFXVideoENCODE_Query]⟩
  else ⟨false, info, []⟩

/-- Lines 378-407: the capability bits that cannot be queried. -/
def policy_caps (pf : Platform) (version : mfxVersion) (info : hb_qsv_info_t)
    (caps : Nat) : Nat :=
  let caps1 :=
    if info.codec_id = MFX_CODEC_AVC ∨ info.codec_id = MFX_CODEC_HEVC then
      if qsv_implementation_is_hardware info.implementation then
        let caps0 :=
          if qsv_hardware_generation pf.cpu_platform ≥ QSV_G3
          then caps ||| HB_QSV_CAP_B_REF_PYRAMID else caps
        if info.codec_id = MFX_CODEC_HEVC ∧ qsv_hardware_generation pf.cpu_platform ≥ QSV_G7
        then caps0 ||| HB_QSV_CAP_LOWPOWER_ENCODE else caps0
      else if HB_CHECK_MFX_VERSION version 1 6 then caps ||| HB_QSV_CAP_B_REF_PYRAMID
      else caps
    else caps
  if HB_CHECK_MFX_VERSION version 1 6 then caps1 ||| HB_QSV_CAP_MSDK_API_1_6 else caps1

/-- Lines 418-450: the lookahead trials. -/
def la_trial (ans : probe_answers) (version : mfxVersion) (caps : Nat) : Nat × List mfx_call :=
  if HB_CHECK_MFX_VERSION version 1 7 then
    if ans.la_status ≥ MFX_ERR_NONE ∧ ans.la_rc = MFX_RATECONTROL_LA then
      if ans.lai_status ≥ MFX_ERR_NONE ∧ (ans.lai_picstruct : Int) = MFX_PICSTRUCT_FIELD_TFF
          ∧ ans.lai_rc = MFX_RATECONTROL_LA then
        (caps ||| HB_QSV_CAP_RATECONTROL_LA ||| HB_QSV_CAP_RATECONTROL_LAi,
          [.MFXVideoENCODE_Query, .MFXVideoENCODE_Query])
      else (caps ||| HB_QSV_CAP_RATECONTROL_LA, [.MFXVideoENCODE_Query, .MFXVideoENCODE_Query])
    else (caps, [.MFXVideoENCODE_Query])
  else (caps, [])

/-- Lines 451-466: the ICQ trial. -/
def icq_trial (ans : probe_answers) (version : mfxVersion) (caps : Nat) :
    Nat × List mfx_call :=
  if HB_CHECK_MFX_VERSION version 1 8 then
    if ans.icq_status ≥ MFX_ERR_NONE ∧ ans.icq_rc = MFX_RATECONTROL_ICQ then
      (caps ||| HB_QSV_CAP_RATECONTROL_ICQ, [.MFXVideoENCODE_Query])
    else (caps, [.MFXVideoENCODE_Query])
  else (caps, [])

/-- Lines 468-498: the `mfxExtVideoSignalInfo` trial. -/
def vsinfo_trial (ans : probe_answers) (version : mfxVersion) (caps : Nat) :
    Nat × List mfx_call :=
  if HB_CHECK_MFX_VERSION version 1 3 then
    if ans.vsinfo_status ≥ MFX_ERR_NONE then
      (caps ||| HB_QSV_CAP_VUI_VSINFO, [.MFXVideoENCODE_Query])
    else (caps, [.MFXVideoENCODE_Query])
  else (caps, [])

/-- Lines 500-530: the `mfxExtCodingOption` trial. -/
def option1_trial (ans : probe_answers) (version : mfxVersion) (caps : Nat) :
    Nat × List mfx_call :=
  if HB_CHECK_MFX_VERSION version 1 0 then
    if ans.option1_status ≥ MFX_ERR_NONE then
      (caps ||| HB_QSV_CAP_OPTION1, [.MFXVideoENCODE_Query])
    else (caps, [.MFXVideoENCODE_Query])
  else (caps, [])

/-- Lines 566-640: the bits set once the `mfxExtCodingOption2` query succeeded. -/
def option2_caps (pf : Platform) (ans : probe_answers) (version : mfxVersion)
    (info : hb_qsv_info_t) (caps : Nat) : Nat :=
  let c0 := caps ||| HB_QSV_CAP_OPTION2
  let c1 :=
    if qsv_implementation_is_hardware info.implementation
        ∧ qsv_hardware_generation pf.cpu_platform ≥ QSV_G3 then
      (if ans.option2.MBBRC ≠ 0 then c0 ||| HB_QSV_CAP_OPTION2_MBBRC else c0)
    else c0
  let c2 :=
    if qsv_implementation_is_hardware info.implementation
        ∧ qsv_hardware_generation pf.cpu_platform ≥ QSV_G2 then
      (if ans.option2.ExtBRC ≠ 0 then c1 ||| HB_QSV_CAP_OPTION2_EXTBRC else c1)
    else c1
  let c3 :=
    if HB_CHECK_MFX_VERSION version 1 7 then
      (if qsv_implementation_is_hardware info.implementation
          ∧ qsv_hardware_generation pf.cpu_platform ≥ QSV_G3 then
        (if ans.option2.Trellis ≠ 0 then c2 ||| HB_QSV_CAP_OPTION2_TRELLIS else c2)
      else c2)
    else c2
  if HB_CHECK_MFX_VERSION version 1 8 then
    let c4 :=
      if c3 &&& HB_QSV_CAP_B_REF_PYRAMID ≠ 0 then
        (if ans.option2.BRefType ≠ 0 then c3 ||| HB_QSV_CAP_OPTION2_BREFTYPE else c3)
      else c3
    let c5 :=
      if c4 &&& HB_QSV_CAP_RATECONTROL_LA ≠ 0 then
        (if ans.option2.LookAheadDS ≠ 0 then c4 ||| HB_QSV_CAP_OPTION2_LA_DOWNS else c4)
      else c4
    let c6 :=
      if ans.option2.AdaptiveI ≠ 0 ∧ ans.option2.AdaptiveB ≠ 0
      then c5 ||| HB_QSV_CAP_OPTION2_IB_ADAPT else c5
    if ans.option2.NumMbPerSlice ≠ 0 then c6 ||| HB_QSV_CAP_OPTION2_NMPSLICE else c6
  else c3

/-- Lines 532-648: the `mfxExtCodingOption2` trial. -/
def option2_trial (pf : Platform) (ans : probe_answers) (version : mfxVersion)
    (info : hb_qsv_info_t) (caps : Nat) : Nat × List mfx_call :=
  if HB_CHECK_MFX_VERSION version 1 6 ∧ info.codec_id = MFX_CODEC_AVC then
    if ans.option2_status ≥ MFX_ERR_NONE then
      (option2_caps pf ans version info caps, [.MFXVideoENCODE_Query])
    else (caps, [.MFXVideoENCODE_Query])
  else (caps, [])

/-- What `query_capabilities` leaves: its return value, the info, the plugins
loaded in the session and the calls made. -/
structure probe_result where
  ret : Int
  info : hb_qsv_info_t
  loaded : List plugin_uid
  calls : List mfx_call
  deriving DecidableEq, Repr

/-- Lines 280-655, `query_capabilities`, for a session in which `loaded` are the
loaded plugins. -/
def query_capabilities (pf : Platform) (ans : probe_answers) (loaded : List plugin_uid)
    (version : mfxVersion) (info : hb_qsv_info_t) : probe_result :=
  let info0 := { info with capabilities := 0 }
  let lp := hb_qsv_load_plugins ans loaded info0 version
  match lp.list with
  | none => ⟨0, info0, lp.loaded, lp.calls⟩
  | some mfxPluginList =>
    let av := probe_available pf ans version info0
    if av.returned then ⟨0, av.info, lp.loaded, lp.calls ++ av.calls⟩
    else if av.info.available = 0 then ⟨0, av.info, lp.loaded, lp.calls ++ av.calls⟩
    else if av.info.implementation &&& MFX_IMPL_AUDIO ≠ 0 then
      ⟨0, av.info, lp.loaded, lp.calls ++ av.calls⟩
    else
      let c0 := policy_caps pf version av.info av.info.capabilities
      let t1 := la_trial ans version c0
      let t2 := icq_trial ans version t1.1
      let t3 := vsinfo_trial ans version t2.1
      let t4 := option1_trial ans version t3.1
      let t5 := option2_trial pf ans version av.info t4.1
      let ul := hb_qsv_unload_plugins (some mfxPluginList) lp.loaded version
      ⟨0, { av.info with capabilities := t5.1 }, ul.1,
        lp.calls ++ av.calls ++ t1.2 ++ t2.2 ++ t3.2 ++ t4.2 ++ t5.2 ++ ul.2⟩

/-- Whether a call is a `MFXVideoENCODE_Query`. -/
def is_query (c : mfx_call) : Bool :=
  match c with
  | .MFXVideoENCODE_Query => true
  | _ => false

/-- The API version order: `version` is `major.minor` or later. -/
def api_ge (version : mfxVersion) (major minor : Nat) : Bool :=
  version.Major > major ∨ (version.Major = major ∧ version.Minor ≥ minor)

/-! ## Capability registry (`qsv_common.c` lines 31-42, 665-754, 2211-2242) -/

/-- Which of the two static infos of a codec a preferred-implementation pointer
designates. -/
inductive impl_ref where
  | software
  | hardware
  deriving DecidableEq, Repr

/-- The process-wide state of lines 31-42 and the `init_done` flag of line 667,
with the initial values of the source. -/
structure qsv_registry where
  init_done : Bool := false
  hb_qsv_info_avc : Option impl_ref := none
  hb_qsv_info_hevc : Option impl_ref := none
  qsv_software_version : mfxVersion := {}
  qsv_hardware_version : mfxVersion := {}
  qsv_software_info_avc : hb_qsv_info_t :=
    { available := 0, codec_id := MFX_CODEC_AVC, implementation := MFX_IMPL_SOFTWARE }
  qsv_hardware_info_avc : hb_qsv_info_t :=
    { available := 0, codec_id := MFX_CODEC_AVC,
      implementation := MFX_IMPL_HARDWARE_ANY ||| MFX_IMPL_VIA_ANY }
  qsv_software_info_hevc : hb_qsv_info_t :=
    { available := 0, codec_id := MFX_CODEC_HEVC, implementation := MFX_IMPL_SOFTWARE }
  qsv_hardware_info_hevc : hb_qsv_info_t :=
    { available := 0, codec_id := MFX_CODEC_HEVC,
      implementation := MFX_IMPL_HARDWARE_ANY ||| MFX_IMPL_VIA_ANY }
  deriving DecidableEq, Repr

/-- The registry at process start. -/
def initial_registry : qsv_registry := {}

/-- Lines 2211-2242: returns the result and the registry afterwards. -/
def hb_qsv_impl_set_preferred (reg : qsv_registry) (name : Option (List Char)) :
    Int × qsv_registry :=
  match name with
  | none => (-1, reg)
  | some name =>
    if strcasecmp name "software".toList = 0 then
      let reg1 :=
        if reg.qsv_software_info_avc.available ≠ 0
        then { reg with hb_qsv_info_avc := some .software } else reg
      let reg2 :=
        if reg1.qsv_software_info_hevc.available ≠ 0
        then { reg1 with hb_qsv_info_hevc := some .software } else reg1
      (0, reg2)
    else if strcasecmp name "hardware".toList = 0 then
      let reg1 :=
        if reg.qsv_hardware_info_avc.available ≠ 0
        then { reg with hb_qsv_info_avc := some .hardware } else reg
      let reg2 :=
        if reg1.qsv_hardware_info_hevc.available ≠ 0
        then { reg1 with hb_qsv_info_hevc := some .hardware } else reg1
      (0, reg2)
    else (-1, reg)

/-- What the collaborators answer during one run of the body of `hb_qsv_info_init`. -/
structure init_answers where
  /-- Status of `MFXInit`, by the implementation asked for. -/
  MFXInit : Nat → Int
  /-- The version `MFXQueryVersion` reports for the software session. -/
  software_version : mfxVersion
  /-- The version `MFXQueryVersion` reports for the hardware session. -/
  hardware_version : mfxVersion
  /-- Whether `hb_qsv_display_init()` returns a display. -/
  display : Bool
  /-- The answers to the probe of `qsv_software_info_avc`. -/
  software_avc : probe_answers
  /-- The answers to the probe of `qsv_software_info_hevc`. -/
  software_hevc : probe_answers
  /-- The answers to the probe of `qsv_hardware_info_avc`. -/
  hardware_avc : probe_answers
  /-- The answers to the probe of `qsv_hardware_info_hevc`. -/
  hardware_hevc : probe_answers

/-- Lines 687-703: the software part of `hb_qsv_info_init`. -/
def init_software (pf : Platform) (ans : init_answers) (reg : qsv_registry) :
    qsv_registry × List mfx_call :=
  if ans.MFXInit MFX_IMPL_SOFTWARE = MFX_ERR_NONE then
    let reg1 := { reg with qsv_software_version := ans.software_version }
    if HB_CHECK_MFX_VERSION reg1.qsv_software_version HB_QSV_MINVERSION_MAJOR
        pf.minversion_minor then
      let r1 := query_capabilities pf ans.software_avc [] reg1.qsv_software_version
        reg1.qsv_software_info_avc
      let reg2 := { reg1 with qsv_software_info_avc := r1.info }
      let r2 := query_capabilities pf ans.software_hevc r1.loaded reg2.qsv_software_version
        reg2.qsv_software_info_hevc
      let reg3 := { reg2 with qsv_software_info_hevc := r2.info }
      ((hb_qsv_impl_set_preferred reg3 (some "software".toList)).2,
        [.MFXInit MFX_IMPL_SOFTWARE, .MFXQueryVersion] ++ r1.calls ++ r2.calls ++ [.MFXClose])
    else (reg1, [.MFXInit MFX_IMPL_SOFTWARE, .MFXQueryVersion, .MFXClose])
  else (reg, [.MFXInit MFX_IMPL_SOFTWARE])

/-- Result of one pass through the body of the loop of lines 706-750. -/
structure hardware_pass where
  registry : qsv_registry
  calls : List mfx_call
  hw_preference : Nat

/-- Lines 707-748: the body of the `do ... while` loop, entered with `hw_preference`. -/
def init_hardware_pass (pf : Platform) (ans : init_answers) (reg : qsv_registry)
    (hw_preference : Nat) : hardware_pass :=
  if ans.MFXInit (MFX_IMPL_HARDWARE_ANY ||| hw_preference) = MFX_ERR_NONE then
    let calls0 : List mfx_call :=
      [.MFXInit (MFX_IMPL_HARDWARE_ANY ||| hw_preference)]
        ++ (if ans.display then [.MFXVideoCORE_SetHandle] else []) ++ [.MFXQueryVersion]
    let reg1 := { reg with qsv_hardware_version := ans.hardware_version }
    if qsv_hardware_generation pf.cpu_platform ≥ QSV_G1
        ∧ HB_CHECK_MFX_VERSION reg1.qsv_hardware_version HB_QSV_MINVERSION_MAJOR
            pf.minversion_minor then
      let r1 := query_capabilities pf ans.hardware_avc [] reg1.qsv_hardware_version
        reg1.qsv_hardware_info_avc
      let reg2 := { reg1 with qsv_hardware_info_avc :=
        { r1.info with implementation := MFX_IMPL_HARDWARE_ANY ||| hw_preference } }
      let r2 := query_capabilities pf ans.hardware_hevc r1.loaded reg2.qsv_hardware_version
        reg2.qsv_hardware_info_hevc
      let reg3 := { reg2 with qsv_hardware_info_hevc :=
        { r2.info with implementation := MFX_IMPL_HARDWARE_ANY ||| hw_preference } }
      ⟨(hb_qsv_impl_set_preferred reg3 (some "hardware".toList)).2,
        calls0 ++ r1.calls ++ r2.calls ++ [.MFXClose], 0⟩
    else ⟨reg1, calls0 ++ [.MFXClose], 0⟩
  else
    ⟨reg, [.MFXInit (MFX_IMPL_HARDWARE_ANY ||| hw_preference)],
      if ¬ pf.sys_linux ∧ hw_preference = MFX_IMPL_VIA_D3D11 then MFX_IMPL_VIA_D3D9 else 0⟩

/-- Lines 706-750: the `do ... while (hw_preference != 0)` loop, run for at most
`fuel` passes; `none` when the passes do not suffice. -/
def init_hardware_loop (pf : Platform) (ans : init_answers) :
    Nat → qsv_registry → Nat → Option (qsv_registry × List mfx_call)
  | 0, _, _ => none
  | fuel + 1, reg, hw_preference =>
    let pass := init_hardware_pass pf ans reg hw_preference
    if pass.hw_preference ≠ 0 then
      match init_hardware_loop pf ans fuel pass.registry pass.hw_preference with
      | some r => some (r.1, pass.calls ++ r.2)
      | none => none
    else some (pass.registry, pass.calls)

/-- What a call of `hb_qsv_info_init` leaves: its return value, the registry
and the calls made. -/
structure init_result where
  ret : Int
  registry : qsv_registry
  calls : List mfx_call
  deriving DecidableEq, Repr

/-- Lines 665-754, `hb_qsv_info_init`; the loop is given two passes. -/
def hb_qsv_info_init (pf : Platform) (ans : init_answers) (reg : qsv_registry) :
    Option init_result :=
  if reg.init_done then some ⟨0, reg, []⟩
  else
    let reg0 := { reg with init_done := true }
    let sw := init_software pf ans reg0
    match init_hardware_loop pf ans 2 sw.1
        (if pf.sys_linux then MFX_IMPL_VIA_ANY else MFX_IMPL_VIA_D3D11) with
    | some r => some ⟨0, r.1, sw.2 ++ r.2⟩
    | none => none

/-- The info a preferred-implementation pointer of the H.264 encoder points to. -/
def preferred_avc (reg : qsv_registry) : Option hb_qsv_info_t :=
  reg.hb_qsv_info_avc.map (fun r =>
    match r with
    | .software => reg.qsv_software_info_avc
    | .hardware => reg.qsv_hardware_info_avc)

/-- The info a preferred-implementation pointer of the H.265 encoder points to. -/
def preferred_hevc (reg : qsv_registry) : Option hb_qsv_info_t :=
  reg.hb_qsv_info_hevc.map (fun r =>
    match r with
    | .software => reg.qsv_software_info_hevc
    | .hardware => reg.qsv_hardware_info_hevc)

/-- A platform for the examples: Linux, a Haswell processor, minimum API 1.3. -/
def sample_platform : Platform :=
  { cpu_platform := HB_CPU_PLATFORM_INTEL_HSW, sys_linux := true, minversion_minor := 3 }

/-! ## Profile resolution (`qsv_common.c` lines 1638-1681) -/

/-- Modelled from the spec: the encoder identifiers `HB_VCODEC_QSV_*` are macros of
`handbrake/common.h`, not part of the sources; three different identifiers. -/
def HB_VCODEC_QSV_H264 : Int := 0x0000100
/-- Modelled from the spec: see `HB_VCODEC_QSV_H264`. -/
def HB_VCODEC_QSV_H265_8BIT : Int := 0x0000200
/-- Modelled from the spec: see `HB_VCODEC_QSV_H264`. -/
def HB_VCODEC_QSV_H265_10BIT : Int := 0x0000400
/-- Modelled from the spec: see `HB_VCODEC_QSV_H264`. -/
def HB_VCODEC_QSV_H265 : Int := HB_VCODEC_QSV_H265_8BIT

/-- The entry a pointer returned by a lookup on `triplets` points to. -/
def triplet_at (triplets : List hb_triplet_t) (p : Option Nat) : Option hb_triplet_t :=
  p.bind (fun i => triplets[i]?)

/-- The test `(key != NULL && !strcasecmp(key, "auto")) || key == NULL` of line 1672. -/
def key_auto_or_null (key : Option (List Char)) : Bool :=
  match key with
  | some k => strcasecmp k "auto".toList = 0
  | none => true

section profile
variable {F : Type}

/-- Lines 1665-1669: `-1` for a `NULL` profile, else the profile is stored. -/
def profile_store (param : hb_qsv_param_t F) (profile : Option hb_triplet_t) :
    Int × hb_qsv_param_t F :=
  match profile with
  | none => (-1, param)
  | some t => (0, { param with videoParam.mfx.CodecProfile := toU16 t.value })

/-- Lines 1671-1680: the branch taken when no profile is asked for. -/
def profile_default (pf : Platform) (param : hb_qsv_param_t F)
    (profile_key : Option (List Char)) (codec : Int) : Option (Int × hb_qsv_param_t F) :=
  if key_auto_or_null profile_key
      ∧ codec = HB_VCODEC_QSV_H265_10BIT
      ∧ param.videoParam.mfx.CodecId = MFX_CODEC_HEVC
      ∧ qsv_hardware_generation pf.cpu_platform ≥ QSV_G6 then
    match hb_qsv_h265_profiles[1]? with
    | some t => some (0, { param with videoParam.mfx.CodecProfile := toU16 t.value })
    | none => none
  else some (0, param)

/-- Lines 1638-1681, `hb_qsv_profile_parse`, for non-null `param` and `info`:
returns the result and the parameter block afterwards; `none` stands for the
read of `profile->value` through a `NULL` pointer at line 1653. -/
def hb_qsv_profile_parse (pf : Platform) (param : hb_qsv_param_t F) (_info : hb_qsv_info_t)
    (profile_key : Option (List Char)) (codec : Int) : Option (Int × hb_qsv_param_t F) :=
  match profile_key with
  | some key =>
    if ¬ at_end key ∧ strcasecmp key "auto".toList ≠ 0 then
      if param.videoParam.mfx.CodecId = MFX_CODEC_AVC then
        some (profile_store param
          (triplet_at hb_qsv_h264_profiles (hb_triplet4key hb_qsv_h264_profiles key)))
      else if param.videoParam.mfx.CodecId = MFX_CODEC_HEVC then
        match triplet_at hb_qsv_h265_profiles (hb_triplet4key hb_qsv_h265_profiles key) with
        | none => none
        | some profile =>
          if profile.value = MFX_PROFILE_HEVC_MAIN10
              ∧ qsv_hardware_generation pf.cpu_platform < QSV_G6 then
            some (profile_store param none)
          else some (profile_store param (some profile))
      else some (profile_store param none)
    else profile_default pf param profile_key codec
  | none => profile_default pf param profile_key codec

end profile

/-! ## Sample sessions -/

/-- Answers of a session for the codec `codec` in which every query succeeds,
echoes what was asked and reports every `mfxExtCodingOption2` field non-zero. -/
def sample_answers (codec : Nat) : probe_answers :=
  { query_codec := codec, la_rc := MFX_RATECONTROL_LA,
    lai_picstruct := MFX_PICSTRUCT_FIELD_TFF.toNat, lai_rc := MFX_RATECONTROL_LA,
    icq_rc := MFX_RATECONTROL_ICQ,
    option2 := { MBBRC := 1, ExtBRC := 1, Trellis := 1, BRefType := 1, AdaptiveI := 1,
                 AdaptiveB := 1, LookAheadDS := 1, NumMbPerSlice := 1 } }

/-- The preference rule of the registry in the words of the specification:
hardware if available, else software if available, else `NULL`. -/
def preferred_rule (hardware software : hb_qsv_info_t) : Option impl_ref :=
  if hardware.available ≠ 0 then some .hardware
  else if software.available ≠ 0 then some .software
  else none

/-- Answers of a bootstrap in which software and hardware sessions of API 1.8 both
open and confirm everything, except that the hardware HEVC encoder does not
initialise. -/
def sample_init_answers : init_answers :=
  { MFXInit := fun _ => MFX_ERR_NONE, software_version := ⟨1, 8⟩, hardware_version := ⟨1, 8⟩,
    display := true, software_avc := sample_answers MFX_CODEC_AVC,
    software_hevc := sample_answers MFX_CODEC_HEVC,
    hardware_avc := sample_answers MFX_CODEC_AVC,
    hardware_hevc := { sample_answers MFX_CODEC_HEVC with init_status := -1 } }

/-! ## Level resolution (`qsv_common.c` lines 1683-1723) -/

/-- Modelled from the spec: the macro `FFMIN(a, b)` of libavutil, not part of the
sources, `((a) > (b) ? (b) : (a))`. -/
def FFMIN (a b : Int) : Int := if a > b then b else a

section level
variable {F : Type}

/-- Lines 1688-1700: the `switch` that looks the key up in the table of the codec. -/
def level_lookup (param : hb_qsv_param_t F) (key : List Char) : Option hb_triplet_t :=
  if param.videoParam.mfx.CodecId = MFX_CODEC_AVC then
    triplet_at hb_qsv_h264_levels (hb_triplet4key hb_qsv_h264_levels key)
  else if param.videoParam.mfx.CodecId = MFX_CODEC_HEVC then
    triplet_at hb_qsv_h265_levels (hb_triplet4key hb_qsv_h265_levels key)
  else none

/-- Lines 1683-1723, `hb_qsv_level_parse`, for non-null `param` and `info`:
returns the result and the parameter block afterwards. -/
def hb_qsv_level_parse (param : hb_qsv_param_t F) (info : hb_qsv_info_t)
    (level_key : Option (List Char)) : Int × hb_qsv_param_t F :=
  match level_key with
  | some key =>
    if ¬ at_end key ∧ strcasecmp key "auto".toList ≠ 0 then
      match level_lookup param key with
      | none => (-1, param)
      | some level =>
        if param.videoParam.mfx.CodecId = MFX_CODEC_AVC then
          if has_cap info HB_QSV_CAP_MSDK_API_1_6 then
            (0, { param with
              videoParam.mfx.CodecLevel := toU16 (FFMIN MFX_LEVEL_AVC_52 level.value) })
          else
            (0, { param with
              videoParam.mfx.CodecLevel := toU16 (FFMIN MFX_LEVEL_AVC_51 level.value) })
        else (0, { param with videoParam.mfx.CodecLevel := toU16 level.value })
    else (0, param)
  | none => (0, param)

end level

/-! ## Defaults and presets (`qsv_common.c` lines 1812-2061) -/

/-- Lines 2044, 2048 and 2052, `ExtParam[NumExtParam++] = block`. -/
def attach_ext_buffer (videoParam : mfxVideoParam) (block : ext_buffer) : mfxVideoParam :=
  { videoParam with
    ExtParam := videoParam.ExtParam.take videoParam.NumExtParam ++ [block]
    NumExtParam := toU16 (videoParam.NumExtParam + 1) }

section defaults
variable {F : Type}

/-- Lines 1937-1967: `param->codingOption` after the `memset` and the assignments. -/
def default_codingOption (env : Env F) : mfxExtCodingOption :=
  { Header := { BufferId := MFX_EXTBUFF_CODING_OPTION, BufferSz := env.sizeof_mfxExtCodingOption }
    MECostType := 0
    MESearchType := 0
    MVSearchWindow := { x := 0, y := 0 }
    RefPicListReordering := 0
    IntraPredBlockSize := 0
    InterPredBlockSize := 0
    MVPrecision := 0
    EndOfSequence := toU16 MFX_CODINGOPTION_UNKNOWN
    RateDistortionOpt := toU16 MFX_CODINGOPTION_UNKNOWN
    ResetRefList := toU16 MFX_CODINGOPTION_UNKNOWN
    MaxDecFrameBuffering := 0
    AUDelimiter := toU16 MFX_CODINGOPTION_OFF
    SingleSeiNalUnit := toU16 MFX_CODINGOPTION_UNKNOWN
    PicTimingSEI := toU16 MFX_CODINGOPTION_OFF
    VuiNalHrdParameters := toU16 MFX_CODINGOPTION_UNKNOWN
    FramePicture := toU16 MFX_CODINGOPTION_UNKNOWN
    CAVLC := toU16 MFX_CODINGOPTION_OFF
    RefPicMarkRep := toU16 MFX_CODINGOPTION_UNKNOWN
    FieldOutput := toU16 MFX_CODINGOPTION_UNKNOWN
    NalHrdConformance := toU16 MFX_CODINGOPTION_UNKNOWN
    VuiVclHrdParameters := toU16 MFX_CODINGOPTION_UNKNOWN
    ViewOutput := toU16 MFX_CODINGOPTION_UNKNOWN
    RecoveryPointSEI := toU16 MFX_CODINGOPTION_UNKNOWN }

/-- Lines 1970-1978: `param->videoSignalInfo` after the `memset` and the assignments. -/
def default_videoSignalInfo (env : Env F) : mfxExtVideoSignalInfo :=
  { Header := { BufferId := MFX_EXTBUFF_VIDEO_SIGNAL_INFO,
                BufferSz := env.sizeof_mfxExtVideoSignalInfo }
    VideoFormat := 5
    VideoFullRange := 0
    ColourDescriptionPresent := 0
    ColourPrimaries := 2
    TransferCharacteristics := 2
    MatrixCoefficients := 2 }

/-- Lines 1981-2000: `param->codingOption2` after the `memset` and the assignments. -/
def default_codingOption2 (env : Env F) : mfxExtCodingOption2 :=
  { Header := { BufferId := MFX_EXTBUFF_CODING_OPTION2,
                BufferSz := env.sizeof_mfxExtCodingOption2 }
    IntRefType := 0
    IntRefCycleSize := 2
    IntRefQPDelta := 0
    MaxFrameSize := 0
    BitrateLimit := toU16 MFX_CODINGOPTION_ON
    MBBRC := toU16 MFX_CODINGOPTION_ON
    ExtBRC := toU16 MFX_CODINGOPTION_OFF
    LookAheadDepth := 40
    Trellis := toU16 MFX_TRELLIS_OFF
    RepeatPPS := toU16 MFX_CODINGOPTION_ON
    BRefType := toU16 MFX_B_REF_UNKNOWN
    AdaptiveI := toU16 MFX_CODINGOPTION_OFF
    AdaptiveB := toU16 MFX_CODINGOPTION_OFF
    LookAheadDS := toU16 MFX_LOOKAHEAD_DS_OFF
    NumMbPerSlice := 0 }

/-- Lines 2017-2041: `*videoParam` after the `memset` and the assignments, before
the extension blocks are attached. -/
def default_videoParam : mfxVideoParam :=
  { Protected := 0
    NumExtParam := 0
    IOPattern := MFX_IOPATTERN_IN_SYSTEM_MEMORY
    mfx := { TargetUsage := toU16 MFX_TARGETUSAGE_2
             GopOptFlag := MFX_GOP_CLOSED
             NumThread := 0
             EncodedOrder := 0
             IdrInterval := 0
             NumSlice := 0
             NumRefFrame := 0
             GopPicSize := 0
             GopRefDist := 0
             BRCParamMultiplier := 0
             FrameInfo := { PicStruct := toU16 MFX_PICSTRUCT_PROGRESSIVE } }
    AsyncDepth := HB_QSV_ASYNC_DEPTH_DEFAULT
    ExtParam := [] }

/-- Lines 2042-2053: the extension blocks whose capability bit is set are attached. -/
def attach_supported (info : hb_qsv_info_t) (videoParam : mfxVideoParam) : mfxVideoParam :=
  let v1 :=
    if has_cap info HB_QSV_CAP_VUI_VSINFO then attach_ext_buffer videoParam .videoSignalInfo
    else videoParam
  let v2 := if has_cap info HB_QSV_CAP_OPTION1 then attach_ext_buffer v1 .codingOption else v1
  if has_cap info HB_QSV_CAP_OPTION2 then attach_ext_buffer v2 .codingOption2 else v2

/-- Lines 1931-2061, `hb_qsv_param_default`: returns the result and the parameter
block afterwards; `param->videoParam` is the structure `videoParam` points to.
The `float` constant `.0` is the conversion of 0. -/
def hb_qsv_param_default (env : Env F) (param : Option (hb_qsv_param_t F))
    (videoParam : Option mfxVideoParam) (info : Option hb_qsv_info_t) :
    Int × Option (hb_qsv_param_t F) :=
  match param, videoParam, info with
  | some p, some _, some inf =>
    (0, some { p with
      codingOption := default_codingOption env
      videoSignalInfo := default_videoSignalInfo env
      codingOption2 := default_codingOption2 env
      gop := { p.gop with
        b_pyramid := -1, gop_pic_size := -1, gop_ref_dist := -1, int_ref_cycle_size := -1 }
      rc := { p.rc with
        icq := 1, lookahead := 1, cqp_offsets0 := 0, cqp_offsets1 := 2, cqp_offsets2 := 4,
        vbv_max_bitrate := 0, vbv_buffer_size := 0, vbv_buffer_init := env.float_of_int 0 }
      videoParam := attach_supported inf default_videoParam })
  | _, _, _ => (-1, param)

/-- Lines 1829-1928 of `hb_qsv_param_default_preset`: the preset applied to the
defaults. -/
def preset_apply (pf : Platform) (param : hb_qsv_param_t F) (preset : Option (List Char)) :
    Int × hb_qsv_param_t F :=
  match preset with
  | none => (0, param)
  | some name =>
    if at_end name then (0, param)
    else if strcasecmp name "quality".toList = 0 then (0, param)
    else if strcasecmp name "balanced".toList = 0 then
      if qsv_hardware_generation pf.cpu_platform ≥ QSV_G3 then
        (0, { param with
          rc.lookahead := 0
          videoParam.mfx.NumRefFrame := 1
          videoParam.mfx.TargetUsage := toU16 MFX_TARGETUSAGE_4 })
      else (0, param)
    else if strcasecmp name "speed".toList = 0 then
      if qsv_hardware_generation pf.cpu_platform ≥ QSV_G3 then
        (0, { param with
          rc.lookahead := 0
          videoParam.mfx.NumRefFrame := 1
          videoParam.mfx.TargetUsage := toU16 MFX_TARGETUSAGE_6 })
      else (0, { param with videoParam.mfx.TargetUsage := toU16 MFX_TARGETUSAGE_4 })
    else (-1, param)

/-- Lines 1812-1929, `hb_qsv_param_default_preset`: returns the result and the
parameter block afterwards. -/
def hb_qsv_param_default_preset (pf : Platform) (env : Env F)
    (param : Option (hb_qsv_param_t F)) (videoParam : Option mfxVideoParam)
    (info : Option hb_qsv_info_t) (preset : Option (List Char)) :
    Int × Option (hb_qsv_param_t F) :=
  match param, videoParam, info with
  | some _, some _, some _ =>
    let r := hb_qsv_param_default env param videoParam info
    if r.1 ≠ 0 then r
    else
      match r.2 with
      | some p => ((preset_apply pf p preset).1, some (preset_apply pf p preset).2)
      | none => r
  | _, _, _ => (-1, param)

end defaults

/-! ## Surface pool and device handle (`qsv_common.c` lines 2299, 2525-2696)

The frames context is shared with the encoder and with the hardware runtime,
which change busy counters and `Locked` flags while the acquisition polls.
What the acquisition sees at the start of its `k`-th pass over the two pools
is given as `world k`. -/

/-- The two pools of `hb_enc_qsv_frames_ctx`. -/
inductive pool_id where
  | pool1
  | pool2
  deriving DecidableEq, Repr

/-- The address of entry `index` of an array (`mids`, `surfaces`) of a pool. -/
structure slot_ref where
  pool : pool_id
  index : Nat
  deriving DecidableEq, Repr

/-- The parts of `hb_enc_qsv_frames_ctx` and of the two hardware frames contexts
that `hb_qsv_get_free_surface_from_pool` reads and writes: the busy counters
`pool[]` and `pool2[]`, and `surfaces[i].Data.Locked` of either context. -/
structure EncQSVFramesContext where
  pool : List Int
  pool2 : List Int
  Locked : List Nat
  Locked2 : List Nat
  deriving DecidableEq, Repr

/-- Outcome of one `for` loop over a pool: the index at which it returns, no
return, or a read beyond the end of an array. -/
inductive scan_outcome where
  | found (i : Nat)
  | not_found
  | invalid_read
  deriving DecidableEq, Repr

/-- The `for` loops of lines 2546-2560 and 2562-2576, from index `i`, for
`remaining` more iterations. -/
def scan_pool_loop (pool : List Int) (locked : List Nat) : Nat → Nat → scan_outcome
  | 0, _ => .not_found
  | remaining + 1, i =>
    match pool[i]? with
    | none => .invalid_read
    | some busy =>
      if busy = 0 then
        match locked[i]? with
        | none => .invalid_read
        | some l =>
          if l = 0 then .found i
          else scan_pool_loop pool locked remaining (i + 1)
      else scan_pool_loop pool locked remaining (i + 1)

/-- The `for (int i = 0; i < pool_size; i++)` loop over one pool. -/
def scan_pool (pool : List Int) (locked : List Nat) (pool_size : Int) : scan_outcome :=
  scan_pool_loop pool locked pool_size.toNat 0

/-- What the acquisition hands out: `*out_mid`, `*out_surface`, and the frames
context after `ff_qsv_atomic_inc`. -/
structure acquisition where
  out_mid : slot_ref
  out_surface : slot_ref
  ctx : EncQSVFramesContext
  deriving DecidableEq, Repr

/-- Outcome of one pass of the `while` loop (lines 2546-2576). -/
inductive pass_outcome where
  | acquired (a : acquisition)
  | none_free
  | invalid_read
  deriving DecidableEq, Repr

/-- Lines 2546-2576: one pass over pool 1, then pool 2. -/
def scan_pass (ctx : EncQSVFramesContext) (pool_size : Int) : pass_outcome :=
  match scan_pool ctx.pool ctx.Locked pool_size with
  | .found i =>
    .acquired ⟨⟨.pool1, i⟩, ⟨.pool1, i⟩,
      { ctx with pool := ctx.pool.set i (ctx.pool.getD i 0 + 1) }⟩
  | .invalid_read => .invalid_read
  | .not_found =>
    match scan_pool ctx.pool2 ctx.Locked2 pool_size with
    | .found i =>
      .acquired ⟨⟨.pool2, i⟩, ⟨.pool2, i⟩,
        { ctx with pool2 := ctx.pool2.set i (ctx.pool2.getD i 0 + 1) }⟩
    | .invalid_read => .invalid_read
    | .not_found => .none_free

/-- Outcome of `hb_qsv_get_free_surface_from_pool`: it returns in pass `pass`
after `sleeps` calls of `hb_qsv_sleep`, or reads beyond an array, or has not
returned within the passes given. -/
inductive acquire_outcome where
  | returned (pass sleeps : Nat) (a : acquisition)
  | invalid_read
  | no_return
  deriving DecidableEq, Repr

/-- The `while (1)` loop of lines 2538-2579, for at most `fuel` passes, entered
at pass `pass` with the local `count`. -/
def get_free_surface_loop (world : Nat → EncQSVFramesContext) (pool_size : Int) :
    Nat → Nat → Nat → Nat → acquire_outcome
  | 0, _, _, _ => .no_return
  | fuel + 1, pass, count, sleeps =>
    let count1 := if count > 30 then 0 else count
    let sleeps1 := if count > 30 then sleeps + 1 else sleeps
    match scan_pass (world pass) pool_size with
    | .acquired a => .returned pass sleeps1 a
    | .invalid_read => .invalid_read
    | .none_free => get_free_surface_loop world pool_size fuel (pass + 1) (count1 + 1) sleeps1

/-- Lines 2525-2580, `hb_qsv_get_free_surface_from_pool`, run for at most `fuel`
passes. -/
def hb_qsv_get_free_surface_from_pool (world : Nat → EncQSVFramesContext) (pool_size : Int)
    (fuel : Nat) : acquire_outcome :=
  get_free_surface_loop world pool_size fuel 0 0 0

/-- Modelled from the spec: the handle types of the Media SDK (`mfxcommon.h`, not
part of the sources) that `hb_qsv_copy_frame` names. -/
inductive mfxHandleType where
  | MFX_HANDLE_D3D9_DEVICE_MANAGER
  | MFX_HANDLE_D3D11_DEVICE
  | MFX_HANDLE_VA_DISPLAY
  deriving DecidableEq, Repr

/-- The array `handle_types` of lines 2609-2613. -/
def handle_types : List mfxHandleType :=
  [.MFX_HANDLE_VA_DISPLAY, .MFX_HANDLE_D3D11_DEVICE, .MFX_HANDLE_D3D9_DEVICE_MANAGER]

/-- The calls `hb_qsv_copy_frame` makes after the surface is acquired. -/
inductive copy_call where
  | MFXVideoCORE_GetHandle (type : mfxHandleType)
  | lock_device
  | IDirect3DDevice9_StretchRect
  | unlock_device
  | ID3D11Device_GetImmediateContext
  | ID3D11DeviceContext_CopySubresourceRegion
  deriving DecidableEq, Repr

/-- What the collaborators answer during one call of `hb_qsv_copy_frame`. -/
structure copy_answers where
  /-- Whether `av_frame_alloc()` returns a frame (line 2589). -/
  av_frame_alloc_ok : Bool := true
  /-- The frames context as seen at each pass of the acquisition. -/
  world : Nat → EncQSVFramesContext
  /-- The macro `HB_POOL_SURFACE_SIZE` of `handbrake/qsv_common.h`. -/
  HB_POOL_SURFACE_SIZE : Int
  /-- Status of `MFXVideoCORE_GetHandle` and the handle it stores (`none` is `NULL`),
  by the handle type asked for (line 2625). -/
  MFXVideoCORE_GetHandle : mfxHandleType → Int × Option Nat
  /-- The `HRESULT` of `lock_device` (line 2647). -/
  lock_device : Int := 0
  /-- The `HRESULT` of `IDirect3DDevice9_StretchRect` (line 2661). -/
  StretchRect : Int := 0
  /-- The `HRESULT` of `unlock_device` (line 2667). -/
  unlock_device : Int := 0
  /-- Whether `ID3D11Device_GetImmediateContext` yields a context (line 2678). -/
  device_context : Bool := true

/-- Modelled from the spec: the macro `FAILED(hr)` of the Windows headers, not part
of the sources, `((HRESULT)(hr) < 0)`. -/
def FAILED (hr : Int) : Bool := hr < 0

/-- Result of the loop of lines 2623-2632: `device_manager_handle`, the local
`handle_type` (`none` while it has not been assigned) and the calls made. -/
structure handle_result where
  device_manager_handle : Option Nat
  handle_type : Option mfxHandleType
  calls : List copy_call
  deriving DecidableEq, Repr

/-- Lines 2623-2632: the loop over the handle types still to be asked for. -/
def get_handle_loop (ans : copy_answers) : List mfxHandleType → handle_result
  | [] => ⟨none, none, []⟩
  | type :: rest =>
    if (ans.MFXVideoCORE_GetHandle type).1 = MFX_ERR_NONE then
      ⟨(ans.MFXVideoCORE_GetHandle type).2, some type, [.MFXVideoCORE_GetHandle type]⟩
    else
      let r := get_handle_loop ans rest
      ⟨r.device_manager_handle, r.handle_type, .MFXVideoCORE_GetHandle type :: r.calls⟩

/-- What a call of `hb_qsv_copy_frame` that returns leaves: whether the output
buffer has a frame, `out->qsv_details.frame->data[3]` (`none` is 0), the global
`device_manager_handle`, the surface acquired, and the calls made after the
acquisition. -/
structure copy_result where
  frame : Bool
  data3 : Option slot_ref
  device_manager_handle : Option Nat
  acquired : Option acquisition
  calls : List copy_call
  deriving DecidableEq, Repr

/-- Outcome of `hb_qsv_copy_frame`: it returns, or the acquisition has not
returned within the passes given, or the behaviour is undefined (a read beyond
an array, a read of the local `handle_type` before any assignment). -/
inductive copy_outcome where
  | returned (r : copy_result)
  | no_return
  | undefined
  deriving DecidableEq, Repr

/-- Lines 2642-2695: the copy into the acquired surface, by the handle type. -/
def copy_to_surface (ans : copy_answers) (handle : Option Nat) (handle_type : mfxHandleType)
    (a : acquisition) (calls : List copy_call) : copy_result :=
  if handle_type = .MFX_HANDLE_D3D9_DEVICE_MANAGER then
    if FAILED ans.lock_device then ⟨true, none, handle, some a, calls ++ [.lock_device]⟩
    else if FAILED ans.StretchRect then
      ⟨true, none, handle, some a, calls ++ [.lock_device, .IDirect3DDevice9_StretchRect]⟩
    else if FAILED ans.unlock_device then
      ⟨true, none, handle, some a,
        calls ++ [.lock_device, .IDirect3DDevice9_StretchRect, .unlock_device]⟩
    else
      ⟨true, some a.out_surface, handle, some a,
        calls ++ [.lock_device, .IDirect3DDevice9_StretchRect, .unlock_device]⟩
  else if ¬ ans.device_context then
    ⟨true, none, handle, some a, calls ++ [.ID3D11Device_GetImmediateContext]⟩
  else
    ⟨true, some a.out_surface, handle, some a,
      calls ++ [.ID3D11Device_GetImmediateContext, .ID3D11DeviceContext_CopySubresourceRegion]⟩

/-- Lines 2582-2696, `hb_qsv_copy_frame`, entered with the global
`device_manager_handle`; the acquisition is given `fuel` passes. -/
def hb_qsv_copy_frame (ans : copy_answers) (device_manager_handle : Option Nat) (fuel : Nat) :
    copy_outcome :=
  if ¬ ans.av_frame_alloc_ok then .returned ⟨false, none, device_manager_handle, none, []⟩
  else
    match hb_qsv_get_free_surface_from_pool ans.world (ans.HB_POOL_SURFACE_SIZE - 2) fuel with
    | .no_return => .no_return
    | .invalid_read => .undefined
    | .returned _ _ a =>
      match device_manager_handle with
      | none =>
        let h := get_handle_loop ans handle_types
        match h.device_manager_handle, h.handle_type with
        | some handle, some handle_type =>
          .returned (copy_to_surface ans (some handle) handle_type a h.calls)
        | _, _ => .returned ⟨true, none, h.device_manager_handle, some a, h.calls⟩
      | some _ => .undefined

/-- A frames context for the examples: in pool 1 the slots 0 and 1 are busy and
the surface of slot 2 is locked; pool 2 is free from slot 1 on. -/
def sample_frames_ctx : EncQSVFramesContext :=
  { pool := [1, 1, 0, 0, 0, 0], pool2 := [1, 0, 0, 0, 0, 0],
    Locked := [0, 0, 1, 0, 0, 0], Locked2 := [0, 0, 0, 0, 0, 0] }

/-- A frames context in which the first four slots of both pools are busy. -/
def busy_frames_ctx : EncQSVFramesContext :=
  { pool := [1, 1, 1, 1, 0, 0], pool2 := [1, 1, 1, 1, 0, 0],
    Locked := [0, 0, 0, 0, 0, 0], Locked2 := [0, 0, 0, 0, 0, 0] }

/-- A platform for the examples: Linux, a Kaby Lake processor (generation G6),
minimum API 1.3. -/
def sample_platform_kbl : Platform :=
  { cpu_platform := HB_CPU_PLATFORM_INTEL_KBL, sys_linux := true, minversion_minor := 3 }

/-- A parameter block for the HEVC encoder, every other field zero. -/
def sample_param_hevc : hb_qsv_param_t SymFloat :=
  { sample_param with videoParam.mfx.CodecId := MFX_CODEC_HEVC }

/-- A parameter block for the AVC encoder, every other field zero. -/
def sample_param_avc : hb_qsv_param_t SymFloat :=
  { sample_param with videoParam.mfx.CodecId := MFX_CODEC_AVC }

/-- The capability bit of an extension block, in the words of the specification:
a block may be attached only when this bit is set. -/
def ext_buffer_cap : ext_buffer → Nat
  | .videoSignalInfo => HB_QSV_CAP_VUI_VSINFO
  | .codingOption => HB_QSV_CAP_OPTION1
  | .codingOption2 => HB_QSV_CAP_OPTION2

/-- A parameter block in which no field is zero and extension blocks are attached
in an order `hb_qsv_param_default` never produces. -/
def sample_param_dirty : hb_qsv_param_t SymFloat :=
  { codingOption := { CAVLC := 7, AUDelimiter := 7, MaxDecFrameBuffering := 7 }
    codingOption2 := { LookAheadDepth := 7, Trellis := 7, IntRefCycleSize := 7 }
    videoSignalInfo := { VideoFormat := 7, ColourPrimaries := 7 }
    gop := { b_pyramid := 7, gop_pic_size := 7, gop_ref_dist := 7, int_ref_cycle_size := 7 }
    rc := { icq := 7, lookahead := 7, cqp_offsets0 := 7, cqp_offsets1 := 7, cqp_offsets2 := 7,
            vbv_max_bitrate := 7, vbv_buffer_size := 7, vbv_buffer_init := SymFloat.of_int 7 }
    videoParam := { mfx := { TargetUsage := 7, NumRefFrame := 7, CodecId := MFX_CODEC_AVC },
                    NumExtParam := 2, ExtParam := [.codingOption2, .codingOption] } }

/-- In the words of the specification: slot `i` of a pool is free when its busy
flag is clear and its surface is not locked by the hardware runtime. -/
def slot_free (busy : List Int) (locked : List Nat) (i : Nat) : Prop :=
  busy[i]? = some 0 ∧ locked[i]? = some 0

/-- None of the slots below `n` is free. -/
def no_free_slot (busy : List Int) (locked : List Nat) (n : Nat) : Prop :=
  ∀ i, i < n → ¬ slot_free busy locked i

/-- Slot `i` is the lowest free slot below `n`. -/
def lowest_free_slot (busy : List Int) (locked : List Nat) (n i : Nat) : Prop :=
  i < n ∧ slot_free busy locked i ∧ no_free_slot busy locked i

/-- The arrays of the frames context have at least `n` entries each. -/
def pools_hold (ctx : EncQSVFramesContext) (n : Nat) : Prop :=
  n ≤ ctx.pool.length ∧ n ≤ ctx.pool2.length ∧ n ≤ ctx.Locked.length ∧ n ≤ ctx.Locked2.length

/-- Answers for the examples: the session has no VA display, yields the handle 7
for a Direct3D 11 device, and would yield the handle 9 for a Direct3D 9 device
manager. -/
def sample_copy_answers : copy_answers :=
  { world := fun _ => sample_frames_ctx,
    HB_POOL_SURFACE_SIZE := 6,
    MFXVideoCORE_GetHandle := fun t =>
      match t with
      | .MFX_HANDLE_VA_DISPLAY => (-3, none)
      | .MFX_HANDLE_D3D11_DEVICE => (0, some 7)
      | .MFX_HANDLE_D3D9_DEVICE_MANAGER => (0, some 9) }

/-- Answers for the examples: the session yields no handle of any type. -/
def sample_copy_answers_none : copy_answers :=
  { world := fun _ => sample_frames_ctx,
    HB_POOL_SURFACE_SIZE := 6,
    MFXVideoCORE_GetHandle := fun _ => (-3, some 5) }

/-! ## Encoder enablement (`qsv_common.c` lines 159-185) -/

/-- The test `info != NULL && info->available` on a preferred-implementation
pointer, as the `int` 0 or 1 the C expression yields. -/
def preferred_available (info : Option hb_qsv_info_t) : Int :=
  match info with
  | some i => if i.available ≠ 0 then 1 else 0
  | none => 0

/-- Lines 171-185, `hb_qsv_video_encoder_is_enabled`; the case of
`HB_VCODEC_QSV_H265_10BIT` falls through to that of `HB_VCODEC_QSV_H265` when the
generation is G6 or later. -/
def hb_qsv_video_encoder_is_enabled (pf : Platform) (reg : qsv_registry) (encoder : Int) : Int :=
  if encoder = HB_VCODEC_QSV_H264 then preferred_available (preferred_avc reg)
  else if encoder = HB_VCODEC_QSV_H265_10BIT then
    if qsv_hardware_generation pf.cpu_platform < QSV_G6 then 0
    else preferred_available (preferred_hevc reg)
  else if encoder = HB_VCODEC_QSV_H265 then preferred_available (preferred_hevc reg)
  else 0

/-- Lines 159-169, `hb_qsv_available`; `hardware_disabled` is the answer of
`is_hardware_disabled()`, which is not part of the sources. -/
def hb_qsv_available (pf : Platform) (reg : qsv_registry) (hardware_disabled : Bool) : Int :=
  if hardware_disabled then 0
  else
    Int.lor
      (Int.lor
        (if hb_qsv_video_encoder_is_enabled pf reg HB_VCODEC_QSV_H264 ≠ 0
          then HB_VCODEC_QSV_H264 else 0)
        (if hb_qsv_video_encoder_is_enabled pf reg HB_VCODEC_QSV_H265 ≠ 0
          then HB_VCODEC_QSV_H265 else 0))
      (if hb_qsv_video_encoder_is_enabled pf reg HB_VCODEC_QSV_H265_10BIT ≠ 0
        then HB_VCODEC_QSV_H265_10BIT else 0)

/-! ## Notions of the specification used by the later theorems -/

/-- In the words of the specification: applying a step twice is the same as
applying it once, both in the code it returns and in the state it leaves. -/
def idempotent_step {S P : Type} (f : P → S × P) : Prop :=
  ∀ p, f (f p).2 = f p

/-- A registry for the examples: the hardware HEVC encoder is available and
preferred, no AVC encoder is. -/
def sample_registry_hevc : qsv_registry :=
  { init_done := true, hb_qsv_info_hevc := some .hardware,
    qsv_hardware_info_hevc :=
      { available := 1, codec_id := MFX_CODEC_HEVC,
        implementation := MFX_IMPL_HARDWARE_ANY ||| MFX_IMPL_VIA_ANY } }

/-- Answers for the examples: the session yields only a Direct3D 9 device manager
(handle 9), the device locks, and the blit fails. -/
def sample_copy_answers_d3d9 : copy_answers :=
  { world := fun _ => sample_frames_ctx,
    HB_POOL_SURFACE_SIZE := 6,
    MFXVideoCORE_GetHandle := fun t =>
      match t with
      | .MFX_HANDLE_VA_DISPLAY => (-3, none)
      | .MFX_HANDLE_D3D11_DEVICE => (-3, none)
      | .MFX_HANDLE_D3D9_DEVICE_MANAGER => (0, some 9),
    StretchRect := -1 }

/-- Answers of a session for AVC in which the queries for `mfxExtVideoSignalInfo`
and `mfxExtCodingOption` return the warning 5 (a positive status) and the query
for `mfxExtCodingOption2` returns the error -3. -/
def sample_answers_warning : probe_answers :=
  { sample_answers MFX_CODEC_AVC with
    vsinfo_status := 5, option1_status := 5, option2_status := -3 }

/-! ## Theorems: C strings -/

theorem toNat_ofNat_small (n : Nat) (h : n < 55296) : (Char.ofNat n).toNat = n := by
  have hv : n.isValidChar := Or.inl h
  simp [Char.ofNat, hv, Char.toNat, Char.ofNatAux, UInt32.toNat]

theorem toNat_injective {c d : Char} (h : c.toNat = d.toNat) : c = d := by
  rw [← Char.ofNat_toNat c, ← Char.ofNat_toNat d, h]

theorem toNat_NUL : NUL.toNat = 0 := by decide

theorem toNat_tolower (c : Char) :
    (tolower c).toNat = if 65 ≤ c.toNat ∧ c.toNat ≤ 90 then c.toNat + 32 else c.toNat := by
  unfold tolower
  split
  · rename_i h
    exact toNat_ofNat_small _ (by omega)
  · rfl

theorem tolower_idem (c : Char) : tolower (tolower c) = tolower c := by
  apply toNat_injective
  rw [toNat_tolower (tolower c), toNat_tolower c]
  split_ifs <;> omega

theorem tolower_eq_NUL (c : Char) : tolower c = NUL ↔ c = NUL := by
  constructor
  · intro h
    apply toNat_injective
    have := congrArg Char.toNat h
    rw [toNat_tolower, toNat_NUL] at this
    rw [toNat_NUL]
    split_ifs at this
    omega
  · intro h
    subst h
    decide

theorem tolower_NUL : tolower NUL = NUL := by decide

theorem toNat_tolower_eq_zero (c : Char) : (tolower c).toNat = 0 ↔ c = NUL := by
  rw [← tolower_eq_NUL]
  constructor
  · intro h
    exact toNat_injective (by rw [h, toNat_NUL])
  · intro h
    rw [h, toNat_NUL]

theorem toNat_sub_eq_zero (c d : Char) : ((c.toNat : Int) - (d.toNat : Int) = 0) ↔ c = d := by
  constructor
  · intro h
    exact toNat_injective (by omega)
  · intro h
    subst h
    omega

/-- Comparing the canonical form of a string gives the same result as comparing the string. -/
theorem strcasecmp_cfold (a c : List Char) : strcasecmp (cfold a) c = strcasecmp a c := by
  induction a generalizing c with
  | nil => rfl
  | cons a0 as ih =>
    by_cases h0 : a0 = NUL
    · subst h0
      cases c with
      | nil => simp [cfold, strcasecmp, tolower_NUL, toNat_NUL]
      | cons c0 cs =>
        simp only [cfold, if_true, strcasecmp, tolower_NUL, toNat_NUL]
        by_cases hc : NUL = tolower c0
        · simp [← hc, toNat_NUL]
        · simp [hc]
    · cases c with
      | nil => simp [cfold, h0, strcasecmp, tolower_idem]
      | cons c0 cs =>
        simp only [cfold, h0, if_false, strcasecmp, tolower_idem, tolower_eq_NUL, ih]

/-- Two strings compare equal exactly when their canonical forms coincide. -/
theorem strcasecmp_eq_zero_iff (a b : List Char) : strcasecmp a b = 0 ↔ cfold a = cfold b := by
  induction a generalizing b with
  | nil =>
    cases b with
    | nil => simp [strcasecmp, cfold]
    | cons b0 bs =>
      by_cases hb : b0 = NUL
      · simp [strcasecmp, cfold, hb, tolower_NUL, toNat_NUL]
      · have : (tolower b0).toNat ≠ 0 := fun h => hb ((toNat_tolower_eq_zero b0).1 h)
        simp [strcasecmp, cfold, hb]
        omega
  | cons a0 as ih =>
    cases b with
    | nil =>
      by_cases ha : a0 = NUL
      · simp [strcasecmp, cfold, ha, tolower_NUL, toNat_NUL]
      · have : (tolower a0).toNat ≠ 0 := fun h => ha ((toNat_tolower_eq_zero a0).1 h)
        simp [strcasecmp, cfold, ha]
        omega
    | cons b0 bs =>
      simp only [strcasecmp, cfold]
      by_cases hab : tolower a0 = tolower b0
      · by_cases ha : a0 = NUL
        · have hb : b0 = NUL := by
            rw [← tolower_eq_NUL, ← hab, tolower_eq_NUL]; exact ha
          simp [hab, ha, hb]
        · have hb : ¬ b0 = NUL := by
            rw [← tolower_eq_NUL, ← hab, tolower_eq_NUL]; exact ha
          simp [hab, ha, hb, ih]
      · have hne : ((tolower a0).toNat : Int) - ((tolower b0).toNat : Int) ≠ 0 :=
          fun h => hab ((toNat_sub_eq_zero _ _).1 h)
        rw [if_pos hab]
        constructor
        · intro h
          exact absurd h hne
        · intro h
          exfalso
          by_cases ha : a0 = NUL <;> by_cases hb : b0 = NUL <;> simp [ha, hb] at h
          · exact hab (by rw [ha, hb])
          · exact hab h.1

/-- A string that compares equal to `b` compares with every string as `b` does. -/
theorem strcasecmp_congr {a b : List Char} (h : strcasecmp a b = 0) (c : List Char) :
    strcasecmp a c = strcasecmp b c := by
  rw [← strcasecmp_cfold a, ← strcasecmp_cfold b, (strcasecmp_eq_zero_iff a b).1 h]

theorem strncasecmp_cfold (a c : List Char) (n : Nat) :
    strncasecmp (cfold a) c n = strncasecmp a c n := by
  induction a generalizing c n with
  | nil => rfl
  | cons a0 as ih =>
    cases n with
    | zero => simp [strncasecmp]
    | succ n =>
      by_cases h0 : a0 = NUL
      · subst h0
        cases c with
        | nil => simp [cfold, strncasecmp, tolower_NUL, toNat_NUL]
        | cons c0 cs =>
          simp only [cfold, if_true, strncasecmp, tolower_NUL, toNat_NUL]
          by_cases hc : NUL = tolower c0
          · simp [← hc, toNat_NUL]
          · simp [hc]
      · cases c with
        | nil => simp [cfold, h0, strncasecmp, tolower_idem]
        | cons c0 cs =>
          simp only [cfold, h0, if_false, strncasecmp, tolower_idem, tolower_eq_NUL, ih]

theorem strncasecmp_congr {a b : List Char} (h : strcasecmp a b = 0) (c : List Char) (n : Nat) :
    strncasecmp a c n = strncasecmp b c n := by
  rw [← strncasecmp_cfold a, ← strncasecmp_cfold b, (strcasecmp_eq_zero_iff a b).1 h]

theorem at_end_iff_cfold (a : List Char) : at_end a = true ↔ cfold a = [] := by
  cases a with
  | nil => simp [at_end, cfold]
  | cons a0 as =>
    by_cases h : a0 = NUL <;> simp [at_end, cfold, h]

theorem at_end_congr {a b : List Char} (h : strcasecmp a b = 0) : at_end a = at_end b := by
  have h1 := at_end_iff_cfold a
  have h2 := at_end_iff_cfold b
  rw [(strcasecmp_eq_zero_iff a b).1 h] at h1
  cases ha : at_end a <;> cases hb : at_end b <;> simp_all

theorem cfold_map_tolower (a : List Char) : cfold (a.map tolower) = cfold a := by
  induction a with
  | nil => rfl
  | cons a0 as ih => simp [cfold, tolower_eq_NUL, tolower_idem, ih]

/-- A string and its lower-cased form compare equal. -/
theorem strcasecmp_map_tolower (a : List Char) : strcasecmp (a.map tolower) a = 0 :=
  (strcasecmp_eq_zero_iff _ _).2 (cfold_map_tolower a)

theorem strcasecmp_self (a : List Char) : strcasecmp a a = 0 :=
  (strcasecmp_eq_zero_iff _ _).2 rfl

theorem strcasecmp_comm_zero {a b : List Char} (h : strcasecmp a b = 0) : strcasecmp b a = 0 :=
  (strcasecmp_eq_zero_iff _ _).2 ((strcasecmp_eq_zero_iff _ _).1 h).symm

/-! ## Theorems: parameter translator -/

section translator_theorems
variable {F : Type}

/-- Only the canonical form of the key matters to the chain of option names. -/
theorem param_parse_options_congr (env : Env F) (p : hb_qsv_param_t F) (info : hb_qsv_info_t)
    {key name : List Char} (h : strcasecmp key name = 0) (value : List Char) (error : Bool) :
    param_parse_options env p info key value error
      = param_parse_options env p info name value error := by
  simp only [param_parse_options, strcasecmp_congr h]

theorem param_parse_return_atomic (e : Bool) (q p : hb_qsv_param_t F) :
    (param_parse_return e (if ¬ e = true then q else p)).1 ≠ HB_QSV_PARAM_OK →
    (param_parse_return e (if ¬ e = true then q else p)).2 = p := by
  cases e <;> simp [param_parse_return]

theorem atomic_ite (c : Prop) [Decidable c] (a b : hb_qsv_param_status × hb_qsv_param_t F)
    (p : hb_qsv_param_t F) (ha : a.1 ≠ HB_QSV_PARAM_OK → a.2 = p)
    (hb : b.1 ≠ HB_QSV_PARAM_OK → b.2 = p) :
    (if c then a else b).1 ≠ HB_QSV_PARAM_OK → (if c then a else b).2 = p := by
  split <;> assumption

/-- The chain of option names changes the block only when it returns `HB_QSV_PARAM_OK`. -/
theorem param_parse_options_atomic (env : Env F) (p : hb_qsv_param_t F) (info : hb_qsv_info_t)
    (key value : List Char) (error : Bool) :
    (param_parse_options env p info key value error).1 ≠ HB_QSV_PARAM_OK →
    (param_parse_options env p info key value error).2 = p := by
  unfold param_parse_options
  repeat' (first
    | exact param_parse_return_atomic _ _ _
    | exact fun _ => rfl
    | apply atomic_ite)

end translator_theorems

section translator_claims
variable {F : Type}

/-- The value an absent or empty value is replaced by is the one `"true"` itself gives. -/
theorem param_parse_value_missing :
    param_parse_value none = param_parse_value (some "true".toList)
    ∧ param_parse_value (some []) = param_parse_value (some "true".toList) := by
  decide

/-- A key with the `no-` mark is not at its end. -/
theorem not_at_end_of_negated {key : List Char} (h : strncasecmp key "no-".toList 3 = 0) :
    at_end key = false := by
  cases key with
  | nil => exact absurd h (by decide)
  | cons c cs =>
    by_cases hc : c = NUL
    · subst hc
      exact absurd h (by
        have : "no-".toList = 'n' :: 'o' :: '-' :: [] := rfl
        rw [this]
        simp +decide [strncasecmp])
    · simp [at_end, hc]

/-- Lower-casing the key changes nothing. -/
theorem param_parse_lower (env : Env F) (param : Option (hb_qsv_param_t F))
    (info : Option hb_qsv_info_t) (key : List Char) (value : Option (List Char)) :
    hb_qsv_param_parse env param info (some (key.map tolower)) value
      = hb_qsv_param_parse env param info (some key) value := by
  have h := strcasecmp_map_tolower key
  have h3 : strcasecmp ((key.map tolower).drop 3) (key.drop 3) = 0 := by
    rw [← List.map_drop]
    exact strcasecmp_map_tolower _
  cases param with
  | none => rfl
  | some p =>
    cases info with
    | none => rfl
    | some inf =>
      simp only [hb_qsv_param_parse, at_end_congr h, strncasecmp_congr h,
        param_parse_options_congr env p inf h, param_parse_options_congr env p inf h3]

/-- Facts about a key that is written as `no-` followed by `k`. -/
theorem negated_key_facts (k : List Char) :
    at_end ("no-".toList ++ k) = false
    ∧ strncasecmp ("no-".toList ++ k) "no-".toList 3 = 0
    ∧ ("no-".toList ++ k).drop 3 = k := by
  have h : "no-".toList = 'n' :: 'o' :: '-' :: [] := rfl
  rw [h]
  refine ⟨rfl, ?_, rfl⟩
  simp +decide [strncasecmp]

/-- No option name is empty or starts with `no-`. -/
theorem option_names_plain :
    ∀ d ∈ option_table,
      at_end d.name.toList = false ∧ strncasecmp d.name.toList "no-".toList 3 ≠ 0 := by
  decide

/-- A recognized key is not empty and does not start with `no-`. -/
theorem recognized_plain {key : List Char} (h : is_recognized key = true) :
    at_end key = false ∧ strncasecmp key "no-".toList 3 ≠ 0 := by
  simp only [is_recognized, List.any_eq_true, decide_eq_true_eq] at h
  obtain ⟨d, hd, hk⟩ := h
  rw [at_end_congr hk, strncasecmp_congr hk]
  exact option_names_plain d hd

/-- C1. Atomicity of `hb_qsv_param_parse`: for every parameter block, capability
info, key and value (null pointers included), a call that returns anything
other than `HB_QSV_PARAM_OK` leaves every field of the parameter block as it
was before the call. -/
theorem param_parse_atomic (env : Env F) (param : Option (hb_qsv_param_t F))
    (info : Option hb_qsv_info_t) (key value : Option (List Char)) :
    (hb_qsv_param_parse env param info key value).1 ≠ HB_QSV_PARAM_OK →
    (hb_qsv_param_parse env param info key value).2 = param := by
  cases param with
  | none => exact fun _ => rfl
  | some p =>
    cases info with
    | none => exact fun _ => rfl
    | some inf =>
      cases key with
      | none => exact fun _ => rfl
      | some k =>
        simp only [hb_qsv_param_parse]
        split_ifs
        all_goals first
          | exact fun _ => rfl
          | exact fun h => congrArg some (param_parse_options_atomic _ _ _ _ _ _ h)

/-- Witness of C1: `mbbrc=1` without the capability bit is refused and the block is unchanged. -/
theorem param_parse_atomic_witness :
    (hb_qsv_param_parse sample_env (some sample_param) (some sample_info_nocap)
        (some "mbbrc".toList) (some "1".toList)).1 ≠ HB_QSV_PARAM_OK
    ∧ (hb_qsv_param_parse sample_env (some sample_param) (some sample_info_nocap)
        (some "mbbrc".toList) (some "1".toList)).2 = some sample_param :=
  ⟨by decide, param_parse_atomic _ _ _ _ _ (by decide)⟩

/-- C4. Negated keys: for every recognized option key `k`, every capability info
and every starting parameter block, the call with key `no-` followed by `k` and
value `true` returns the same code and the same parameter block as the call
with key `k` and value `false`. -/
theorem param_parse_negated_true (env : Env F) (param : Option (hb_qsv_param_t F))
    (info : Option hb_qsv_info_t) (k : List Char) (hk : is_recognized k = true) :
    hb_qsv_param_parse env param info (some ("no-".toList ++ k)) (some "true".toList)
      = hb_qsv_param_parse env param info (some k) (some "false".toList) := by
  obtain ⟨h1, h2, h3⟩ := negated_key_facts k
  obtain ⟨h4, h5⟩ := recognized_plain hk
  have hv1 : param_parse_value (some "true".toList) = "true".toList := by decide
  have hv2 : param_parse_value (some "false".toList) = "false".toList := by decide
  have hb : hb_qsv_atobool "true".toList false = (1, false) := by decide
  cases param with
  | none => rfl
  | some p =>
    cases info with
    | none => rfl
    | some inf =>
      simp +decide only [hb_qsv_param_parse, h1, h2, h3, h4, h5, hv1, hv2, hb, if_true, if_false,
        Bool.false_eq_true]

/-- Witness of C4 at the option `mbbrc`. -/
theorem param_parse_negated_true_witness :
    is_recognized "mbbrc".toList = true
    ∧ hb_qsv_param_parse sample_env (some sample_param) (some sample_info_avc)
        (some ("no-".toList ++ "mbbrc".toList)) (some "true".toList)
      = hb_qsv_param_parse sample_env (some sample_param) (some sample_info_avc)
        (some "mbbrc".toList) (some "false".toList) :=
  ⟨by decide, param_parse_negated_true _ _ _ _ (by decide)⟩

/-- C7. A missing value defaults to `"true"`: for every key, capability info and
parameter block, the call with a null value and the call with the empty string
as value return the same code and produce the same parameter block as the call
with value `"true"`. -/
theorem param_parse_missing_value (env : Env F) (param : Option (hb_qsv_param_t F))
    (info : Option hb_qsv_info_t) (key : Option (List Char)) :
    hb_qsv_param_parse env param info key none
      = hb_qsv_param_parse env param info key (some "true".toList)
    ∧ hb_qsv_param_parse env param info key (some [])
      = hb_qsv_param_parse env param info key (some "true".toList) := by
  obtain ⟨h1, h2⟩ := param_parse_value_missing
  cases param with
  | none => exact ⟨rfl, rfl⟩
  | some p =>
    cases info with
    | none => exact ⟨rfl, rfl⟩
    | some inf => simp only [hb_qsv_param_parse, h1, h2, and_self]

/-- C8. Case-insensitive keys: for every key string `K`, value, capability info
and parameter block, the call with key `K` returns the same code and produces
the same parameter block as the call with `K` lower-cased (ASCII); this covers
the `no-` mark and both spellings of aliased options. -/
theorem param_parse_key_case (env : Env F) (param : Option (hb_qsv_param_t F))
    (info : Option hb_qsv_info_t) (K : List Char) (value : Option (List Char)) :
    hb_qsv_param_parse env param info (some K) value
      = hb_qsv_param_parse env param info (some (K.map tolower)) value :=
  (param_parse_lower env param info K value).symm

end translator_claims

/-! ## Theorems: generation classifier and lookup triplets -/

/-- C10. `qsv_hardware_generation` is a total function that maps BNL to G0, SNB
to G1, IVB, SLM and CHT to G2, HSW to G3, BDW to G4, SKL to G5, KBL to G6, ICL
to G7 and every other integer platform identifier to `QSV_FU`, which is
strictly greater than the tier of every known identifier. -/
theorem qsv_hardware_generation_spec :
    qsv_hardware_generation HB_CPU_PLATFORM_INTEL_BNL = QSV_G0
    ∧ qsv_hardware_generation HB_CPU_PLATFORM_INTEL_SNB = QSV_G1
    ∧ qsv_hardware_generation HB_CPU_PLATFORM_INTEL_IVB = QSV_G2
    ∧ qsv_hardware_generation HB_CPU_PLATFORM_INTEL_SLM = QSV_G2
    ∧ qsv_hardware_generation HB_CPU_PLATFORM_INTEL_CHT = QSV_G2
    ∧ qsv_hardware_generation HB_CPU_PLATFORM_INTEL_HSW = QSV_G3
    ∧ qsv_hardware_generation HB_CPU_PLATFORM_INTEL_BDW = QSV_G4
    ∧ qsv_hardware_generation HB_CPU_PLATFORM_INTEL_SKL = QSV_G5
    ∧ qsv_hardware_generation HB_CPU_PLATFORM_INTEL_KBL = QSV_G6
    ∧ qsv_hardware_generation HB_CPU_PLATFORM_INTEL_ICL = QSV_G7
    ∧ (∀ cpu_platform : Int, cpu_platform ∉ known_platforms →
        qsv_hardware_generation cpu_platform = QSV_FU)
    ∧ (∀ cpu_platform : Int, cpu_platform ∈ known_platforms →
        qsv_hardware_generation cpu_platform < QSV_FU) := by
  refine ⟨rfl, rfl, rfl, rfl, rfl, rfl, rfl, rfl, rfl, rfl, ?_, ?_⟩
  · intro c hc
    simp only [known_platforms, List.mem_cons, List.not_mem_nil, or_false, not_or] at hc
    obtain ⟨h1, h2, h3, h4, h5, h6, h7, h8, h9, h10⟩ := hc
    simp only [qsv_hardware_generation, h1, h2, h3, h4, h5, h6, h7, h8, h9, h10, if_false,
      or_self]
  · intro c hc
    simp only [known_platforms, List.mem_cons, List.not_mem_nil, or_false] at hc
    rcases hc with h | h | h | h | h | h | h | h | h | h <;> subst h <;> decide

/-- Witness of C10: the unknown identifier 0 and the known identifier of Haswell. -/
theorem qsv_hardware_generation_spec_witness :
    (HB_CPU_PLATFORM_UNSPECIFIED ∉ known_platforms
      ∧ qsv_hardware_generation HB_CPU_PLATFORM_UNSPECIFIED = QSV_FU)
    ∧ (HB_CPU_PLATFORM_INTEL_HSW ∈ known_platforms
      ∧ qsv_hardware_generation HB_CPU_PLATFORM_INTEL_HSW < QSV_FU) :=
  ⟨⟨by decide, qsv_hardware_generation_spec.2.2.2.2.2.2.2.2.2.2.1 _ (by decide)⟩,
   ⟨by decide, qsv_hardware_generation_spec.2.2.2.2.2.2.2.2.2.2.2 _ (by decide)⟩⟩

theorem hb_triplet4key_loop_none (t : List hb_triplet_t) (key : List Char) (i : Nat)
    (h : ∀ e ∈ t, strcasecmp e.key key ≠ 0) : hb_triplet4key_loop i t key = none := by
  induction t generalizing i with
  | nil => rfl
  | cons e es ih =>
    have he : strcasecmp e.key key ≠ 0 := h e (List.mem_cons_self _ _)
    simp only [hb_triplet4key_loop, he, if_false]
    exact ih (i + 1) (fun x hx => h x (List.mem_cons_of_mem _ hx))

theorem hb_triplet4name_loop_none (t : List hb_triplet_t) (name : List Char) (i : Nat)
    (h : ∀ e ∈ t, strcasecmp e.name name ≠ 0) : hb_triplet4name_loop i t name = none := by
  induction t generalizing i with
  | nil => rfl
  | cons e es ih =>
    have he : strcasecmp e.name name ≠ 0 := h e (List.mem_cons_self _ _)
    simp only [hb_triplet4name_loop, he, if_false]
    exact ih (i + 1) (fun x hx => h x (List.mem_cons_of_mem _ hx))

theorem hb_triplet4value_loop_none (t : List hb_triplet_t) (value : Int) (i : Nat)
    (h : ∀ e ∈ t, e.value ≠ value) : hb_triplet4value_loop i t value = none := by
  induction t generalizing i with
  | nil => rfl
  | cons e es ih =>
    have he : e.value ≠ value := h e (List.mem_cons_self _ _)
    simp only [hb_triplet4value_loop, he, if_false]
    exact ih (i + 1) (fun x hx => h x (List.mem_cons_of_mem _ hx))

set_option maxRecDepth 100000 in
theorem static_tables_return_entries :
    ∀ t ∈ qsv_static_tables, lookups_return_entries t = true := by
  decide

/-- C9. Triplet lookups are mutually consistent on each of the four static
tables: for every entry `e` at index `i` of a table `t`, `hb_triplet4key` on
`e.key`, `hb_triplet4value` on `e.value` and `hb_triplet4name` on `e.name` all
return that entry (index `i`); and for a key or name that no entry matches up
to letter case, or a value that no entry has, the lookup returns `NULL`. -/
theorem triplet_lookups_consistent :
    ∀ t ∈ qsv_static_tables,
      (∀ (i : Nat) (e : hb_triplet_t), t[i]? = some e →
        hb_triplet4key t e.key = some i
        ∧ hb_triplet4value t e.value = some i
        ∧ hb_triplet4name t e.name = some i)
      ∧ (∀ key : List Char, (∀ e ∈ t, strcasecmp e.key key ≠ 0) → hb_triplet4key t key = none)
      ∧ (∀ name : List Char, (∀ e ∈ t, strcasecmp e.name name ≠ 0) →
          hb_triplet4name t name = none)
      ∧ (∀ value : Int, (∀ e ∈ t, e.value ≠ value) → hb_triplet4value t value = none) := by
  intro t ht
  refine ⟨?_, fun key h => hb_triplet4key_loop_none t key 0 h,
    fun name h => hb_triplet4name_loop_none t name 0 h,
    fun value h => hb_triplet4value_loop_none t value 0 h⟩
  intro i e hie
  obtain ⟨hi, he⟩ := List.getElem?_eq_some.1 hie
  have := static_tables_return_entries t ht
  simp only [lookups_return_entries, decide_eq_true_eq] at this
  have := this ⟨i, hi⟩
  simp only [List.get_eq_getElem, he] at this
  exact this

/-- Witness of C9: entry 1 of the H.265 profile table (`Main 10`), and the
absent key `high` in that table. -/
theorem triplet_lookups_consistent_witness :
    hb_qsv_h265_profiles ∈ qsv_static_tables
    ∧ hb_qsv_h265_profiles[1]? = some ⟨"Main 10".toList, "main10".toList, MFX_PROFILE_HEVC_MAIN10⟩
    ∧ (hb_triplet4key hb_qsv_h265_profiles "main10".toList = some 1
      ∧ hb_triplet4value hb_qsv_h265_profiles MFX_PROFILE_HEVC_MAIN10 = some 1
      ∧ hb_triplet4name hb_qsv_h265_profiles "Main 10".toList = some 1)
    ∧ (∀ e ∈ hb_qsv_h265_profiles, strcasecmp e.key "high".toList ≠ 0)
    ∧ hb_triplet4key hb_qsv_h265_profiles "high".toList = none :=
  ⟨by decide, by decide,
   (triplet_lookups_consistent hb_qsv_h265_profiles (by decide)).1 1
     ⟨"Main 10".toList, "main10".toList, MFX_PROFILE_HEVC_MAIN10⟩ (by decide),
   by decide,
   (triplet_lookups_consistent hb_qsv_h265_profiles (by decide)).2.1 "high".toList (by decide)⟩

/-! ## Theorems: value parsing and the option table -/

section option_table_theorems
variable {F : Type}

theorem is_bool_token_iff (str : List Char) :
    is_bool_token str = true ↔
      (strcasecmp str "1".toList = 0 ∨ strcasecmp str "yes".toList = 0
        ∨ strcasecmp str "true".toList = 0)
      ∨ (strcasecmp str "0".toList = 0 ∨ strcasecmp str "no".toList = 0
        ∨ strcasecmp str "false".toList = 0) := by
  simp only [is_bool_token, List.any_cons, List.any_nil, Bool.or_false, Bool.or_eq_true,
    decide_eq_true_eq]
  tauto

theorem hb_qsv_atobool_err (str : List Char) :
    (hb_qsv_atobool str false).2 = !is_bool_token str := by
  have e := is_bool_token_iff str
  unfold hb_qsv_atobool
  split_ifs with h1 h2
  · rw [e.2 (Or.inl h1)]; rfl
  · rw [e.2 (Or.inr h2)]; rfl
  · have : is_bool_token str = false := by
      cases hb : is_bool_token str
      · rfl
      · rcases e.1 hb with h | h
        · exact absurd h h1
        · exact absurd h h2
    rw [this]; rfl

theorem hb_qsv_atoi_err (env : Env F) (str : List Char) :
    (hb_qsv_atoi env str false).2 = !is_int_literal str := by
  simp only [hb_qsv_atoi, strtol, is_int_literal]
  by_cases h1 : (strtol_exact str).2 = 0
  · simp [h1]
  · by_cases h2 : at_end (List.drop (strtol_exact str).2 str) = true
    · simp [h1, h2]
    · simp [h1, h2]

theorem hb_qsv_atof_err (env : Env F) (str : List Char) :
    (hb_qsv_atof env str false).2 = !is_float_literal str := by
  simp only [hb_qsv_atof, is_float_literal]
  by_cases h1 : strtod_len str = 0
  · simp [h1]
  · by_cases h2 : at_end (List.drop (strtod_len str) str) = true
    · simp [h1, h2]
    · simp [h1, h2]

theorem hb_qsv_atoindex_loop_err (arr : List (List Char)) (str : List Char) (i : Nat) :
    (hb_qsv_atoindex_loop i arr str).2 = !is_table_name arr str := by
  induction arr generalizing i with
  | nil => rfl
  | cons a as ih =>
    by_cases h : strcasecmp a str = 0
    · simp [hb_qsv_atoindex_loop, is_table_name, h]
    · simp only [hb_qsv_atoindex_loop, h, if_false, ih]
      simp [is_table_name, h]

theorem hb_qsv_atoindex_err (arr : List (List Char)) (str : List Char) (e : Bool) :
    (hb_qsv_atoindex arr str e).2 = !is_table_name arr str := by
  simp only [hb_qsv_atoindex, hb_qsv_atoindex_loop_err]

theorem param_parse_return_status (e : Bool) (q : hb_qsv_param_t F) :
    (param_parse_return e q).1 = if e = true then HB_QSV_PARAM_BAD_VALUE else HB_QSV_PARAM_OK :=
  rfl

end option_table_theorems

section option_status
variable {F : Type}

set_option maxHeartbeats 4000000 in
/-- The result code of the chain for each option of the table, written in its own
spelling: `UNSUPPORTED` when a gate fails, else `OK` or `BAD_VALUE` according
to whether the value is of the option's kind. -/
theorem param_parse_options_status (env : Env F) (p : hb_qsv_param_t F) (info : hb_qsv_info_t)
    (v : List Char) :
    ∀ d ∈ option_table,
      (param_parse_options env p info d.name.toList v false).1 =
        if gate_ok info d = true then
          (if value_ok env info d v = true then HB_QSV_PARAM_OK else HB_QSV_PARAM_BAD_VALUE)
        else HB_QSV_PARAM_UNSUPPORTED := by
  simp only [option_table, List.forall_mem_cons]
  refine ⟨?_, ?_, ?_, ?_, ?_, ?_, ?_, ?_, ?_, ?_, ?_, ?_, ?_, ?_, ?_, ?_, ?_, ?_, ?_, ?_,
    ?_, ?_, ?_, ?_, ?_, ?_, ?_, ?_, ?_, ?_, ?_, ?_, ?_, ?_, ?_, ?_, ?_, ?_, ?_, ?_,
    fun x hx => absurd hx (List.not_mem_nil x)⟩
  all_goals
    simp +decide only [param_parse_options, if_true, if_false, gate_ok, cap_ok, codec_ok,
      value_ok, name_table]
  all_goals
    split_ifs <;>
      simp_all [param_parse_return_status, hb_qsv_atobool_err, hb_qsv_atoi_err,
        hb_qsv_atof_err, hb_qsv_atoindex_err]

/-- The result code of the chain for a key that matches an option of the table. -/
theorem param_parse_options_status_of_match (env : Env F) (p : hb_qsv_param_t F)
    (info : hb_qsv_info_t) (v : List Char) (d : option_desc) (hd : d ∈ option_table)
    (key : List Char) (hk : strcasecmp key d.name.toList = 0) :
    (param_parse_options env p info key v false).1 =
      if gate_ok info d = true then
        (if value_ok env info d v = true then HB_QSV_PARAM_OK else HB_QSV_PARAM_BAD_VALUE)
      else HB_QSV_PARAM_UNSUPPORTED := by
  rw [param_parse_options_congr env p info hk]
  exact param_parse_options_status env p info v d hd

/-- A key that is no option name falls through the whole chain. -/
theorem param_parse_options_unrecognized (env : Env F) (p : hb_qsv_param_t F)
    (info : hb_qsv_info_t) (key value : List Char) (error : Bool)
    (h : is_recognized key = false) :
    param_parse_options env p info key value error = (HB_QSV_PARAM_BAD_NAME, p) := by
  simp only [is_recognized, option_table, List.any_cons, List.any_nil, Bool.or_false,
    Bool.or_eq_false_iff, decide_eq_false_iff_not] at h
  obtain ⟨h1, h2, h3, h4, h5, h6, h7, h8, h9, h10, h11, h12, h13, h14, h15, h16, h17, h18,
    h19, h20, h21, h22, h23, h24, h25, h26, h27, h28, h29, h30, h31, h32, h33, h34, h35, h36,
    h37, h38, h39, h40⟩ := h
  simp only [param_parse_options, h1, h2, h3, h4, h5, h6, h7, h8, h9, h10, h11, h12, h13, h14,
    h15, h16, h17, h18, h19, h20, h21, h22, h23, h24, h25, h26, h27, h28, h29, h30, h31, h32,
    h33, h34, h35, h36, h37, h38, h39, h40, or_self, if_false]

end option_status

section parse_shape
variable {F : Type}

/-- The call for a key without the `no-` mark is the chain on the key itself. -/
theorem param_parse_plain (env : Env F) (p : hb_qsv_param_t F) (info : hb_qsv_info_t)
    (key : List Char) (value : Option (List Char))
    (h1 : at_end key = false) (h2 : is_negated key = false) :
    hb_qsv_param_parse env (some p) (some info) (some key) value
      = ((param_parse_options env p info key (param_parse_value value) false).1,
         some (param_parse_options env p info key (param_parse_value value) false).2) := by
  have h2' : ¬ strncasecmp key "no-".toList 3 = 0 := by
    simpa [is_negated] using h2
  simp only [hb_qsv_param_parse, h1, h2', if_false, Bool.false_eq_true]

/-- The call for a key with the `no-` mark: refused unless the value is a
boolean token, else the chain on the rest of the key with the inverted value. -/
theorem param_parse_negated (env : Env F) (p : hb_qsv_param_t F) (info : hb_qsv_info_t)
    (key : List Char) (value : Option (List Char)) (h : is_negated key = true) :
    hb_qsv_param_parse env (some p) (some info) (some key) value
      = if is_bool_token (param_parse_value value) = true then
          ((param_parse_options env p info (key.drop 3)
              (negated_value (param_parse_value value)) false).1,
           some (param_parse_options env p info (key.drop 3)
              (negated_value (param_parse_value value)) false).2)
        else (HB_QSV_PARAM_BAD_VALUE, some p) := by
  have h' : strncasecmp key "no-".toList 3 = 0 := by
    simpa [is_negated] using h
  have h1 := not_at_end_of_negated h'
  have he := hb_qsv_atobool_err (param_parse_value value)
  cases hb : is_bool_token (param_parse_value value)
  · rw [hb] at he
    simp only [hb_qsv_param_parse, h1, h', he, if_true, if_false, Bool.false_eq_true,
      Bool.not_false]
  · rw [hb] at he
    simp only [Bool.not_true] at he
    simp only [hb_qsv_param_parse, h1, h', negated_value, if_true, if_false,
      Bool.false_eq_true]
    rw [if_neg (by rw [he]; exact Bool.false_ne_true)]
    simp only [he]

/-- A key that matches an option of the table is recognized. -/
theorem is_recognized_of_match {d : option_desc} (hd : d ∈ option_table) {key : List Char}
    (hk : strcasecmp key d.name.toList = 0) : is_recognized key = true := by
  simp only [is_recognized, List.any_eq_true, decide_eq_true_eq]
  exact ⟨d, hd, hk⟩

/-- With a gate closed the chain answers `UNSUPPORTED` and leaves the block alone. -/
theorem param_parse_options_gate_closed (env : Env F) (p : hb_qsv_param_t F)
    (info : hb_qsv_info_t) (v : List Char) (d : option_desc) (hd : d ∈ option_table)
    (key : List Char) (hk : strcasecmp key d.name.toList = 0) (hg : gate_ok info d = false) :
    param_parse_options env p info key v false = (HB_QSV_PARAM_UNSUPPORTED, p) := by
  have h1 := param_parse_options_status_of_match env p info v d hd key hk
  rw [hg] at h1
  simp only [Bool.false_eq_true, if_false] at h1
  have h2 := param_parse_options_atomic env p info key v false (by rw [h1]; decide)
  exact Prod.ext h1 h2

theorem gate_closed_of_cap {info : hb_qsv_info_t} {d : option_desc} {bit : Nat}
    (hb : d.cap = some bit) (hcap : has_cap info bit = false) : gate_ok info d = false := by
  simp [gate_ok, cap_ok, hb, hcap]

end parse_shape

section gating_claims
variable {F : Type}

/-- The capability-gated options and their bits, as the table has them. -/
theorem gated_options_eq :
    gated_options =
      [("b-pyramid", HB_QSV_CAP_B_REF_PYRAMID),
       ("adaptive-i", HB_QSV_CAP_OPTION2_IB_ADAPT), ("i-adapt", HB_QSV_CAP_OPTION2_IB_ADAPT),
       ("adaptive-b", HB_QSV_CAP_OPTION2_IB_ADAPT), ("b-adapt", HB_QSV_CAP_OPTION2_IB_ADAPT),
       ("cavlc", HB_QSV_CAP_OPTION1), ("cabac", HB_QSV_CAP_OPTION1),
       ("videoformat", HB_QSV_CAP_VUI_VSINFO), ("fullrange", HB_QSV_CAP_VUI_VSINFO),
       ("colorprim", HB_QSV_CAP_VUI_VSINFO), ("transfer", HB_QSV_CAP_VUI_VSINFO),
       ("colormatrix", HB_QSV_CAP_VUI_VSINFO),
       ("mbbrc", HB_QSV_CAP_OPTION2_MBBRC), ("extbrc", HB_QSV_CAP_OPTION2_EXTBRC),
       ("lookahead", HB_QSV_CAP_RATECONTROL_LA), ("la", HB_QSV_CAP_RATECONTROL_LA),
       ("lookahead-depth", HB_QSV_CAP_RATECONTROL_LA), ("la-depth", HB_QSV_CAP_RATECONTROL_LA),
       ("lookahead-ds", HB_QSV_CAP_OPTION2_LA_DOWNS), ("la-ds", HB_QSV_CAP_OPTION2_LA_DOWNS),
       ("trellis", HB_QSV_CAP_OPTION2_TRELLIS), ("lowpower", HB_QSV_CAP_LOWPOWER_ENCODE)] := by
  decide

theorem mem_option_table_of_gated {name : String} {bit : Nat}
    (h : (name, bit) ∈ gated_options) :
    ∃ d ∈ option_table, d.name = name ∧ d.cap = some bit := by
  simp only [gated_options, List.mem_filterMap, Option.map_eq_some', Prod.mk.injEq] at h
  obtain ⟨d, hd, b, hb, hn, hbit⟩ := h
  exact ⟨d, hd, hn, by rw [hb, hbit]⟩

/-- C2, as amended: capability gating of `hb_qsv_param_parse`. For every
capability-gated option (`b-pyramid`, `adaptive-i`/`i-adapt`,
`adaptive-b`/`b-adapt`, `cavlc`/`cabac`, `videoformat`, `fullrange`,
`colorprim`, `transfer`, `colormatrix`, `mbbrc`, `extbrc`, `lookahead`/`la`,
`lookahead-depth`/`la-depth`, `lookahead-ds`/`la-ds`, `trellis`, `lowpower`)
whose gating bit is unset in `info->capabilities`: written bare, the call
returns `HB_QSV_PARAM_UNSUPPORTED` for every value, whether or not it parses,
and leaves the parameter block unchanged; written with the `no-` mark, it does
so when the value is missing or a boolean token, and returns
`HB_QSV_PARAM_BAD_VALUE` (block unchanged) when the value is no boolean token. -/
theorem param_parse_gated (env : Env F) (p : hb_qsv_param_t F) (info : hb_qsv_info_t)
    (name : String) (bit : Nat) (hd : (name, bit) ∈ gated_options)
    (hcap : has_cap info bit = false) (key : List Char) (value : Option (List Char)) :
    (strcasecmp key name.toList = 0 →
      hb_qsv_param_parse env (some p) (some info) (some key) value
        = (HB_QSV_PARAM_UNSUPPORTED, some p))
    ∧ (is_negated key = true → strcasecmp (key.drop 3) name.toList = 0 →
      hb_qsv_param_parse env (some p) (some info) (some key) value
        = (if is_bool_token (param_parse_value value) = true then HB_QSV_PARAM_UNSUPPORTED
           else HB_QSV_PARAM_BAD_VALUE, some p)) := by
  obtain ⟨d, hmem, hn, hb⟩ := mem_option_table_of_gated hd
  subst hn
  have hg := gate_closed_of_cap hb hcap
  constructor
  · intro hk
    obtain ⟨h1, h2⟩ := recognized_plain (is_recognized_of_match hmem hk)
    have h2' : is_negated key = false := by simpa [is_negated] using h2
    rw [param_parse_plain env p info key value h1 h2',
      param_parse_options_gate_closed env p info _ d hmem key hk hg]
  · intro hneg hk
    rw [param_parse_negated env p info key value hneg,
      param_parse_options_gate_closed env p info _ d hmem _ hk hg]
    split <;> rfl

/-- Witness of C2 as amended: `mbbrc` and `no-mbbrc` without the MBBRC capability bit. -/
theorem param_parse_gated_witness :
    ("mbbrc", HB_QSV_CAP_OPTION2_MBBRC) ∈ gated_options
    ∧ has_cap sample_info_nocap HB_QSV_CAP_OPTION2_MBBRC = false
    ∧ (strcasecmp "MBBRC".toList "mbbrc".toList = 0
      ∧ hb_qsv_param_parse sample_env (some sample_param) (some sample_info_nocap)
          (some "MBBRC".toList) (some "maybe".toList)
        = (HB_QSV_PARAM_UNSUPPORTED, some sample_param))
    ∧ (is_negated "no-mbbrc".toList = true
      ∧ strcasecmp ("no-mbbrc".toList.drop 3) "mbbrc".toList = 0
      ∧ hb_qsv_param_parse sample_env (some sample_param) (some sample_info_nocap)
          (some "no-mbbrc".toList) (some "yes".toList)
        = (if is_bool_token (param_parse_value (some "yes".toList)) = true
           then HB_QSV_PARAM_UNSUPPORTED else HB_QSV_PARAM_BAD_VALUE, some sample_param)) :=
  ⟨by decide, by decide,
   ⟨by decide,
    (param_parse_gated sample_env sample_param sample_info_nocap "mbbrc"
      HB_QSV_CAP_OPTION2_MBBRC (by decide) (by decide) "MBBRC".toList
      (some "maybe".toList)).1 (by decide)⟩,
   ⟨by decide, by decide,
    (param_parse_gated sample_env sample_param sample_info_nocap "mbbrc"
      HB_QSV_CAP_OPTION2_MBBRC (by decide) (by decide) "no-mbbrc".toList
      (some "yes".toList)).2 (by decide) (by decide)⟩⟩

/-- Counterexample to C2 as stated: `no-mbbrc=maybe` with the MBBRC capability
bit unset returns `HB_QSV_PARAM_BAD_VALUE`, not `HB_QSV_PARAM_UNSUPPORTED`. -/
theorem param_parse_gated_counterexample :
    ("mbbrc", HB_QSV_CAP_OPTION2_MBBRC) ∈ gated_options
    ∧ has_cap sample_info_nocap HB_QSV_CAP_OPTION2_MBBRC = false
    ∧ hb_qsv_param_parse sample_env (some sample_param) (some sample_info_nocap)
        (some "no-mbbrc".toList) (some "maybe".toList)
      = (HB_QSV_PARAM_BAD_VALUE, some sample_param)
    ∧ HB_QSV_PARAM_BAD_VALUE ≠ HB_QSV_PARAM_UNSUPPORTED := by
  decide

end gating_claims

section name_claims
variable {F : Type}

/-- A key at its end carries no `no-` mark. -/
theorem not_negated_of_at_end {key : List Char} (h : at_end key = true) :
    is_negated key = false := by
  cases hn : is_negated key
  · rfl
  · have h' : strncasecmp key "no-".toList 3 = 0 := by simpa [is_negated] using hn
    rw [not_at_end_of_negated h'] at h
    exact absurd h Bool.false_ne_true

/-- C5, as amended: unrecognized keys. For non-null `param` and `info`, for every
key that (after removal of an optional leading `no-`) is not equal up to letter
case to one of the recognized option names, the null and the empty key
included, and for every value, `hb_qsv_param_parse` leaves the parameter block
unchanged and returns `HB_QSV_PARAM_BAD_NAME`, unless the key carries the `no-`
mark and the value (a missing one read as `true`, a leading `=` dropped) is no
boolean token: then it returns `HB_QSV_PARAM_BAD_VALUE`. -/
theorem param_parse_unrecognized (env : Env F) (p : hb_qsv_param_t F) (info : hb_qsv_info_t)
    (key value : Option (List Char))
    (h : ∀ k, key = some k → is_recognized (bare_key k) = false) :
    hb_qsv_param_parse env (some p) (some info) key value
      = (if bad_negation key value = true then HB_QSV_PARAM_BAD_VALUE
         else HB_QSV_PARAM_BAD_NAME, some p) := by
  cases key with
  | none => rfl
  | some k =>
    have hk := h k rfl
    cases he : at_end k
    · cases hn : is_negated k
      · rw [param_parse_plain env p info k value he hn]
        simp only [bare_key, hn, Bool.false_eq_true, if_false] at hk
        rw [param_parse_options_unrecognized env p info k _ false hk]
        simp [bad_negation, hn]
      · rw [param_parse_negated env p info k value hn]
        simp only [bare_key, hn, if_true] at hk
        rw [param_parse_options_unrecognized env p info _ _ false hk]
        cases hb : is_bool_token (param_parse_value value) <;> simp [bad_negation, hn, hb]
    · have hn := not_negated_of_at_end he
      simp [hb_qsv_param_parse, he, bad_negation, hn]

/-- Witness of C5 as amended: the keys `foo` and `no-foo`. -/
theorem param_parse_unrecognized_witness :
    (∀ k, some "no-foo".toList = some k → is_recognized (bare_key k) = false)
    ∧ hb_qsv_param_parse sample_env (some sample_param) (some sample_info_avc)
        (some "no-foo".toList) (some "yes".toList)
      = (if bad_negation (some "no-foo".toList) (some "yes".toList) = true
         then HB_QSV_PARAM_BAD_VALUE else HB_QSV_PARAM_BAD_NAME, some sample_param) :=
  ⟨fun k hk => by cases hk; decide,
   param_parse_unrecognized sample_env sample_param sample_info_avc _ _
     (fun k hk => by cases hk; decide)⟩

/-- Counterexample to C5 as stated: the unrecognized key `no-foo` with the value
`bar` returns `HB_QSV_PARAM_BAD_VALUE`, not `HB_QSV_PARAM_BAD_NAME`. -/
theorem param_parse_unrecognized_counterexample :
    is_recognized (bare_key "no-foo".toList) = false
    ∧ hb_qsv_param_parse sample_env (some sample_param) (some sample_info_avc)
        (some "no-foo".toList) (some "bar".toList)
      = (HB_QSV_PARAM_BAD_VALUE, some sample_param)
    ∧ HB_QSV_PARAM_BAD_VALUE ≠ HB_QSV_PARAM_BAD_NAME := by
  decide

/-- The value a key with the `no-` mark is parsed with is `false` or `true`. -/
theorem negated_value_cases (v : List Char) :
    negated_value v = "false".toList ∨ negated_value v = "true".toList := by
  unfold negated_value
  split_ifs
  · exact Or.inl rfl
  · exact Or.inr rfl

/-- Neither `false` nor `true` is an integer or a floating-point literal, and both
are boolean tokens. -/
theorem negated_value_kinds (v : List Char) :
    is_int_literal (negated_value v) = false
      ∧ is_float_literal (negated_value v) = false
      ∧ is_bool_token (negated_value v) = true := by
  rcases negated_value_cases v with h | h <;> rw [h] <;> decide

/-- C6, as amended: value parse failures. For a recognized option whose capability
and codec gates (if any) are satisfied, with `v` the value the call works with
(the given value; without its leading `=` if it has one; `true` if the value is
null or empty).  Written without the `no-` mark, `hb_qsv_param_parse` returns
`HB_QSV_PARAM_BAD_VALUE` when (a) the option is integer-valued and `v` is no
complete integer literal, (b) the option is boolean-valued and `v` is not, up to
letter case, one of `1`, `yes`, `true`, `0`, `no`, `false`, (c) the option is
name-valued and `v` matches no entry of the codec's name table, or (d) the
option is the float-valued `vbv-init` and `v` is no complete floating-point
literal; in every other case it returns `HB_QSV_PARAM_OK`.  Written with the
`no-` mark, it returns `HB_QSV_PARAM_BAD_VALUE` when `v` is none of the six
boolean tokens; otherwise the option is parsed with the inverted token (`false`
if `v` is `1`, `yes` or `true`, else `true`), so that it returns
`HB_QSV_PARAM_OK` for a boolean-valued option, `HB_QSV_PARAM_BAD_VALUE` for an
integer-valued option and for `vbv-init`, and for a name-valued option
`HB_QSV_PARAM_OK` exactly when the inverted token is an entry of the codec's
name table. -/
theorem param_parse_value_check (env : Env F) (p : hb_qsv_param_t F) (info : hb_qsv_info_t)
    (d : option_desc) (hd : d ∈ option_table) (hg : gate_ok info d = true)
    (key : List Char) (value : Option (List Char)) :
    (strcasecmp key d.name.toList = 0 →
      (hb_qsv_param_parse env (some p) (some info) (some key) value).1
        = if (match d.kind with
              | .int_valued => is_int_literal (param_parse_value value)
              | .bool_valued => is_bool_token (param_parse_value value)
              | .name_valued f =>
                  is_table_name (name_table env info.codec_id f) (param_parse_value value)
              | .float_valued => is_float_literal (param_parse_value value)) = true
          then HB_QSV_PARAM_OK else HB_QSV_PARAM_BAD_VALUE)
    ∧ (is_negated key = true → strcasecmp (key.drop 3) d.name.toList = 0 →
      negated_value (param_parse_value value)
          = (if (hb_qsv_atobool (param_parse_value value) false).1 ≠ 0 then "false".toList
             else "true".toList)
      ∧ (hb_qsv_param_parse env (some p) (some info) (some key) value).1
        = if is_bool_token (param_parse_value value) = true
            ∧ (match d.kind with
                | .int_valued => false
                | .bool_valued => true
                | .name_valued f =>
                    is_table_name (name_table env info.codec_id f)
                      (negated_value (param_parse_value value))
                | .float_valued => false) = true
          then HB_QSV_PARAM_OK else HB_QSV_PARAM_BAD_VALUE) := by
  constructor
  · intro hk
    obtain ⟨h1, h2⟩ := recognized_plain (is_recognized_of_match hd hk)
    have h2' : is_negated key = false := by simpa [is_negated] using h2
    rw [param_parse_plain env p info key value h1 h2']
    have hs := param_parse_options_status_of_match env p info (param_parse_value value) d hd
      key hk
    rw [hg] at hs
    simp only [if_true] at hs
    rw [hs]
    unfold value_ok
    cases d.kind <;> rfl
  · intro hneg hk
    refine ⟨rfl, ?_⟩
    rw [param_parse_negated env p info key value hneg]
    have hs := param_parse_options_status_of_match env p info
      (negated_value (param_parse_value value)) d hd (key.drop 3) hk
    rw [hg] at hs
    simp only [if_true] at hs
    obtain ⟨hi, hf, hb⟩ := negated_value_kinds (param_parse_value value)
    cases hbt : is_bool_token (param_parse_value value)
    · simp only [Bool.false_eq_true, false_and, if_false]
    · simp only [if_true, true_and]
      rw [hs]
      unfold value_ok
      cases d.kind
      · simp only [hi, Bool.false_eq_true, if_false]
      · simp only [hb, if_true]
      · simp only [hf, Bool.false_eq_true, if_false]
      · rfl

/-- Witness of C6 as amended: `lookahead-depth=12x` with the lookahead capability,
and `no-scenecut` with the values `abc` and `1`. -/
theorem param_parse_value_check_witness :
    ((⟨"lookahead-depth", .int_valued, some HB_QSV_CAP_RATECONTROL_LA, .any_codec⟩ : option_desc)
        ∈ option_table
      ∧ gate_ok sample_info_avc
          ⟨"lookahead-depth", .int_valued, some HB_QSV_CAP_RATECONTROL_LA, .any_codec⟩ = true
      ∧ strcasecmp "LookAhead-Depth".toList "lookahead-depth".toList = 0
      ∧ is_int_literal (param_parse_value (some "12x".toList)) = false
      ∧ (hb_qsv_param_parse sample_env (some sample_param) (some sample_info_avc)
          (some "LookAhead-Depth".toList) (some "12x".toList)).1 = HB_QSV_PARAM_BAD_VALUE)
    ∧ ((⟨"scenecut", .bool_valued, none, .any_codec⟩ : option_desc) ∈ option_table
      ∧ is_negated "no-scenecut".toList = true
      ∧ strcasecmp ("no-scenecut".toList.drop 3) "scenecut".toList = 0
      ∧ is_bool_token (param_parse_value (some "abc".toList)) = false
      ∧ (hb_qsv_param_parse sample_env (some sample_param) (some sample_info_avc)
          (some "no-scenecut".toList) (some "abc".toList)).1 = HB_QSV_PARAM_BAD_VALUE
      ∧ is_bool_token (param_parse_value (some "1".toList)) = true
      ∧ (hb_qsv_param_parse sample_env (some sample_param) (some sample_info_avc)
          (some "no-scenecut".toList) (some "1".toList)).1 = HB_QSV_PARAM_OK) :=
  ⟨⟨by decide, by decide, by decide, by decide,
    (param_parse_value_check sample_env sample_param sample_info_avc
      ⟨"lookahead-depth", .int_valued, some HB_QSV_CAP_RATECONTROL_LA, .any_codec⟩
      (by decide) (by decide) "LookAhead-Depth".toList (some "12x".toList)).1 (by decide)⟩,
   ⟨by decide, by decide, by decide, by decide,
    ((param_parse_value_check sample_env sample_param sample_info_avc
      ⟨"scenecut", .bool_valued, none, .any_codec⟩
      (by decide) (by decide) "no-scenecut".toList (some "abc".toList)).2
        (by decide) (by decide)).2,
    by decide,
    ((param_parse_value_check sample_env sample_param sample_info_avc
      ⟨"scenecut", .bool_valued, none, .any_codec⟩
      (by decide) (by decide) "no-scenecut".toList (some "1".toList)).2
        (by decide) (by decide)).2⟩⟩

set_option maxRecDepth 100000 in
/-- Counterexample to C6 as stated: `scenecut` with the empty value and `tu` with
the value `=5` return `HB_QSV_PARAM_OK` although the value is no boolean token
and no integer literal; `vbv-init=abc`, an option that is neither integer-,
boolean- nor name-valued, returns `HB_QSV_PARAM_BAD_VALUE`; and `no-tu=5`, an
integer-valued option with a complete integer literal, returns
`HB_QSV_PARAM_BAD_VALUE`, as does `no-tu=1`. -/
theorem param_parse_value_check_counterexample :
    (is_bool_token [] = false
      ∧ (hb_qsv_param_parse sample_env (some sample_param) (some sample_info_avc)
          (some "scenecut".toList) (some [])).1 = HB_QSV_PARAM_OK)
    ∧ (is_int_literal "=5".toList = false
      ∧ (hb_qsv_param_parse sample_env (some sample_param) (some sample_info_avc)
          (some "tu".toList) (some "=5".toList)).1 = HB_QSV_PARAM_OK)
    ∧ ((⟨"vbv-init", .float_valued, none, .any_codec⟩ : option_desc) ∈ option_table
      ∧ (hb_qsv_param_parse sample_env (some sample_param) (some sample_info_avc)
          (some "vbv-init".toList) (some "abc".toList)).1 = HB_QSV_PARAM_BAD_VALUE)
    ∧ (is_int_literal "5".toList = true
      ∧ (hb_qsv_param_parse sample_env (some sample_param) (some sample_info_avc)
          (some "no-tu".toList) (some "5".toList)).1 = HB_QSV_PARAM_BAD_VALUE
      ∧ is_int_literal "1".toList = true
      ∧ (hb_qsv_param_parse sample_env (some sample_param) (some sample_info_avc)
          (some "no-tu".toList) (some "1".toList)).1 = HB_QSV_PARAM_BAD_VALUE) := by
  decide

end name_claims

/-! ## Theorems: numeric clamping -/

section clamp_theorems
variable {F : Type}

theorem clip3_eq_min_max (lo hi n : Int) (h : lo ≤ hi) :
    HB_QSV_CLIP3 lo hi n = min (max n lo) hi := by
  unfold HB_QSV_CLIP3
  split_ifs <;> omega

theorem toU16_clip3 (lo hi n : Int) (h0 : 0 ≤ lo) (h1 : hi < 65536) (h : lo ≤ hi) :
    ((toU16 (HB_QSV_CLIP3 lo hi n) : Nat) : Int) = HB_QSV_CLIP3 lo hi n := by
  unfold toU16 HB_QSV_CLIP3
  split_ifs <;> omega

theorem wrap32_of_range (n : Int) (h1 : -2147483648 ≤ n) (h2 : n < 2147483648) :
    wrap32 n = n := by
  unfold wrap32
  omega

/-- What `hb_qsv_atoi` returns for a complete integer literal denoting `n`: no
error, and a value that clamps as `n` does, provided `n` fits `int` or `long`
is 32 bits wide (where `strtol` saturates). -/
theorem hb_qsv_atoi_of_literal (env : Env F) (v : List Char) (hv : is_int_literal v = true)
    (n : Int) (hn : (strtol_exact v).1 = n)
    (h : env.long_bits = 32
      ∨ (32 ≤ env.long_bits ∧ -2147483648 ≤ n ∧ n < 2147483648)) :
    (hb_qsv_atoi env v false).2 = false
    ∧ ∀ lo hi : Int, -2147483648 ≤ lo → lo ≤ hi → hi < 2147483648 →
        HB_QSV_CLIP3 lo hi (hb_qsv_atoi env v false).1 = HB_QSV_CLIP3 lo hi n := by
  refine ⟨by rw [hb_qsv_atoi_err, hv]; rfl, ?_⟩
  intro lo hi hlo hle hhi
  simp only [hb_qsv_atoi, strtol, hn]
  rcases h with h | ⟨h, h1, h2⟩
  · rw [h]
    have e : (2 : Int) ^ (32 - 1) = 2147483648 := by norm_num
    rw [e]
    unfold HB_QSV_CLIP3 wrap32
    split_ifs <;> omega
  · have hp : (2147483648 : Int) ≤ 2 ^ (env.long_bits - 1) := by
      have : (2 : Int) ^ 31 ≤ 2 ^ (env.long_bits - 1) :=
        pow_le_pow_right₀ (by norm_num) (by omega)
      norm_num at this
      exact this
    rw [if_neg (by omega), if_neg (by omega), wrap32_of_range n h1 h2]

set_option maxHeartbeats 4000000 in
/-- Each clamping option, in its own spelling and with its capability bit set,
stores the clamped result of `hb_qsv_atoi` when that reports no error. -/
theorem param_parse_options_clamp (env : Env F) (p : hb_qsv_param_t F) (info : hb_qsv_info_t)
    (v : List Char) (he : (hb_qsv_atoi env v false).2 = false) :
    ∀ c ∈ clamp_table F, (∀ bit, c.cap = some bit → has_cap info bit = true) →
      (param_parse_options env p info c.name.toList v false).1 = HB_QSV_PARAM_OK
      ∧ c.field (param_parse_options env p info c.name.toList v false).2
          = HB_QSV_CLIP3 c.lo c.hi (hb_qsv_atoi env v false).1 := by
  simp only [clamp_table, List.forall_mem_cons]
  refine ⟨?_, ?_, ?_, ?_, ?_, ?_, ?_, ?_, ?_, ?_, ?_, ?_, ?_, ?_, ?_, ?_, ?_,
    fun x hx => absurd hx (List.not_mem_nil x)⟩
  all_goals
    intro hc
    try simp only [Option.some.injEq, forall_eq', reduceCtorEq, false_implies, implies_true] at hc
    try simp only [param_parse_options]
    simp +decide only [he, param_parse_return, if_true, if_false,
      Bool.false_eq_true, not_false_eq_true, true_and]
    try simp only [hc, if_true, true_and]
    try exact toU16_clip3 _ _ _ (by decide) (by decide) (by decide)

/-- A complete integer literal is not empty and does not start with `=`: it is
parsed as it is given. -/
theorem param_parse_value_of_int_literal (v : List Char) (hv : is_int_literal v = true) :
    param_parse_value (some v) = v := by
  cases v with
  | nil => exact absurd hv (by decide)
  | cons c cs =>
    by_cases h0 : c = NUL
    · subst h0
      have : is_int_literal (NUL :: cs) = false := rfl
      rw [this] at hv
      exact absurd hv Bool.false_ne_true
    · by_cases h1 : c = '='
      · subst h1
        have : is_int_literal ('=' :: cs) = false := rfl
        rw [this] at hv
        exact absurd hv Bool.false_ne_true
      · simp [param_parse_value, at_end, h0, h1]

/-- The names and ranges of the clamping options: no name is empty or starts
with `no-`, every range is non-empty and lies within `int`. -/
theorem clamp_table_facts :
    ∀ c ∈ clamp_table F,
      (at_end c.name.toList = false ∧ strncasecmp c.name.toList "no-".toList 3 ≠ 0)
      ∧ -2147483648 ≤ c.lo ∧ c.lo ≤ c.hi ∧ c.hi < 2147483648 := by
  simp only [clamp_table, List.forall_mem_cons]
  refine ⟨?_, ?_, ?_, ?_, ?_, ?_, ?_, ?_, ?_, ?_, ?_, ?_, ?_, ?_, ?_, ?_, ?_,
    fun x hx => absurd hx (List.not_mem_nil x)⟩
  all_goals decide

/-- Numeric clamping for values that fit: for each integer option with a clamp
range `[lo, hi]`, with its gating capability bit set where there is one, and
for every value that is a complete integer literal denoting `n`, where `n` lies
in the range of `int` or `long` is 32 bits wide, the call returns
`HB_QSV_PARAM_OK` and the stored field equals `min (max n lo) hi`. -/
theorem param_parse_clamp (env : Env F) (p : hb_qsv_param_t F) (info : hb_qsv_info_t)
    (c : clamp_desc F) (hc : c ∈ clamp_table F)
    (hcap : ∀ bit, c.cap = some bit → has_cap info bit = true)
    (key : List Char) (hk : strcasecmp key c.name.toList = 0)
    (v : List Char) (hv : is_int_literal v = true) (n : Int) (hn : (strtol_exact v).1 = n)
    (h : env.long_bits = 32
      ∨ (32 ≤ env.long_bits ∧ -2147483648 ≤ n ∧ n < 2147483648)) :
    ∃ q, hb_qsv_param_parse env (some p) (some info) (some key) (some v)
        = (HB_QSV_PARAM_OK, some q)
      ∧ c.field q = min (max n c.lo) c.hi := by
  obtain ⟨⟨h1, h2⟩, hlo, hle, hhi⟩ := clamp_table_facts c hc
  rw [← at_end_congr hk] at h1
  rw [← strncasecmp_congr hk] at h2
  have h2' : is_negated key = false := by simpa [is_negated] using h2
  obtain ⟨he, hval⟩ := hb_qsv_atoi_of_literal env v hv n hn h
  obtain ⟨hs, hf⟩ := param_parse_options_clamp env p info v he c hc hcap
  rw [← param_parse_options_congr env p info hk] at hs hf
  refine ⟨(param_parse_options env p info key v false).2, ?_, ?_⟩
  · rw [param_parse_plain env p info key (some v) h1 h2',
      param_parse_value_of_int_literal v hv, hs]
  · rw [hf, hval c.lo c.hi hlo hle hhi, clip3_eq_min_max c.lo c.hi n hle]

/-- An instance of `param_parse_clamp`: `la-depth=5` stores the floor 10. -/
theorem param_parse_clamp_witness :
    ∃ q, hb_qsv_param_parse sample_env (some sample_param) (some sample_info_avc)
        (some "la-depth".toList) (some "5".toList) = (HB_QSV_PARAM_OK, some q)
      ∧ (q.codingOption2.LookAheadDepth : Int) = min (max 5 10) 100 :=
  param_parse_clamp sample_env sample_param sample_info_avc
    ⟨"la-depth", 10, 100, some HB_QSV_CAP_RATECONTROL_LA,
      fun p => p.codingOption2.LookAheadDepth⟩
    (by simp [clamp_table])
    (fun bit hb => by cases hb; decide) "la-depth".toList (by decide) "5".toList (by decide) 5
    (by decide) (Or.inr ⟨by decide, by decide, by decide⟩)

set_option maxRecDepth 100000 in
/-- C3, the defect: on a platform whose `long` is 64 bits, the value
`4294967297` (a complete integer literal, above the clamp range `[1, 7]` of
`tu`) is narrowed to the `int` 1 before it is clamped, so `tu=4294967297`
returns `HB_QSV_PARAM_OK` and stores `TargetUsage = 1`, not the nearest bound
7; with a 32-bit `long`, where `strtol` saturates, the same call stores 7. -/
theorem param_parse_clamp_overflow :
    is_int_literal "4294967297".toList = true
    ∧ (strtol_exact "4294967297".toList).1 = 4294967297
    ∧ min (max 4294967297 MFX_TARGETUSAGE_1) MFX_TARGETUSAGE_7 = 7
    ∧ hb_qsv_param_parse sample_env (some sample_param) (some sample_info_avc)
        (some "tu".toList) (some "4294967297".toList)
      = (HB_QSV_PARAM_OK, some { sample_param with videoParam.mfx.TargetUsage := 1 })
    ∧ hb_qsv_param_parse sample_env32 (some sample_param) (some sample_info_avc)
        (some "tu".toList) (some "4294967297".toList)
      = (HB_QSV_PARAM_OK, some { sample_param with videoParam.mfx.TargetUsage := 7 }) := by
  decide

end clamp_theorems

/-! ## Theorems: capability probe -/

/-- Testing a capability bit is testing a binary digit. -/
theorem cap_bit (caps j : Nat) : caps &&& (1 <<< j) ≠ 0 ↔ caps.testBit j = true := by
  rw [Nat.one_shiftLeft]
  constructor
  · intro h
    by_contra hb
    apply h
    apply Nat.eq_of_testBit_eq
    intro i
    rw [Nat.testBit_and, Nat.testBit_two_pow, Nat.zero_testBit]
    by_cases hji : j = i
    · subst hji
      simp [hb]
    · simp [hji]
  · intro hb h
    have := congrArg (fun n => Nat.testBit n j) h
    simp [Nat.testBit_and, Nat.testBit_two_pow, hb] at this

/-- The binary digits of a capability constant. -/
theorem testBit_cap (j k : Nat) : (1 <<< j).testBit k = decide (j = k) := by
  rw [Nat.one_shiftLeft, Nat.testBit_two_pow]

/-- The binary digits after `caps |= bit`. -/
theorem testBit_or_cap (x j k : Nat) :
    (x ||| (1 <<< j)).testBit k = true ↔ x.testBit k = true ∨ k = j := by
  simp only [Nat.testBit_or, testBit_cap, Bool.or_eq_true, decide_eq_true_eq]
  constructor
  · rintro (h | h)
    · exact Or.inl h
    · exact Or.inr h.symm
  · rintro (h | h)
    · exact Or.inl h
    · exact Or.inr h.symm

/-- The binary digits after `if (c) caps |= bit`. -/
theorem testBit_ite1 (c : Prop) [Decidable c] (x j k : Nat) :
    (if c then x ||| (1 <<< j) else x).testBit k = true
      ↔ x.testBit k = true ∨ (k = j ∧ c) := by
  split_ifs with h
  · rw [testBit_or_cap]
    tauto
  · tauto

/-- The binary digits after `if (c) if (d) caps |= bit`. -/
theorem testBit_ite2 (c d : Prop) [Decidable c] [Decidable d] (x j k : Nat) :
    (if c then (if d then x ||| (1 <<< j) else x) else x).testBit k = true
      ↔ x.testBit k = true ∨ (k = j ∧ c ∧ d) := by
  split_ifs with h
  · rw [testBit_or_cap]
    tauto
  · tauto
  · tauto

/-- The binary digits after `if (v) if (c) if (d) caps |= bit`. -/
theorem testBit_ite3 (v c d : Prop) [Decidable v] [Decidable c] [Decidable d] (x j k : Nat) :
    (if v then (if c then (if d then x ||| (1 <<< j) else x) else x) else x).testBit k = true
      ↔ x.testBit k = true ∨ (k = j ∧ v ∧ c ∧ d) := by
  split_ifs with h
  · rw [testBit_or_cap]
    tauto
  · tauto
  · tauto
  · tauto

/-- The shape of lines 378-407 over arbitrary conditions. -/
theorem policy_caps_shape (A H E G3 G7 V : Prop) [Decidable A] [Decidable H] [Decidable E]
    [Decidable G3] [Decidable G7] [Decidable V] (caps c0 c1 k : Nat)
    (h0 : c0 = if G3 then caps ||| 1 <<< 1 else caps)
    (h1 : c1 = if A then (if H then (if E ∧ G7 then c0 ||| 1 <<< 2 else c0)
      else if V then caps ||| 1 <<< 1 else caps) else caps) :
    (if V then c1 ||| 1 <<< 0 else c1).testBit k = true
      ↔ caps.testBit k = true ∨ (k = 1 ∧ A ∧ ((H ∧ G3) ∨ (¬ H ∧ V)))
        ∨ (k = 2 ∧ A ∧ H ∧ E ∧ G7) ∨ (k = 0 ∧ V) := by
  subst h1 h0
  split_ifs <;> (try simp only [testBit_or_cap]) <;> tauto

/-- The bits `policy_caps` adds (lines 378-407). -/
theorem policy_caps_testBit (pf : Platform) (version : mfxVersion) (info : hb_qsv_info_t)
    (caps k : Nat) :
    (policy_caps pf version info caps).testBit k = true
      ↔ caps.testBit k = true
        ∨ (k = 1 ∧ (info.codec_id = MFX_CODEC_AVC ∨ info.codec_id = MFX_CODEC_HEVC)
            ∧ ((qsv_implementation_is_hardware info.implementation = true
                  ∧ qsv_hardware_generation pf.cpu_platform ≥ QSV_G3)
              ∨ (¬ qsv_implementation_is_hardware info.implementation = true
                  ∧ HB_CHECK_MFX_VERSION version 1 6 = true)))
        ∨ (k = 2 ∧ (info.codec_id = MFX_CODEC_AVC ∨ info.codec_id = MFX_CODEC_HEVC)
            ∧ qsv_implementation_is_hardware info.implementation = true
            ∧ info.codec_id = MFX_CODEC_HEVC ∧ qsv_hardware_generation pf.cpu_platform ≥ QSV_G7)
        ∨ (k = 0 ∧ HB_CHECK_MFX_VERSION version 1 6 = true) :=
  policy_caps_shape _ _ _ _ _ _ caps _ _ k rfl rfl

/-- The shape of lines 566-640 over arbitrary conditions. -/
theorem option2_caps_shape (HG3 HG2 V7 V8 m e t b l ai ab n : Prop) [Decidable HG3]
    [Decidable HG2] [Decidable V7] [Decidable V8] [Decidable m] [Decidable e] [Decidable t]
    [Decidable b] [Decidable l] [Decidable ai] [Decidable ab] [Decidable n]
    (caps c0 c1 c2 c3 c4 c5 c6 k : Nat)
    (h0 : c0 = caps ||| 1 <<< 30)
    (h1 : c1 = if HG3 then (if m then c0 ||| 1 <<< 31 else c0) else c0)
    (h2 : c2 = if HG2 then (if e then c1 ||| 1 <<< 32 else c1) else c1)
    (h3 : c3 = if V7 then (if HG3 then (if t then c2 ||| 1 <<< 33 else c2) else c2) else c2)
    (h4 : c4 = if c3 &&& 1 <<< 1 ≠ 0 then (if b then c3 ||| 1 <<< 34 else c3) else c3)
    (h5 : c5 = if c4 &&& 1 <<< 10 ≠ 0 then (if l then c4 ||| 1 <<< 36 else c4) else c4)
    (h6 : c6 = if ai ∧ ab then c5 ||| 1 <<< 35 else c5) :
    (if V8 then (if n then c6 ||| 1 <<< 37 else c6) else c3).testBit k = true
      ↔ caps.testBit k = true ∨ k = 30 ∨ (k = 31 ∧ HG3 ∧ m) ∨ (k = 32 ∧ HG2 ∧ e)
        ∨ (k = 33 ∧ V7 ∧ HG3 ∧ t) ∨ (k = 34 ∧ V8 ∧ caps.testBit 1 = true ∧ b)
        ∨ (k = 36 ∧ V8 ∧ caps.testBit 10 = true ∧ l) ∨ (k = 35 ∧ V8 ∧ ai ∧ ab)
        ∨ (k = 37 ∧ V8 ∧ n) := by
  have e0 : ∀ i, c0.testBit i = true ↔ caps.testBit i = true ∨ i = 30 :=
    fun i => h0 ▸ testBit_or_cap caps 30 i
  have e1 : ∀ i, c1.testBit i = true ↔ c0.testBit i = true ∨ (i = 31 ∧ HG3 ∧ m) :=
    fun i => h1 ▸ testBit_ite2 HG3 m c0 31 i
  have e2 : ∀ i, c2.testBit i = true ↔ c1.testBit i = true ∨ (i = 32 ∧ HG2 ∧ e) :=
    fun i => h2 ▸ testBit_ite2 HG2 e c1 32 i
  have e3 : ∀ i, c3.testBit i = true ↔ c2.testBit i = true ∨ (i = 33 ∧ V7 ∧ HG3 ∧ t) :=
    fun i => h3 ▸ testBit_ite3 V7 HG3 t c2 33 i
  have e4 : ∀ i, c4.testBit i = true
      ↔ c3.testBit i = true ∨ (i = 34 ∧ c3.testBit 1 = true ∧ b) := by
    intro i
    rw [h4, testBit_ite2, cap_bit]
  have e5 : ∀ i, c5.testBit i = true
      ↔ c4.testBit i = true ∨ (i = 36 ∧ c4.testBit 10 = true ∧ l) := by
    intro i
    rw [h5, testBit_ite2, cap_bit]
  have e6 : ∀ i, c6.testBit i = true ↔ c5.testBit i = true ∨ (i = 35 ∧ ai ∧ ab) :=
    fun i => h6 ▸ testBit_ite1 (ai ∧ ab) c5 35 i
  have p1 : c3.testBit 1 = true ↔ caps.testBit 1 = true := by
    rw [e3, e2, e1, e0]
    simp
  have p10 : c4.testBit 10 = true ↔ caps.testBit 10 = true := by
    rw [e4, e3, e2, e1, e0]
    simp
  by_cases hV : V8
  · rw [if_pos hV, testBit_ite1, e6, e5, e4, e3, e2, e1, e0, p1, p10]
    simp only [hV, true_and, or_assoc]
  · rw [if_neg hV, e3, e2, e1, e0]
    simp only [hV, false_and, and_false, or_false, or_assoc]

/-- The bits set once the `mfxExtCodingOption2` query succeeded (lines 566-640). -/
theorem option2_caps_testBit (pf : Platform) (ans : probe_answers) (version : mfxVersion)
    (info : hb_qsv_info_t) (caps k : Nat) :
    (option2_caps pf ans version info caps).testBit k = true
      ↔ caps.testBit k = true
        ∨ k = 30
        ∨ (k = 31 ∧ (qsv_implementation_is_hardware info.implementation = true
              ∧ qsv_hardware_generation pf.cpu_platform ≥ QSV_G3)
            ∧ ans.option2.MBBRC ≠ 0)
        ∨ (k = 32 ∧ (qsv_implementation_is_hardware info.implementation = true
              ∧ qsv_hardware_generation pf.cpu_platform ≥ QSV_G2)
            ∧ ans.option2.ExtBRC ≠ 0)
        ∨ (k = 33 ∧ HB_CHECK_MFX_VERSION version 1 7 = true
            ∧ (qsv_implementation_is_hardware info.implementation = true
              ∧ qsv_hardware_generation pf.cpu_platform ≥ QSV_G3)
            ∧ ans.option2.Trellis ≠ 0)
        ∨ (k = 34 ∧ HB_CHECK_MFX_VERSION version 1 8 = true
            ∧ caps.testBit 1 = true ∧ ans.option2.BRefType ≠ 0)
        ∨ (k = 36 ∧ HB_CHECK_MFX_VERSION version 1 8 = true
            ∧ caps.testBit 10 = true ∧ ans.option2.LookAheadDS ≠ 0)
        ∨ (k = 35 ∧ HB_CHECK_MFX_VERSION version 1 8 = true
            ∧ ans.option2.AdaptiveI ≠ 0 ∧ ans.option2.AdaptiveB ≠ 0)
        ∨ (k = 37 ∧ HB_CHECK_MFX_VERSION version 1 8 = true
            ∧ ans.option2.NumMbPerSlice ≠ 0) :=
  option2_caps_shape _ _ _ _ _ _ _ _ _ _ _ _ caps _ _ _ _ _ _ _ k rfl rfl rfl rfl rfl rfl rfl

/-- The bits the lookahead trials add (lines 418-450). -/
theorem la_trial_testBit (ans : probe_answers) (version : mfxVersion) (caps k : Nat) :
    (la_trial ans version caps).1.testBit k = true
      ↔ caps.testBit k = true
        ∨ (k = 10 ∧ HB_CHECK_MFX_VERSION version 1 7 = true
            ∧ ans.la_status ≥ MFX_ERR_NONE ∧ ans.la_rc = MFX_RATECONTROL_LA)
        ∨ (k = 11 ∧ HB_CHECK_MFX_VERSION version 1 7 = true
            ∧ (ans.la_status ≥ MFX_ERR_NONE ∧ ans.la_rc = MFX_RATECONTROL_LA)
            ∧ ans.lai_status ≥ MFX_ERR_NONE
            ∧ (ans.lai_picstruct : Int) = MFX_PICSTRUCT_FIELD_TFF
            ∧ ans.lai_rc = MFX_RATECONTROL_LA) := by
  unfold la_trial HB_QSV_CAP_RATECONTROL_LA HB_QSV_CAP_RATECONTROL_LAi
  split_ifs <;> (try simp only [testBit_or_cap]) <;> tauto

/-- The bit the ICQ trial adds (lines 451-466). -/
theorem icq_trial_testBit (ans : probe_answers) (version : mfxVersion) (caps k : Nat) :
    (icq_trial ans version caps).1.testBit k = true
      ↔ caps.testBit k = true
        ∨ (k = 12 ∧ HB_CHECK_MFX_VERSION version 1 8 = true
            ∧ ans.icq_status ≥ MFX_ERR_NONE ∧ ans.icq_rc = MFX_RATECONTROL_ICQ) := by
  unfold icq_trial HB_QSV_CAP_RATECONTROL_ICQ
  split_ifs <;> (try simp only [testBit_or_cap]) <;> tauto

/-- The bit the `mfxExtVideoSignalInfo` trial adds (lines 468-498). -/
theorem vsinfo_trial_testBit (ans : probe_answers) (version : mfxVersion) (caps k : Nat) :
    (vsinfo_trial ans version caps).1.testBit k = true
      ↔ caps.testBit k = true
        ∨ (k = 3 ∧ HB_CHECK_MFX_VERSION version 1 3 = true
            ∧ ans.vsinfo_status ≥ MFX_ERR_NONE) := by
  unfold vsinfo_trial HB_QSV_CAP_VUI_VSINFO
  split_ifs <;> (try simp only [testBit_or_cap]) <;> tauto

/-- The bit the `mfxExtCodingOption` trial adds (lines 500-530). -/
theorem option1_trial_testBit (ans : probe_answers) (version : mfxVersion) (caps k : Nat) :
    (option1_trial ans version caps).1.testBit k = true
      ↔ caps.testBit k = true
        ∨ (k = 20 ∧ HB_CHECK_MFX_VERSION version 1 0 = true
            ∧ ans.option1_status ≥ MFX_ERR_NONE) := by
  unfold option1_trial HB_QSV_CAP_OPTION1
  split_ifs <;> (try simp only [testBit_or_cap]) <;> tauto

/-- The `mfxExtCodingOption2` trial (lines 532-648) adds bits only when the API is
1.6 or later, the codec is AVC and the query succeeds. -/
theorem option2_trial_fst (pf : Platform) (ans : probe_answers) (version : mfxVersion)
    (info : hb_qsv_info_t) (caps : Nat) :
    (option2_trial pf ans version info caps).1
      = if (HB_CHECK_MFX_VERSION version 1 6 = true ∧ info.codec_id = MFX_CODEC_AVC)
            ∧ ans.option2_status ≥ MFX_ERR_NONE
        then option2_caps pf ans version info caps else caps := by
  unfold option2_trial
  split_ifs <;> first | rfl | tauto

/-- The availability check (lines 321-364) changes only `available`. -/
theorem probe_available_fields (pf : Platform) (ans : probe_answers) (version : mfxVersion)
    (info : hb_qsv_info_t) :
    (probe_available pf ans version info).info.codec_id = info.codec_id
      ∧ (probe_available pf ans version info).info.implementation = info.implementation
      ∧ (probe_available pf ans version info).info.capabilities = info.capabilities := by
  unfold probe_available
  split_ifs <;> exact ⟨rfl, rfl, rfl⟩

/-- The availability check (lines 321-364) sets `available` to 1 exactly when the
version check passes, the implementation is no audio implementation, the baseline
query succeeds echoing the codec and the encoder initialises. -/
theorem probe_available_available (pf : Platform) (ans : probe_answers) (version : mfxVersion)
    (info : hb_qsv_info_t) :
    (probe_available pf ans version info).info.available
      = if HB_CHECK_MFX_VERSION version HB_QSV_MINVERSION_MAJOR pf.minversion_minor = true
            ∧ info.implementation &&& MFX_IMPL_AUDIO = 0
            ∧ (ans.query_status ≥ MFX_ERR_NONE ∧ ans.query_codec = info.codec_id)
            ∧ ans.init_status ≥ MFX_ERR_NONE
        then 1 else info.available := by
  unfold probe_available
  split_ifs <;> first | rfl | tauto

/-- The policy bits depend on the codec and the implementation only. -/
theorem policy_caps_congr (pf : Platform) (version : mfxVersion) (i1 i2 : hb_qsv_info_t)
    (caps : Nat) (hc : i1.codec_id = i2.codec_id) (hi : i1.implementation = i2.implementation) :
    policy_caps pf version i1 caps = policy_caps pf version i2 caps := by
  unfold policy_caps
  rw [hc, hi]

/-- The `mfxExtCodingOption2` trial depends on the codec and the implementation only. -/
theorem option2_trial_congr (pf : Platform) (ans : probe_answers) (version : mfxVersion)
    (i1 i2 : hb_qsv_info_t) (caps : Nat) (hc : i1.codec_id = i2.codec_id)
    (hi : i1.implementation = i2.implementation) :
    option2_trial pf ans version i1 caps = option2_trial pf ans version i2 caps := by
  unfold option2_trial option2_caps
  rw [hc, hi]

/-- The plugin list is `NULL` only when `hb_list_init` fails. -/
theorem hb_qsv_load_plugins_list (ans : probe_answers) (loaded : List plugin_uid)
    (info : hb_qsv_info_t) (version : mfxVersion) :
    (hb_qsv_load_plugins ans loaded info version).list = none ↔ ans.list_init_ok = false := by
  unfold hb_qsv_load_plugins
  split_ifs <;> simp_all

/-- Line 326 returns only for an audio implementation. -/
theorem probe_available_returned (pf : Platform) (ans : probe_answers) (version : mfxVersion)
    (info : hb_qsv_info_t) (h : (probe_available pf ans version info).returned = true) :
    info.implementation &&& MFX_IMPL_AUDIO ≠ 0 := by
  unfold probe_available at h
  split_ifs at h with h1 h2
  exact h2

/-- Whatever the answers, `query_capabilities` leaves either no capability at all,
on one of the early returns of lines 311, 326, 368 and 374, or the bits of the
full probe of lines 378-648 started from zero. -/
theorem query_capabilities_caps (pf : Platform) (ans : probe_answers)
    (loaded : List plugin_uid) (version : mfxVersion) (info : hb_qsv_info_t) :
    ((query_capabilities pf ans loaded version info).info.capabilities = 0
        ∧ (ans.list_init_ok = false
          ∨ (query_capabilities pf ans loaded version info).info.available = 0
          ∨ info.implementation &&& MFX_IMPL_AUDIO ≠ 0))
      ∨ ((query_capabilities pf ans loaded version info).info.available ≠ 0
        ∧ (query_capabilities pf ans loaded version info).info.capabilities
          = (option2_trial pf ans version info (option1_trial ans version
              (vsinfo_trial ans version (icq_trial ans version
                (la_trial ans version (policy_caps pf version info 0)).1).1).1).1).1) := by
  obtain ⟨hc, hi, hk⟩ := probe_available_fields pf ans version { info with capabilities := 0 }
  have hl := hb_qsv_load_plugins_list ans loaded { info with capabilities := 0 } version
  have hr := probe_available_returned pf ans version { info with capabilities := 0 }
  unfold query_capabilities
  simp only []
  split
  · rename_i hn
    exact Or.inl ⟨rfl, Or.inl (hl.mp hn)⟩
  · split_ifs with h1 h2 h3
    · exact Or.inl ⟨hk, Or.inr (Or.inr (hr h1))⟩
    · exact Or.inl ⟨hk, Or.inr (Or.inl h2)⟩
    · exact Or.inl ⟨hk, Or.inr (Or.inr (hi ▸ h3))⟩
    · right
      refine ⟨h2, ?_⟩
      show (option2_trial _ _ _ _ _).1 = _
      rw [hk, option2_trial_congr pf ans version _ info _ hc hi,
        policy_caps_congr pf version _ info _ hc hi]

/-- A capability test on a capability constant is a test of a binary digit. -/
theorem has_cap_testBit (info : hb_qsv_info_t) (j : Nat) :
    has_cap info (1 <<< j) = true ↔ info.capabilities.testBit j = true := by
  unfold has_cap
  rw [decide_eq_true_eq]
  exact cap_bit _ _

/-- An info without capabilities passes no capability test. -/
theorem has_cap_zero (info : hb_qsv_info_t) (bit : Nat) (h : info.capabilities = 0) :
    has_cap info bit = false := by
  unfold has_cap
  rw [h, Nat.zero_and]
  rfl

/-- The binary digits after a step that either keeps the bits or adds some. -/
theorem testBit_ite_of_iff (c P : Prop) [Decidable c] (x y k : Nat)
    (h : y.testBit k = true ↔ x.testBit k = true ∨ P) :
    (if c then y else x).testBit k = true ↔ x.testBit k = true ∨ (c ∧ P) := by
  split_ifs with hc
  · rw [h]
    simp only [hc, true_and]
  · simp only [hc, false_and, or_false]

/-- The bits the `mfxExtCodingOption2` trial adds (lines 532-648). -/
theorem option2_trial_testBit (pf : Platform) (ans : probe_answers) (version : mfxVersion)
    (info : hb_qsv_info_t) (caps k : Nat) :
    (option2_trial pf ans version info caps).1.testBit k = true
      ↔ caps.testBit k = true
        ∨ (((HB_CHECK_MFX_VERSION version 1 6 = true ∧ info.codec_id = MFX_CODEC_AVC)
            ∧ ans.option2_status ≥ MFX_ERR_NONE)
          ∧ (k = 30
            ∨ (k = 31 ∧ (qsv_implementation_is_hardware info.implementation = true
                  ∧ qsv_hardware_generation pf.cpu_platform ≥ QSV_G3)
                ∧ ans.option2.MBBRC ≠ 0)
            ∨ (k = 32 ∧ (qsv_implementation_is_hardware info.implementation = true
                  ∧ qsv_hardware_generation pf.cpu_platform ≥ QSV_G2)
                ∧ ans.option2.ExtBRC ≠ 0)
            ∨ (k = 33 ∧ HB_CHECK_MFX_VERSION version 1 7 = true
                ∧ (qsv_implementation_is_hardware info.implementation = true
                  ∧ qsv_hardware_generation pf.cpu_platform ≥ QSV_G3)
                ∧ ans.option2.Trellis ≠ 0)
            ∨ (k = 34 ∧ HB_CHECK_MFX_VERSION version 1 8 = true
                ∧ caps.testBit 1 = true ∧ ans.option2.BRefType ≠ 0)
            ∨ (k = 36 ∧ HB_CHECK_MFX_VERSION version 1 8 = true
                ∧ caps.testBit 10 = true ∧ ans.option2.LookAheadDS ≠ 0)
            ∨ (k = 35 ∧ HB_CHECK_MFX_VERSION version 1 8 = true
                ∧ ans.option2.AdaptiveI ≠ 0 ∧ ans.option2.AdaptiveB ≠ 0)
            ∨ (k = 37 ∧ HB_CHECK_MFX_VERSION version 1 8 = true
                ∧ ans.option2.NumMbPerSlice ≠ 0))) := by
  rw [option2_trial_fst]
  exact testBit_ite_of_iff _ _ _ _ _ (option2_caps_testBit pf ans version info caps k)

/-- The binary digits of the capabilities the full probe of lines 378-648 leaves
when started from zero. -/
theorem full_probe_testBit (pf : Platform) (ans : probe_answers) (version : mfxVersion)
    (info : hb_qsv_info_t) (k : Nat) :
    (option2_trial pf ans version info (option1_trial ans version
        (vsinfo_trial ans version (icq_trial ans version
          (la_trial ans version (policy_caps pf version info 0)).1).1).1).1).1.testBit k = true
      ↔ (k = 1 ∧ (info.codec_id = MFX_CODEC_AVC ∨ info.codec_id = MFX_CODEC_HEVC)
            ∧ ((qsv_implementation_is_hardware info.implementation = true
                  ∧ qsv_hardware_generation pf.cpu_platform ≥ QSV_G3)
              ∨ (¬ qsv_implementation_is_hardware info.implementation = true
                  ∧ HB_CHECK_MFX_VERSION version 1 6 = true)))
        ∨ (k = 2 ∧ (info.codec_id = MFX_CODEC_AVC ∨ info.codec_id = MFX_CODEC_HEVC)
            ∧ qsv_implementation_is_hardware info.implementation = true
            ∧ info.codec_id = MFX_CODEC_HEVC ∧ qsv_hardware_generation pf.cpu_platform ≥ QSV_G7)
        ∨ (k = 0 ∧ HB_CHECK_MFX_VERSION version 1 6 = true)
        ∨ (k = 10 ∧ HB_CHECK_MFX_VERSION version 1 7 = true
            ∧ ans.la_status ≥ MFX_ERR_NONE ∧ ans.la_rc = MFX_RATECONTROL_LA)
        ∨ (k = 11 ∧ HB_CHECK_MFX_VERSION version 1 7 = true
            ∧ (ans.la_status ≥ MFX_ERR_NONE ∧ ans.la_rc = MFX_RATECONTROL_LA)
            ∧ ans.lai_status ≥ MFX_ERR_NONE
            ∧ (ans.lai_picstruct : Int) = MFX_PICSTRUCT_FIELD_TFF
            ∧ ans.lai_rc = MFX_RATECONTROL_LA)
        ∨ (k = 12 ∧ HB_CHECK_MFX_VERSION version 1 8 = true
            ∧ ans.icq_status ≥ MFX_ERR_NONE ∧ ans.icq_rc = MFX_RATECONTROL_ICQ)
        ∨ (k = 3 ∧ HB_CHECK_MFX_VERSION version 1 3 = true ∧ ans.vsinfo_status ≥ MFX_ERR_NONE)
        ∨ (k = 20 ∧ HB_CHECK_MFX_VERSION version 1 0 = true
            ∧ ans.option1_status ≥ MFX_ERR_NONE)
        ∨ (((HB_CHECK_MFX_VERSION version 1 6 = true ∧ info.codec_id = MFX_CODEC_AVC)
            ∧ ans.option2_status ≥ MFX_ERR_NONE)
          ∧ (k = 30
            ∨ (k = 31 ∧ (qsv_implementation_is_hardware info.implementation = true
                  ∧ qsv_hardware_generation pf.cpu_platform ≥ QSV_G3)
                ∧ ans.option2.MBBRC ≠ 0)
            ∨ (k = 32 ∧ (qsv_implementation_is_hardware info.implementation = true
                  ∧ qsv_hardware_generation pf.cpu_platform ≥ QSV_G2)
                ∧ ans.option2.ExtBRC ≠ 0)
            ∨ (k = 33 ∧ HB_CHECK_MFX_VERSION version 1 7 = true
                ∧ (qsv_implementation_is_hardware info.implementation = true
                  ∧ qsv_hardware_generation pf.cpu_platform ≥ QSV_G3)
                ∧ ans.option2.Trellis ≠ 0)
            ∨ (k = 34 ∧ HB_CHECK_MFX_VERSION version 1 8 = true
                ∧ ((info.codec_id = MFX_CODEC_AVC ∨ info.codec_id = MFX_CODEC_HEVC)
                  ∧ ((qsv_implementation_is_hardware info.implementation = true
                        ∧ qsv_hardware_generation pf.cpu_platform ≥ QSV_G3)
                    ∨ (¬ qsv_implementation_is_hardware info.implementation = true
                        ∧ HB_CHECK_MFX_VERSION version 1 6 = true)))
                ∧ ans.option2.BRefType ≠ 0)
            ∨ (k = 36 ∧ HB_CHECK_MFX_VERSION version 1 8 = true
                ∧ (HB_CHECK_MFX_VERSION version 1 7 = true
                  ∧ ans.la_status ≥ MFX_ERR_NONE ∧ ans.la_rc = MFX_RATECONTROL_LA)
                ∧ ans.option2.LookAheadDS ≠ 0)
            ∨ (k = 35 ∧ HB_CHECK_MFX_VERSION version 1 8 = true
                ∧ ans.option2.AdaptiveI ≠ 0 ∧ ans.option2.AdaptiveB ≠ 0)
            ∨ (k = 37 ∧ HB_CHECK_MFX_VERSION version 1 8 = true
                ∧ ans.option2.NumMbPerSlice ≠ 0))) := by
  have b1 : ∀ c, (option1_trial ans version (vsinfo_trial ans version (icq_trial ans version
      (la_trial ans version (policy_caps pf version info c)).1).1).1).1.testBit 1 = true
      ↔ (policy_caps pf version info c).testBit 1 = true := by
    intro c
    rw [option1_trial_testBit, vsinfo_trial_testBit, icq_trial_testBit, la_trial_testBit]
    simp
  have b10 : ∀ c, (option1_trial ans version (vsinfo_trial ans version (icq_trial ans version
      (la_trial ans version c).1).1).1).1.testBit 10 = true
      ↔ (la_trial ans version c).1.testBit 10 = true := by
    intro c
    rw [option1_trial_testBit, vsinfo_trial_testBit, icq_trial_testBit]
    simp
  rw [option2_trial_testBit, b1, b10, option1_trial_testBit, vsinfo_trial_testBit,
    icq_trial_testBit, la_trial_testBit, la_trial_testBit, policy_caps_testBit,
    policy_caps_testBit, policy_caps_testBit]
  simp only [Nat.zero_testBit, Bool.false_eq_true, false_or, or_assoc, Nat.reduceEqDiff,
    false_and, or_false, true_and]

/-- The `available` flag `query_capabilities` leaves: 1 when the plugin list could
be made, the version check passes, the implementation is no audio implementation,
the baseline query succeeds echoing the codec and the encoder initialises, else
the flag as it was on entry. -/
theorem query_capabilities_available (pf : Platform) (ans : probe_answers)
    (loaded : List plugin_uid) (version : mfxVersion) (info : hb_qsv_info_t) :
    (query_capabilities pf ans loaded version info).info.available
      = if ans.list_init_ok = true
            ∧ HB_CHECK_MFX_VERSION version HB_QSV_MINVERSION_MAJOR pf.minversion_minor = true
            ∧ info.implementation &&& MFX_IMPL_AUDIO = 0
            ∧ (ans.query_status ≥ MFX_ERR_NONE ∧ ans.query_codec = info.codec_id)
            ∧ ans.init_status ≥ MFX_ERR_NONE
        then 1 else info.available := by
  have ha : (probe_available pf ans version { info with capabilities := 0 }).info.available
      = if HB_CHECK_MFX_VERSION version HB_QSV_MINVERSION_MAJOR pf.minversion_minor = true
            ∧ info.implementation &&& MFX_IMPL_AUDIO = 0
            ∧ (ans.query_status ≥ MFX_ERR_NONE ∧ ans.query_codec = info.codec_id)
            ∧ ans.init_status ≥ MFX_ERR_NONE
        then 1 else info.available :=
    probe_available_available pf ans version { info with capabilities := 0 }
  have hl := hb_qsv_load_plugins_list ans loaded { info with capabilities := 0 } version
  cases ht : ans.list_init_ok
  · rw [if_neg (by simp)]
    unfold query_capabilities
    simp only [hl.mpr ht]
  · simp only [true_and]
    rw [← ha]
    unfold query_capabilities
    simp only []
    split
    · rename_i hn
      rw [hl.mp hn] at ht
      exact absurd ht (by decide)
    · split_ifs <;> rfl

/-- An implementation that was not available on entry and is available on return
went through the full probe: the major version is 1 and the capabilities are the
bits of lines 378-648 started from zero. -/
theorem query_capabilities_full (pf : Platform) (ans : probe_answers)
    (loaded : List plugin_uid) (version : mfxVersion) (info : hb_qsv_info_t)
    (h0 : info.available = 0)
    (hav : (query_capabilities pf ans loaded version info).info.available ≠ 0) :
    version.Major = 1
      ∧ (query_capabilities pf ans loaded version info).info.capabilities
          = (option2_trial pf ans version info (option1_trial ans version
              (vsinfo_trial ans version (icq_trial ans version
                (la_trial ans version (policy_caps pf version info 0)).1).1).1).1).1 := by
  have ha := query_capabilities_available pf ans loaded version info
  constructor
  · by_contra hm
    apply hav
    rw [ha, if_neg, h0]
    rintro ⟨-, hv, -⟩
    simp only [HB_CHECK_MFX_VERSION, HB_QSV_MINVERSION_MAJOR, decide_eq_true_eq] at hv
    exact hm hv.1
  · rcases query_capabilities_caps pf ans loaded version info with ⟨-, h⟩ | ⟨-, h⟩
    · exfalso
      rcases h with h | h | h
      · apply hav
        rw [ha, if_neg, h0]
        rintro ⟨hl, -⟩
        rw [h] at hl
        exact Bool.false_ne_true hl
      · exact hav h
      · apply hav
        rw [ha, if_neg, h0]
        rintro ⟨-, -, hx, -⟩
        exact h hx
    · exact h

/-- The plugin loader issues no query. -/
theorem hb_qsv_load_plugins_no_query (ans : probe_answers) (loaded : List plugin_uid)
    (info : hb_qsv_info_t) (version : mfxVersion) :
    (hb_qsv_load_plugins ans loaded info version).calls.filter is_query = [] := by
  unfold hb_qsv_load_plugins
  split_ifs <;> rfl

/-- The availability check issues at most the baseline query. -/
theorem probe_available_queries (pf : Platform) (ans : probe_answers) (version : mfxVersion)
    (info : hb_qsv_info_t) :
    ((probe_available pf ans version info).calls.filter is_query).length ≤ 1 := by
  unfold probe_available
  split_ifs <;> simp +decide only [List.filter, is_query, List.length]

/-- A probe that leaves the implementation unavailable has issued no query beyond
the baseline one. -/
theorem query_capabilities_unavailable_queries (pf : Platform) (ans : probe_answers)
    (loaded : List plugin_uid) (version : mfxVersion) (info : hb_qsv_info_t)
    (h : (query_capabilities pf ans loaded version info).info.available = 0) :
    ((query_capabilities pf ans loaded version info).calls.filter is_query).length ≤ 1 := by
  have hq := probe_available_queries pf ans version { info with capabilities := 0 }
  have hl := hb_qsv_load_plugins_no_query ans loaded { info with capabilities := 0 } version
  unfold query_capabilities at h ⊢
  simp only [] at h ⊢
  split at h
  · rw [hl]
    decide
  · split_ifs at h ⊢ with h1 h2 h3
    · rw [List.filter_append, hl]
      exact hq
    · rw [List.filter_append, hl]
      exact hq
    · rw [List.filter_append, hl]
      exact hq
    · exact absurd h h2

/-- C13: probe abort yields zero capabilities.  For an info whose `available` flag
is 0 on entry, when the baseline `MFXVideoENCODE_Query` returns an error, or echoes
a `CodecId` other than `info.codec_id`, or `MFXVideoENCODE_Init` returns an error,
`query_capabilities` returns with `available` 0 and `capabilities` 0, having issued
no query beyond the baseline one, whatever the feature queries would answer. -/
theorem probe_abort_zero_capabilities (pf : Platform) (ans : probe_answers)
    (loaded : List plugin_uid) (version : mfxVersion) (info : hb_qsv_info_t)
    (h0 : info.available = 0)
    (hfail : ans.query_status < MFX_ERR_NONE ∨ ans.query_codec ≠ info.codec_id
      ∨ ans.init_status < MFX_ERR_NONE) :
    (query_capabilities pf ans loaded version info).info.available = 0
      ∧ (query_capabilities pf ans loaded version info).info.capabilities = 0
      ∧ ((query_capabilities pf ans loaded version info).calls.filter is_query).length ≤ 1 := by
  have ha : (query_capabilities pf ans loaded version info).info.available = 0 := by
    rw [query_capabilities_available, if_neg, h0]
    rintro ⟨-, -, -, ⟨hq, hc⟩, hi⟩
    rcases hfail with h | h | h
    · exact absurd hq (not_le.mpr h)
    · exact h hc
    · exact absurd hi (not_le.mpr h)
  refine ⟨ha, ?_, query_capabilities_unavailable_queries pf ans loaded version info ha⟩
  rcases query_capabilities_caps pf ans loaded version info with ⟨h, -⟩ | ⟨h, -⟩
  · exact h
  · exact absurd ha h

/-- Witness of C13: the hardware HEVC info on a Haswell processor, where the
baseline query succeeds and `MFXVideoENCODE_Init` fails. -/
theorem probe_abort_zero_capabilities_witness :
    initial_registry.qsv_hardware_info_hevc.available = 0
      ∧ ({ sample_answers MFX_CODEC_HEVC with init_status := -1 } : probe_answers).init_status
          < MFX_ERR_NONE
      ∧ (query_capabilities sample_platform
          { sample_answers MFX_CODEC_HEVC with init_status := -1 } [] ⟨1, 8⟩
          initial_registry.qsv_hardware_info_hevc).info.available = 0
      ∧ (query_capabilities sample_platform
          { sample_answers MFX_CODEC_HEVC with init_status := -1 } [] ⟨1, 8⟩
          initial_registry.qsv_hardware_info_hevc).info.capabilities = 0
      ∧ ((query_capabilities sample_platform
          { sample_answers MFX_CODEC_HEVC with init_status := -1 } [] ⟨1, 8⟩
          initial_registry.qsv_hardware_info_hevc).calls.filter is_query).length ≤ 1 :=
  ⟨by decide, by decide,
    probe_abort_zero_capabilities sample_platform _ [] ⟨1, 8⟩ _ (by decide)
      (Or.inr (Or.inr (by decide)))⟩

/-- C14: dependent capability bits imply their prerequisites.  For every platform,
API version, info and every answer of the session, the capabilities
`query_capabilities` leaves satisfy `OPTION2_BREFTYPE ⇒ B_REF_PYRAMID`,
`OPTION2_LA_DOWNS ⇒ RATECONTROL_LA`, `RATECONTROL_LAi ⇒ RATECONTROL_LA`, and each
of the seven `OPTION2_*` bits implies `OPTION2`. -/
theorem dependent_bits_imply_prerequisites (pf : Platform) (ans : probe_answers)
    (loaded : List plugin_uid) (version : mfxVersion) (info : hb_qsv_info_t) :
    (has_cap (query_capabilities pf ans loaded version info).info HB_QSV_CAP_OPTION2_BREFTYPE = true
        → has_cap (query_capabilities pf ans loaded version info).info
            HB_QSV_CAP_B_REF_PYRAMID = true)
      ∧ (has_cap (query_capabilities pf ans loaded version info).info
            HB_QSV_CAP_OPTION2_LA_DOWNS = true
        → has_cap (query_capabilities pf ans loaded version info).info
            HB_QSV_CAP_RATECONTROL_LA = true)
      ∧ (has_cap (query_capabilities pf ans loaded version info).info
            HB_QSV_CAP_RATECONTROL_LAi = true
        → has_cap (query_capabilities pf ans loaded version info).info
            HB_QSV_CAP_RATECONTROL_LA = true)
      ∧ ∀ bit ∈ [HB_QSV_CAP_OPTION2_MBBRC, HB_QSV_CAP_OPTION2_EXTBRC,
          HB_QSV_CAP_OPTION2_TRELLIS, HB_QSV_CAP_OPTION2_BREFTYPE, HB_QSV_CAP_OPTION2_LA_DOWNS,
          HB_QSV_CAP_OPTION2_IB_ADAPT, HB_QSV_CAP_OPTION2_NMPSLICE],
        has_cap (query_capabilities pf ans loaded version info).info bit = true
          → has_cap (query_capabilities pf ans loaded version info).info
              HB_QSV_CAP_OPTION2 = true := by
  rcases query_capabilities_caps pf ans loaded version info with ⟨h, -⟩ | ⟨-, h⟩
  · have hz := has_cap_zero (query_capabilities pf ans loaded version info).info
    refine ⟨?_, ?_, ?_, ?_⟩
    · intro hx
      rw [hz _ h] at hx
      exact absurd hx Bool.false_ne_true
    · intro hx
      rw [hz _ h] at hx
      exact absurd hx Bool.false_ne_true
    · intro hx
      rw [hz _ h] at hx
      exact absurd hx Bool.false_ne_true
    · intro bit _ hx
      rw [hz _ h] at hx
      exact absurd hx Bool.false_ne_true
  · simp only [List.forall_mem_cons]
    unfold HB_QSV_CAP_OPTION2_BREFTYPE HB_QSV_CAP_B_REF_PYRAMID HB_QSV_CAP_OPTION2_LA_DOWNS
      HB_QSV_CAP_RATECONTROL_LA HB_QSV_CAP_RATECONTROL_LAi HB_QSV_CAP_OPTION2_MBBRC
      HB_QSV_CAP_OPTION2_EXTBRC HB_QSV_CAP_OPTION2_TRELLIS HB_QSV_CAP_OPTION2_IB_ADAPT
      HB_QSV_CAP_OPTION2_NMPSLICE HB_QSV_CAP_OPTION2
    simp only [has_cap_testBit, h, full_probe_testBit, Nat.reduceEqDiff, false_and, true_and,
      false_or, or_false, and_false]
    refine ⟨?_, ?_, ?_, ?_, ?_, ?_, ?_, ?_, ?_, ?_,
      fun x hx => absurd hx (List.not_mem_nil x)⟩
    all_goals tauto

/-- Witness of C14: with a hardware AVC implementation on a Haswell processor, API
1.8 and a session that confirms everything, the dependent bits are set, and so
are their prerequisites. -/
theorem dependent_bits_imply_prerequisites_witness :
    has_cap (query_capabilities sample_platform (sample_answers MFX_CODEC_AVC) [] ⟨1, 8⟩
        initial_registry.qsv_hardware_info_avc).info HB_QSV_CAP_OPTION2_BREFTYPE = true
      ∧ has_cap (query_capabilities sample_platform (sample_answers MFX_CODEC_AVC) [] ⟨1, 8⟩
          initial_registry.qsv_hardware_info_avc).info HB_QSV_CAP_B_REF_PYRAMID = true
      ∧ has_cap (query_capabilities sample_platform (sample_answers MFX_CODEC_AVC) [] ⟨1, 8⟩
          initial_registry.qsv_hardware_info_avc).info HB_QSV_CAP_RATECONTROL_LAi = true
      ∧ has_cap (query_capabilities sample_platform (sample_answers MFX_CODEC_AVC) [] ⟨1, 8⟩
          initial_registry.qsv_hardware_info_avc).info HB_QSV_CAP_RATECONTROL_LA = true :=
  ⟨by decide,
    (dependent_bits_imply_prerequisites sample_platform (sample_answers MFX_CODEC_AVC) [] ⟨1, 8⟩
      initial_registry.qsv_hardware_info_avc).1 (by decide),
    by decide,
    (dependent_bits_imply_prerequisites sample_platform (sample_answers MFX_CODEC_AVC) [] ⟨1, 8⟩
      initial_registry.qsv_hardware_info_avc).2.2.1 (by decide)⟩

/-- With major version 1 the version order is the test `HB_CHECK_MFX_VERSION`. -/
theorem api_ge_iff (version : mfxVersion) (hM : version.Major = 1) (m : Nat) :
    api_ge version 1 m = true ↔ HB_CHECK_MFX_VERSION version 1 m = true := by
  simp [api_ge, HB_CHECK_MFX_VERSION, hM]

/-- The test `HB_CHECK_MFX_VERSION` implies the version order. -/
theorem api_ge_of_check (version : mfxVersion) (m : Nat)
    (h : HB_CHECK_MFX_VERSION version 1 m = true) : api_ge version 1 m = true := by
  simp only [HB_CHECK_MFX_VERSION, decide_eq_true_eq] at h
  simp [api_ge, h.1, h.2]

/-- C15: queried capability bits are set exactly on a version-gated successful
trial.  For an implementation that `query_capabilities`, entered with `available`
0, has found available: `RATECONTROL_LA` is set iff the API is 1.7 or later and the
LA query returns no error and echoes `RateControlMethod = LA`; `RATECONTROL_ICQ`
iff API 1.8 or later and the ICQ query returns no error and echoes ICQ;
`VUI_VSINFO` iff API 1.3 or later and the `mfxExtVideoSignalInfo` query returns no
error; `OPTION1` iff API 1.0 or later and the `mfxExtCodingOption` query returns no
error; `OPTION2` iff the codec is AVC, API 1.6 or later and the
`mfxExtCodingOption2` query returns no error.  A trial whose query fails leaves
the capabilities as they were. -/
theorem queried_bits_exact (pf : Platform) (ans : probe_answers)
    (loaded : List plugin_uid) (version : mfxVersion) (info : hb_qsv_info_t)
    (h0 : info.available = 0)
    (hav : (query_capabilities pf ans loaded version info).info.available ≠ 0) :
    (has_cap (query_capabilities pf ans loaded version info).info HB_QSV_CAP_RATECONTROL_LA = true
        ↔ api_ge version 1 7 = true ∧ ans.la_status ≥ MFX_ERR_NONE
          ∧ ans.la_rc = MFX_RATECONTROL_LA)
      ∧ (has_cap (query_capabilities pf ans loaded version info).info
            HB_QSV_CAP_RATECONTROL_ICQ = true
        ↔ api_ge version 1 8 = true ∧ ans.icq_status ≥ MFX_ERR_NONE
          ∧ ans.icq_rc = MFX_RATECONTROL_ICQ)
      ∧ (has_cap (query_capabilities pf ans loaded version info).info HB_QSV_CAP_VUI_VSINFO = true
        ↔ api_ge version 1 3 = true ∧ ans.vsinfo_status ≥ MFX_ERR_NONE)
      ∧ (has_cap (query_capabilities pf ans loaded version info).info HB_QSV_CAP_OPTION1 = true
        ↔ api_ge version 1 0 = true ∧ ans.option1_status ≥ MFX_ERR_NONE)
      ∧ (has_cap (query_capabilities pf ans loaded version info).info HB_QSV_CAP_OPTION2 = true
        ↔ info.codec_id = MFX_CODEC_AVC ∧ api_ge version 1 6 = true
          ∧ ans.option2_status ≥ MFX_ERR_NONE)
      ∧ (∀ caps, ans.la_status < MFX_ERR_NONE → (la_trial ans version caps).1 = caps)
      ∧ (∀ caps, ans.icq_status < MFX_ERR_NONE → (icq_trial ans version caps).1 = caps)
      ∧ (∀ caps, ans.vsinfo_status < MFX_ERR_NONE → (vsinfo_trial ans version caps).1 = caps)
      ∧ (∀ caps, ans.option1_status < MFX_ERR_NONE → (option1_trial ans version caps).1 = caps)
      ∧ (∀ caps, ans.option2_status < MFX_ERR_NONE
          → (option2_trial pf ans version info caps).1 = caps) := by
  obtain ⟨hM, h⟩ := query_capabilities_full pf ans loaded version info h0 hav
  refine ⟨?_, ?_, ?_, ?_, ?_, ?_, ?_, ?_, ?_, ?_⟩
  · unfold HB_QSV_CAP_RATECONTROL_LA
    rw [has_cap_testBit, h, full_probe_testBit, api_ge_iff version hM]
    simp only [Nat.reduceEqDiff, false_and, true_and, false_or, or_false, and_false]
  · unfold HB_QSV_CAP_RATECONTROL_ICQ
    rw [has_cap_testBit, h, full_probe_testBit, api_ge_iff version hM]
    simp only [Nat.reduceEqDiff, false_and, true_and, false_or, or_false, and_false]
  · unfold HB_QSV_CAP_VUI_VSINFO
    rw [has_cap_testBit, h, full_probe_testBit, api_ge_iff version hM]
    simp only [Nat.reduceEqDiff, false_and, true_and, false_or, or_false, and_false]
  · unfold HB_QSV_CAP_OPTION1
    rw [has_cap_testBit, h, full_probe_testBit, api_ge_iff version hM]
    simp only [Nat.reduceEqDiff, false_and, true_and, false_or, or_false, and_false]
  · unfold HB_QSV_CAP_OPTION2
    rw [has_cap_testBit, h, full_probe_testBit, api_ge_iff version hM]
    simp only [Nat.reduceEqDiff, false_and, true_and, false_or, or_false, and_false, or_true,
      and_true]
    tauto
  · intro caps hf
    unfold la_trial
    split_ifs with h1 h2 <;> first | rfl | exact absurd h2.1 (not_le.mpr hf)
  · intro caps hf
    unfold icq_trial
    split_ifs with h1 h2 <;> first | rfl | exact absurd h2.1 (not_le.mpr hf)
  · intro caps hf
    unfold vsinfo_trial
    split_ifs with h1 h2 <;> first | rfl | exact absurd h2 (not_le.mpr hf)
  · intro caps hf
    unfold option1_trial
    split_ifs with h1 h2 <;> first | rfl | exact absurd h2 (not_le.mpr hf)
  · intro caps hf
    unfold option2_trial
    split_ifs with h1 h2 <;> first | rfl | exact absurd h2 (not_le.mpr hf)

/-- Witness of C15: a hardware AVC implementation on a Haswell processor, API 1.8,
with a session that confirms everything. -/
theorem queried_bits_exact_witness :
    initial_registry.qsv_hardware_info_avc.available = 0
      ∧ (query_capabilities sample_platform (sample_answers MFX_CODEC_AVC) [] ⟨1, 8⟩
          initial_registry.qsv_hardware_info_avc).info.available ≠ 0
      ∧ (has_cap (query_capabilities sample_platform (sample_answers MFX_CODEC_AVC) [] ⟨1, 8⟩
            initial_registry.qsv_hardware_info_avc).info HB_QSV_CAP_RATECONTROL_LA = true
        ↔ api_ge ⟨1, 8⟩ 1 7 = true ∧ (sample_answers MFX_CODEC_AVC).la_status ≥ MFX_ERR_NONE
          ∧ (sample_answers MFX_CODEC_AVC).la_rc = MFX_RATECONTROL_LA) :=
  ⟨by decide, by decide,
    (queried_bits_exact sample_platform (sample_answers MFX_CODEC_AVC) [] ⟨1, 8⟩
      initial_registry.qsv_hardware_info_avc (by decide) (by decide)).1⟩

/-- C16: generation and implementation policy bits.  For an AVC or HEVC
implementation that `query_capabilities`, entered with `available` 0, has found
available: `B_REF_PYRAMID` is set iff the implementation is hardware and the
generation is G3 or later, or the implementation is software and the API is 1.6 or
later; and whatever the `mfxExtCodingOption2` query answers, `OPTION2_MBBRC` is
set only for hardware of generation G3 or later, `OPTION2_EXTBRC` only for
hardware of generation G2 or later, `OPTION2_TRELLIS` only for hardware of
generation G3 or later with API 1.7 or later. -/
theorem policy_bits (pf : Platform) (ans : probe_answers)
    (loaded : List plugin_uid) (version : mfxVersion) (info : hb_qsv_info_t)
    (h0 : info.available = 0)
    (hav : (query_capabilities pf ans loaded version info).info.available ≠ 0)
    (hcodec : info.codec_id = MFX_CODEC_AVC ∨ info.codec_id = MFX_CODEC_HEVC) :
    (has_cap (query_capabilities pf ans loaded version info).info HB_QSV_CAP_B_REF_PYRAMID = true
        ↔ (qsv_implementation_is_hardware info.implementation = true
            ∧ qsv_hardware_generation pf.cpu_platform ≥ QSV_G3)
          ∨ (qsv_implementation_is_hardware info.implementation = false
            ∧ api_ge version 1 6 = true))
      ∧ (has_cap (query_capabilities pf ans loaded version info).info
            HB_QSV_CAP_OPTION2_MBBRC = true
        → qsv_implementation_is_hardware info.implementation = true
          ∧ qsv_hardware_generation pf.cpu_platform ≥ QSV_G3)
      ∧ (has_cap (query_capabilities pf ans loaded version info).info
            HB_QSV_CAP_OPTION2_EXTBRC = true
        → qsv_implementation_is_hardware info.implementation = true
          ∧ qsv_hardware_generation pf.cpu_platform ≥ QSV_G2)
      ∧ (has_cap (query_capabilities pf ans loaded version info).info
            HB_QSV_CAP_OPTION2_TRELLIS = true
        → qsv_implementation_is_hardware info.implementation = true
          ∧ qsv_hardware_generation pf.cpu_platform ≥ QSV_G3
          ∧ api_ge version 1 7 = true) := by
  obtain ⟨hM, h⟩ := query_capabilities_full pf ans loaded version info h0 hav
  refine ⟨?_, ?_, ?_, ?_⟩
  · unfold HB_QSV_CAP_B_REF_PYRAMID
    rw [has_cap_testBit, h, full_probe_testBit, api_ge_iff version hM]
    simp only [Nat.reduceEqDiff, false_and, true_and, false_or, or_false, and_false, hcodec,
      Bool.not_eq_true]
  · unfold HB_QSV_CAP_OPTION2_MBBRC
    rw [has_cap_testBit, h, full_probe_testBit]
    simp only [Nat.reduceEqDiff, false_and, true_and, false_or, or_false, and_false]
    tauto
  · unfold HB_QSV_CAP_OPTION2_EXTBRC
    rw [has_cap_testBit, h, full_probe_testBit]
    simp only [Nat.reduceEqDiff, false_and, true_and, false_or, or_false, and_false]
    tauto
  · unfold HB_QSV_CAP_OPTION2_TRELLIS
    rw [has_cap_testBit, h, full_probe_testBit, api_ge_iff version hM]
    simp only [Nat.reduceEqDiff, false_and, true_and, false_or, or_false, and_false]
    tauto

/-- Witness of C16: a hardware AVC implementation on a Haswell processor
(generation G3), API 1.8, with a session that confirms everything. -/
theorem policy_bits_witness :
    initial_registry.qsv_hardware_info_avc.available = 0
      ∧ (query_capabilities sample_platform (sample_answers MFX_CODEC_AVC) [] ⟨1, 8⟩
          initial_registry.qsv_hardware_info_avc).info.available ≠ 0
      ∧ has_cap (query_capabilities sample_platform (sample_answers MFX_CODEC_AVC) [] ⟨1, 8⟩
          initial_registry.qsv_hardware_info_avc).info HB_QSV_CAP_OPTION2_TRELLIS = true
      ∧ qsv_implementation_is_hardware initial_registry.qsv_hardware_info_avc.implementation
          = true
      ∧ qsv_hardware_generation sample_platform.cpu_platform ≥ QSV_G3
      ∧ api_ge ⟨1, 8⟩ 1 7 = true :=
  ⟨by decide, by decide, by decide,
    (policy_bits sample_platform (sample_answers MFX_CODEC_AVC) [] ⟨1, 8⟩
      initial_registry.qsv_hardware_info_avc (by decide) (by decide)
      (Or.inl (by decide))).2.2.2 (by decide)⟩

/-! ## Theorems: probe and translator together -/

section lookahead_claims
variable {F : Type}

/-- With the lookahead capability, `lookahead=true` is accepted and sets
`rc.lookahead` to 1 (lines 1543-1554). -/
theorem param_parse_lookahead_true (env : Env F) (p : hb_qsv_param_t F) (info : hb_qsv_info_t)
    (hcap : has_cap info HB_QSV_CAP_RATECONTROL_LA = true) :
    hb_qsv_param_parse env (some p) (some info) (some "lookahead".toList) (some "true".toList)
      = (HB_QSV_PARAM_OK, some { p with rc.lookahead := 1 }) := by
  rw [param_parse_plain env p info _ _ (by decide) (by decide)]
  have hv : param_parse_value (some "true".toList) = "true".toList := by decide
  have hb : hb_qsv_atobool "true".toList false = (1, false) := by decide
  rw [hv]
  simp only [param_parse_options]
  simp +decide only [hcap, hb, param_parse_return, if_true, if_false, Bool.false_eq_true,
    not_false_eq_true, true_and]

/-- With the lookahead capability, `lookahead-depth=5` is accepted and stores the
floor 10 (lines 1555-1565). -/
theorem param_parse_lookahead_depth_5 (env : Env F) (p : hb_qsv_param_t F)
    (info : hb_qsv_info_t) (hcap : has_cap info HB_QSV_CAP_RATECONTROL_LA = true)
    (hlong : 32 ≤ env.long_bits) :
    hb_qsv_param_parse env (some p) (some info) (some "lookahead-depth".toList)
        (some "5".toList)
      = (HB_QSV_PARAM_OK, some { p with codingOption2.LookAheadDepth := 10 }) := by
  rw [param_parse_plain env p info _ _ (by decide) (by decide)]
  have hv : param_parse_value (some "5".toList) = "5".toList := by decide
  obtain ⟨he, hval⟩ := hb_qsv_atoi_of_literal env "5".toList (by decide) 5 (by decide)
    (Or.inr ⟨hlong, by decide, by decide⟩)
  have hc : HB_QSV_CLIP3 10 100 (hb_qsv_atoi env "5".toList false).1 = 10 := by
    rw [hval 10 100 (by decide) (by decide) (by decide)]
    decide
  rw [hv]
  simp only [param_parse_options]
  simp +decide only [hcap, he, hc, param_parse_return, if_true, if_false, Bool.false_eq_true,
    not_false_eq_true, true_and]
  rfl

/-- C19: end-to-end lookahead scenario.  When `query_capabilities`, with API 1.7 or
later, finds an implementation available whose LA query succeeds echoing
`RateControlMethod = LA` and whose LA query with `PicStruct = FIELD_TFF` fails, it
leaves `HB_QSV_CAP_RATECONTROL_LA` set and `HB_QSV_CAP_RATECONTROL_LAi` unset; with
that info `hb_qsv_param_parse` returns `HB_QSV_PARAM_OK` for `lookahead=true`,
setting `rc.lookahead` to 1, and for `lookahead-depth=5`, storing
`codingOption2.LookAheadDepth = 10`. -/
theorem lookahead_scenario (env : Env F) (param : hb_qsv_param_t F) (pf : Platform)
    (ans : probe_answers) (loaded : List plugin_uid) (version : mfxVersion)
    (info : hb_qsv_info_t) (hlong : 32 ≤ env.long_bits)
    (h0 : info.available = 0)
    (hav : (query_capabilities pf ans loaded version info).info.available ≠ 0)
    (hhw : qsv_implementation_is_hardware info.implementation = true)
    (hver : api_ge version 1 7 = true)
    (hla : ans.la_status ≥ MFX_ERR_NONE ∧ ans.la_rc = MFX_RATECONTROL_LA)
    (hlai : ans.lai_status < MFX_ERR_NONE) :
    qsv_implementation_is_hardware
        (query_capabilities pf ans loaded version info).info.implementation = true
      ∧ has_cap (query_capabilities pf ans loaded version info).info
          HB_QSV_CAP_RATECONTROL_LA = true
      ∧ has_cap (query_capabilities pf ans loaded version info).info
          HB_QSV_CAP_RATECONTROL_LAi = false
      ∧ hb_qsv_param_parse env (some param)
          (some (query_capabilities pf ans loaded version info).info)
          (some "lookahead".toList) (some "true".toList)
        = (HB_QSV_PARAM_OK, some { param with rc.lookahead := 1 })
      ∧ hb_qsv_param_parse env (some param)
          (some (query_capabilities pf ans loaded version info).info)
          (some "lookahead-depth".toList) (some "5".toList)
        = (HB_QSV_PARAM_OK, some { param with codingOption2.LookAheadDepth := 10 }) := by
  obtain ⟨hM, h⟩ := query_capabilities_full pf ans loaded version info h0 hav
  have hv7 := (api_ge_iff version hM 7).mp hver
  have hcap : has_cap (query_capabilities pf ans loaded version info).info
      HB_QSV_CAP_RATECONTROL_LA = true := by
    unfold HB_QSV_CAP_RATECONTROL_LA
    rw [has_cap_testBit, h, full_probe_testBit]
    simp only [Nat.reduceEqDiff, false_and, true_and, false_or, or_false, and_false]
    exact ⟨hv7, hla⟩
  have hncap : has_cap (query_capabilities pf ans loaded version info).info
      HB_QSV_CAP_RATECONTROL_LAi = false := by
    rw [← Bool.not_eq_true]
    unfold HB_QSV_CAP_RATECONTROL_LAi
    rw [has_cap_testBit, h, full_probe_testBit]
    simp only [Nat.reduceEqDiff, false_and, true_and, false_or, or_false, and_false]
    rintro ⟨-, -, hx, -⟩
    exact absurd hx (not_le.mpr hlai)
  have himpl : (query_capabilities pf ans loaded version info).info.implementation
      = info.implementation := by
    have hf := (probe_available_fields pf ans version { info with capabilities := 0 }).2.1
    unfold query_capabilities
    simp only []
    split
    · rfl
    · split_ifs <;> exact hf
  refine ⟨by rw [himpl]; exact hhw, hcap, hncap, param_parse_lookahead_true env param _ hcap,
    param_parse_lookahead_depth_5 env param _ hcap hlong⟩

/-- Witness of C19: a hardware AVC implementation on a Haswell processor, API 1.8,
whose interlaced lookahead query fails. -/
theorem lookahead_scenario_witness :
    (32 ≤ sample_env.long_bits ∧ initial_registry.qsv_hardware_info_avc.available = 0
      ∧ (query_capabilities sample_platform
          { sample_answers MFX_CODEC_AVC with lai_status := -1 } [] ⟨1, 8⟩
          initial_registry.qsv_hardware_info_avc).info.available ≠ 0
      ∧ qsv_implementation_is_hardware initial_registry.qsv_hardware_info_avc.implementation
          = true
      ∧ api_ge ⟨1, 8⟩ 1 7 = true)
    ∧ hb_qsv_param_parse sample_env (some sample_param)
          (some (query_capabilities sample_platform
            { sample_answers MFX_CODEC_AVC with lai_status := -1 } [] ⟨1, 8⟩
            initial_registry.qsv_hardware_info_avc).info)
          (some "lookahead-depth".toList) (some "5".toList)
        = (HB_QSV_PARAM_OK,
            some { sample_param with codingOption2.LookAheadDepth := 10 }) :=
  ⟨⟨by decide, by decide, by decide, by decide, by decide⟩,
    (lookahead_scenario sample_env sample_param sample_platform
      { sample_answers MFX_CODEC_AVC with lai_status := -1 } [] ⟨1, 8⟩
      initial_registry.qsv_hardware_info_avc (by decide) (by decide) (by decide) (by decide)
      (by decide) ⟨by decide, by decide⟩ (by decide)).2.2.2.2⟩

end lookahead_claims

/-! ## Theorems: plug-in handling of the probe -/

/-- On the full probe path every plugin loaded at the start is unloaded again
(line 652): the plugins loaded in the session are those before the probe. -/
theorem plugin_cleanup_full_probe (pf : Platform) (ans : probe_answers)
    (loaded : List plugin_uid) (version : mfxVersion) (info : hb_qsv_info_t)
    (hav : (query_capabilities pf ans loaded version info).info.available ≠ 0)
    (haudio : info.implementation &&& MFX_IMPL_AUDIO = 0) :
    (query_capabilities pf ans loaded version info).loaded = loaded := by
  have hf := (probe_available_fields pf ans version { info with capabilities := 0 }).2.1
  have hr := probe_available_returned pf ans version { info with capabilities := 0 }
  cases hs : (hb_qsv_load_plugins ans loaded { info with capabilities := 0 } version).list with
  | none =>
    unfold query_capabilities
    simp only [hs]
    unfold hb_qsv_load_plugins at hs ⊢
    split_ifs at hs ⊢
    rfl
  | some l =>
    unfold query_capabilities at hav ⊢
    simp only [hs] at hav ⊢
    split_ifs at hav ⊢ with h1 h2 h3
    · exact absurd haudio (hr h1)
    · exact absurd h2 hav
    · exact absurd haudio (hf ▸ h3)
    · show (hb_qsv_unload_plugins _ _ _).1 = _
      unfold hb_qsv_load_plugins at hs ⊢
      unfold hb_qsv_unload_plugins
      split_ifs at hs ⊢ <;> simp only [Option.some.injEq] at hs <;> subst hs <;>
        simp_all [List.erase_cons_head]

/-- C17, as the code behaves: for the hardware HEVC info with API 1.15, when the
HEVC plugin loads and the baseline query succeeds but `MFXVideoENCODE_Init` fails,
`query_capabilities` returns at line 368 with the plugin still loaded and without
any `MFXVideoUSER_UnLoad`; when the encoder initialises, the same plugin is
unloaded at line 652. -/
theorem plugin_left_loaded_on_early_return :
    (query_capabilities sample_platform
        { sample_answers MFX_CODEC_HEVC with init_status := -1 } [] ⟨1, 15⟩
        initial_registry.qsv_hardware_info_hevc).loaded = [.MFX_PLUGINID_HEVCE_HW]
      ∧ (query_capabilities sample_platform
          { sample_answers MFX_CODEC_HEVC with init_status := -1 } [] ⟨1, 15⟩
          initial_registry.qsv_hardware_info_hevc).calls
        = [.MFXVideoUSER_Load .MFX_PLUGINID_HEVCE_HW, .MFXVideoENCODE_Query,
            .MFXVideoENCODE_Init, .MFXVideoENCODE_Close]
      ∧ (query_capabilities sample_platform (sample_answers MFX_CODEC_HEVC) [] ⟨1, 15⟩
          initial_registry.qsv_hardware_info_hevc).loaded = []
      ∧ (query_capabilities sample_platform (sample_answers MFX_CODEC_HEVC) [] ⟨1, 15⟩
          initial_registry.qsv_hardware_info_hevc).calls.getLast?
        = some (.MFXVideoUSER_UnLoad .MFX_PLUGINID_HEVCE_HW) := by
  decide

/-- C18, as the code behaves: for the hardware HEVC info with API 1.15, when
`MFXVideoUSER_Load` of the HEVC plugin fails, `hb_qsv_load_plugins` still returns a
list, and `query_capabilities` goes on: with a session that confirms the rest it
returns with `available` 1, capabilities set, and six queries issued. -/
theorem plugin_failure_does_not_abort :
    (hb_qsv_load_plugins { sample_answers MFX_CODEC_HEVC with load_status := -1 } []
        initial_registry.qsv_hardware_info_hevc ⟨1, 15⟩).list = some []
      ∧ (hb_qsv_load_plugins { sample_answers MFX_CODEC_HEVC with load_status := -1 } []
          initial_registry.qsv_hardware_info_hevc ⟨1, 15⟩).calls
        = [.MFXVideoUSER_Load .MFX_PLUGINID_HEVCE_HW]
      ∧ (query_capabilities sample_platform
          { sample_answers MFX_CODEC_HEVC with load_status := -1 } [] ⟨1, 15⟩
          initial_registry.qsv_hardware_info_hevc).info.available = 1
      ∧ (query_capabilities sample_platform
          { sample_answers MFX_CODEC_HEVC with load_status := -1 } [] ⟨1, 15⟩
          initial_registry.qsv_hardware_info_hevc).info.capabilities ≠ 0
      ∧ ((query_capabilities sample_platform
          { sample_answers MFX_CODEC_HEVC with load_status := -1 } [] ⟨1, 15⟩
          initial_registry.qsv_hardware_info_hevc).calls.filter is_query).length = 6 := by
  decide

/-! ## Theorems: capability registry -/

/-- The preference selection leaves everything but the two pointers as it is. -/
theorem set_preferred_frame (reg : qsv_registry) (name : Option (List Char)) :
    (hb_qsv_impl_set_preferred reg name).2.init_done = reg.init_done
      ∧ (hb_qsv_impl_set_preferred reg name).2.qsv_software_info_avc = reg.qsv_software_info_avc
      ∧ (hb_qsv_impl_set_preferred reg name).2.qsv_software_info_hevc
          = reg.qsv_software_info_hevc
      ∧ (hb_qsv_impl_set_preferred reg name).2.qsv_hardware_info_avc = reg.qsv_hardware_info_avc
      ∧ (hb_qsv_impl_set_preferred reg name).2.qsv_hardware_info_hevc
          = reg.qsv_hardware_info_hevc := by
  unfold hb_qsv_impl_set_preferred
  cases name with
  | none => exact ⟨rfl, rfl, rfl, rfl, rfl⟩
  | some n =>
    simp only []
    split_ifs <;> exact ⟨rfl, rfl, rfl, rfl, rfl⟩

/-- The pointers after `hb_qsv_impl_set_preferred("software")`. -/
theorem set_preferred_software (reg : qsv_registry) :
    (hb_qsv_impl_set_preferred reg (some "software".toList)).2.hb_qsv_info_avc
        = (if reg.qsv_software_info_avc.available ≠ 0 then some .software
            else reg.hb_qsv_info_avc)
      ∧ (hb_qsv_impl_set_preferred reg (some "software".toList)).2.hb_qsv_info_hevc
        = (if reg.qsv_software_info_hevc.available ≠ 0 then some .software
            else reg.hb_qsv_info_hevc) := by
  have h : strcasecmp "software".toList "software".toList = 0 := by decide
  simp only [hb_qsv_impl_set_preferred, h, if_true]
  split_ifs <;> exact ⟨rfl, rfl⟩

/-- The pointers after `hb_qsv_impl_set_preferred("hardware")`. -/
theorem set_preferred_hardware (reg : qsv_registry) :
    (hb_qsv_impl_set_preferred reg (some "hardware".toList)).2.hb_qsv_info_avc
        = (if reg.qsv_hardware_info_avc.available ≠ 0 then some .hardware
            else reg.hb_qsv_info_avc)
      ∧ (hb_qsv_impl_set_preferred reg (some "hardware".toList)).2.hb_qsv_info_hevc
        = (if reg.qsv_hardware_info_hevc.available ≠ 0 then some .hardware
            else reg.hb_qsv_info_hevc) := by
  have h1 : ¬ strcasecmp "hardware".toList "software".toList = 0 := by decide
  have h2 : strcasecmp "hardware".toList "hardware".toList = 0 := by decide
  simp only [hb_qsv_impl_set_preferred, h1, h2, if_true, if_false]
  split_ifs <;> exact ⟨rfl, rfl⟩

/-- The software part of the bootstrap keeps `init_done` and the hardware infos,
and leaves each pointer as the preference rule says. -/
theorem init_software_spec (pf : Platform) (ans : init_answers) (reg : qsv_registry)
    (ha : reg.hb_qsv_info_avc = none) (hh : reg.hb_qsv_info_hevc = none)
    (hsa : reg.qsv_software_info_avc.available = 0)
    (hsh : reg.qsv_software_info_hevc.available = 0)
    (hha : reg.qsv_hardware_info_avc.available = 0)
    (hhh : reg.qsv_hardware_info_hevc.available = 0) :
    (init_software pf ans reg).1.init_done = reg.init_done
      ∧ (init_software pf ans reg).1.qsv_hardware_info_avc = reg.qsv_hardware_info_avc
      ∧ (init_software pf ans reg).1.qsv_hardware_info_hevc = reg.qsv_hardware_info_hevc
      ∧ (init_software pf ans reg).1.hb_qsv_info_avc
          = preferred_rule (init_software pf ans reg).1.qsv_hardware_info_avc
              (init_software pf ans reg).1.qsv_software_info_avc
      ∧ (init_software pf ans reg).1.hb_qsv_info_hevc
          = preferred_rule (init_software pf ans reg).1.qsv_hardware_info_hevc
              (init_software pf ans reg).1.qsv_software_info_hevc := by
  unfold init_software
  simp only []
  split_ifs with h1 h2
  · refine ⟨(set_preferred_frame _ _).1, (set_preferred_frame _ _).2.2.2.1,
      (set_preferred_frame _ _).2.2.2.2, ?_, ?_⟩
    · rw [(set_preferred_software _).1, (set_preferred_frame _ _).2.1,
        (set_preferred_frame _ _).2.2.2.1]
      simp only [preferred_rule, ha, hha, ne_eq, not_true_eq_false, if_false]
    · rw [(set_preferred_software _).2, (set_preferred_frame _ _).2.2.1,
        (set_preferred_frame _ _).2.2.2.2]
      simp only [preferred_rule, hh, hhh, ne_eq, not_true_eq_false, if_false]
  · simp only [preferred_rule, ha, hh, hsa, hsh, hha, hhh, ne_eq, not_true_eq_false, if_false,
      and_self]
  · simp only [preferred_rule, ha, hh, hsa, hsh, hha, hhh, ne_eq, not_true_eq_false, if_false,
      and_self]

/-- A pass of the hardware loop asks for another pass only when `MFXInit` failed
with the D3D11 preference outside Linux; the registry is then as before and the
next preference is D3D9. -/
theorem init_hardware_pass_again (pf : Platform) (ans : init_answers) (reg : qsv_registry)
    (hw_preference : Nat)
    (h : (init_hardware_pass pf ans reg hw_preference).hw_preference ≠ 0) :
    (init_hardware_pass pf ans reg hw_preference).registry = reg
      ∧ (init_hardware_pass pf ans reg hw_preference).hw_preference = MFX_IMPL_VIA_D3D9 := by
  unfold init_hardware_pass at h ⊢
  simp only [] at h ⊢
  split_ifs at h ⊢ <;> first | exact ⟨rfl, rfl⟩ | exact absurd rfl h

/-- A pass entered with the D3D9 preference is the last one. -/
theorem init_hardware_pass_d3d9 (pf : Platform) (ans : init_answers) (reg : qsv_registry) :
    (init_hardware_pass pf ans reg MFX_IMPL_VIA_D3D9).hw_preference = 0 := by
  have hne : ¬ (MFX_IMPL_VIA_D3D9 = MFX_IMPL_VIA_D3D11) := by decide
  unfold init_hardware_pass
  simp only [hne, and_false, if_false]
  split_ifs <;> rfl

/-- The hardware loop ends within two passes, and the registry it leaves is the
one a single pass leaves. -/
theorem init_hardware_loop_total (pf : Platform) (ans : init_answers) (reg : qsv_registry)
    (hw_preference : Nat) :
    ∃ r hwp, init_hardware_loop pf ans 2 reg hw_preference = some r
      ∧ r.1 = (init_hardware_pass pf ans reg hwp).registry := by
  by_cases h : (init_hardware_pass pf ans reg hw_preference).hw_preference ≠ 0
  · obtain ⟨h1, h2⟩ := init_hardware_pass_again pf ans reg hw_preference h
    have h3 := init_hardware_pass_d3d9 pf ans reg
    have h4 : ¬ MFX_IMPL_VIA_D3D9 = 0 := by decide
    refine ⟨((init_hardware_pass pf ans reg MFX_IMPL_VIA_D3D9).registry,
      (init_hardware_pass pf ans reg hw_preference).calls
        ++ (init_hardware_pass pf ans reg MFX_IMPL_VIA_D3D9).calls), MFX_IMPL_VIA_D3D9, ?_, rfl⟩
    simp only [init_hardware_loop, h, if_true, h1, h2, h3, h4, ne_eq, not_true_eq_false,
      not_false_eq_true, if_false]
  · refine ⟨((init_hardware_pass pf ans reg hw_preference).registry,
      (init_hardware_pass pf ans reg hw_preference).calls), hw_preference, ?_, rfl⟩
    simp only [init_hardware_loop, h, if_false]

/-- The software part of the bootstrap keeps `init_done`. -/
theorem init_software_init_done (pf : Platform) (ans : init_answers) (reg : qsv_registry) :
    (init_software pf ans reg).1.init_done = reg.init_done := by
  unfold init_software
  simp only []
  split_ifs
  · exact (set_preferred_frame _ _).1
  · rfl
  · rfl

/-- A pass of the hardware loop keeps `init_done`. -/
theorem init_hardware_pass_init_done (pf : Platform) (ans : init_answers) (reg : qsv_registry)
    (hw_preference : Nat) :
    (init_hardware_pass pf ans reg hw_preference).registry.init_done = reg.init_done := by
  unfold init_hardware_pass
  simp only []
  split_ifs <;> first | exact (set_preferred_frame _ _).1 | rfl

/-- C11: bootstrap once.  Whatever the platform, the session answers and the
registry, `hb_qsv_info_init` returns 0; and once it has run, every later call,
whatever the session would answer, returns 0 without any call into the runtime
and leaves the registry (the four infos, the two API versions, the two preferred
pointers) as it is. -/
theorem bootstrap_once (pf : Platform) (ans : init_answers) (reg : qsv_registry) :
    ∃ r, hb_qsv_info_init pf ans reg = some r ∧ r.ret = 0
      ∧ ∀ (pf2 : Platform) (ans2 : init_answers),
          hb_qsv_info_init pf2 ans2 r.registry = some ⟨0, r.registry, []⟩ := by
  have later : ∀ (g : qsv_registry), g.init_done = true →
      ∀ (pf2 : Platform) (ans2 : init_answers),
        hb_qsv_info_init pf2 ans2 g = some ⟨0, g, []⟩ := by
    intro g hg pf2 ans2
    simp only [hb_qsv_info_init, hg, if_true]
  by_cases hd : reg.init_done = true
  · exact ⟨⟨0, reg, []⟩, later reg hd pf ans, rfl, later reg hd⟩
  · obtain ⟨r, hwp, hr, hreg⟩ := init_hardware_loop_total pf ans
      (init_software pf ans { reg with init_done := true }).1
      (if pf.sys_linux = true then MFX_IMPL_VIA_ANY else MFX_IMPL_VIA_D3D11)
    refine ⟨⟨0, r.1, (init_software pf ans { reg with init_done := true }).2 ++ r.2⟩, ?_, rfl, ?_⟩
    · simp only [hb_qsv_info_init, hd, if_false, hr, Bool.false_eq_true]
    · apply later
      show r.1.init_done = true
      rw [hreg, init_hardware_pass_init_done, init_software_init_done]

/-- A pass of the hardware loop entered with no hardware info available leaves
each pointer as the preference rule says. -/
theorem init_hardware_pass_spec (pf : Platform) (ans : init_answers) (reg : qsv_registry)
    (hw_preference : Nat)
    (hha : reg.qsv_hardware_info_avc.available = 0)
    (hhh : reg.qsv_hardware_info_hevc.available = 0)
    (ia : reg.hb_qsv_info_avc
      = preferred_rule reg.qsv_hardware_info_avc reg.qsv_software_info_avc)
    (ih : reg.hb_qsv_info_hevc
      = preferred_rule reg.qsv_hardware_info_hevc reg.qsv_software_info_hevc) :
    (init_hardware_pass pf ans reg hw_preference).registry.hb_qsv_info_avc
        = preferred_rule
            (init_hardware_pass pf ans reg hw_preference).registry.qsv_hardware_info_avc
            (init_hardware_pass pf ans reg hw_preference).registry.qsv_software_info_avc
      ∧ (init_hardware_pass pf ans reg hw_preference).registry.hb_qsv_info_hevc
        = preferred_rule
            (init_hardware_pass pf ans reg hw_preference).registry.qsv_hardware_info_hevc
            (init_hardware_pass pf ans reg hw_preference).registry.qsv_software_info_hevc := by
  unfold init_hardware_pass
  simp only []
  split_ifs
  all_goals first
    | exact ⟨ia, ih⟩
    | (constructor
       · rw [(set_preferred_hardware _).1, (set_preferred_frame _ _).2.1,
           (set_preferred_frame _ _).2.2.2.1]
         simp only [ia, preferred_rule, hha, ne_eq, not_true_eq_false, if_false]
       · rw [(set_preferred_hardware _).2, (set_preferred_frame _ _).2.2.1,
           (set_preferred_frame _ _).2.2.2.2]
         simp only [ih, preferred_rule, hhh, ne_eq, not_true_eq_false, if_false])

/-- A name that is neither `software` nor `hardware` is refused and changes
nothing (lines 2213-2216 and 2241). -/
theorem set_preferred_other (reg : qsv_registry) (name : Option (List Char))
    (h : ∀ n, name = some n →
      strcasecmp n "software".toList ≠ 0 ∧ strcasecmp n "hardware".toList ≠ 0) :
    hb_qsv_impl_set_preferred reg name = (-1, reg) := by
  cases name with
  | none => rfl
  | some n =>
    obtain ⟨h1, h2⟩ := h n rfl
    simp only [hb_qsv_impl_set_preferred, h1, h2, if_false]

/-- C12: registry preference after bootstrap.  From the registry of process start,
whatever the platform and the session answers, `hb_qsv_info_init` returns, and for
each codec (AVC, HEVC) the preferred pointer then selects the hardware info if
that one is available, otherwise the software info if that one is available,
otherwise it is `NULL`; and `hb_qsv_impl_set_preferred` with `NULL` or a name that
`strcasecmp` equates with neither `software` nor `hardware` returns -1 and
leaves the registry, so both pointers, as it is. -/
theorem registry_preference (pf : Platform) (ans : init_answers) :
    (∃ r, hb_qsv_info_init pf ans initial_registry = some r
      ∧ r.registry.hb_qsv_info_avc
          = preferred_rule r.registry.qsv_hardware_info_avc r.registry.qsv_software_info_avc
      ∧ r.registry.hb_qsv_info_hevc
          = preferred_rule r.registry.qsv_hardware_info_hevc r.registry.qsv_software_info_hevc)
    ∧ ∀ (reg : qsv_registry) (name : Option (List Char)),
        (∀ n, name = some n →
          strcasecmp n "software".toList ≠ 0 ∧ strcasecmp n "hardware".toList ≠ 0) →
        hb_qsv_impl_set_preferred reg name = (-1, reg) := by
  refine ⟨?_, set_preferred_other⟩
  obtain ⟨s1, s2, s3, s4, s5⟩ := init_software_spec pf ans
    { initial_registry with init_done := true } rfl rfl rfl rfl rfl rfl
  obtain ⟨r, hwp, hr, hreg⟩ := init_hardware_loop_total pf ans
    (init_software pf ans { initial_registry with init_done := true }).1
    (if pf.sys_linux = true then MFX_IMPL_VIA_ANY else MFX_IMPL_VIA_D3D11)
  obtain ⟨p1, p2⟩ := init_hardware_pass_spec pf ans
    (init_software pf ans { initial_registry with init_done := true }).1 hwp
    (by rw [s2]; rfl) (by rw [s3]; rfl) s4 s5
  refine ⟨⟨0, r.1, (init_software pf ans { initial_registry with init_done := true }).2 ++ r.2⟩,
    ?_, ?_, ?_⟩
  · have hd : initial_registry.init_done = false := rfl
    simp only [hb_qsv_info_init, hd, if_false, hr, Bool.false_eq_true]
  · show r.1.hb_qsv_info_avc = preferred_rule r.1.qsv_hardware_info_avc r.1.qsv_software_info_avc
    rw [hreg]
    exact p1
  · show r.1.hb_qsv_info_hevc
      = preferred_rule r.1.qsv_hardware_info_hevc r.1.qsv_software_info_hevc
    rw [hreg]
    exact p2

/-- Witness of C12: the name `auto` is neither `software` nor `hardware`; and
after a bootstrap in which the hardware HEVC encoder alone is not available, the
AVC pointer selects the hardware info and the HEVC pointer the software info. -/
theorem registry_preference_witness :
    (strcasecmp "auto".toList "software".toList ≠ 0
        ∧ strcasecmp "auto".toList "hardware".toList ≠ 0)
      ∧ hb_qsv_impl_set_preferred initial_registry (some "auto".toList)
          = (-1, initial_registry)
      ∧ (hb_qsv_info_init sample_platform sample_init_answers initial_registry).map
          (fun r => (r.registry.hb_qsv_info_avc, r.registry.hb_qsv_info_hevc))
        = some (some .hardware, some .software) :=
  ⟨by decide,
    (registry_preference sample_platform sample_init_answers).2 initial_registry
      (some "auto".toList) (fun n hn => by cases hn; decide),
    by decide⟩

/-! ## Theorems: profile resolution -/

/-- The key lookup does not tell apart keys that differ in letter case only. -/
theorem hb_triplet4key_loop_congr {a b : List Char} (h : strcasecmp a b = 0)
    (t : List hb_triplet_t) (i : Nat) :
    hb_triplet4key_loop i t a = hb_triplet4key_loop i t b := by
  induction t generalizing i with
  | nil => rfl
  | cons e es ih =>
    have hc : strcasecmp e.key a = 0 ↔ strcasecmp e.key b = 0 := by
      rw [strcasecmp_eq_zero_iff, strcasecmp_eq_zero_iff, (strcasecmp_eq_zero_iff a b).1 h]
    simp only [hb_triplet4key_loop, hc, ih]

section profile_claims
variable {F : Type}

/-- C20: HEVC Main10 is generation-gated.  With `CodecId = HEVC` and a profile key
that is `main10` in any letter case, the key is found in `hb_qsv_h265_profiles`,
and `hb_qsv_profile_parse` returns -1 and leaves the parameter block, so
`mfx.CodecProfile`, unchanged when the hardware generation is below G6, and
returns 0 and stores `MFX_PROFILE_HEVC_MAIN10` when it is G6 or later. -/
theorem main10_generation_gated (pf : Platform) (param : hb_qsv_param_t F)
    (info : hb_qsv_info_t) (key : List Char) (codec : Int)
    (hc : param.videoParam.mfx.CodecId = MFX_CODEC_HEVC)
    (hk : strcasecmp key "main10".toList = 0) :
    triplet_at hb_qsv_h265_profiles (hb_triplet4key hb_qsv_h265_profiles key)
        = some ⟨"Main 10".toList, "main10".toList, MFX_PROFILE_HEVC_MAIN10⟩
      ∧ (qsv_hardware_generation pf.cpu_platform < QSV_G6 →
          hb_qsv_profile_parse pf param info (some key) codec = some (-1, param))
      ∧ (qsv_hardware_generation pf.cpu_platform ≥ QSV_G6 →
          hb_qsv_profile_parse pf param info (some key) codec
            = some (0, { param with
                videoParam.mfx.CodecProfile := toU16 MFX_PROFILE_HEVC_MAIN10 })) := by
  have h1 : at_end key = false := by
    rw [at_end_congr hk]
    decide
  have h2 : strcasecmp key "auto".toList ≠ 0 := by
    rw [strcasecmp_congr hk]
    decide
  have h3 : triplet_at hb_qsv_h265_profiles (hb_triplet4key hb_qsv_h265_profiles key)
      = some ⟨"Main 10".toList, "main10".toList, MFX_PROFILE_HEVC_MAIN10⟩ := by
    unfold hb_triplet4key
    rw [hb_triplet4key_loop_congr hk]
    decide
  have h4 : ¬ (MFX_CODEC_HEVC = MFX_CODEC_AVC) := by decide
  refine ⟨h3, ?_, ?_⟩
  · intro hg
    simp only [hb_qsv_profile_parse, h1, h2, hc, h3, h4, hg, profile_store, ne_eq,
      not_false_eq_true, and_self, if_true, if_false, Bool.false_eq_true]
  · intro hg
    have hg2 : ¬ qsv_hardware_generation pf.cpu_platform < QSV_G6 := not_lt.mpr hg
    simp only [hb_qsv_profile_parse, h1, h2, hc, h3, h4, hg2, profile_store, ne_eq,
      not_false_eq_true, and_self, and_false, if_true, if_false, Bool.false_eq_true]

/-- Witness of C20: the key `Main10` on a Haswell processor (generation G3). -/
theorem main10_generation_gated_witness :
    (({ sample_param with videoParam.mfx.CodecId := MFX_CODEC_HEVC } :
          hb_qsv_param_t SymFloat).videoParam.mfx.CodecId = MFX_CODEC_HEVC
      ∧ strcasecmp "Main10".toList "main10".toList = 0
      ∧ qsv_hardware_generation sample_platform.cpu_platform < QSV_G6)
    ∧ hb_qsv_profile_parse sample_platform
        ({ sample_param with videoParam.mfx.CodecId := MFX_CODEC_HEVC } :
          hb_qsv_param_t SymFloat)
        sample_info_avc (some "Main10".toList) HB_VCODEC_QSV_H265
      = some (-1, { sample_param with videoParam.mfx.CodecId := MFX_CODEC_HEVC }) :=
  ⟨⟨rfl, by decide, by decide⟩,
    (main10_generation_gated sample_platform
      ({ sample_param with videoParam.mfx.CodecId := MFX_CODEC_HEVC } : hb_qsv_param_t SymFloat)
      sample_info_avc "Main10".toList HB_VCODEC_QSV_H265 rfl (by decide)).2.1 (by decide)⟩

end profile_claims

/-! ## Theorems: profile and level keys -/

/-- A key the lookup finds is, up to letter case, the key of the entry found. -/
theorem hb_triplet4key_loop_some (t : List hb_triplet_t) (key : List Char) (i j : Nat)
    (h : hb_triplet4key_loop i t key = some j) :
    i ≤ j ∧ ∃ e, t[j - i]? = some e ∧ strcasecmp e.key key = 0 := by
  induction t generalizing i with
  | nil => exact absurd h (by simp [hb_triplet4key_loop])
  | cons e es ih =>
    by_cases hc : strcasecmp e.key key = 0
    · simp only [hb_triplet4key_loop, hc, if_true, Option.some.injEq] at h
      subst h
      exact ⟨le_refl _, e, by simp, hc⟩
    · simp only [hb_triplet4key_loop, hc, if_false] at h
      obtain ⟨h1, e2, h2, h3⟩ := ih (i + 1) h
      refine ⟨by omega, e2, ?_, h3⟩
      have : j - i = (j - (i + 1)) + 1 := by omega
      rw [this, List.getElem?_cons_succ]
      exact h2

/-- A key the lookup finds is, up to letter case, the key of the entry found. -/
theorem hb_triplet4key_some (t : List hb_triplet_t) (key : List Char) (j : Nat)
    (e : hb_triplet_t) (h : hb_triplet4key t key = some j) (he : t[j]? = some e) :
    strcasecmp e.key key = 0 := by
  obtain ⟨-, e2, h2, h3⟩ := hb_triplet4key_loop_some t key 0 j h
  rw [Nat.sub_zero, he, Option.some.injEq] at h2
  rw [h2]
  exact h3

/-- No table has an empty key or the key `auto`, and every value fits `mfxU16`. -/
theorem static_tables_keys :
    ∀ t ∈ qsv_static_tables, ∀ e ∈ t,
      at_end e.key = false ∧ strcasecmp e.key "auto".toList ≠ 0
        ∧ 0 ≤ e.value ∧ e.value < 65536 := by
  decide

/-- A key found in a static table is not empty and not `auto`. -/
theorem resolved_key_plain (t : List hb_triplet_t) (ht : t ∈ qsv_static_tables)
    (key : List Char) (j : Nat) (e : hb_triplet_t)
    (h : hb_triplet4key t key = some j) (he : t[j]? = some e) :
    at_end key = false ∧ strcasecmp key "auto".toList ≠ 0 := by
  have hk := hb_triplet4key_some t key j e h he
  obtain ⟨h1, h2, -, -⟩ := static_tables_keys t ht e (List.getElem?_mem he)
  rw [← at_end_congr hk, ← strcasecmp_congr hk]
  exact ⟨h1, h2⟩

section key_claims
variable {F : Type}

/-- An unresolved level key is refused and changes nothing, whatever the codec. -/
theorem level_parse_unresolved (param : hb_qsv_param_t F) (info : hb_qsv_info_t)
    (key : List Char) (h1 : at_end key = false) (h2 : strcasecmp key "auto".toList ≠ 0)
    (h3 : param.videoParam.mfx.CodecId = MFX_CODEC_AVC →
      ∀ e ∈ hb_qsv_h264_levels, strcasecmp e.key key ≠ 0)
    (h4 : param.videoParam.mfx.CodecId = MFX_CODEC_HEVC →
      ∀ e ∈ hb_qsv_h265_levels, strcasecmp e.key key ≠ 0) :
    hb_qsv_level_parse param info (some key) = (-1, param) := by
  have hl : level_lookup param key = none := by
    unfold level_lookup hb_triplet4key
    split_ifs with c1 c2
    · rw [hb_triplet4key_loop_none _ _ _ (h3 c1)]
      rfl
    · rw [hb_triplet4key_loop_none _ _ _ (h4 c2)]
      rfl
    · rfl
  simp only [hb_qsv_level_parse, h1, h2, hl, ne_eq, not_false_eq_true, and_self, if_true,
    Bool.false_eq_true]

/-- An unresolved profile key is refused and changes nothing when the codec is
not HEVC. -/
theorem profile_parse_unresolved (pf : Platform) (param : hb_qsv_param_t F)
    (info : hb_qsv_info_t) (key : List Char) (codec : Int)
    (h1 : at_end key = false) (h2 : strcasecmp key "auto".toList ≠ 0)
    (h3 : param.videoParam.mfx.CodecId = MFX_CODEC_AVC →
      ∀ e ∈ hb_qsv_h264_profiles, strcasecmp e.key key ≠ 0)
    (h4 : param.videoParam.mfx.CodecId ≠ MFX_CODEC_HEVC) :
    hb_qsv_profile_parse pf param info (some key) codec = some (-1, param) := by
  simp only [hb_qsv_profile_parse, h1, h2, h4, ne_eq, not_false_eq_true, and_self, if_true,
    if_false, Bool.false_eq_true]
  split_ifs with c1
  · unfold hb_triplet4key
    rw [hb_triplet4key_loop_none _ _ _ (h3 c1)]
    rfl
  · rfl

/-- An unresolved profile key with the codec HEVC: line 1653 reads
`profile->value` through the `NULL` pointer the lookup returned. -/
theorem profile_parse_unresolved_hevc (pf : Platform) (param : hb_qsv_param_t F)
    (info : hb_qsv_info_t) (key : List Char) (codec : Int)
    (h1 : at_end key = false) (h2 : strcasecmp key "auto".toList ≠ 0)
    (h3 : ∀ e ∈ hb_qsv_h265_profiles, strcasecmp e.key key ≠ 0)
    (h4 : param.videoParam.mfx.CodecId = MFX_CODEC_HEVC) :
    hb_qsv_profile_parse pf param info (some key) codec = none := by
  have hne : ¬ (MFX_CODEC_HEVC = MFX_CODEC_AVC) := by decide
  have hl : triplet_at hb_qsv_h265_profiles (hb_triplet4key hb_qsv_h265_profiles key)
      = none := by
    unfold hb_triplet4key
    rw [hb_triplet4key_loop_none _ _ _ h3]
    rfl
  simp only [hb_qsv_profile_parse, h1, h2, h4, hne, hl, ne_eq, not_false_eq_true, and_self,
    if_true, if_false, Bool.false_eq_true]

end key_claims

/-- C21, as the code behaves: the key `high` is not empty, not `auto` and no key
of `hb_qsv_h265_profiles`; with `CodecId = HEVC`, `hb_qsv_profile_parse` does not
return -1 but reads `profile->value` through the `NULL` pointer of the failed
lookup (line 1653).  With `CodecId = AVC` the unresolved key `main10`, and with
any codec the unresolved level key `high`, are refused with -1 and no change. -/
theorem profile_parse_unresolved_hevc_null_read :
    (at_end "high".toList = false ∧ strcasecmp "high".toList "auto".toList ≠ 0
      ∧ ∀ e ∈ hb_qsv_h265_profiles, strcasecmp e.key "high".toList ≠ 0)
    ∧ hb_qsv_profile_parse sample_platform sample_param_hevc sample_info_avc
        (some "high".toList) HB_VCODEC_QSV_H265 = none
    ∧ hb_qsv_profile_parse sample_platform sample_param_avc sample_info_avc
        (some "main10".toList) HB_VCODEC_QSV_H264 = some (-1, sample_param_avc)
    ∧ hb_qsv_level_parse sample_param_hevc sample_info_avc (some "high".toList)
        = (-1, sample_param_hevc)
    ∧ hb_qsv_level_parse sample_param_avc sample_info_avc (some "high".toList)
        = (-1, sample_param_avc) := by
  refine ⟨by decide, ?_, ?_, ?_, ?_⟩
  · exact profile_parse_unresolved_hevc _ _ _ _ _ (by decide) (by decide) (by decide) rfl
  · exact profile_parse_unresolved _ _ _ _ _ (by decide) (by decide) (fun _ => by decide)
      (by decide)
  · exact level_parse_unresolved _ _ _ (by decide) (by decide) (fun _ => by decide)
      (fun _ => by decide)
  · exact level_parse_unresolved _ _ _ (by decide) (by decide) (fun _ => by decide)
      (fun _ => by decide)

section auto_claims
variable {F : Type}

/-- A level key that is `NULL`, empty or `auto` is accepted and changes nothing. -/
theorem level_parse_auto (param : hb_qsv_param_t F) (info : hb_qsv_info_t)
    (level_key : Option (List Char))
    (h : ∀ k, level_key = some k → at_end k = true ∨ strcasecmp k "auto".toList = 0) :
    hb_qsv_level_parse param info level_key = (0, param) := by
  cases level_key with
  | none => rfl
  | some k =>
    have hc : ¬ (¬ at_end k = true ∧ strcasecmp k "auto".toList ≠ 0) := by
      rcases h k rfl with h1 | h1
      · exact fun hx => hx.1 h1
      · exact fun hx => hx.2 h1
    simp only [hb_qsv_level_parse, hc, if_false]

/-- A profile key that is `NULL` or `auto` is accepted; the profile is set to
Main10 when the encoder is the 10-bit HEVC one on generation G6 or later, and
left as it is otherwise. -/
theorem profile_parse_auto (pf : Platform) (param : hb_qsv_param_t F) (info : hb_qsv_info_t)
    (profile_key : Option (List Char)) (codec : Int)
    (h : ∀ k, profile_key = some k → strcasecmp k "auto".toList = 0) :
    hb_qsv_profile_parse pf param info profile_key codec
      = some (0,
          if codec = HB_VCODEC_QSV_H265_10BIT
              ∧ param.videoParam.mfx.CodecId = MFX_CODEC_HEVC
              ∧ qsv_hardware_generation pf.cpu_platform ≥ QSV_G6
          then { param with videoParam.mfx.CodecProfile := toU16 MFX_PROFILE_HEVC_MAIN10 }
          else param) := by
  have hd : ∀ key : Option (List Char), key_auto_or_null key = true →
      profile_default pf param key codec
        = some (0,
          if codec = HB_VCODEC_QSV_H265_10BIT
              ∧ param.videoParam.mfx.CodecId = MFX_CODEC_HEVC
              ∧ qsv_hardware_generation pf.cpu_platform ≥ QSV_G6
          then { param with videoParam.mfx.CodecProfile := toU16 MFX_PROFILE_HEVC_MAIN10 }
          else param) := by
    intro key hk
    have h1 : hb_qsv_h265_profiles[1]?
        = some ⟨"Main 10".toList, "main10".toList, MFX_PROFILE_HEVC_MAIN10⟩ := rfl
    simp only [profile_default, hk, true_and, h1]
    split_ifs <;> rfl
  cases profile_key with
  | none => exact hd none rfl
  | some k =>
    have hk := h k rfl
    have hc : ¬ (¬ at_end k = true ∧ strcasecmp k "auto".toList ≠ 0) := fun hx => hx.2 hk
    simp only [hb_qsv_profile_parse, hc, if_false]
    exact hd (some k) (decide_eq_true hk)

/-- An empty profile key is accepted and changes nothing, whatever the encoder
and the generation. -/
theorem profile_parse_empty (pf : Platform) (param : hb_qsv_param_t F) (info : hb_qsv_info_t)
    (k : List Char) (codec : Int) (h : at_end k = true) :
    hb_qsv_profile_parse pf param info (some k) codec = some (0, param) := by
  have hc : ¬ (¬ at_end k = true ∧ strcasecmp k "auto".toList ≠ 0) := fun hx => hx.1 h
  have hn : strcasecmp k "auto".toList ≠ 0 := by
    cases k with
    | nil => decide
    | cons c cs =>
      have hcn : c = NUL := by simpa [at_end] using h
      subst hcn
      have : "auto".toList = 'a' :: 'u' :: 't' :: 'o' :: [] := rfl
      rw [this]
      simp +decide [strcasecmp]
  simp only [hb_qsv_profile_parse, hc, if_false, profile_default, key_auto_or_null, hn,
    decide_False, Bool.false_eq_true, false_and]

end auto_claims

/-- C22, as the code behaves: for the 10-bit HEVC encoder on a Kaby Lake processor
(generation G6) with `CodecId = HEVC`, the keys `NULL` and `auto` store
`MFX_PROFILE_HEVC_MAIN10`, but the empty key returns 0 and leaves
`mfx.CodecProfile` as it was: the test of line 1672 covers `NULL` and `auto`
only.  The level parser accepts all three keys without a change. -/
theorem profile_parse_empty_key_no_main10 :
    qsv_hardware_generation sample_platform_kbl.cpu_platform ≥ QSV_G6
    ∧ hb_qsv_profile_parse sample_platform_kbl sample_param_hevc sample_info_avc
        (some []) HB_VCODEC_QSV_H265_10BIT = some (0, sample_param_hevc)
    ∧ hb_qsv_profile_parse sample_platform_kbl sample_param_hevc sample_info_avc
        none HB_VCODEC_QSV_H265_10BIT
      = some (0, { sample_param_hevc with
          videoParam.mfx.CodecProfile := toU16 MFX_PROFILE_HEVC_MAIN10 })
    ∧ hb_qsv_profile_parse sample_platform_kbl sample_param_hevc sample_info_avc
        (some "auto".toList) HB_VCODEC_QSV_H265_10BIT
      = some (0, { sample_param_hevc with
          videoParam.mfx.CodecProfile := toU16 MFX_PROFILE_HEVC_MAIN10 })
    ∧ toU16 MFX_PROFILE_HEVC_MAIN10 ≠ sample_param_hevc.videoParam.mfx.CodecProfile
    ∧ hb_qsv_level_parse sample_param_hevc sample_info_avc (some [])
        = (0, sample_param_hevc) := by
  refine ⟨by decide, ?_, ?_, ?_, by decide, ?_⟩
  · exact profile_parse_empty _ _ _ _ _ rfl
  · rw [profile_parse_auto _ _ _ _ _ (fun k hk => by cases hk)]
    rfl
  · rw [profile_parse_auto _ _ _ _ _ (fun k hk => by cases hk; decide)]
    rfl
  · exact level_parse_auto _ _ _ (fun k hk => by cases hk; exact Or.inl rfl)

section level_claims
variable {F : Type}

/-- The value `FFMIN` yields is the smaller of the two. -/
theorem FFMIN_eq_min (a b : Int) : FFMIN a b = min b a := by
  unfold FFMIN
  split_ifs <;> omega

/-- C23: level clamp.  For every level key that the lookup resolves in the static
table of the codec of the block to an entry of value `v`, `hb_qsv_level_parse`
returns 0 and changes `mfx.CodecLevel` only: with `CodecId = AVC` it stores
`min v MFX_LEVEL_AVC_52` when `HB_QSV_CAP_MSDK_API_1_6` is set and
`min v MFX_LEVEL_AVC_51` when it is not, with `CodecId = HEVC` it stores `v`. -/
theorem level_parse_clamp (param : hb_qsv_param_t F) (info : hb_qsv_info_t)
    (key : List Char) (t : List hb_triplet_t) (i : Nat) (e : hb_triplet_t)
    (ht : (param.videoParam.mfx.CodecId = MFX_CODEC_AVC ∧ t = hb_qsv_h264_levels)
      ∨ (param.videoParam.mfx.CodecId = MFX_CODEC_HEVC ∧ t = hb_qsv_h265_levels))
    (hk : hb_triplet4key t key = some i) (he : t[i]? = some e) :
    hb_qsv_level_parse param info (some key)
      = (0, { param with videoParam.mfx.CodecLevel := Int.toNat (
          if param.videoParam.mfx.CodecId = MFX_CODEC_AVC then
            (if has_cap info HB_QSV_CAP_MSDK_API_1_6 = true then min e.value MFX_LEVEL_AVC_52
             else min e.value MFX_LEVEL_AVC_51)
          else e.value) }) := by
  have hmem : t ∈ qsv_static_tables := by
    rcases ht with ⟨-, rfl⟩ | ⟨-, rfl⟩ <;> decide
  obtain ⟨h1, h2⟩ := resolved_key_plain t hmem key i e hk he
  obtain ⟨-, -, hv0, hv1⟩ := static_tables_keys t hmem e (List.getElem?_mem he)
  have hne : ¬ (MFX_CODEC_HEVC = MFX_CODEC_AVC) := by decide
  have hl : level_lookup param key = some e := by
    unfold level_lookup triplet_at
    rcases ht with ⟨hc, rfl⟩ | ⟨hc, rfl⟩
    · rw [if_pos hc, hk]
      exact he
    · rw [hc, if_neg hne, if_pos rfl, hk]
      exact he
  have hu : ∀ m : Int, 0 ≤ m → toU16 (min e.value m) = (min e.value m).toNat := by
    intro m hm
    unfold toU16
    congr 1
    omega
  have hu2 : toU16 e.value = e.value.toNat := by
    unfold toU16
    congr 1
    omega
  simp only [hb_qsv_level_parse, h1, h2, hl, ne_eq, not_false_eq_true, and_self, if_true,
    Bool.false_eq_true, FFMIN_eq_min]
  split_ifs <;> first
    | rw [hu _ (by decide)]
    | rw [hu2]

/-- Witness of C23: the key `5.2` on an API older than 1.6 stores level 5.1. -/
theorem level_parse_clamp_witness :
    (sample_param_avc.videoParam.mfx.CodecId = MFX_CODEC_AVC
      ∧ hb_triplet4key hb_qsv_h264_levels "5.2".toList = some 16
      ∧ hb_qsv_h264_levels[16]? = some ⟨"5.2".toList, "5.2".toList, MFX_LEVEL_AVC_52⟩
      ∧ has_cap sample_info_nocap HB_QSV_CAP_MSDK_API_1_6 = false)
    ∧ hb_qsv_level_parse sample_param_avc sample_info_nocap (some "5.2".toList)
      = (0, { sample_param_avc with videoParam.mfx.CodecLevel := 51 }) :=
  ⟨by decide,
    level_parse_clamp sample_param_avc sample_info_nocap "5.2".toList hb_qsv_h264_levels 16
      ⟨"5.2".toList, "5.2".toList, MFX_LEVEL_AVC_52⟩ (Or.inl ⟨rfl, rfl⟩) (by decide) (by decide)⟩

end level_claims

/-! ## Theorems: defaults and presets -/

section preset_claims
variable {F : Type}

/-- With non-null arguments `hb_qsv_param_default` returns 0, and the block it
leaves does not depend on what the block and the video-param structure held. -/
theorem param_default_fresh (env : Env F) (p p2 : hb_qsv_param_t F) (vp vp2 : mfxVideoParam)
    (info : hb_qsv_info_t) :
    (hb_qsv_param_default env (some p) (some vp) (some info)).1 = 0
      ∧ (∃ d, (hb_qsv_param_default env (some p) (some vp) (some info)).2 = some d)
      ∧ hb_qsv_param_default env (some p2) (some vp2) (some info)
          = hb_qsv_param_default env (some p) (some vp) (some info) :=
  ⟨rfl, ⟨_, rfl⟩, rfl⟩

/-- The preset function with non-null arguments: the preset applied to the
defaults. -/
theorem param_default_preset_eq (pf : Platform) (env : Env F) (p : hb_qsv_param_t F)
    (vp : mfxVideoParam) (info : hb_qsv_info_t) (preset : Option (List Char))
    (d : hb_qsv_param_t F)
    (hd : hb_qsv_param_default env (some p) (some vp) (some info) = (0, some d)) :
    hb_qsv_param_default_preset pf env (some p) (some vp) (some info) preset
      = ((preset_apply pf d preset).1, some (preset_apply pf d preset).2) := by
  simp only [hb_qsv_param_default_preset, hd, ne_eq, not_true_eq_false, if_false]

/-- C24: preset `speed` on generation G3 or later.  For every prior content of the
parameter block and of the video-param structure, every capability info and
every spelling of `speed` in letter case, `hb_qsv_param_default_preset` returns 0
and leaves the block `hb_qsv_param_default` produces with `rc.lookahead = 0`,
`mfx.NumRefFrame = 1` and `mfx.TargetUsage = MFX_TARGETUSAGE_6`; the result is the
same for any other prior content. -/
theorem preset_speed (pf : Platform) (env : Env F) (p : hb_qsv_param_t F)
    (vp : mfxVideoParam) (info : hb_qsv_info_t) (name : List Char)
    (hk : strcasecmp name "speed".toList = 0)
    (hg : qsv_hardware_generation pf.cpu_platform ≥ QSV_G3) :
    ∃ d, hb_qsv_param_default env (some p) (some vp) (some info) = (0, some d)
      ∧ hb_qsv_param_default_preset pf env (some p) (some vp) (some info) (some name)
        = (0, some { d with
            rc.lookahead := 0
            videoParam.mfx.NumRefFrame := 1
            videoParam.mfx.TargetUsage := toU16 MFX_TARGETUSAGE_6 })
      ∧ ∀ (p2 : hb_qsv_param_t F) (vp2 : mfxVideoParam),
          hb_qsv_param_default_preset pf env (some p2) (some vp2) (some info) (some name)
            = hb_qsv_param_default_preset pf env (some p) (some vp) (some info) (some name) := by
  have h1 : at_end name = false := by
    rw [at_end_congr hk]
    decide
  have h2 : ¬ strcasecmp name "quality".toList = 0 := by
    rw [strcasecmp_congr hk]
    decide
  have h3 : ¬ strcasecmp name "balanced".toList = 0 := by
    rw [strcasecmp_congr hk]
    decide
  refine ⟨_, rfl, ?_, fun p2 vp2 => rfl⟩
  rw [param_default_preset_eq pf env p vp info (some name) _ rfl]
  simp only [preset_apply, h1, h2, h3, hk, hg, if_true, if_false, Bool.false_eq_true]

/-- Witness of C24: the preset `Speed` on a Haswell processor (generation G3),
applied to a block in which no field has its default. -/
theorem preset_speed_witness :
    (strcasecmp "Speed".toList "speed".toList = 0
      ∧ qsv_hardware_generation sample_platform.cpu_platform ≥ QSV_G3)
    ∧ ∃ d, hb_qsv_param_default sample_env (some sample_param_dirty)
          (some sample_param_dirty.videoParam) (some sample_info_avc) = (0, some d)
      ∧ hb_qsv_param_default_preset sample_platform sample_env (some sample_param_dirty)
          (some sample_param_dirty.videoParam) (some sample_info_avc) (some "Speed".toList)
        = (0, some { d with
            rc.lookahead := 0
            videoParam.mfx.NumRefFrame := 1
            videoParam.mfx.TargetUsage := toU16 MFX_TARGETUSAGE_6 })
      ∧ ∀ (p2 : hb_qsv_param_t SymFloat) (vp2 : mfxVideoParam),
          hb_qsv_param_default_preset sample_platform sample_env (some p2) (some vp2)
              (some sample_info_avc) (some "Speed".toList)
            = hb_qsv_param_default_preset sample_platform sample_env (some sample_param_dirty)
                (some sample_param_dirty.videoParam) (some sample_info_avc)
                (some "Speed".toList) :=
  ⟨⟨by decide, by decide⟩,
    preset_speed sample_platform sample_env sample_param_dirty sample_param_dirty.videoParam
      sample_info_avc "Speed".toList (by decide) (by decide)⟩

end preset_claims

section preset_claims2
variable {F : Type}

/-- C25: preset `balanced`.  On generation G3 or later
`hb_qsv_param_default_preset` with `balanced` (in any letter case) returns 0 and
leaves the block `hb_qsv_param_default` produces with `rc.lookahead = 0`,
`mfx.NumRefFrame = 1` and `mfx.TargetUsage = MFX_TARGETUSAGE_4`; below G3 it
returns 0 and leaves exactly the block `hb_qsv_param_default` produces, as do, on
every generation, the preset `quality`, a `NULL` preset and an empty one. -/
theorem preset_balanced (pf : Platform) (env : Env F) (p : hb_qsv_param_t F)
    (vp : mfxVideoParam) (info : hb_qsv_info_t) (name : List Char)
    (hk : strcasecmp name "balanced".toList = 0) :
    ∃ d, hb_qsv_param_default env (some p) (some vp) (some info) = (0, some d)
      ∧ (qsv_hardware_generation pf.cpu_platform ≥ QSV_G3 →
          hb_qsv_param_default_preset pf env (some p) (some vp) (some info) (some name)
            = (0, some { d with
                rc.lookahead := 0
                videoParam.mfx.NumRefFrame := 1
                videoParam.mfx.TargetUsage := toU16 MFX_TARGETUSAGE_4 }))
      ∧ (qsv_hardware_generation pf.cpu_platform < QSV_G3 →
          hb_qsv_param_default_preset pf env (some p) (some vp) (some info) (some name)
            = (0, some d))
      ∧ (∀ quality : List Char, strcasecmp quality "quality".toList = 0 →
          hb_qsv_param_default_preset pf env (some p) (some vp) (some info) (some quality)
            = (0, some d))
      ∧ hb_qsv_param_default_preset pf env (some p) (some vp) (some info) none = (0, some d)
      ∧ (∀ empty : List Char, at_end empty = true →
          hb_qsv_param_default_preset pf env (some p) (some vp) (some info) (some empty)
            = (0, some d)) := by
  have h1 : at_end name = false := by
    rw [at_end_congr hk]
    decide
  have h2 : ¬ strcasecmp name "quality".toList = 0 := by
    rw [strcasecmp_congr hk]
    decide
  refine ⟨_, rfl, ?_, ?_, ?_, ?_, ?_⟩
  · intro hg
    rw [param_default_preset_eq pf env p vp info (some name) _ rfl]
    simp only [preset_apply, h1, h2, hk, hg, if_true, if_false, Bool.false_eq_true]
  · intro hg
    have hg2 : ¬ qsv_hardware_generation pf.cpu_platform ≥ QSV_G3 := not_le.mpr hg
    rw [param_default_preset_eq pf env p vp info (some name) _ rfl]
    simp only [preset_apply, h1, h2, hk, hg2, if_true, if_false, Bool.false_eq_true]
  · intro quality hq
    have hq1 : at_end quality = false := by
      rw [at_end_congr hq]
      decide
    rw [param_default_preset_eq pf env p vp info (some quality) _ rfl]
    simp only [preset_apply, hq1, hq, if_true, if_false, Bool.false_eq_true]
  · rw [param_default_preset_eq pf env p vp info none _ rfl]
    rfl
  · intro empty hE
    rw [param_default_preset_eq pf env p vp info (some empty) _ rfl]
    simp only [preset_apply, hE, if_true]

/-- Witness of C25: the preset `balanced` on a Haswell processor (generation G3). -/
theorem preset_balanced_witness :
    (strcasecmp "balanced".toList "balanced".toList = 0
      ∧ qsv_hardware_generation sample_platform.cpu_platform ≥ QSV_G3)
    ∧ (hb_qsv_param_default_preset sample_platform sample_env (some sample_param_dirty)
          (some sample_param_dirty.videoParam) (some sample_info_avc)
          (some "balanced".toList)).1 = 0
    ∧ ∃ d, hb_qsv_param_default sample_env (some sample_param_dirty)
          (some sample_param_dirty.videoParam) (some sample_info_avc) = (0, some d)
      ∧ hb_qsv_param_default_preset sample_platform sample_env (some sample_param_dirty)
          (some sample_param_dirty.videoParam) (some sample_info_avc) none = (0, some d) :=
  ⟨⟨by decide, by decide⟩, by decide,
    (preset_balanced sample_platform sample_env sample_param_dirty
      sample_param_dirty.videoParam sample_info_avc "balanced".toList (by decide)).elim
      (fun d h => ⟨d, h.1, h.2.2.2.2.1⟩)⟩

/-- The preset applied to the defaults returns -1 exactly for a name that is not
empty and none of the three preset names, else 0. -/
theorem preset_apply_ret (pf : Platform) (d : hb_qsv_param_t F)
    (preset : Option (List Char)) :
    ((preset_apply pf d preset).1 = -1
        ↔ ∃ name, preset = some name ∧ at_end name = false
            ∧ strcasecmp name "quality".toList ≠ 0
            ∧ strcasecmp name "balanced".toList ≠ 0
            ∧ strcasecmp name "speed".toList ≠ 0)
      ∧ ((preset_apply pf d preset).1 = -1 ∨ (preset_apply pf d preset).1 = 0) := by
  have hz : ¬ ((0 : Int) = -1) := by decide
  cases preset with
  | none =>
    have hv : (preset_apply pf d none).1 = 0 := rfl
    rw [hv]
    exact ⟨⟨fun h => absurd h hz, fun ⟨m, hm, _⟩ => Option.noConfusion hm⟩, Or.inr rfl⟩
  | some n =>
    have hE : (∃ name, some n = some name ∧ at_end name = false
            ∧ strcasecmp name "quality".toList ≠ 0
            ∧ strcasecmp name "balanced".toList ≠ 0
            ∧ strcasecmp name "speed".toList ≠ 0)
        ↔ (at_end n = false ∧ strcasecmp n "quality".toList ≠ 0
            ∧ strcasecmp n "balanced".toList ≠ 0 ∧ strcasecmp n "speed".toList ≠ 0) := by
      constructor
      · rintro ⟨m, hm, h⟩
        rw [Option.some.injEq] at hm
        rw [hm]
        exact h
      · exact fun h => ⟨n, rfl, h⟩
    rw [hE]
    by_cases h0 : at_end n = true
    · have hv : (preset_apply pf d (some n)).1 = 0 := by
        simp only [preset_apply, h0, if_true]
      rw [hv]
      refine ⟨⟨fun h => absurd h hz, fun h => ?_⟩, Or.inr rfl⟩
      rw [h0] at h
      exact absurd h.1 (by decide)
    · by_cases h1 : strcasecmp n "quality".toList = 0
      · have hv : (preset_apply pf d (some n)).1 = 0 := by
          simp only [preset_apply, h0, h1, if_true, if_false, Bool.false_eq_true]
        rw [hv]
        exact ⟨⟨fun h => absurd h hz, fun h => absurd h1 h.2.1⟩, Or.inr rfl⟩
      · by_cases h2 : strcasecmp n "balanced".toList = 0
        · have hv : (preset_apply pf d (some n)).1 = 0 := by
            simp only [preset_apply, h0, h1, h2, if_true, if_false, Bool.false_eq_true]
            split_ifs <;> rfl
          rw [hv]
          exact ⟨⟨fun h => absurd h hz, fun h => absurd h2 h.2.2.1⟩, Or.inr rfl⟩
        · by_cases h3 : strcasecmp n "speed".toList = 0
          · have hv : (preset_apply pf d (some n)).1 = 0 := by
              simp only [preset_apply, h0, h1, h2, h3, if_true, if_false, Bool.false_eq_true]
              split_ifs <;> rfl
            rw [hv]
            exact ⟨⟨fun h => absurd h hz, fun h => absurd h3 h.2.2.2⟩, Or.inr rfl⟩
          · have hv : (preset_apply pf d (some n)).1 = -1 := by
              simp only [preset_apply, h0, h1, h2, h3, if_false, Bool.false_eq_true]
            rw [hv]
            exact ⟨⟨fun _ => ⟨by simpa using h0, h1, h2, h3⟩, fun _ => rfl⟩, Or.inl rfl⟩

/-- C26: an unrecognized preset is an error.  For non-null `param`, `videoParam`
and `info`, `hb_qsv_param_default_preset` returns -1 if and only if the preset is
a non-empty string that `strcasecmp` equates with none of `quality`, `balanced`
and `speed`, and 0 otherwise; it returns -1 when one of the three pointers is
`NULL`. -/
theorem preset_unrecognized (pf : Platform) (env : Env F) (preset : Option (List Char)) :
    (∀ (p : hb_qsv_param_t F) (vp : mfxVideoParam) (info : hb_qsv_info_t),
        ((hb_qsv_param_default_preset pf env (some p) (some vp) (some info) preset).1 = -1
          ↔ ∃ name, preset = some name ∧ at_end name = false
              ∧ strcasecmp name "quality".toList ≠ 0
              ∧ strcasecmp name "balanced".toList ≠ 0
              ∧ strcasecmp name "speed".toList ≠ 0)
        ∧ ((hb_qsv_param_default_preset pf env (some p) (some vp) (some info) preset).1 = -1
          ∨ (hb_qsv_param_default_preset pf env (some p) (some vp) (some info) preset).1 = 0))
    ∧ ∀ (param : Option (hb_qsv_param_t F)) (videoParam : Option mfxVideoParam)
        (info : Option hb_qsv_info_t),
        param = none ∨ videoParam = none ∨ info = none →
        (hb_qsv_param_default_preset pf env param videoParam info preset).1 = -1 := by
  constructor
  · intro p vp info
    rw [param_default_preset_eq pf env p vp info preset _ rfl]
    exact preset_apply_ret pf _ preset
  · intro param videoParam info h
    cases param <;> cases videoParam <;> cases info <;> first
      | rfl
      | (rcases h with h | h | h <;> cases h)

/-- Witness of C26: the preset `fast` is refused, the preset `SPEED` is not, and a
`NULL` info is refused. -/
theorem preset_unrecognized_witness :
    (hb_qsv_param_default_preset sample_platform sample_env (some sample_param)
        (some sample_param.videoParam) (some sample_info_avc) (some "fast".toList)).1 = -1
    ∧ (hb_qsv_param_default_preset sample_platform sample_env (some sample_param)
        (some sample_param.videoParam) (some sample_info_avc) (some "SPEED".toList)).1 = 0
    ∧ (hb_qsv_param_default_preset sample_platform sample_env (some sample_param)
        (some sample_param.videoParam) none (some "speed".toList)).1 = -1 :=
  ⟨((preset_unrecognized sample_platform sample_env (some "fast".toList)).1 sample_param
      sample_param.videoParam sample_info_avc).1.2
      ⟨"fast".toList, rfl, by decide, by decide, by decide, by decide⟩,
    by decide,
    (preset_unrecognized sample_platform sample_env (some "speed".toList)).2 (some sample_param)
      (some sample_param.videoParam) none (Or.inr (Or.inr rfl))⟩

end preset_claims2

/-! ## Theorems: attached extension blocks -/

section ext_claims
variable {F : Type}

theorem ext_frame_return (e : Bool) (q p : hb_qsv_param_t F)
    (h : q.videoParam.NumExtParam = p.videoParam.NumExtParam
      ∧ q.videoParam.ExtParam = p.videoParam.ExtParam) :
    (param_parse_return e (if ¬ e = true then q else p)).2.videoParam.NumExtParam
        = p.videoParam.NumExtParam
      ∧ (param_parse_return e (if ¬ e = true then q else p)).2.videoParam.ExtParam
        = p.videoParam.ExtParam := by
  cases e
  · exact h
  · exact ⟨rfl, rfl⟩

theorem ext_frame_ite (c : Prop) [Decidable c] (a b : hb_qsv_param_status × hb_qsv_param_t F)
    (p : hb_qsv_param_t F)
    (ha : a.2.videoParam.NumExtParam = p.videoParam.NumExtParam
      ∧ a.2.videoParam.ExtParam = p.videoParam.ExtParam)
    (hb : b.2.videoParam.NumExtParam = p.videoParam.NumExtParam
      ∧ b.2.videoParam.ExtParam = p.videoParam.ExtParam) :
    (if c then a else b).2.videoParam.NumExtParam = p.videoParam.NumExtParam
      ∧ (if c then a else b).2.videoParam.ExtParam = p.videoParam.ExtParam := by
  split <;> assumption

theorem ext_frame_ite_param (c : Prop) [Decidable c] (a b p : hb_qsv_param_t F)
    (ha : a.videoParam.NumExtParam = p.videoParam.NumExtParam
      ∧ a.videoParam.ExtParam = p.videoParam.ExtParam)
    (hb : b.videoParam.NumExtParam = p.videoParam.NumExtParam
      ∧ b.videoParam.ExtParam = p.videoParam.ExtParam) :
    (if c then a else b).videoParam.NumExtParam = p.videoParam.NumExtParam
      ∧ (if c then a else b).videoParam.ExtParam = p.videoParam.ExtParam := by
  split <;> assumption

set_option maxHeartbeats 1000000 in
/-- The chain of option names changes neither `NumExtParam` nor the attached list. -/
theorem param_parse_options_ext (env : Env F) (p : hb_qsv_param_t F) (info : hb_qsv_info_t)
    (key value : List Char) (error : Bool) :
    (param_parse_options env p info key value error).2.videoParam.NumExtParam
        = p.videoParam.NumExtParam
      ∧ (param_parse_options env p info key value error).2.videoParam.ExtParam
        = p.videoParam.ExtParam := by
  unfold param_parse_options
  repeat' (first
    | apply ext_frame_ite
    | apply ext_frame_return
    | apply ext_frame_ite_param
    | exact ⟨rfl, rfl⟩)

/-- No call of `hb_qsv_param_parse` changes `NumExtParam` or the attached list. -/
theorem param_parse_ext (env : Env F) (p q : hb_qsv_param_t F) (info : Option hb_qsv_info_t)
    (key value : Option (List Char))
    (h : (hb_qsv_param_parse env (some p) info key value).2 = some q) :
    q.videoParam.NumExtParam = p.videoParam.NumExtParam
      ∧ q.videoParam.ExtParam = p.videoParam.ExtParam := by
  cases info with
  | none =>
    simp only [hb_qsv_param_parse, Option.some.injEq] at h
    rw [← h]
    exact ⟨rfl, rfl⟩
  | some inf =>
    cases key with
    | none =>
      simp only [hb_qsv_param_parse, Option.some.injEq] at h
      rw [← h]
      exact ⟨rfl, rfl⟩
    | some k =>
      simp only [hb_qsv_param_parse] at h
      split_ifs at h <;> simp only [Option.some.injEq] at h <;> rw [← h] <;>
        first
          | exact ⟨rfl, rfl⟩
          | exact param_parse_options_ext _ _ _ _ _ _

/-- The blocks `hb_qsv_param_default` attaches. -/
theorem attach_supported_eq (info : hb_qsv_info_t) :
    (attach_supported info default_videoParam).ExtParam
        = [ext_buffer.videoSignalInfo, ext_buffer.codingOption, ext_buffer.codingOption2].filter
            (fun b => has_cap info (ext_buffer_cap b))
      ∧ (attach_supported info default_videoParam).NumExtParam
        = (if has_cap info HB_QSV_CAP_VUI_VSINFO = true then 1 else 0)
          + (if has_cap info HB_QSV_CAP_OPTION1 = true then 1 else 0)
          + (if has_cap info HB_QSV_CAP_OPTION2 = true then 1 else 0) := by
  unfold attach_supported
  simp only [List.filter, ext_buffer_cap]
  cases has_cap info HB_QSV_CAP_VUI_VSINFO <;> cases has_cap info HB_QSV_CAP_OPTION1 <;>
    cases has_cap info HB_QSV_CAP_OPTION2 <;> decide

/-- C27: extension blocks are attached only when their capability bit is set.
After `hb_qsv_param_default` with non-null arguments `NumExtParam` is the number
of bits set among `VUI_VSINFO`, `OPTION1` and `OPTION2` in `info->capabilities`,
and `ExtParam[0 .. NumExtParam)` lists exactly the blocks whose bit is set, in the
order `videoSignalInfo`, `codingOption`, `codingOption2`; and no call of
`hb_qsv_param_parse`, whatever its arguments, changes `NumExtParam` or the list. -/
theorem ext_params_attached (env : Env F) (p : hb_qsv_param_t F) (vp : mfxVideoParam)
    (info : hb_qsv_info_t) :
    (∃ d, hb_qsv_param_default env (some p) (some vp) (some info) = (0, some d)
      ∧ d.videoParam.ExtParam
          = [ext_buffer.videoSignalInfo, ext_buffer.codingOption,
              ext_buffer.codingOption2].filter (fun b => has_cap info (ext_buffer_cap b))
      ∧ d.videoParam.NumExtParam
          = (if has_cap info HB_QSV_CAP_VUI_VSINFO = true then 1 else 0)
            + (if has_cap info HB_QSV_CAP_OPTION1 = true then 1 else 0)
            + (if has_cap info HB_QSV_CAP_OPTION2 = true then 1 else 0)
      ∧ d.videoParam.NumExtParam = d.videoParam.ExtParam.length)
    ∧ ∀ (env2 : Env F) (q r : hb_qsv_param_t F) (info2 : Option hb_qsv_info_t)
        (key value : Option (List Char)),
        (hb_qsv_param_parse env2 (some q) info2 key value).2 = some r →
        r.videoParam.NumExtParam = q.videoParam.NumExtParam
          ∧ r.videoParam.ExtParam = q.videoParam.ExtParam := by
  refine ⟨⟨_, rfl, (attach_supported_eq info).1, (attach_supported_eq info).2, ?_⟩,
    fun env2 q r info2 key value h => param_parse_ext env2 q r info2 key value h⟩
  show (attach_supported info default_videoParam).NumExtParam
    = (attach_supported info default_videoParam).ExtParam.length
  unfold attach_supported
  cases has_cap info HB_QSV_CAP_VUI_VSINFO <;> cases has_cap info HB_QSV_CAP_OPTION1 <;>
    cases has_cap info HB_QSV_CAP_OPTION2 <;> decide

/-- Witness of C27: with the bits `VUI_VSINFO` and `OPTION2` only, the defaults
attach `videoSignalInfo` and `codingOption2`, and `cavlc=1` afterwards changes
neither the count nor the list. -/
theorem ext_params_attached_witness :
    ∃ d, hb_qsv_param_default sample_env (some sample_param_dirty)
          (some sample_param_dirty.videoParam)
          (some { sample_info_nocap with
            capabilities := HB_QSV_CAP_VUI_VSINFO ||| HB_QSV_CAP_OPTION2 }) = (0, some d)
      ∧ d.videoParam.ExtParam = [ext_buffer.videoSignalInfo, ext_buffer.codingOption2]
      ∧ d.videoParam.NumExtParam = 2 :=
  (ext_params_attached sample_env sample_param_dirty sample_param_dirty.videoParam
    { sample_info_nocap with
      capabilities := HB_QSV_CAP_VUI_VSINFO ||| HB_QSV_CAP_OPTION2 }).1.elim
    (fun d h => ⟨d, h.1, h.2.1.trans (by decide), h.2.2.1.trans (by decide)⟩)

end ext_claims

/-! ## Theorems: surface pool -/

/-- What the `for` loop over a pool returns, within the arrays: the lowest free
slot from `i` on, or nothing when none of the slots scanned is free. -/
theorem scan_pool_loop_spec (pool : List Int) (locked : List Nat) :
    ∀ (remaining i : Nat), i + remaining ≤ pool.length → i + remaining ≤ locked.length →
      (∃ j, scan_pool_loop pool locked remaining i = .found j ∧ i ≤ j ∧ j < i + remaining
          ∧ slot_free pool locked j ∧ ∀ k, i ≤ k → k < j → ¬ slot_free pool locked k)
      ∨ (scan_pool_loop pool locked remaining i = .not_found
          ∧ ∀ k, i ≤ k → k < i + remaining → ¬ slot_free pool locked k) := by
  intro remaining
  induction remaining with
  | zero =>
    intro i _ _
    exact Or.inr ⟨rfl, fun k h1 h2 => absurd h2 (by omega)⟩
  | succ n ih =>
    intro i h1 h2
    have hp : i < pool.length := by omega
    have hl : i < locked.length := by omega
    have ep : pool[i]? = some pool[i] := List.getElem?_eq_getElem hp
    have el : locked[i]? = some locked[i] := List.getElem?_eq_getElem hl
    have step : ∀ r, ¬ slot_free pool locked i →
        ((∃ j, r = scan_outcome.found j ∧ i + 1 ≤ j ∧ j < i + 1 + n ∧ slot_free pool locked j
            ∧ ∀ k, i + 1 ≤ k → k < j → ¬ slot_free pool locked k)
          ∨ (r = .not_found ∧ ∀ k, i + 1 ≤ k → k < i + 1 + n → ¬ slot_free pool locked k)) →
        ((∃ j, r = scan_outcome.found j ∧ i ≤ j ∧ j < i + (n + 1) ∧ slot_free pool locked j
            ∧ ∀ k, i ≤ k → k < j → ¬ slot_free pool locked k)
          ∨ (r = .not_found ∧ ∀ k, i ≤ k → k < i + (n + 1) → ¬ slot_free pool locked k)) := by
      intro r hn hr
      rcases hr with ⟨j, e, a, b, c, d⟩ | ⟨e, d⟩
      · refine Or.inl ⟨j, e, by omega, by omega, c, fun k k1 k2 => ?_⟩
        by_cases hk : k = i
        · rw [hk]
          exact hn
        · exact d k (by omega) k2
      · refine Or.inr ⟨e, fun k k1 k2 => ?_⟩
        by_cases hk : k = i
        · rw [hk]
          exact hn
        · exact d k (by omega) (by omega)
    have hrec := ih (i + 1) (by omega) (by omega)
    simp only [scan_pool_loop, ep, el]
    by_cases hb : pool[i] = 0
    · by_cases hk : locked[i] = 0
      · simp only [hb, hk, if_true]
        refine Or.inl ⟨i, rfl, le_refl _, by omega, ⟨by rw [ep, hb], by rw [el, hk]⟩,
          fun k k1 k2 => absurd k2 (by omega)⟩
      · simp only [hb, hk, if_true, if_false]
        exact step _ (fun hf => hk (by
          have := hf.2
          rw [el, Option.some.injEq] at this
          exact this)) hrec
    · simp only [hb, if_false]
      exact step _ (fun hf => hb (by
        have := hf.1
        rw [ep, Option.some.injEq] at this
        exact this)) hrec

/-- What the `for` loop over the first `n` slots of a pool returns. -/
theorem scan_pool_spec (pool : List Int) (locked : List Nat) (n : Nat)
    (h1 : n ≤ pool.length) (h2 : n ≤ locked.length) :
    (∃ j, scan_pool pool locked n = .found j ∧ lowest_free_slot pool locked n j)
      ∨ (scan_pool pool locked n = .not_found ∧ no_free_slot pool locked n) := by
  unfold scan_pool lowest_free_slot no_free_slot
  rw [Int.toNat_ofNat]
  rcases scan_pool_loop_spec pool locked n 0 (by omega) (by omega) with ⟨j, e, _, b, c, d⟩ | ⟨e, d⟩
  · exact Or.inl ⟨j, e, by omega, c, fun k hk => d k (Nat.zero_le _) hk⟩
  · exact Or.inr ⟨e, fun k hk => d k (Nat.zero_le _) (by omega)⟩

/-- The lowest free slot is the only one. -/
theorem lowest_free_slot_unique (pool : List Int) (locked : List Nat) (n i j : Nat)
    (hi : lowest_free_slot pool locked n i) (hj : lowest_free_slot pool locked n j) : i = j := by
  rcases Nat.lt_trichotomy i j with h | h | h
  · exact absurd hi.2.1 (hj.2.2 i h)
  · exact h
  · exact absurd hj.2.1 (hi.2.2 j h)

/-- What one pass over the two pools does, within the arrays: it hands out the
lowest free slot of pool 1; if pool 1 has none, the lowest free slot of pool 2;
if neither has one, nothing. -/
theorem scan_pass_spec (c : EncQSVFramesContext) (n : Nat) (h : pools_hold c n) :
    (∃ i, lowest_free_slot c.pool c.Locked n i
        ∧ scan_pass c n = .acquired ⟨⟨.pool1, i⟩, ⟨.pool1, i⟩,
            { c with pool := c.pool.set i (c.pool.getD i 0 + 1) }⟩)
      ∨ (no_free_slot c.pool c.Locked n
        ∧ ∃ i, lowest_free_slot c.pool2 c.Locked2 n i
          ∧ scan_pass c n = .acquired ⟨⟨.pool2, i⟩, ⟨.pool2, i⟩,
              { c with pool2 := c.pool2.set i (c.pool2.getD i 0 + 1) }⟩)
      ∨ (no_free_slot c.pool c.Locked n ∧ no_free_slot c.pool2 c.Locked2 n
        ∧ scan_pass c n = .none_free) := by
  obtain ⟨h1, h2, h3, h4⟩ := h
  rcases scan_pool_spec c.pool c.Locked n h1 h3 with ⟨i, e, hi⟩ | ⟨e, hn⟩
  · exact Or.inl ⟨i, hi, by simp only [scan_pass, e]⟩
  · rcases scan_pool_spec c.pool2 c.Locked2 n h2 h4 with ⟨i, e2, hi⟩ | ⟨e2, hn2⟩
    · exact Or.inr (Or.inl ⟨hn, i, hi, by simp only [scan_pass, e, e2]⟩)
    · exact Or.inr (Or.inr ⟨hn, hn2, by simp only [scan_pass, e, e2]⟩)

/-- While no pass hands out a slot the loop goes on. -/
theorem get_free_surface_loop_none (world : Nat → EncQSVFramesContext) (pool_size : Int) :
    ∀ (fuel pass count sleeps : Nat),
      (∀ j, pass ≤ j → j < pass + fuel → scan_pass (world j) pool_size = .none_free) →
      get_free_surface_loop world pool_size fuel pass count sleeps = .no_return := by
  intro fuel
  induction fuel with
  | zero => exact fun _ _ _ _ => rfl
  | succ f ih =>
    intro pass count sleeps h
    simp only [get_free_surface_loop, h pass (le_refl _) (by omega)]
    exact ih _ _ _ (fun j j1 j2 => h j (by omega) (by omega))

/-- The loop returns in the first pass that hands out a slot. -/
theorem get_free_surface_loop_first (world : Nat → EncQSVFramesContext) (pool_size : Int) :
    ∀ (fuel pass count sleeps k : Nat) (a : acquisition), pass ≤ k → k < pass + fuel →
      (∀ j, pass ≤ j → j < k → scan_pass (world j) pool_size = .none_free) →
      scan_pass (world k) pool_size = .acquired a →
      ∃ s, get_free_surface_loop world pool_size fuel pass count sleeps = .returned k s a := by
  intro fuel
  induction fuel with
  | zero => exact fun pass _ _ k _ h1 h2 => absurd h2 (by omega)
  | succ f ih =>
    intro pass count sleeps k a h1 h2 h3 h4
    by_cases hk : k = pass
    · subst hk
      exact ⟨if count > 30 then sleeps + 1 else sleeps, by
        simp only [get_free_surface_loop, h4]⟩
    · simp only [get_free_surface_loop, h3 pass (le_refl _) (by omega)]
      exact ih _ _ _ k a (by omega) (by omega) (fun j j1 j2 => h3 j (by omega) j2) h4

/-- A loop that returns does so with what the pass it returns in hands out, and no
earlier pass handed out a slot. -/
theorem get_free_surface_loop_returned (world : Nat → EncQSVFramesContext) (pool_size : Int) :
    ∀ (fuel pass count sleeps k s : Nat) (a : acquisition),
      get_free_surface_loop world pool_size fuel pass count sleeps = .returned k s a →
      pass ≤ k ∧ scan_pass (world k) pool_size = .acquired a
        ∧ ∀ j, pass ≤ j → j < k → scan_pass (world j) pool_size = .none_free := by
  intro fuel
  induction fuel with
  | zero =>
    intro pass count sleeps k s a h
    exact absurd h (by simp [get_free_surface_loop])
  | succ f ih =>
    intro pass count sleeps k s a h
    simp only [get_free_surface_loop] at h
    cases hp : scan_pass (world pass) pool_size with
    | acquired b =>
      rw [hp] at h
      simp only [acquire_outcome.returned.injEq] at h
      obtain ⟨rfl, -, rfl⟩ := h
      exact ⟨le_refl _, hp, fun j j1 j2 => absurd j2 (by omega)⟩
    | invalid_read =>
      rw [hp] at h
      exact absurd h (by simp)
    | none_free =>
      rw [hp] at h
      obtain ⟨h1, h2, h3⟩ := ih _ _ _ k s a h
      refine ⟨by omega, h2, fun j j1 j2 => ?_⟩
      by_cases hj : j = pass
      · rw [hj]
        exact hp
      · exact h3 j (by omega) j2

/-- C28: surface selection.  With arrays of at least `n` slots, a scan pass of
`hb_qsv_get_free_surface_from_pool` with `pool_size = n` hands out the lowest
slot below `n` of pool 1 whose busy flag is 0 and whose surface has
`Data.Locked = 0`; only if pool 1 has no such slot, the lowest such slot of pool
2; and nothing if neither pool has one.  Hence the call does not return while no
slot is free, it returns in the first pass in which a slot is free, and a slot
it returns has an index below `n`. -/
theorem surface_selection (world : Nat → EncQSVFramesContext) (n : Nat)
    (hold : ∀ k, pools_hold (world k) n) :
    (∀ k,
      (∀ i, lowest_free_slot (world k).pool (world k).Locked n i →
        ∃ a, scan_pass (world k) n = .acquired a
          ∧ a.out_surface = ⟨.pool1, i⟩ ∧ a.out_mid = ⟨.pool1, i⟩)
      ∧ (no_free_slot (world k).pool (world k).Locked n →
          ∀ i, lowest_free_slot (world k).pool2 (world k).Locked2 n i →
            ∃ a, scan_pass (world k) n = .acquired a
              ∧ a.out_surface = ⟨.pool2, i⟩ ∧ a.out_mid = ⟨.pool2, i⟩)
      ∧ (no_free_slot (world k).pool (world k).Locked n →
          no_free_slot (world k).pool2 (world k).Locked2 n →
          scan_pass (world k) n = .none_free))
    ∧ ((∀ k, no_free_slot (world k).pool (world k).Locked n
          ∧ no_free_slot (world k).pool2 (world k).Locked2 n) →
        ∀ fuel, hb_qsv_get_free_surface_from_pool world n fuel = .no_return)
    ∧ (∀ k,
        (∀ j, j < k → no_free_slot (world j).pool (world j).Locked n
          ∧ no_free_slot (world j).pool2 (world j).Locked2 n) →
        ¬ (no_free_slot (world k).pool (world k).Locked n
          ∧ no_free_slot (world k).pool2 (world k).Locked2 n) →
        ∀ fuel, k < fuel →
          ∃ s a, hb_qsv_get_free_surface_from_pool world n fuel = .returned k s a
            ∧ scan_pass (world k) n = .acquired a)
    ∧ (∀ fuel k s a, hb_qsv_get_free_surface_from_pool world n fuel = .returned k s a →
        a.out_surface.index < n ∧ a.out_mid.index < n) := by
  have pass1 : ∀ k i, lowest_free_slot (world k).pool (world k).Locked n i →
      ∃ a, scan_pass (world k) n = .acquired a
        ∧ a.out_surface = ⟨.pool1, i⟩ ∧ a.out_mid = ⟨.pool1, i⟩ := by
    intro k i hi
    rcases scan_pass_spec (world k) n (hold k) with ⟨j, hj, e⟩ | ⟨hn, -⟩ | ⟨hn, -⟩
    · rw [lowest_free_slot_unique _ _ _ _ _ hi hj]
      exact ⟨_, e, rfl, rfl⟩
    · exact absurd hi.2.1 (hn i hi.1)
    · exact absurd hi.2.1 (hn i hi.1)
  have pass2 : ∀ k, no_free_slot (world k).pool (world k).Locked n →
      ∀ i, lowest_free_slot (world k).pool2 (world k).Locked2 n i →
        ∃ a, scan_pass (world k) n = .acquired a
          ∧ a.out_surface = ⟨.pool2, i⟩ ∧ a.out_mid = ⟨.pool2, i⟩ := by
    intro k h1 i hi
    rcases scan_pass_spec (world k) n (hold k) with ⟨j, hj, -⟩ | ⟨-, j, hj, e⟩ | ⟨-, hn, -⟩
    · exact absurd hj.2.1 (h1 j hj.1)
    · rw [lowest_free_slot_unique _ _ _ _ _ hi hj]
      exact ⟨_, e, rfl, rfl⟩
    · exact absurd hi.2.1 (hn i hi.1)
  have pass3 : ∀ k, no_free_slot (world k).pool (world k).Locked n →
      no_free_slot (world k).pool2 (world k).Locked2 n →
      scan_pass (world k) n = .none_free := by
    intro k h1 h2
    rcases scan_pass_spec (world k) n (hold k) with ⟨j, hj, -⟩ | ⟨-, j, hj, -⟩ | ⟨-, -, e⟩
    · exact absurd hj.2.1 (h1 j hj.1)
    · exact absurd hj.2.1 (h2 j hj.1)
    · exact e
  refine ⟨fun k => ⟨pass1 k, pass2 k, pass3 k⟩, ?_, ?_, ?_⟩
  · intro h fuel
    exact get_free_surface_loop_none world n fuel 0 0 0
      (fun j _ _ => pass3 j (h j).1 (h j).2)
  · intro k hbefore hfree fuel hfuel
    have hacq : ∃ a, scan_pass (world k) n = .acquired a := by
      rcases scan_pass_spec (world k) n (hold k) with ⟨j, -, e⟩ | ⟨-, j, -, e⟩ | ⟨h1, h2, -⟩
      · exact ⟨_, e⟩
      · exact ⟨_, e⟩
      · exact absurd ⟨h1, h2⟩ hfree
    obtain ⟨a, ha⟩ := hacq
    obtain ⟨s, hs⟩ := get_free_surface_loop_first world n fuel 0 0 0 k a (Nat.zero_le _)
      (by omega) (fun j _ j2 => pass3 j (hbefore j j2).1 (hbefore j j2).2) ha
    exact ⟨s, a, hs, ha⟩
  · intro fuel k s a h
    obtain ⟨-, h2, -⟩ := get_free_surface_loop_returned world n fuel 0 0 0 k s a h
    rcases scan_pass_spec (world k) n (hold k) with ⟨j, hj, e⟩ | ⟨-, j, hj, e⟩ | ⟨-, -, e⟩
    · rw [e, pass_outcome.acquired.injEq] at h2
      rw [← h2]
      exact ⟨hj.1, hj.1⟩
    · rw [e, pass_outcome.acquired.injEq] at h2
      rw [← h2]
      exact ⟨hj.1, hj.1⟩
    · rw [e] at h2
      exact absurd h2 (by simp)

/-- Witness of C28: four slots scanned of pools of six; pool 1 has its slots 0 and
1 busy and the surface of slot 2 locked, so slot 3 of pool 1 is handed out in the
first pass although pool 2 has free slots; with the four slots of both pools busy
the call has not returned after 100 passes. -/
theorem surface_selection_witness :
    (∀ k : Nat, pools_hold ((fun _ => sample_frames_ctx) k) 4)
    ∧ lowest_free_slot sample_frames_ctx.pool sample_frames_ctx.Locked 4 3
    ∧ (∃ a, scan_pass sample_frames_ctx ((4 : Nat) : Int) = .acquired a
        ∧ a.out_surface = ⟨.pool1, 3⟩ ∧ a.out_mid = ⟨.pool1, 3⟩)
    ∧ hb_qsv_get_free_surface_from_pool (fun _ => busy_frames_ctx) 4 100 = .no_return :=
  ⟨fun _ => by show pools_hold sample_frames_ctx 4; unfold pools_hold; decide,
    by unfold lowest_free_slot no_free_slot slot_free; decide,
    ((surface_selection (fun _ => sample_frames_ctx) 4
      (fun _ => by show pools_hold sample_frames_ctx 4; unfold pools_hold; decide)).1 0).1 3
      (by unfold lowest_free_slot no_free_slot slot_free; decide),
    by decide⟩

/-- C29: acquisition marks exactly the returned slot busy.  When
`hb_qsv_get_free_surface_from_pool` returns, in pass `k`, the memory id and the
surface it returns are the entries of one slot `i` of one pool; the busy counter
of that slot was 0 and is 1; every other busy counter of both pools and every
`Locked` flag is as it was; no counter is lower than before. -/
theorem acquisition_marks_slot (world : Nat → EncQSVFramesContext) (n : Nat)
    (hold : ∀ k, pools_hold (world k) n) (fuel k s : Nat) (a : acquisition)
    (h : hb_qsv_get_free_surface_from_pool world n fuel = .returned k s a) :
    a.out_mid = a.out_surface
      ∧ a.ctx.Locked = (world k).Locked ∧ a.ctx.Locked2 = (world k).Locked2
      ∧ (a.out_surface.pool = .pool1 →
          (world k).pool[a.out_surface.index]? = some 0
          ∧ a.ctx.pool[a.out_surface.index]? = some 1
          ∧ (∀ j : Nat, j ≠ a.out_surface.index → a.ctx.pool[j]? = (world k).pool[j]?)
          ∧ a.ctx.pool2 = (world k).pool2)
      ∧ (a.out_surface.pool = .pool2 →
          (world k).pool2[a.out_surface.index]? = some 0
          ∧ a.ctx.pool2[a.out_surface.index]? = some 1
          ∧ (∀ j : Nat, j ≠ a.out_surface.index → a.ctx.pool2[j]? = (world k).pool2[j]?)
          ∧ a.ctx.pool = (world k).pool)
      ∧ (∀ (j : Nat) (b : Int), (world k).pool[j]? = some b → ∃ b2 : Int, a.ctx.pool[j]? = some b2 ∧ b ≤ b2)
      ∧ (∀ (j : Nat) (b : Int), (world k).pool2[j]? = some b → ∃ b2 : Int, a.ctx.pool2[j]? = some b2 ∧ b ≤ b2) := by
  have set_spec : ∀ (l : List Int) (i : Nat), l[i]? = some 0 →
      (l.set i (l.getD i 0 + 1))[i]? = some 1
        ∧ (∀ j : Nat, j ≠ i → (l.set i (l.getD i 0 + 1))[j]? = l[j]?)
        ∧ (∀ (j : Nat) (b : Int), l[j]? = some b → ∃ b2 : Int, (l.set i (l.getD i 0 + 1))[j]? = some b2 ∧ b ≤ b2) := by
    intro l i hi
    have hlt : i < l.length := by
      by_contra hc
      rw [List.getElem?_eq_none (by omega)] at hi
      exact absurd hi (by simp)
    have hd : l.getD i 0 = 0 := by
      rw [List.getD_eq_getElem?_getD, hi]
      rfl
    refine ⟨?_, ?_, ?_⟩
    · rw [List.getElem?_set_self hlt, hd]
      rfl
    · intro j hj
      exact List.getElem?_set_ne (fun e => hj e.symm)
    · intro j b hb
      by_cases hj : j = i
      · subst hj
        rw [hi, Option.some.injEq] at hb
        exact ⟨1, by rw [List.getElem?_set_self hlt, hd]; rfl, by omega⟩
      · exact ⟨b, by rw [List.getElem?_set_ne (fun e => hj e.symm)]; exact hb, le_refl _⟩
  obtain ⟨-, h2, -⟩ := get_free_surface_loop_returned world n fuel 0 0 0 k s a h
  rcases scan_pass_spec (world k) n (hold k) with ⟨i, hi, e⟩ | ⟨-, i, hi, e⟩ | ⟨-, -, e⟩
  · rw [e, pass_outcome.acquired.injEq] at h2
    rw [← h2]
    obtain ⟨s1, s2, s3⟩ := set_spec (world k).pool i hi.2.1.1
    exact ⟨rfl, rfl, rfl, fun _ => ⟨hi.2.1.1, s1, s2, rfl⟩,
      fun hp => pool_id.noConfusion hp, s3, fun j b hb => ⟨b, hb, le_refl _⟩⟩
  · rw [e, pass_outcome.acquired.injEq] at h2
    rw [← h2]
    obtain ⟨s1, s2, s3⟩ := set_spec (world k).pool2 i hi.2.1.1
    exact ⟨rfl, rfl, rfl, fun hp => pool_id.noConfusion hp,
      fun _ => ⟨hi.2.1.1, s1, s2, rfl⟩, fun j b hb => ⟨b, hb, le_refl _⟩, s3⟩
  · rw [e] at h2
    exact absurd h2 (by simp)

/-- Witness of C29: the acquisition of the example of C28 returns slot 3 of pool 1
and leaves its busy counter 1. -/
theorem acquisition_marks_slot_witness :
    (∀ k : Nat, pools_hold ((fun _ => sample_frames_ctx) k) 4)
    ∧ hb_qsv_get_free_surface_from_pool (fun _ => sample_frames_ctx) 4 1
        = .returned 0 0 ⟨⟨.pool1, 3⟩, ⟨.pool1, 3⟩,
            { sample_frames_ctx with pool := [1, 1, 0, 1, 0, 0] }⟩
    ∧ ({ sample_frames_ctx with pool := [1, 1, 0, 1, 0, 0] } : EncQSVFramesContext).pool[3]?
        = some 1 :=
  ⟨fun _ => by show pools_hold sample_frames_ctx 4; unfold pools_hold; decide, by decide,
    ((acquisition_marks_slot (fun _ => sample_frames_ctx) 4
      (fun _ => by show pools_hold sample_frames_ctx 4; unfold pools_hold; decide) 1 0 0
      ⟨⟨.pool1, 3⟩, ⟨.pool1, 3⟩, { sample_frames_ctx with pool := [1, 1, 0, 1, 0, 0] }⟩
      (by decide)).2.2.2.1 rfl).2.1⟩

/-! ## Theorems: the device handle -/

theorem get_handle_loop_first (ans : copy_answers) (pre : List mfxHandleType)
    (t : mfxHandleType) (post : List mfxHandleType)
    (hpre : ∀ u ∈ pre, (ans.MFXVideoCORE_GetHandle u).1 ≠ MFX_ERR_NONE)
    (ht : (ans.MFXVideoCORE_GetHandle t).1 = MFX_ERR_NONE) :
    get_handle_loop ans (pre ++ t :: post)
      = ⟨(ans.MFXVideoCORE_GetHandle t).2, some t,
          (pre ++ [t]).map copy_call.MFXVideoCORE_GetHandle⟩ := by
  induction pre with
  | nil => simp only [List.nil_append, get_handle_loop, ht, if_true, List.map]
  | cons u pre ih =>
    have hu := hpre u (List.mem_cons_self _ _)
    have ih2 := ih (fun v hv => hpre v (List.mem_cons_of_mem _ hv))
    show get_handle_loop ans (u :: (pre ++ t :: post)) = _
    simp only [get_handle_loop, hu, if_false, ih2, List.cons_append, List.map_cons]

theorem get_handle_loop_none (ans : copy_answers) (l : List mfxHandleType)
    (h : ∀ u ∈ l, (ans.MFXVideoCORE_GetHandle u).1 ≠ MFX_ERR_NONE) :
    get_handle_loop ans l = ⟨none, none, l.map copy_call.MFXVideoCORE_GetHandle⟩ := by
  induction l with
  | nil => rfl
  | cons u l ih =>
    have hu := h u (List.mem_cons_self _ _)
    have ih2 := ih (fun v hv => h v (List.mem_cons_of_mem _ hv))
    simp only [get_handle_loop, hu, if_false, ih2, List.map]

theorem copy_to_surface_calls (ans : copy_answers) (handle : Option Nat)
    (handle_type : mfxHandleType) (a : acquisition) (calls : List copy_call) :
    (copy_to_surface ans handle handle_type a calls).device_manager_handle = handle
      ∧ ∃ rest, (copy_to_surface ans handle handle_type a calls).calls = calls ++ rest
          ∧ ∀ u, copy_call.MFXVideoCORE_GetHandle u ∉ rest := by
  unfold copy_to_surface
  split_ifs <;> exact ⟨rfl, _, rfl, fun u hu => by simp at hu⟩

/-- C30: device handle broker order.  Entered with no cached handle, with a frame
allocated and a surface acquired, `hb_qsv_copy_frame` returns, and: (1) if `t` is
the first handle type, in the order `MFX_HANDLE_VA_DISPLAY`,
`MFX_HANDLE_D3D11_DEVICE`, `MFX_HANDLE_D3D9_DEVICE_MANAGER`, for which
`MFXVideoCORE_GetHandle` returns `MFX_ERR_NONE`, the calls start with one
`MFXVideoCORE_GetHandle` for each type up to and including `t`, in that order,
no later call is a `MFXVideoCORE_GetHandle`, and the cached handle is the one
stored for `t`; (2) if no type succeeds, the calls are exactly one
`MFXVideoCORE_GetHandle` per type in that order, the cached handle is `NULL` and
`data[3]` of the frame of the returned buffer is 0. -/
theorem handle_broker_order (ans : copy_answers) (fuel k s : Nat) (a : acquisition)
    (hframe : ans.av_frame_alloc_ok = true)
    (hacq : hb_qsv_get_free_surface_from_pool ans.world (ans.HB_POOL_SURFACE_SIZE - 2) fuel
      = .returned k s a) :
    handle_types = [.MFX_HANDLE_VA_DISPLAY, .MFX_HANDLE_D3D11_DEVICE,
      .MFX_HANDLE_D3D9_DEVICE_MANAGER]
    ∧ (∀ pre t post, handle_types = pre ++ t :: post →
        (∀ u ∈ pre, (ans.MFXVideoCORE_GetHandle u).1 ≠ MFX_ERR_NONE) →
        (ans.MFXVideoCORE_GetHandle t).1 = MFX_ERR_NONE →
        ∃ r rest, hb_qsv_copy_frame ans none fuel = .returned r
          ∧ r.device_manager_handle = (ans.MFXVideoCORE_GetHandle t).2
          ∧ r.calls = (pre ++ [t]).map copy_call.MFXVideoCORE_GetHandle ++ rest
          ∧ (∀ u, copy_call.MFXVideoCORE_GetHandle u ∉ rest)
          ∧ ((ans.MFXVideoCORE_GetHandle t).2 = none → r.data3 = none ∧ rest = []))
    ∧ ((∀ u ∈ handle_types, (ans.MFXVideoCORE_GetHandle u).1 ≠ MFX_ERR_NONE) →
        hb_qsv_copy_frame ans none fuel
          = .returned ⟨true, none, none, some a,
              handle_types.map copy_call.MFXVideoCORE_GetHandle⟩) := by
  refine ⟨rfl, ?_, ?_⟩
  · intro pre t post hsplit hpre ht
    have hloop := get_handle_loop_first ans pre t post hpre ht
    rw [← hsplit] at hloop
    cases hh : (ans.MFXVideoCORE_GetHandle t).2 with
    | none =>
      refine ⟨⟨true, none, none, some a,
        (pre ++ [t]).map copy_call.MFXVideoCORE_GetHandle⟩, [], ?_, rfl, ?_, ?_, ?_⟩
      · simp only [hb_qsv_copy_frame, hframe, not_true_eq_false, if_false, hacq, hloop, hh]
      · rw [List.append_nil]
      · intro u hu
        exact absurd hu (List.not_mem_nil _)
      · intro _
        exact ⟨rfl, rfl⟩
    | some handle =>
      obtain ⟨h1, rest, h2, h3⟩ := copy_to_surface_calls ans (some handle) t a
        ((pre ++ [t]).map copy_call.MFXVideoCORE_GetHandle)
      refine ⟨copy_to_surface ans (some handle) t a
        ((pre ++ [t]).map copy_call.MFXVideoCORE_GetHandle), rest, ?_, h1, h2, h3, ?_⟩
      · simp only [hb_qsv_copy_frame, hframe, not_true_eq_false, if_false, hacq, hloop, hh]
      · intro hn
        exact Option.noConfusion hn
  · intro hall
    have hloop := get_handle_loop_none ans handle_types hall
    simp only [hb_qsv_copy_frame, hframe, not_true_eq_false, if_false, hacq, hloop]

/-- Witness of C30: the session has no VA display and yields the handle 7 for a
Direct3D 11 device: the session is asked for the VA display and for the Direct3D
11 device, not for the Direct3D 9 device manager, and the handle 7 is cached. -/
theorem handle_broker_order_witness :
    sample_copy_answers.av_frame_alloc_ok = true
    ∧ hb_qsv_get_free_surface_from_pool sample_copy_answers.world
        (sample_copy_answers.HB_POOL_SURFACE_SIZE - 2) 1
        = .returned 0 0 ⟨⟨.pool1, 3⟩, ⟨.pool1, 3⟩,
            { sample_frames_ctx with pool := [1, 1, 0, 1, 0, 0] }⟩
    ∧ (∃ r rest, hb_qsv_copy_frame sample_copy_answers none 1 = .returned r
        ∧ r.device_manager_handle
            = (sample_copy_answers.MFXVideoCORE_GetHandle .MFX_HANDLE_D3D11_DEVICE).2
        ∧ r.calls = List.map copy_call.MFXVideoCORE_GetHandle
            ([.MFX_HANDLE_VA_DISPLAY] ++ [.MFX_HANDLE_D3D11_DEVICE]) ++ rest
        ∧ (∀ u, copy_call.MFXVideoCORE_GetHandle u ∉ rest)
        ∧ ((sample_copy_answers.MFXVideoCORE_GetHandle .MFX_HANDLE_D3D11_DEVICE).2 = none →
            r.data3 = none ∧ rest = []))
    ∧ hb_qsv_copy_frame sample_copy_answers none 1
        = .returned ⟨true, some ⟨.pool1, 3⟩, some 7,
            some ⟨⟨.pool1, 3⟩, ⟨.pool1, 3⟩,
              { sample_frames_ctx with pool := [1, 1, 0, 1, 0, 0] }⟩,
            [.MFXVideoCORE_GetHandle .MFX_HANDLE_VA_DISPLAY,
             .MFXVideoCORE_GetHandle .MFX_HANDLE_D3D11_DEVICE,
             .ID3D11Device_GetImmediateContext,
             .ID3D11DeviceContext_CopySubresourceRegion]⟩
    ∧ hb_qsv_copy_frame sample_copy_answers_none none 1
        = .returned ⟨true, none, none,
            some ⟨⟨.pool1, 3⟩, ⟨.pool1, 3⟩,
              { sample_frames_ctx with pool := [1, 1, 0, 1, 0, 0] }⟩,
            [.MFXVideoCORE_GetHandle .MFX_HANDLE_VA_DISPLAY,
             .MFXVideoCORE_GetHandle .MFX_HANDLE_D3D11_DEVICE,
             .MFXVideoCORE_GetHandle .MFX_HANDLE_D3D9_DEVICE_MANAGER]⟩ :=
  ⟨rfl, by decide,
    (handle_broker_order sample_copy_answers 1 0 0
      ⟨⟨.pool1, 3⟩, ⟨.pool1, 3⟩, { sample_frames_ctx with pool := [1, 1, 0, 1, 0, 0] }⟩
      rfl (by decide)).2.1 [.MFX_HANDLE_VA_DISPLAY] .MFX_HANDLE_D3D11_DEVICE
      [.MFX_HANDLE_D3D9_DEVICE_MANAGER] rfl (by decide) (by decide),
    by decide, by decide⟩

/-! ## Theorems: repeated options and prefixed values -/

section idempotence_claims
variable {F : Type}

theorem idempotent_ite {S P : Type} (c : Prop) [Decidable c] (f g : P → S × P)
    (hf : idempotent_step f) (hg : idempotent_step g) :
    idempotent_step (fun p => if c then f p else g p) := by
  intro p
  by_cases hc : c
  · simp only [hc, if_true]
    exact hf p
  · simp only [hc, if_false]
    exact hg p

theorem idempotent_const {S P : Type} (s : S) : idempotent_step (fun p : P => (s, p)) :=
  fun _ => rfl

theorem idempotent_return (e : Bool) (u : hb_qsv_param_t F → hb_qsv_param_t F)
    (hu : ∀ p, u (u p) = u p) :
    idempotent_step (fun p => param_parse_return e (if ¬ e = true then u p else p)) := by
  intro p
  cases e
  · simp only [param_parse_return, Bool.false_eq_true, not_false_eq_true, if_true, if_false, hu]
  · rfl

/-- Setting or clearing `MFX_GOP_STRICT` a second time changes nothing. -/
theorem scenecut_update_idempotent (c : Prop) [Decidable c] (p : hb_qsv_param_t F) :
    (fun q : hb_qsv_param_t F =>
      if c then
        { q with videoParam.mfx.GopOptFlag := q.videoParam.mfx.GopOptFlag ||| MFX_GOP_STRICT }
      else
        { q with videoParam.mfx.GopOptFlag :=
            q.videoParam.mfx.GopOptFlag &&& (65535 - MFX_GOP_STRICT) })
      ((fun q : hb_qsv_param_t F =>
      if c then
        { q with videoParam.mfx.GopOptFlag := q.videoParam.mfx.GopOptFlag ||| MFX_GOP_STRICT }
      else
        { q with videoParam.mfx.GopOptFlag :=
            q.videoParam.mfx.GopOptFlag &&& (65535 - MFX_GOP_STRICT) }) p)
    = (fun q : hb_qsv_param_t F =>
      if c then
        { q with videoParam.mfx.GopOptFlag := q.videoParam.mfx.GopOptFlag ||| MFX_GOP_STRICT }
      else
        { q with videoParam.mfx.GopOptFlag :=
            q.videoParam.mfx.GopOptFlag &&& (65535 - MFX_GOP_STRICT) }) p := by
  by_cases hc : c
  · simp only [hc, if_true, Nat.or_assoc, Nat.or_self]
  · simp only [hc, if_false, Nat.and_assoc, Nat.and_self]

set_option maxHeartbeats 2000000 in
/-- The chain of option names, as a step on the parameter block, is idempotent. -/
theorem param_parse_options_idempotent (env : Env F) (info : hb_qsv_info_t)
    (key value : List Char) (error : Bool) :
    idempotent_step (fun p => param_parse_options env p info key value error) := by
  unfold param_parse_options
  repeat' (first
    | apply idempotent_ite
    | apply idempotent_const
    | (apply idempotent_return; intro p; first | rfl | exact scenecut_update_idempotent _ p))

/-- The call on non-null pointers and a non-null key is one idempotent step on the
parameter block. -/
theorem param_parse_step (env : Env F) (info : hb_qsv_info_t) (key : List Char)
    (value : Option (List Char)) :
    ∃ f : hb_qsv_param_t F → hb_qsv_param_status × hb_qsv_param_t F,
      idempotent_step f
      ∧ ∀ p, hb_qsv_param_parse env (some p) (some info) (some key) value
          = ((f p).1, some (f p).2) := by
  by_cases h1 : at_end key = true
  · refine ⟨fun p => (HB_QSV_PARAM_BAD_NAME, p), idempotent_const _, fun p => ?_⟩
    simp only [hb_qsv_param_parse, h1, if_true]
  · by_cases h2 : strncasecmp key "no-".toList 3 = 0
    · by_cases h3 : (hb_qsv_atobool (param_parse_value value) false).2 = true
      · refine ⟨fun p => (HB_QSV_PARAM_BAD_VALUE, p), idempotent_const _, fun p => ?_⟩
        simp only [hb_qsv_param_parse, h1, h2, h3, if_true, if_false, Bool.false_eq_true]
      · refine ⟨_, param_parse_options_idempotent env info (key.drop 3)
          (if (hb_qsv_atobool (param_parse_value value) false).1 ≠ 0 then "false".toList
            else "true".toList)
          (hb_qsv_atobool (param_parse_value value) false).2, fun p => ?_⟩
        simp only [hb_qsv_param_parse, h1, h2, h3, if_true, if_false, Bool.false_eq_true]
    · refine ⟨_, param_parse_options_idempotent env info key (param_parse_value value) false,
        fun p => ?_⟩
      simp only [hb_qsv_param_parse, h1, h2, if_false, Bool.false_eq_true]

/-- C31: applying an option twice is idempotent.  For every key, value, capability
info and parameter block (null pointers included), `hb_qsv_param_parse` applied
to the block that `hb_qsv_param_parse` with the same key, value and info leaves
returns the same code and leaves that block as it is. -/
theorem param_parse_idempotent (env : Env F) (param : Option (hb_qsv_param_t F))
    (info : Option hb_qsv_info_t) (key value : Option (List Char)) :
    hb_qsv_param_parse env (hb_qsv_param_parse env param info key value).2 info key value
      = hb_qsv_param_parse env param info key value := by
  cases param with
  | none => cases info <;> rfl
  | some p =>
    cases info with
    | none => rfl
    | some inf =>
      cases key with
      | none => rfl
      | some k =>
        obtain ⟨f, hf, he⟩ := param_parse_step env inf k value
        rw [he p]
        show hb_qsv_param_parse env (some (f p).2) (some inf) (some k) value = _
        rw [he (f p).2, hf p]

end idempotence_claims

/-- An instance of the idempotence of `hb_qsv_param_parse`: `scenecut=0` sets
`MFX_GOP_STRICT`, and a second `scenecut=0` returns the same code and block. -/
theorem scenecut_twice_example :
    hb_qsv_param_parse sample_env (some sample_param) (some sample_info_avc)
        (some "scenecut".toList) (some "0".toList)
      = (HB_QSV_PARAM_OK, some { sample_param with videoParam.mfx.GopOptFlag := MFX_GOP_STRICT })
    ∧ hb_qsv_param_parse sample_env
        (some { sample_param with videoParam.mfx.GopOptFlag := MFX_GOP_STRICT })
        (some sample_info_avc) (some "scenecut".toList) (some "0".toList)
      = (HB_QSV_PARAM_OK,
          some { sample_param with videoParam.mfx.GopOptFlag := MFX_GOP_STRICT }) := by
  decide

section value_prefix_claims
variable {F : Type}

/-- A value that starts with `=` is parsed without that character, whatever follows. -/
theorem param_parse_value_strip (v : List Char) : param_parse_value (some ('=' :: v)) = v := by
  have h : at_end ('=' :: v) = false := rfl
  simp only [param_parse_value, h, List.head?_cons, if_true, Bool.false_eq_true, if_false,
    List.drop_succ_cons, List.drop_zero]

/-- A value that is not empty and does not start with `=` is parsed as it is. -/
theorem param_parse_value_plain (v : List Char) (h1 : at_end v = false)
    (h2 : v.head? ≠ some '=') : param_parse_value (some v) = v := by
  simp only [param_parse_value, h1, h2, if_false, Bool.false_eq_true]

/-- The call depends on the value only through the value the option is parsed with. -/
theorem param_parse_value_congr (env : Env F) (param : Option (hb_qsv_param_t F))
    (info : Option hb_qsv_info_t) (key v1 v2 : Option (List Char))
    (h : param_parse_value v1 = param_parse_value v2) :
    hb_qsv_param_parse env param info key v1 = hb_qsv_param_parse env param info key v2 := by
  simp only [hb_qsv_param_parse, h]

/-- C32, as amended: one leading `=` is stripped from a value.  The value `=`
followed by `v` is parsed as `v` itself, for every `v`; hence for every key,
capability info and parameter block and every string `v` that is not empty and
does not itself start with `=`, `hb_qsv_param_parse` with the value `=` followed
by `v` returns the same code and leaves the same block as with the value `v`. -/
theorem leading_equals_stripped (env : Env F) (param : Option (hb_qsv_param_t F))
    (info : Option hb_qsv_info_t) (key : Option (List Char)) (v : List Char) :
    param_parse_value (some ('=' :: v)) = v
    ∧ (at_end v = false → v.head? ≠ some '=' →
        hb_qsv_param_parse env param info key (some ('=' :: v))
          = hb_qsv_param_parse env param info key (some v)) := by
  refine ⟨param_parse_value_strip v, fun h1 h2 => ?_⟩
  apply param_parse_value_congr
  rw [param_parse_value_strip, param_parse_value_plain v h1 h2]

end value_prefix_claims

set_option maxRecDepth 100000 in
/-- Witness of C32 as amended: `tu` with the values `=5` and `5`. -/
theorem leading_equals_stripped_witness :
    (at_end "5".toList = false ∧ "5".toList.head? ≠ some '=')
    ∧ hb_qsv_param_parse sample_env (some sample_param) (some sample_info_avc)
        (some "tu".toList) (some ('=' :: "5".toList))
      = hb_qsv_param_parse sample_env (some sample_param) (some sample_info_avc)
        (some "tu".toList) (some "5".toList)
    ∧ hb_qsv_param_parse sample_env (some sample_param) (some sample_info_avc)
        (some "tu".toList) (some "5".toList)
      = (HB_QSV_PARAM_OK, some { sample_param with videoParam.mfx.TargetUsage := 5 }) :=
  ⟨by decide,
    (leading_equals_stripped sample_env (some sample_param) (some sample_info_avc)
      (some "tu".toList) "5".toList).2 (by decide) (by decide),
    by decide⟩

set_option maxRecDepth 100000 in
/-- Counterexample to C32 as stated: with the empty `v`, the value `=` is parsed
as the empty string and `scenecut` refuses it, while the empty value is parsed
as `true`; with `v` the string `=5`, the value `==5` is parsed as `=5` and `tu`
refuses it, while the value `=5` is parsed as `5`. -/
theorem leading_equals_counterexample :
    hb_qsv_param_parse sample_env (some sample_param) (some sample_info_avc)
        (some "scenecut".toList) (some ('=' :: []))
      = (HB_QSV_PARAM_BAD_VALUE, some sample_param)
    ∧ hb_qsv_param_parse sample_env (some sample_param) (some sample_info_avc)
        (some "scenecut".toList) (some [])
      = (HB_QSV_PARAM_OK, some sample_param)
    ∧ hb_qsv_param_parse sample_env (some sample_param) (some sample_info_avc)
        (some "tu".toList) (some ('=' :: "=5".toList))
      = (HB_QSV_PARAM_BAD_VALUE, some sample_param)
    ∧ hb_qsv_param_parse sample_env (some sample_param) (some sample_info_avc)
        (some "tu".toList) (some "=5".toList)
      = (HB_QSV_PARAM_OK, some { sample_param with videoParam.mfx.TargetUsage := 5 }) := by
  decide

/-! ## Theorems: probe statuses, versions and codecs -/

/-- A capability bit that `query_capabilities` leaves set was set by the full probe
of lines 378-648, started from zero, of an implementation it found available. -/
theorem query_capabilities_testBit (pf : Platform) (ans : probe_answers)
    (loaded : List plugin_uid) (version : mfxVersion) (info : hb_qsv_info_t) (k : Nat)
    (h : (query_capabilities pf ans loaded version info).info.capabilities.testBit k = true) :
    (query_capabilities pf ans loaded version info).info.available ≠ 0
      ∧ (option2_trial pf ans version info (option1_trial ans version
          (vsinfo_trial ans version (icq_trial ans version
            (la_trial ans version (policy_caps pf version info 0)).1).1).1).1).1.testBit k
          = true := by
  rcases query_capabilities_caps pf ans loaded version info with ⟨hz, -⟩ | ⟨hav, he⟩
  · rw [hz, Nat.zero_testBit] at h
    exact absurd h Bool.false_ne_true
  · exact ⟨hav, he ▸ h⟩

/-- The probe changes neither the codec nor the implementation of the info. -/
theorem query_capabilities_codec_id (pf : Platform) (ans : probe_answers)
    (loaded : List plugin_uid) (version : mfxVersion) (info : hb_qsv_info_t) :
    (query_capabilities pf ans loaded version info).info.codec_id = info.codec_id
      ∧ (query_capabilities pf ans loaded version info).info.implementation
          = info.implementation := by
  obtain ⟨hc, hi, -⟩ := probe_available_fields pf ans version { info with capabilities := 0 }
  unfold query_capabilities
  simp only []
  split
  · exact ⟨rfl, rfl⟩
  · split_ifs <;> exact ⟨hc, hi⟩

/-- C33, as amended: an error status means unsupported, a warning does not.  For
every platform, version, info and answers: if the query of an optional-feature
trial of `query_capabilities` (LA, LA with interlacing, ICQ,
`mfxExtVideoSignalInfo`, `mfxExtCodingOption`, `mfxExtCodingOption2`) returns a
status below `MFX_ERR_NONE`, the capability bit of the trial is left unset (and
a failed LA query leaves the LA-with-interlacing bit unset as well).  For an
implementation that the probe, entered with `available` 0, has found available,
a status at or above `MFX_ERR_NONE`, which includes every positive warning
code, sets the bit when the version test of the trial holds and the query echoes
what the trial asks for. -/
theorem query_error_means_unsupported (pf : Platform) (ans : probe_answers)
    (loaded : List plugin_uid) (version : mfxVersion) (info : hb_qsv_info_t) :
    (ans.la_status < MFX_ERR_NONE →
        has_cap (query_capabilities pf ans loaded version info).info
            HB_QSV_CAP_RATECONTROL_LA = false
        ∧ has_cap (query_capabilities pf ans loaded version info).info
            HB_QSV_CAP_RATECONTROL_LAi = false)
    ∧ (ans.lai_status < MFX_ERR_NONE →
        has_cap (query_capabilities pf ans loaded version info).info
            HB_QSV_CAP_RATECONTROL_LAi = false)
    ∧ (ans.icq_status < MFX_ERR_NONE →
        has_cap (query_capabilities pf ans loaded version info).info
            HB_QSV_CAP_RATECONTROL_ICQ = false)
    ∧ (ans.vsinfo_status < MFX_ERR_NONE →
        has_cap (query_capabilities pf ans loaded version info).info
            HB_QSV_CAP_VUI_VSINFO = false)
    ∧ (ans.option1_status < MFX_ERR_NONE →
        has_cap (query_capabilities pf ans loaded version info).info
            HB_QSV_CAP_OPTION1 = false)
    ∧ (ans.option2_status < MFX_ERR_NONE →
        has_cap (query_capabilities pf ans loaded version info).info
            HB_QSV_CAP_OPTION2 = false)
    ∧ (info.available = 0 →
        (query_capabilities pf ans loaded version info).info.available ≠ 0 →
        (HB_CHECK_MFX_VERSION version 1 7 = true → ans.la_status ≥ MFX_ERR_NONE →
            ans.la_rc = MFX_RATECONTROL_LA →
            has_cap (query_capabilities pf ans loaded version info).info
              HB_QSV_CAP_RATECONTROL_LA = true)
        ∧ (HB_CHECK_MFX_VERSION version 1 7 = true → ans.la_status ≥ MFX_ERR_NONE →
            ans.la_rc = MFX_RATECONTROL_LA → ans.lai_status ≥ MFX_ERR_NONE →
            (ans.lai_picstruct : Int) = MFX_PICSTRUCT_FIELD_TFF →
            ans.lai_rc = MFX_RATECONTROL_LA →
            has_cap (query_capabilities pf ans loaded version info).info
              HB_QSV_CAP_RATECONTROL_LAi = true)
        ∧ (HB_CHECK_MFX_VERSION version 1 8 = true → ans.icq_status ≥ MFX_ERR_NONE →
            ans.icq_rc = MFX_RATECONTROL_ICQ →
            has_cap (query_capabilities pf ans loaded version info).info
              HB_QSV_CAP_RATECONTROL_ICQ = true)
        ∧ (HB_CHECK_MFX_VERSION version 1 3 = true → ans.vsinfo_status ≥ MFX_ERR_NONE →
            has_cap (query_capabilities pf ans loaded version info).info
              HB_QSV_CAP_VUI_VSINFO = true)
        ∧ (HB_CHECK_MFX_VERSION version 1 0 = true → ans.option1_status ≥ MFX_ERR_NONE →
            has_cap (query_capabilities pf ans loaded version info).info
              HB_QSV_CAP_OPTION1 = true)
        ∧ (HB_CHECK_MFX_VERSION version 1 6 = true → info.codec_id = MFX_CODEC_AVC →
            ans.option2_status ≥ MFX_ERR_NONE →
            has_cap (query_capabilities pf ans loaded version info).info
              HB_QSV_CAP_OPTION2 = true)) := by
  have unset : ∀ k : Nat,
      ((option2_trial pf ans version info (option1_trial ans version
          (vsinfo_trial ans version (icq_trial ans version
            (la_trial ans version (policy_caps pf version info 0)).1).1).1).1).1.testBit k
          = true → False) →
      has_cap (query_capabilities pf ans loaded version info).info (1 <<< k) = false := by
    intro k hk
    rw [Bool.eq_false_iff]
    intro hc
    rw [has_cap_testBit] at hc
    exact hk (query_capabilities_testBit pf ans loaded version info k hc).2
  refine ⟨?_, ?_, ?_, ?_, ?_, ?_, ?_⟩
  · intro hneg
    constructor
    · apply unset 10
      rw [full_probe_testBit]
      simp only [Nat.reduceEqDiff, false_and, true_and, false_or, or_false, and_false]
      exact fun h => absurd h.2.1 (not_le.mpr hneg)
    · apply unset 11
      rw [full_probe_testBit]
      simp only [Nat.reduceEqDiff, false_and, true_and, false_or, or_false, and_false]
      exact fun h => absurd h.2.1.1 (not_le.mpr hneg)
  · intro hneg
    apply unset 11
    rw [full_probe_testBit]
    simp only [Nat.reduceEqDiff, false_and, true_and, false_or, or_false, and_false]
    exact fun h => absurd h.2.2.1 (not_le.mpr hneg)
  · intro hneg
    apply unset 12
    rw [full_probe_testBit]
    simp only [Nat.reduceEqDiff, false_and, true_and, false_or, or_false, and_false]
    exact fun h => absurd h.2.1 (not_le.mpr hneg)
  · intro hneg
    apply unset 3
    rw [full_probe_testBit]
    simp only [Nat.reduceEqDiff, false_and, true_and, false_or, or_false, and_false]
    exact fun h => absurd h.2 (not_le.mpr hneg)
  · intro hneg
    apply unset 20
    rw [full_probe_testBit]
    simp only [Nat.reduceEqDiff, false_and, true_and, false_or, or_false, and_false]
    exact fun h => absurd h.2 (not_le.mpr hneg)
  · intro hneg
    apply unset 30
    rw [full_probe_testBit]
    simp only [Nat.reduceEqDiff, false_and, true_and, false_or, or_false, and_false, or_true,
      and_true]
    exact fun h => absurd h.2 (not_le.mpr hneg)
  · intro h0 hav
    obtain ⟨-, h⟩ := query_capabilities_full pf ans loaded version info h0 hav
    refine ⟨?_, ?_, ?_, ?_, ?_, ?_⟩
    · intro hv hs hr
      unfold HB_QSV_CAP_RATECONTROL_LA
      rw [has_cap_testBit, h, full_probe_testBit]
      simp only [Nat.reduceEqDiff, false_and, true_and, false_or, or_false, and_false]
      exact ⟨hv, hs, hr⟩
    · intro hv hs hr hs2 hp hr2
      unfold HB_QSV_CAP_RATECONTROL_LAi
      rw [has_cap_testBit, h, full_probe_testBit]
      simp only [Nat.reduceEqDiff, false_and, true_and, false_or, or_false, and_false]
      exact ⟨hv, ⟨hs, hr⟩, hs2, hp, hr2⟩
    · intro hv hs hr
      unfold HB_QSV_CAP_RATECONTROL_ICQ
      rw [has_cap_testBit, h, full_probe_testBit]
      simp only [Nat.reduceEqDiff, false_and, true_and, false_or, or_false, and_false]
      exact ⟨hv, hs, hr⟩
    · intro hv hs
      unfold HB_QSV_CAP_VUI_VSINFO
      rw [has_cap_testBit, h, full_probe_testBit]
      simp only [Nat.reduceEqDiff, false_and, true_and, false_or, or_false, and_false]
      exact ⟨hv, hs⟩
    · intro hv hs
      unfold HB_QSV_CAP_OPTION1
      rw [has_cap_testBit, h, full_probe_testBit]
      simp only [Nat.reduceEqDiff, false_and, true_and, false_or, or_false, and_false]
      exact ⟨hv, hs⟩
    · intro hv hc hs
      unfold HB_QSV_CAP_OPTION2
      rw [has_cap_testBit, h, full_probe_testBit]
      simp only [Nat.reduceEqDiff, false_and, true_and, false_or, or_false, and_false, or_true,
        and_true]
      exact ⟨⟨hv, hc⟩, hs⟩

/-- Witness of C33 as amended: a hardware AVC implementation on a Haswell
processor, API 1.8; the `mfxExtCodingOption2` query returns the error -3 and its
bit is unset, the `mfxExtVideoSignalInfo` query returns the warning 5 and its
bit is set. -/
theorem query_error_means_unsupported_witness :
    (sample_answers_warning.option2_status < MFX_ERR_NONE
      ∧ has_cap (query_capabilities sample_platform sample_answers_warning [] ⟨1, 8⟩
          initial_registry.qsv_hardware_info_avc).info HB_QSV_CAP_OPTION2 = false)
    ∧ (initial_registry.qsv_hardware_info_avc.available = 0
      ∧ (query_capabilities sample_platform sample_answers_warning [] ⟨1, 8⟩
          initial_registry.qsv_hardware_info_avc).info.available ≠ 0
      ∧ HB_CHECK_MFX_VERSION ⟨1, 8⟩ 1 3 = true
      ∧ sample_answers_warning.vsinfo_status ≥ MFX_ERR_NONE
      ∧ has_cap (query_capabilities sample_platform sample_answers_warning [] ⟨1, 8⟩
          initial_registry.qsv_hardware_info_avc).info HB_QSV_CAP_VUI_VSINFO = true) :=
  ⟨⟨by decide,
      (query_error_means_unsupported sample_platform sample_answers_warning [] ⟨1, 8⟩
        initial_registry.qsv_hardware_info_avc).2.2.2.2.2.1 (by decide)⟩,
    by decide, by decide, by decide, by decide,
    ((query_error_means_unsupported sample_platform sample_answers_warning [] ⟨1, 8⟩
        initial_registry.qsv_hardware_info_avc).2.2.2.2.2.2 (by decide) (by decide)).2.2.2.1
      (by decide) (by decide)⟩

/-- Counterexample to C33 as stated: the `mfxExtVideoSignalInfo` and
`mfxExtCodingOption` queries return the status 5, a positive warning code other
than `MFX_ERR_NONE`, and `query_capabilities` sets `VUI_VSINFO` and `OPTION1`. -/
theorem query_warning_counterexample :
    sample_answers_warning.vsinfo_status ≠ MFX_ERR_NONE
    ∧ sample_answers_warning.option1_status ≠ MFX_ERR_NONE
    ∧ has_cap (query_capabilities sample_platform sample_answers_warning [] ⟨1, 8⟩
        initial_registry.qsv_hardware_info_avc).info HB_QSV_CAP_VUI_VSINFO = true
    ∧ has_cap (query_capabilities sample_platform sample_answers_warning [] ⟨1, 8⟩
        initial_registry.qsv_hardware_info_avc).info HB_QSV_CAP_OPTION1 = true := by
  decide

/-- C36: the API version test is not a "newer than" order.
`HB_CHECK_MFX_VERSION(v, 1, m)` holds iff `v.Major = 1` and `v.Minor ≥ m`, and the
minimum required major version is 1; so for every reported version whose major
number is not 1, `query_capabilities`, entered with `available` 0, returns 0 and
leaves the info with `available` 0 and `capabilities` 0 without issuing a single
query, whatever the session would answer. -/
theorem version_check_not_an_order (pf : Platform) (ans : probe_answers)
    (loaded : List plugin_uid) (version : mfxVersion) (info : hb_qsv_info_t)
    (hM : version.Major ≠ 1) (h0 : info.available = 0) :
    (∀ (v : mfxVersion) (m : Nat),
        HB_CHECK_MFX_VERSION v 1 m = true ↔ v.Major = 1 ∧ v.Minor ≥ m)
    ∧ HB_QSV_MINVERSION_MAJOR = 1
    ∧ (query_capabilities pf ans loaded version info).ret = 0
    ∧ (query_capabilities pf ans loaded version info).info
        = { info with available := 0, capabilities := 0 }
    ∧ (query_capabilities pf ans loaded version info).calls.filter is_query = [] := by
  have hv : ∀ m, HB_CHECK_MFX_VERSION version 1 m = false := by
    intro m
    simp [HB_CHECK_MFX_VERSION, hM]
  have hi : ({ info with capabilities := 0 } : hb_qsv_info_t)
      = { info with available := 0, capabilities := 0 } := by
    rw [← h0]
  have hp : probe_available pf ans version { info with capabilities := 0 }
      = ⟨false, { info with capabilities := 0 }, []⟩ := by
    simp only [probe_available, HB_QSV_MINVERSION_MAJOR, hv, Bool.false_eq_true, if_false]
  have hl : hb_qsv_load_plugins ans loaded { info with capabilities := 0 } version
      = if ¬ ans.list_init_ok = true then ⟨none, loaded, []⟩ else ⟨some [], loaded, []⟩ := by
    simp only [hb_qsv_load_plugins, hv, Bool.false_eq_true, if_false]
  refine ⟨fun v m => by simp [HB_CHECK_MFX_VERSION], rfl, ?_, ?_, ?_⟩
  · unfold query_capabilities
    simp only [hp, hl]
    split_ifs <;> simp [h0]
  · unfold query_capabilities
    simp only [hp, hl]
    split_ifs <;> simp [h0, hi]
  · unfold query_capabilities
    simp only [hp, hl]
    split_ifs <;> simp [h0]

/-- Witness of C36: the version 2.0 is later than 1.3, the test against 1.3 fails,
and the probe of the hardware AVC info on a Haswell processor, with a session
that would confirm everything, leaves it unavailable without capabilities. -/
theorem version_check_not_an_order_witness :
    (api_ge ⟨2, 0⟩ 1 3 = true ∧ HB_CHECK_MFX_VERSION ⟨2, 0⟩ 1 3 = false)
    ∧ (query_capabilities sample_platform (sample_answers MFX_CODEC_AVC) [] ⟨2, 0⟩
        initial_registry.qsv_hardware_info_avc).info
      = { initial_registry.qsv_hardware_info_avc with available := 0, capabilities := 0 } :=
  ⟨by decide,
    (version_check_not_an_order sample_platform (sample_answers MFX_CODEC_AVC) [] ⟨2, 0⟩
      initial_registry.qsv_hardware_info_avc (by decide) (by decide)).2.2.2.1⟩

section hevc_claims
variable {F : Type}

/-- The options gated by a bit of the extended option block, and the options of
AVC only, as the table has them. -/
theorem option2_or_avc_only_options :
    ∀ name ∈ ["mbbrc", "extbrc", "trellis", "adaptive-i", "i-adapt", "adaptive-b", "b-adapt",
        "lookahead-ds", "la-ds", "cavlc", "cabac", "tff", "interlaced", "bff"],
      ∃ d ∈ option_table, d.name = name
        ∧ (d.codecs = .avc_only
          ∨ ∃ bit ∈ [HB_QSV_CAP_OPTION2_MBBRC, HB_QSV_CAP_OPTION2_EXTBRC,
              HB_QSV_CAP_OPTION2_TRELLIS, HB_QSV_CAP_OPTION2_IB_ADAPT,
              HB_QSV_CAP_OPTION2_LA_DOWNS], d.cap = some bit) := by
  decide

/-- The options of AVC only, as the table has them. -/
theorem avc_only_options :
    ∀ name ∈ ["cavlc", "cabac", "tff", "interlaced", "bff"],
      ∃ d ∈ option_table, d.name = name ∧ d.codecs = .avc_only := by
  decide

theorem gate_closed_of_codec {info : hb_qsv_info_t} {d : option_desc}
    (hd : d.codecs = .avc_only) (hc : info.codec_id ≠ MFX_CODEC_AVC) :
    gate_ok info d = false := by
  simp [gate_ok, codec_ok, hd, hc]

/-- A bare key that matches an option whose gate is closed is refused as
unsupported, whatever the value, and the block is left as it was. -/
theorem param_parse_gate_closed (env : Env F) (p : hb_qsv_param_t F) (info : hb_qsv_info_t)
    (d : option_desc) (hd : d ∈ option_table) (hg : gate_ok info d = false)
    (key : List Char) (hk : strcasecmp key d.name.toList = 0) (value : Option (List Char)) :
    hb_qsv_param_parse env (some p) (some info) (some key) value
      = (HB_QSV_PARAM_UNSUPPORTED, some p) := by
  obtain ⟨h1, h2⟩ := recognized_plain (is_recognized_of_match hd hk)
  have h2' : is_negated key = false := by simpa [is_negated] using h2
  rw [param_parse_plain env p info key value h1 h2',
    param_parse_options_gate_closed env p info _ d hd key hk hg]

/-- C37: HEVC never gets the extended option block.  For an info of codec HEVC,
every platform, API version, implementation and every answer of the session,
the info `query_capabilities` leaves is of codec HEVC and has `OPTION2` and all
of `OPTION2_MBBRC`, `OPTION2_EXTBRC`, `OPTION2_TRELLIS`, `OPTION2_BREFTYPE`,
`OPTION2_LA_DOWNS`, `OPTION2_IB_ADAPT`, `OPTION2_NMPSLICE` unset; with that info
`hb_qsv_param_parse` returns `HB_QSV_PARAM_UNSUPPORTED`, for every value and
without a change of the block, for `mbbrc`, `extbrc`, `trellis`,
`adaptive-i`/`i-adapt`, `adaptive-b`/`b-adapt`, `lookahead-ds`/`la-ds`, `cavlc`,
`cabac`, `tff`, `interlaced` and `bff`; the last five are refused for every info
whose codec is not AVC. -/
theorem hevc_no_option2 (pf : Platform) (ans : probe_answers) (loaded : List plugin_uid)
    (version : mfxVersion) (info : hb_qsv_info_t) (hc : info.codec_id = MFX_CODEC_HEVC) :
    (query_capabilities pf ans loaded version info).info.codec_id = MFX_CODEC_HEVC
    ∧ (∀ bit ∈ [HB_QSV_CAP_OPTION2, HB_QSV_CAP_OPTION2_MBBRC, HB_QSV_CAP_OPTION2_EXTBRC,
          HB_QSV_CAP_OPTION2_TRELLIS, HB_QSV_CAP_OPTION2_BREFTYPE, HB_QSV_CAP_OPTION2_LA_DOWNS,
          HB_QSV_CAP_OPTION2_IB_ADAPT, HB_QSV_CAP_OPTION2_NMPSLICE],
        has_cap (query_capabilities pf ans loaded version info).info bit = false)
    ∧ (∀ (env : Env F) (p : hb_qsv_param_t F) (key : List Char) (value : Option (List Char)),
        ∀ name ∈ ["mbbrc", "extbrc", "trellis", "adaptive-i", "i-adapt", "adaptive-b",
            "b-adapt", "lookahead-ds", "la-ds", "cavlc", "cabac", "tff", "interlaced", "bff"],
          strcasecmp key name.toList = 0 →
          hb_qsv_param_parse env (some p)
              (some (query_capabilities pf ans loaded version info).info) (some key) value
            = (HB_QSV_PARAM_UNSUPPORTED, some p))
    ∧ (∀ (env : Env F) (p : hb_qsv_param_t F) (other : hb_qsv_info_t) (key : List Char)
        (value : Option (List Char)), other.codec_id ≠ MFX_CODEC_AVC →
        ∀ name ∈ ["cavlc", "cabac", "tff", "interlaced", "bff"],
          strcasecmp key name.toList = 0 →
          hb_qsv_param_parse env (some p) (some other) (some key) value
            = (HB_QSV_PARAM_UNSUPPORTED, some p)) := by
  have hne : MFX_CODEC_HEVC ≠ MFX_CODEC_AVC := by decide
  have hcid := (query_capabilities_codec_id pf ans loaded version info).1
  have unset : ∀ k : Nat, 30 ≤ k → k ≤ 37 →
      has_cap (query_capabilities pf ans loaded version info).info (1 <<< k) = false := by
    intro k hk1 hk2
    rw [Bool.eq_false_iff]
    intro hcap
    rw [has_cap_testBit] at hcap
    have h := (query_capabilities_testBit pf ans loaded version info k hcap).2
    rw [full_probe_testBit] at h
    have hno : ¬ (info.codec_id = MFX_CODEC_AVC) := by
      rw [hc]
      exact hne
    rcases h with h | h | h | h | h | h | h | h | h
    · omega
    · omega
    · omega
    · omega
    · omega
    · omega
    · omega
    · omega
    · exact hno h.1.1.2
  have hbits : ∀ bit ∈ [HB_QSV_CAP_OPTION2, HB_QSV_CAP_OPTION2_MBBRC, HB_QSV_CAP_OPTION2_EXTBRC,
      HB_QSV_CAP_OPTION2_TRELLIS, HB_QSV_CAP_OPTION2_BREFTYPE, HB_QSV_CAP_OPTION2_LA_DOWNS,
      HB_QSV_CAP_OPTION2_IB_ADAPT, HB_QSV_CAP_OPTION2_NMPSLICE],
      has_cap (query_capabilities pf ans loaded version info).info bit = false := by
    simp only [List.forall_mem_cons]
    exact ⟨unset 30 (by omega) (by omega), unset 31 (by omega) (by omega),
      unset 32 (by omega) (by omega), unset 33 (by omega) (by omega),
      unset 34 (by omega) (by omega), unset 36 (by omega) (by omega),
      unset 35 (by omega) (by omega), unset 37 (by omega) (by omega),
      fun x hx => absurd hx (List.not_mem_nil x)⟩
  refine ⟨hcid.trans hc, hbits, ?_, ?_⟩
  · intro env p key value name hname hk
    obtain ⟨d, hd, hn, hgate⟩ := option2_or_avc_only_options name hname
    subst hn
    apply param_parse_gate_closed env p _ d hd _ key hk value
    rcases hgate with hg | ⟨bit, hbit, hcap⟩
    · exact gate_closed_of_codec hg (by rw [hcid, hc]; exact hne)
    · apply gate_closed_of_cap hcap
      apply hbits
      simp only [List.mem_cons, List.mem_singleton] at hbit ⊢
      tauto
  · intro env p other key value hother name hname hk
    obtain ⟨d, hd, hn, hg⟩ := avc_only_options name hname
    subst hn
    exact param_parse_gate_closed env p other d hd (gate_closed_of_codec hg hother) key hk value

end hevc_claims

/-- Witness of C37: the hardware HEVC info on a Kaby Lake processor, API 1.8, with a
session that confirms everything: available, without `OPTION2`, and `trellis=1`
is refused as unsupported. -/
theorem hevc_no_option2_witness :
    initial_registry.qsv_hardware_info_hevc.codec_id = MFX_CODEC_HEVC
    ∧ (query_capabilities sample_platform_kbl (sample_answers MFX_CODEC_HEVC) [] ⟨1, 8⟩
        initial_registry.qsv_hardware_info_hevc).info.available = 1
    ∧ has_cap (query_capabilities sample_platform_kbl (sample_answers MFX_CODEC_HEVC) [] ⟨1, 8⟩
        initial_registry.qsv_hardware_info_hevc).info HB_QSV_CAP_OPTION2 = false
    ∧ hb_qsv_param_parse sample_env (some sample_param)
        (some (query_capabilities sample_platform_kbl (sample_answers MFX_CODEC_HEVC) [] ⟨1, 8⟩
          initial_registry.qsv_hardware_info_hevc).info) (some "trellis".toList)
        (some "1".toList)
      = (HB_QSV_PARAM_UNSUPPORTED, some sample_param) :=
  ⟨by decide, by decide,
    (hevc_no_option2 (F := SymFloat) sample_platform_kbl (sample_answers MFX_CODEC_HEVC) []
      ⟨1, 8⟩ initial_registry.qsv_hardware_info_hevc (by decide)).2.1 HB_QSV_CAP_OPTION2
      (by simp),
    (hevc_no_option2 sample_platform_kbl (sample_answers MFX_CODEC_HEVC) [] ⟨1, 8⟩
      initial_registry.qsv_hardware_info_hevc (by decide)).2.2.1 sample_env sample_param
      "trellis".toList (some "1".toList) "trellis" (by simp) (by decide)⟩

/-! ## Theorems: value translation, enablement, rejected presets -/

section xlat_claims
variable {F : Type}

/-- The option `trellis`, with its capability bit set, stores the translation of
what `hb_qsv_atoi` returns when that reports no error. -/
theorem param_parse_options_trellis (env : Env F) (p : hb_qsv_param_t F)
    (info : hb_qsv_info_t) (v : List Char)
    (hcap : has_cap info HB_QSV_CAP_OPTION2_TRELLIS = true)
    (he : (hb_qsv_atoi env v false).2 = false) :
    param_parse_options env p info "trellis".toList v false
      = (HB_QSV_PARAM_OK,
          { p with codingOption2.Trellis := toU16 (hb_qsv_trellisvalue_xlat (hb_qsv_atoi env v false).1) }) := by
  simp only [param_parse_options]
  simp +decide only [he, hcap, param_parse_return, if_true, if_false,
    Bool.false_eq_true, not_false_eq_true, true_and]

/-- C38: trellis and coding-option translation are total and saturating.  For
every `int` `n`, `hb_qsv_trellisvalue_xlat n` is `MFX_TRELLIS_OFF` for `n ≤ 0`,
`MFX_TRELLIS_I` for `n = 1`, `MFX_TRELLIS_I|MFX_TRELLIS_P` for `n = 2` and
`MFX_TRELLIS_I|MFX_TRELLIS_P|MFX_TRELLIS_B` for `n ≥ 3`, never
`MFX_TRELLIS_UNKNOWN`; `hb_qsv_codingoption_xlat n` is `MFX_CODINGOPTION_UNKNOWN`
for `n ≤ -1`, `MFX_CODINGOPTION_OFF` for `n = 0` and `MFX_CODINGOPTION_ON` for
`n ≥ 1`.  With `OPTION2_TRELLIS` set, the option `trellis` with a complete
integer literal denoting `n` (in the range of `int`, or with a 32-bit `long`)
returns `HB_QSV_PARAM_OK` and stores `hb_qsv_trellisvalue_xlat n` in
`codingOption2.Trellis`. -/
theorem xlat_total_saturating (env : Env F) (p : hb_qsv_param_t F) (info : hb_qsv_info_t)
    (key v : List Char) (n : Int) :
    (hb_qsv_trellisvalue_xlat n
        = if n ≤ 0 then MFX_TRELLIS_OFF
          else if n = 1 then MFX_TRELLIS_I
          else if n = 2 then Int.lor MFX_TRELLIS_I MFX_TRELLIS_P
          else Int.lor (Int.lor MFX_TRELLIS_I MFX_TRELLIS_P) MFX_TRELLIS_B)
    ∧ hb_qsv_trellisvalue_xlat n ≠ MFX_TRELLIS_UNKNOWN
    ∧ (hb_qsv_codingoption_xlat n
        = if n ≤ -1 then MFX_CODINGOPTION_UNKNOWN
          else if n = 0 then MFX_CODINGOPTION_OFF
          else MFX_CODINGOPTION_ON)
    ∧ (strcasecmp key "trellis".toList = 0 →
        has_cap info HB_QSV_CAP_OPTION2_TRELLIS = true →
        is_int_literal v = true → (strtol_exact v).1 = n →
        (env.long_bits = 32 ∨ (32 ≤ env.long_bits ∧ -2147483648 ≤ n ∧ n < 2147483648)) →
        hb_qsv_param_parse env (some p) (some info) (some key) (some v)
          = (HB_QSV_PARAM_OK,
              some { p with codingOption2.Trellis := toU16 (hb_qsv_trellisvalue_xlat n) })) := by
  have ht : hb_qsv_trellisvalue_xlat n
      = if n ≤ 0 then MFX_TRELLIS_OFF
        else if n = 1 then MFX_TRELLIS_I
        else if n = 2 then Int.lor MFX_TRELLIS_I MFX_TRELLIS_P
        else Int.lor (Int.lor MFX_TRELLIS_I MFX_TRELLIS_P) MFX_TRELLIS_B := by
    unfold hb_qsv_trellisvalue_xlat HB_QSV_CLIP3
    simp only []
    split_ifs <;> first | rfl | omega
  refine ⟨ht, ?_, ?_, ?_⟩
  · rw [ht]
    split_ifs <;> decide
  · unfold hb_qsv_codingoption_xlat HB_QSV_CLIP3
    simp only []
    split_ifs <;> first | rfl | omega | contradiction
  · intro hk hcap hv hn hl
    have h1 : at_end key = false := by
      rw [at_end_congr hk]
      decide
    have h2 : is_negated key = false := by
      unfold is_negated
      rw [strncasecmp_congr hk]
      decide
    obtain ⟨he, hval⟩ := hb_qsv_atoi_of_literal env v hv n hn hl
    have hx : hb_qsv_trellisvalue_xlat (hb_qsv_atoi env v false).1
        = hb_qsv_trellisvalue_xlat n := by
      unfold hb_qsv_trellisvalue_xlat
      simp only [hval 0 3 (by decide) (by decide) (by decide)]
    rw [param_parse_plain env p info key (some v) h1 h2,
      param_parse_value_of_int_literal v hv, param_parse_options_congr env p info hk,
      param_parse_options_trellis env p info v hcap he, hx]

end xlat_claims

/-- Witness of C38: `trellis=2` stores `MFX_TRELLIS_I|MFX_TRELLIS_P`, which is 6. -/
theorem xlat_total_saturating_witness :
    (strcasecmp "trellis".toList "trellis".toList = 0
      ∧ has_cap sample_info_avc HB_QSV_CAP_OPTION2_TRELLIS = true
      ∧ is_int_literal "2".toList = true ∧ (strtol_exact "2".toList).1 = 2)
    ∧ hb_qsv_param_parse sample_env (some sample_param) (some sample_info_avc)
        (some "trellis".toList) (some "2".toList)
      = (HB_QSV_PARAM_OK,
          some { sample_param with codingOption2.Trellis := toU16 (hb_qsv_trellisvalue_xlat 2) })
    ∧ toU16 (hb_qsv_trellisvalue_xlat 2) = 6 :=
  ⟨by decide,
    (xlat_total_saturating sample_env sample_param sample_info_avc "trellis".toList
      "2".toList 2).2.2.2 (by decide) (by decide) (by decide) (by decide)
      (Or.inr ⟨by decide, by decide, by decide⟩),
    by decide⟩

/-- The bitwise or of the identifiers chosen by three conditions contains each
identifier exactly when its condition holds, and nothing else. -/
theorem enabled_ids_or (a b c : Prop) [Decidable a] [Decidable b] [Decidable c] :
    (Int.land (Int.lor (Int.lor (if a then HB_VCODEC_QSV_H264 else 0)
        (if b then HB_VCODEC_QSV_H265 else 0)) (if c then HB_VCODEC_QSV_H265_10BIT else 0))
        HB_VCODEC_QSV_H264 ≠ 0 ↔ a)
    ∧ (Int.land (Int.lor (Int.lor (if a then HB_VCODEC_QSV_H264 else 0)
        (if b then HB_VCODEC_QSV_H265 else 0)) (if c then HB_VCODEC_QSV_H265_10BIT else 0))
        HB_VCODEC_QSV_H265 ≠ 0 ↔ b)
    ∧ (Int.land (Int.lor (Int.lor (if a then HB_VCODEC_QSV_H264 else 0)
        (if b then HB_VCODEC_QSV_H265 else 0)) (if c then HB_VCODEC_QSV_H265_10BIT else 0))
        HB_VCODEC_QSV_H265_10BIT ≠ 0 ↔ c)
    ∧ Int.land (Int.lor (Int.lor (if a then HB_VCODEC_QSV_H264 else 0)
        (if b then HB_VCODEC_QSV_H265 else 0)) (if c then HB_VCODEC_QSV_H265_10BIT else 0))
        (Int.lor (Int.lor HB_VCODEC_QSV_H264 HB_VCODEC_QSV_H265) HB_VCODEC_QSV_H265_10BIT)
      = Int.lor (Int.lor (if a then HB_VCODEC_QSV_H264 else 0)
        (if b then HB_VCODEC_QSV_H265 else 0)) (if c then HB_VCODEC_QSV_H265_10BIT else 0) := by
  by_cases ha : a <;> by_cases hb : b <;> by_cases hc : c <;>
    simp only [ha, hb, hc, if_true, if_false, iff_true, iff_false, not_not] <;> decide

/-- C39: 10-bit HEVC enablement.  `hb_qsv_video_encoder_is_enabled` is non-zero
for `HB_VCODEC_QSV_H265_10BIT` iff the hardware generation is G6 or later and it
is non-zero for `HB_VCODEC_QSV_H265`, which is the case iff a preferred HEVC info
exists and is available; it returns 0 for every encoder other than the three QSV
video encoders; `hb_qsv_available` is 0 when hardware is disabled, and otherwise
the bitwise or of the identifiers of the enabled encoders: the identifier of
each of the three encoders is contained in it iff that encoder is enabled, and
nothing else is. -/
theorem encoder_enablement (pf : Platform) (reg : qsv_registry) :
    (hb_qsv_video_encoder_is_enabled pf reg HB_VCODEC_QSV_H265_10BIT ≠ 0
      ↔ qsv_hardware_generation pf.cpu_platform ≥ QSV_G6
        ∧ hb_qsv_video_encoder_is_enabled pf reg HB_VCODEC_QSV_H265 ≠ 0)
    ∧ (hb_qsv_video_encoder_is_enabled pf reg HB_VCODEC_QSV_H265 ≠ 0
      ↔ ∃ info, preferred_hevc reg = some info ∧ info.available ≠ 0)
    ∧ (hb_qsv_video_encoder_is_enabled pf reg HB_VCODEC_QSV_H264 ≠ 0
      ↔ ∃ info, preferred_avc reg = some info ∧ info.available ≠ 0)
    ∧ (∀ encoder : Int, encoder ≠ HB_VCODEC_QSV_H264 → encoder ≠ HB_VCODEC_QSV_H265 →
        encoder ≠ HB_VCODEC_QSV_H265_10BIT →
        hb_qsv_video_encoder_is_enabled pf reg encoder = 0)
    ∧ hb_qsv_available pf reg true = 0
    ∧ hb_qsv_available pf reg false
        = Int.lor
            (Int.lor
              (if hb_qsv_video_encoder_is_enabled pf reg HB_VCODEC_QSV_H264 ≠ 0
                then HB_VCODEC_QSV_H264 else 0)
              (if hb_qsv_video_encoder_is_enabled pf reg HB_VCODEC_QSV_H265 ≠ 0
                then HB_VCODEC_QSV_H265 else 0))
            (if hb_qsv_video_encoder_is_enabled pf reg HB_VCODEC_QSV_H265_10BIT ≠ 0
              then HB_VCODEC_QSV_H265_10BIT else 0)
    ∧ (∀ e ∈ [HB_VCODEC_QSV_H264, HB_VCODEC_QSV_H265, HB_VCODEC_QSV_H265_10BIT],
        (Int.land (hb_qsv_available pf reg false) e ≠ 0
          ↔ hb_qsv_video_encoder_is_enabled pf reg e ≠ 0))
    ∧ Int.land (hb_qsv_available pf reg false)
        (Int.lor (Int.lor HB_VCODEC_QSV_H264 HB_VCODEC_QSV_H265) HB_VCODEC_QSV_H265_10BIT)
      = hb_qsv_available pf reg false := by
  have pa : ∀ o : Option hb_qsv_info_t,
      (preferred_available o = 0 ∨ preferred_available o = 1)
      ∧ (preferred_available o ≠ 0 ↔ ∃ info, o = some info ∧ info.available ≠ 0) := by
    intro o
    cases o with
    | none => exact ⟨Or.inl rfl, ⟨fun h => absurd rfl h, fun ⟨_, h, _⟩ => Option.noConfusion h⟩⟩
    | some i =>
      by_cases hi : i.available ≠ 0
      · have e : preferred_available (some i) = 1 := by
          show (if i.available ≠ 0 then (1 : Int) else 0) = 1
          rw [if_pos hi]
        rw [e]
        exact ⟨Or.inr rfl, ⟨fun _ => ⟨i, rfl, hi⟩, fun _ => by decide⟩⟩
      · have e : preferred_available (some i) = 0 := by
          show (if i.available ≠ 0 then (1 : Int) else 0) = 0
          rw [if_neg hi]
        rw [e]
        refine ⟨Or.inl rfl, ⟨fun h => absurd rfl h, fun ⟨j, hj, hj2⟩ => ?_⟩⟩
        rw [Option.some.injEq] at hj
        rw [hj] at hi
        exact absurd hj2 hi
  have e264 : hb_qsv_video_encoder_is_enabled pf reg HB_VCODEC_QSV_H264
      = preferred_available (preferred_avc reg) := by
    simp only [hb_qsv_video_encoder_is_enabled, if_true]
  have e265 : hb_qsv_video_encoder_is_enabled pf reg HB_VCODEC_QSV_H265
      = preferred_available (preferred_hevc reg) := by
    have h1 : ¬ (HB_VCODEC_QSV_H265 = HB_VCODEC_QSV_H264) := by decide
    have h2 : ¬ (HB_VCODEC_QSV_H265 = HB_VCODEC_QSV_H265_10BIT) := by decide
    simp only [hb_qsv_video_encoder_is_enabled, h1, h2, if_true, if_false]
  have e10 : hb_qsv_video_encoder_is_enabled pf reg HB_VCODEC_QSV_H265_10BIT
      = if qsv_hardware_generation pf.cpu_platform < QSV_G6 then 0
        else preferred_available (preferred_hevc reg) := by
    have h1 : ¬ (HB_VCODEC_QSV_H265_10BIT = HB_VCODEC_QSV_H264) := by decide
    simp only [hb_qsv_video_encoder_is_enabled, h1, if_true, if_false]
  have avail : hb_qsv_available pf reg false
      = Int.lor
          (Int.lor
            (if hb_qsv_video_encoder_is_enabled pf reg HB_VCODEC_QSV_H264 ≠ 0
              then HB_VCODEC_QSV_H264 else 0)
            (if hb_qsv_video_encoder_is_enabled pf reg HB_VCODEC_QSV_H265 ≠ 0
              then HB_VCODEC_QSV_H265 else 0))
          (if hb_qsv_video_encoder_is_enabled pf reg HB_VCODEC_QSV_H265_10BIT ≠ 0
            then HB_VCODEC_QSV_H265_10BIT else 0) := by
    simp only [hb_qsv_available, Bool.false_eq_true, if_false]
  refine ⟨?_, ?_, ?_, ?_, rfl, ?_, ?_, ?_⟩
  · rw [e10, e265]
    by_cases hg : qsv_hardware_generation pf.cpu_platform < QSV_G6
    · rw [if_pos hg]
      exact ⟨fun h => absurd rfl h, fun h => absurd hg (not_lt.mpr h.1)⟩
    · rw [if_neg hg]
      exact ⟨fun h => ⟨not_lt.mp hg, h⟩, fun h => h.2⟩
  · rw [e265]
    exact (pa _).2
  · rw [e264]
    exact (pa _).2
  · intro encoder h1 h2 h3
    simp only [hb_qsv_video_encoder_is_enabled, h1, h2, h3, if_false]
  · exact avail
  · rw [avail]
    simp only [List.forall_mem_cons]
    exact ⟨(enabled_ids_or _ _ _).1, (enabled_ids_or _ _ _).2.1, (enabled_ids_or _ _ _).2.2.1,
      fun x hx => absurd hx (List.not_mem_nil x)⟩
  · rw [avail]
    exact (enabled_ids_or _ _ _).2.2.2

/-- Witness of C39: with an available preferred HEVC info and no AVC info, on a
Kaby Lake processor (generation G6) both HEVC encoders are enabled and
`hb_qsv_available` is 0x600; on a Haswell processor (generation G3) the 10-bit
encoder is not enabled and `hb_qsv_available` is 0x200. -/
theorem encoder_enablement_witness :
    (qsv_hardware_generation sample_platform_kbl.cpu_platform ≥ QSV_G6
      ∧ hb_qsv_video_encoder_is_enabled sample_platform_kbl sample_registry_hevc
          HB_VCODEC_QSV_H265 ≠ 0)
    ∧ hb_qsv_video_encoder_is_enabled sample_platform_kbl sample_registry_hevc
        HB_VCODEC_QSV_H265_10BIT ≠ 0
    ∧ hb_qsv_available sample_platform_kbl sample_registry_hevc false = 0x600
    ∧ hb_qsv_video_encoder_is_enabled sample_platform sample_registry_hevc
        HB_VCODEC_QSV_H265_10BIT = 0
    ∧ hb_qsv_available sample_platform sample_registry_hevc false = 0x200 :=
  ⟨by decide,
    (encoder_enablement sample_platform_kbl sample_registry_hevc).1.mpr (by decide),
    by decide, by decide, by decide⟩

section rejected_preset_claims
variable {F : Type}

/-- C40: a rejected preset is not atomic.  Called with non-null pointers and a
preset name that is not empty and none of `quality`, `balanced` and `speed`,
`hb_qsv_param_default_preset` returns -1, and the parameter block with its
video-param structure is what `hb_qsv_param_default` leaves for that info,
whatever the block and the structure held before. -/
theorem preset_rejected_not_atomic (pf : Platform) (env : Env F) (p : hb_qsv_param_t F)
    (vp : mfxVideoParam) (info : hb_qsv_info_t) (name : List Char)
    (h0 : at_end name = false)
    (h1 : strcasecmp name "quality".toList ≠ 0)
    (h2 : strcasecmp name "balanced".toList ≠ 0)
    (h3 : strcasecmp name "speed".toList ≠ 0) :
    ∃ d, hb_qsv_param_default env (some p) (some vp) (some info) = (0, some d)
      ∧ hb_qsv_param_default_preset pf env (some p) (some vp) (some info) (some name)
          = (-1, some d)
      ∧ ∀ (p2 : hb_qsv_param_t F) (vp2 : mfxVideoParam),
          hb_qsv_param_default_preset pf env (some p2) (some vp2) (some info) (some name)
            = (-1, some d) := by
  have key : ∀ (q : hb_qsv_param_t F) (vq : mfxVideoParam) (d : hb_qsv_param_t F),
      hb_qsv_param_default env (some q) (some vq) (some info) = (0, some d) →
      hb_qsv_param_default_preset pf env (some q) (some vq) (some info) (some name)
        = (-1, some d) := by
    intro q vq d hd
    rw [param_default_preset_eq pf env q vq info (some name) d hd]
    simp only [preset_apply, h0, h1, h2, h3, if_false, Bool.false_eq_true]
  exact ⟨_, rfl, key p vp _ rfl, fun p2 vp2 => key p2 vp2 _ rfl⟩

end rejected_preset_claims

/-- Witness of C40: the preset `fast` on a block in which no field has its default
is refused with -1, and the block is no longer the one passed in. -/
theorem preset_rejected_not_atomic_witness :
    (at_end "fast".toList = false ∧ strcasecmp "fast".toList "quality".toList ≠ 0
      ∧ strcasecmp "fast".toList "balanced".toList ≠ 0
      ∧ strcasecmp "fast".toList "speed".toList ≠ 0)
    ∧ (∃ d, hb_qsv_param_default sample_env (some sample_param_dirty)
            (some sample_param_dirty.videoParam) (some sample_info_avc) = (0, some d)
        ∧ hb_qsv_param_default_preset sample_platform sample_env (some sample_param_dirty)
            (some sample_param_dirty.videoParam) (some sample_info_avc) (some "fast".toList)
          = (-1, some d)
        ∧ ∀ (p2 : hb_qsv_param_t SymFloat) (vp2 : mfxVideoParam),
            hb_qsv_param_default_preset sample_platform sample_env (some p2) (some vp2)
                (some sample_info_avc) (some "fast".toList)
              = (-1, some d))
    ∧ (hb_qsv_param_default_preset sample_platform sample_env (some sample_param_dirty)
          (some sample_param_dirty.videoParam) (some sample_info_avc)
          (some "fast".toList)).2 ≠ some sample_param_dirty :=
  ⟨by decide,
    preset_rejected_not_atomic sample_platform sample_env sample_param_dirty
      sample_param_dirty.videoParam sample_info_avc "fast".toList (by decide) (by decide)
      (by decide) (by decide),
    by decide⟩

/-! ## Theorems: the Direct3D 9 path and the cached handle -/

/-- The calls of the copy on the Direct3D 9 path: the lock first; the blit only
after a lock that succeeded; `unlock_device` only after a blit that succeeded. -/
theorem copy_to_surface_d3d9_calls (ans : copy_answers) (handle : Option Nat)
    (a : acquisition) (calls : List copy_call) :
    (copy_to_surface ans handle .MFX_HANDLE_D3D9_DEVICE_MANAGER a calls).calls
      = calls ++
          (if FAILED ans.lock_device = true then [copy_call.lock_device]
           else if FAILED ans.StretchRect = true then
             [copy_call.lock_device, copy_call.IDirect3DDevice9_StretchRect]
           else
             [copy_call.lock_device, copy_call.IDirect3DDevice9_StretchRect,
              copy_call.unlock_device]) := by
  unfold copy_to_surface
  simp only [if_true]
  split_ifs <;> rfl

/-- C34, as the code behaves: the session yields a Direct3D 9 device manager,
`lock_device` succeeds and `IDirect3DDevice9_StretchRect` fails:
`hb_qsv_copy_frame` returns after the blit (line 2665) without a call of
`unlock_device`.  When the blit succeeds `unlock_device` follows it; in both
runs the blit comes after the lock. -/
theorem stretchrect_failure_skips_unlock :
    FAILED sample_copy_answers_d3d9.lock_device = false
    ∧ FAILED sample_copy_answers_d3d9.StretchRect = true
    ∧ hb_qsv_copy_frame sample_copy_answers_d3d9 none 1
      = .returned ⟨true, none, some 9,
          some ⟨⟨.pool1, 3⟩, ⟨.pool1, 3⟩, { sample_frames_ctx with pool := [1, 1, 0, 1, 0, 0] }⟩,
          [.MFXVideoCORE_GetHandle .MFX_HANDLE_VA_DISPLAY,
           .MFXVideoCORE_GetHandle .MFX_HANDLE_D3D11_DEVICE,
           .MFXVideoCORE_GetHandle .MFX_HANDLE_D3D9_DEVICE_MANAGER,
           .lock_device, .IDirect3DDevice9_StretchRect]⟩
    ∧ copy_call.unlock_device ∉
        [copy_call.MFXVideoCORE_GetHandle .MFX_HANDLE_VA_DISPLAY,
         .MFXVideoCORE_GetHandle .MFX_HANDLE_D3D11_DEVICE,
         .MFXVideoCORE_GetHandle .MFX_HANDLE_D3D9_DEVICE_MANAGER,
         .lock_device, .IDirect3DDevice9_StretchRect]
    ∧ hb_qsv_copy_frame { sample_copy_answers_d3d9 with StretchRect := 0 } none 1
      = .returned ⟨true, some ⟨.pool1, 3⟩, some 9,
          some ⟨⟨.pool1, 3⟩, ⟨.pool1, 3⟩, { sample_frames_ctx with pool := [1, 1, 0, 1, 0, 0] }⟩,
          [.MFXVideoCORE_GetHandle .MFX_HANDLE_VA_DISPLAY,
           .MFXVideoCORE_GetHandle .MFX_HANDLE_D3D11_DEVICE,
           .MFXVideoCORE_GetHandle .MFX_HANDLE_D3D9_DEVICE_MANAGER,
           .lock_device, .IDirect3DDevice9_StretchRect, .unlock_device]⟩ := by
  decide

/-- A call of `hb_qsv_copy_frame` with a cached handle that gets its frame and its
surface reads the local `handle_type` (line 2642), which no statement has
assigned on that path. -/
theorem copy_frame_cached_handle (ans : copy_answers) (handle fuel k s : Nat)
    (a : acquisition) (hframe : ans.av_frame_alloc_ok = true)
    (hacq : hb_qsv_get_free_surface_from_pool ans.world (ans.HB_POOL_SURFACE_SIZE - 2) fuel
      = .returned k s a) :
    hb_qsv_copy_frame ans (some handle) fuel = .undefined := by
  simp only [hb_qsv_copy_frame, hframe, not_true_eq_false, if_false, hacq]

/-- C35, as the code behaves: a first call of `hb_qsv_copy_frame`, without a cached
handle, caches the Direct3D 11 device handle 7 and copies on the Direct3D 11
path; a second call, with that handle cached, makes no `MFXVideoCORE_GetHandle`
call and reads the local `handle_type` without any assignment to it: which copy
path it takes is not defined. -/
theorem cached_handle_type_unassigned :
    hb_qsv_copy_frame sample_copy_answers none 1
      = .returned ⟨true, some ⟨.pool1, 3⟩, some 7,
          some ⟨⟨.pool1, 3⟩, ⟨.pool1, 3⟩, { sample_frames_ctx with pool := [1, 1, 0, 1, 0, 0] }⟩,
          [.MFXVideoCORE_GetHandle .MFX_HANDLE_VA_DISPLAY,
           .MFXVideoCORE_GetHandle .MFX_HANDLE_D3D11_DEVICE,
           .ID3D11Device_GetImmediateContext,
           .ID3D11DeviceContext_CopySubresourceRegion]⟩
    ∧ hb_qsv_copy_frame sample_copy_answers (some 7) 1 = .undefined
    ∧ hb_qsv_copy_frame sample_copy_answers_d3d9 (some 9) 1 = .undefined := by
  decide

end QSV
